import Mathlib

/-!
# Polyfill of the EVM-to-Ewasm translator: 256-bit arithmetic on 64-bit limbs

Shallow embedding of the Yul polyfill functions embedded as text in
`libyul/backends/wasm/EVMToEwasmTranslator.cpp`.  An `i64` value is a natural
number below `2^64`, an `i32` value a natural number below `2^32`; every Wasm
builtin reduces explicitly.  A Yul function with several return variables
returns a tuple, and a Yul `for` loop becomes a recursive function on a fuel
counter that returns `none` when the fuel is exhausted.
-/

namespace Polyfill

/-! ## Wasm builtins -/

namespace i64

def add (a b : Nat) : Nat := (a + b) % 2 ^ 64

def sub (a b : Nat) : Nat := (a + (2 ^ 64 - b % 2 ^ 64)) % 2 ^ 64

def mul (a b : Nat) : Nat := (a * b) % 2 ^ 64

/-- Unsigned division; Wasm traps on a zero divisor, the polyfill only divides by the
literal 8. -/
def div_u (a b : Nat) : Nat := a / b

/-- Unsigned remainder; Wasm traps on a zero divisor, the polyfill only divides by the
literal 8. -/
def rem_u (a b : Nat) : Nat := a % b

def and (a b : Nat) : Nat := a &&& b

def or (a b : Nat) : Nat := a ||| b

def xor (a b : Nat) : Nat := a ^^^ b

def shl (a n : Nat) : Nat := (a * 2 ^ (n % 64)) % 2 ^ 64

def shr_u (a n : Nat) : Nat := a / 2 ^ (n % 64)

def eqz (a : Nat) : Nat := if a = 0 then 1 else 0

def eq (a b : Nat) : Nat := if a = b then 1 else 0

def ne (a b : Nat) : Nat := if a = b then 0 else 1

def lt_u (a b : Nat) : Nat := if a < b then 1 else 0

def gt_u (a b : Nat) : Nat := if b < a then 1 else 0

def ge_u (a b : Nat) : Nat := if b ≤ a then 1 else 0

/-- Leading zeros among the lowest `n` bits of `a`, scanning from bit `n - 1` down. -/
def clzAux : Nat → Nat → Nat
  | 0, _ => 0
  | n + 1, a => if a / 2 ^ n % 2 = 1 then 0 else clzAux n a + 1

def clz (a : Nat) : Nat := clzAux 64 a

def extend_i32_u (a : Nat) : Nat := a

end i64

namespace i32

def wrap_i64 (a : Nat) : Nat := a % 2 ^ 32

def or (a b : Nat) : Nat := a ||| b

def and (a b : Nat) : Nat := a &&& b

def eqz (a : Nat) : Nat := if a = 0 then 1 else 0

def add (a b : Nat) : Nat := (a + b) % 2 ^ 32

def shl (a n : Nat) : Nat := (a * 2 ^ (n % 32)) % 2 ^ 32

def shr_u (a n : Nat) : Nat := a / 2 ^ (n % 32)

def lt_u (a b : Nat) : Nat := if a < b then 1 else 0

end i32

/-! ## Data model -/

/-- Four 64-bit limbs, most significant first. -/
abbrev W256 := Nat × Nat × Nat × Nat

/-- Five 64-bit limbs, most significant first. -/
abbrev W320 := Nat × Nat × Nat × Nat × Nat

/-- Eight 64-bit limbs, most significant first. -/
abbrev W512 := Nat × Nat × Nat × Nat × Nat × Nat × Nat × Nat

/-- The number denoted by four limbs: `a1*2^192 + a2*2^128 + a3*2^64 + a4`. -/
def val (a : W256) : Nat :=
  a.1 * 2 ^ 192 + a.2.1 * 2 ^ 128 + a.2.2.1 * 2 ^ 64 + a.2.2.2

/-- Every limb is a 64-bit value. -/
def WF (a : W256) : Prop :=
  a.1 < 2 ^ 64 ∧ a.2.1 < 2 ^ 64 ∧ a.2.2.1 < 2 ^ 64 ∧ a.2.2.2 < 2 ^ 64

/-- The number denoted by five limbs. -/
def val320 (a : W320) : Nat :=
  a.1 * 2 ^ 256 + a.2.1 * 2 ^ 192 + a.2.2.1 * 2 ^ 128 + a.2.2.2.1 * 2 ^ 64 + a.2.2.2.2

/-- Every one of the five limbs is a 64-bit value. -/
def WF320 (a : W320) : Prop :=
  a.1 < 2 ^ 64 ∧ a.2.1 < 2 ^ 64 ∧ a.2.2.1 < 2 ^ 64 ∧ a.2.2.2.1 < 2 ^ 64 ∧ a.2.2.2.2 < 2 ^ 64

/-- The number denoted by eight limbs. -/
def val512 (a : W512) : Nat :=
  a.1 * 2 ^ 448 + a.2.1 * 2 ^ 384 + a.2.2.1 * 2 ^ 320 + a.2.2.2.1 * 2 ^ 256 +
    a.2.2.2.2.1 * 2 ^ 192 + a.2.2.2.2.2.1 * 2 ^ 128 + a.2.2.2.2.2.2.1 * 2 ^ 64 +
    a.2.2.2.2.2.2.2

/-- Every one of the eight limbs is a 64-bit value. -/
def WF512 (a : W512) : Prop :=
  a.1 < 2 ^ 64 ∧ a.2.1 < 2 ^ 64 ∧ a.2.2.1 < 2 ^ 64 ∧ a.2.2.2.1 < 2 ^ 64 ∧
    a.2.2.2.2.1 < 2 ^ 64 ∧ a.2.2.2.2.2.1 < 2 ^ 64 ∧ a.2.2.2.2.2.2.1 < 2 ^ 64 ∧
    a.2.2.2.2.2.2.2 < 2 ^ 64

/-- A 256-bit word read as a two's-complement signed integer. -/
def sval (a : W256) : Int :=
  if val a < 2 ^ 255 then (val a : Int) else (val a : Int) - 2 ^ 256

/-- The 256-bit two's-complement word of an integer, as a natural number. -/
def wordOfInt (i : Int) : Nat := (i % 2 ^ 256).toNat

/-! ## Linear memory -/

/-- Wasm linear memory: its size in bytes and the byte held at each address. An access
that reaches beyond `size` traps (`none`). -/
structure Memory where
  size : Nat
  bytes : Nat → Nat

/-- Every cell holds a byte and the memory is addressable with 32 bits. -/
def WFMem (m : Memory) : Prop :=
  m.size ≤ 2 ^ 32 ∧ ∀ a, m.bytes a < 256

/-- The 32 bytes at `q, q+1, .., q+31` are the big-endian encoding of `v`: the byte at
`q` is the most significant one. -/
def bigEndian32 (bytes : Nat → Nat) (q v : Nat) : Prop :=
  ∀ j, j < 32 → bytes (q + j) = v / 2 ^ (8 * (31 - j)) % 256

namespace i64

/-- Little-endian load of eight bytes. -/
def load (m : Memory) (a : Nat) : Option Nat :=
  if a + 8 ≤ m.size then
    some (m.bytes a + m.bytes (a + 1) * 2 ^ 8 + m.bytes (a + 2) * 2 ^ 16 +
      m.bytes (a + 3) * 2 ^ 24 + m.bytes (a + 4) * 2 ^ 32 + m.bytes (a + 5) * 2 ^ 40 +
      m.bytes (a + 6) * 2 ^ 48 + m.bytes (a + 7) * 2 ^ 56)
  else none

/-- Little-endian store of eight bytes. -/
def store (m : Memory) (a v : Nat) : Option Memory :=
  if a + 8 ≤ m.size then
    some ⟨m.size, fun k => if a ≤ k ∧ k < a + 8 then v / 2 ^ (8 * (k - a)) % 256 else m.bytes k⟩
  else none

/-- Store of the lowest byte of `v`. -/
def store8 (m : Memory) (a v : Nat) : Option Memory :=
  if a + 1 ≤ m.size then
    some ⟨m.size, fun k => if k = a then v % 256 else m.bytes k⟩
  else none

end i64

/-! ## Polyfill functions -/

def or_bool (a b c d : Nat) : Nat :=
  i32.eqz (i64.eqz (i64.or (i64.or a b) (i64.or c d)))

def or_bool_320 (a b c d e : Nat) : Nat :=
  i32.or (or_bool a b c 0) (or_bool d e 0 0)

def or_bool_512 (a b c d e f g h : Nat) : Nat :=
  i32.or (or_bool a b c d) (or_bool e f g h)

def add_carry (x y c : Nat) : Nat × Nat :=
  let t := i64.add x y
  let r := i64.add t c
  let r_c := i64.extend_i32_u (i32.or (i64.lt_u t x) (i64.lt_u r t))
  (r, r_c)

def add (x1 x2 x3 x4 y1 y2 y3 y4 : Nat) : W256 :=
  let (r4, carry) := add_carry x4 y4 0
  let (r3, carry) := add_carry x3 y3 carry
  let (r2, carry) := add_carry x2 y2 carry
  let (r1, _) := add_carry x1 y1 carry
  (r1, r2, r3, r4)

def bit_negate (x : Nat) : Nat := i64.xor x 0xffffffffffffffff

def sub (x1 x2 x3 x4 y1 y2 y3 y4 : Nat) : W256 :=
  let (r4, carry) := add_carry x4 (bit_negate y4) 1
  let (r3, carry) := add_carry x3 (bit_negate y3) carry
  let (r2, carry) := add_carry x2 (bit_negate y2) carry
  let (r1, _) := add_carry x1 (bit_negate y1) carry
  (r1, r2, r3, r4)

def sub320 (x1 x2 x3 x4 x5 y1 y2 y3 y4 y5 : Nat) : W320 :=
  let (r5, carry) := add_carry x5 (bit_negate y5) 1
  let (r4, carry) := add_carry x4 (bit_negate y4) carry
  let (r3, carry) := add_carry x3 (bit_negate y3) carry
  let (r2, carry) := add_carry x2 (bit_negate y2) carry
  let (r1, _) := add_carry x1 (bit_negate y1) carry
  (r1, r2, r3, r4, r5)

def sub512 (x1 x2 x3 x4 x5 x6 x7 x8 y1 y2 y3 y4 y5 y6 y7 y8 : Nat) : W512 :=
  let (r8, carry) := add_carry x8 (bit_negate y8) 1
  let (r7, carry) := add_carry x7 (bit_negate y7) carry
  let (r6, carry) := add_carry x6 (bit_negate y6) carry
  let (r5, carry) := add_carry x5 (bit_negate y5) carry
  let (r4, carry) := add_carry x4 (bit_negate y4) carry
  let (r3, carry) := add_carry x3 (bit_negate y3) carry
  let (r2, carry) := add_carry x2 (bit_negate y2) carry
  let (r1, _) := add_carry x1 (bit_negate y1) carry
  (r1, r2, r3, r4, r5, r6, r7, r8)

def split (x : Nat) : Nat × Nat :=
  (i64.shr_u x 32, i64.and x 0xffffffff)

def mul_64x64_128 (x y : Nat) : Nat × Nat :=
  let (xh, xl) := split x
  let (yh, yl) := split y
  let t0 := i64.mul xl yl
  let t1 := i64.mul xh yl
  let t2 := i64.mul xl yh
  let t3 := i64.mul xh yh
  let (t0h, t0l) := split t0
  let u1 := i64.add t1 t0h
  let (u1h, u1l) := split u1
  let u2 := i64.add t2 u1l
  let lo := i64.or (i64.shl u2 32) t0l
  let hi := i64.add t3 (i64.add (i64.shr_u u2 32) u1h)
  (hi, lo)

def mul_128x128_256 (x1 x2 y1 y2 : Nat) : W256 :=
  let (ah, al) := mul_64x64_128 x1 y1
  let (bh, bl) := mul_64x64_128 x1 y2
  let (ch, cl) := mul_64x64_128 x2 y1
  let (dh, dl) := mul_64x64_128 x2 y2
  let r4 := dl
  let (r3, carry1) := add_carry bl cl 0
  let (r3, carry2) := add_carry r3 dh 0
  let (t1, carry1) := add_carry bh ch carry1
  let (r2, carry2) := add_carry t1 al carry2
  let r1 := i64.add (i64.add ah carry1) carry2
  (r1, r2, r3, r4)

def mul_256x256_512 (x1 x2 x3 x4 y1 y2 y3 y4 : Nat) : W512 :=
  let (a1, a2, a3, a4) := mul_128x128_256 x1 x2 y1 y2
  let (b1, b2, b3, b4) := mul_128x128_256 x1 x2 y3 y4
  let (c1, c2, c3, c4) := mul_128x128_256 x3 x4 y1 y2
  let (d1, d2, d3, d4) := mul_128x128_256 x3 x4 y3 y4
  let r8 := d4
  let r7 := d3
  let (r6, carry1) := add_carry b4 c4 0
  let (r6, carry2) := add_carry r6 d2 0
  let (r5, carry1) := add_carry b3 c3 carry1
  let (r5, carry2) := add_carry r5 d1 carry2
  let (r4, carry1) := add_carry a4 b2 carry1
  let (r4, carry2) := add_carry r4 c2 carry2
  let (r3, carry1) := add_carry a3 b1 carry1
  let (r3, carry2) := add_carry r3 c1 carry2
  let (r2, carry1) := add_carry a2 carry1 carry2
  let r1 := i64.add a1 carry1
  (r1, r2, r3, r4, r5, r6, r7, r8)

def mul (x1 x2 x3 x4 y1 y2 y3 y4 : Nat) : W256 :=
  let (_, _, b3, b4) := mul_128x128_256 x3 x4 y1 y2
  let (_, _, c3, c4) := mul_128x128_256 x1 x2 y3 y4
  let (d1, d2, d3, d4) := mul_128x128_256 x3 x4 y3 y4
  let r4 := d4
  let r3 := d3
  let (_, _, r1, r2) := add 0 0 b3 b4 0 0 c3 c4
  let (_, _, r1, r2) := add 0 0 r1 r2 0 0 d1 d2
  (r1, r2, r3, r4)

def shl_internal (amount x1 x2 x3 x4 : Nat) : W256 :=
  let r1 := i64.add (i64.shl x1 amount) (i64.shr_u x2 (i64.sub 64 amount))
  let r2 := i64.add (i64.shl x2 amount) (i64.shr_u x3 (i64.sub 64 amount))
  let r3 := i64.add (i64.shl x3 amount) (i64.shr_u x4 (i64.sub 64 amount))
  let r4 := i64.shl x4 amount
  (r1, r2, r3, r4)

def shr_internal (amount x1 x2 x3 x4 : Nat) : W256 :=
  let r4 := i64.add (i64.shr_u x4 amount) (i64.shl x3 (i64.sub 64 amount))
  let r3 := i64.add (i64.shr_u x3 amount) (i64.shl x2 (i64.sub 64 amount))
  let r2 := i64.add (i64.shr_u x2 amount) (i64.shl x1 (i64.sub 64 amount))
  let r1 := i64.shr_u x1 amount
  (r1, r2, r3, r4)

def shl320_internal (amount x1 x2 x3 x4 x5 : Nat) : W320 :=
  let r1 := i64.add (i64.shl x1 amount) (i64.shr_u x2 (i64.sub 64 amount))
  let r2 := i64.add (i64.shl x2 amount) (i64.shr_u x3 (i64.sub 64 amount))
  let r3 := i64.add (i64.shl x3 amount) (i64.shr_u x4 (i64.sub 64 amount))
  let r4 := i64.add (i64.shl x4 amount) (i64.shr_u x5 (i64.sub 64 amount))
  let r5 := i64.shl x5 1
  (r1, r2, r3, r4, r5)

def shr320_internal (amount x1 x2 x3 x4 x5 : Nat) : W320 :=
  let r5 := i64.add (i64.shr_u x5 amount) (i64.shl x4 (i64.sub 64 amount))
  let r4 := i64.add (i64.shr_u x4 amount) (i64.shl x3 (i64.sub 64 amount))
  let r3 := i64.add (i64.shr_u x3 amount) (i64.shl x2 (i64.sub 64 amount))
  let r2 := i64.add (i64.shr_u x2 amount) (i64.shl x1 (i64.sub 64 amount))
  let r1 := i64.shr_u x1 1
  (r1, r2, r3, r4, r5)

def shl512_internal (amount x1 x2 x3 x4 x5 x6 x7 x8 : Nat) : W512 :=
  let r1 := i64.add (i64.shl x1 amount) (i64.shr_u x2 (i64.sub 64 amount))
  let r2 := i64.add (i64.shl x2 amount) (i64.shr_u x3 (i64.sub 64 amount))
  let r3 := i64.add (i64.shl x3 amount) (i64.shr_u x4 (i64.sub 64 amount))
  let r4 := i64.add (i64.shl x4 amount) (i64.shr_u x5 (i64.sub 64 amount))
  let r5 := i64.add (i64.shl x5 amount) (i64.shr_u x6 (i64.sub 64 amount))
  let r6 := i64.add (i64.shl x6 amount) (i64.shr_u x7 (i64.sub 64 amount))
  let r7 := i64.add (i64.shl x7 amount) (i64.shr_u x8 (i64.sub 64 amount))
  let r8 := i64.shl x8 amount
  (r1, r2, r3, r4, r5, r6, r7, r8)

def shr512_internal (amount x1 x2 x3 x4 x5 x6 x7 x8 : Nat) : W512 :=
  let r8 := i64.add (i64.shr_u x8 amount) (i64.shl x7 (i64.sub 64 amount))
  let r7 := i64.add (i64.shr_u x7 amount) (i64.shl x6 (i64.sub 64 amount))
  let r6 := i64.add (i64.shr_u x6 amount) (i64.shl x5 (i64.sub 64 amount))
  let r5 := i64.add (i64.shr_u x5 amount) (i64.shl x4 (i64.sub 64 amount))
  let r4 := i64.add (i64.shr_u x4 amount) (i64.shl x3 (i64.sub 64 amount))
  let r3 := i64.add (i64.shr_u x3 amount) (i64.shl x2 (i64.sub 64 amount))
  let r2 := i64.add (i64.shr_u x2 amount) (i64.shl x1 (i64.sub 64 amount))
  let r1 := i64.shr_u x1 amount
  (r1, r2, r3, r4, r5, r6, r7, r8)

def xor (x1 x2 x3 x4 y1 y2 y3 y4 : Nat) : W256 :=
  (i64.xor x1 y1, i64.xor x2 y2, i64.xor x3 y3, i64.xor x4 y4)

def iszero256 (x1 x2 x3 x4 : Nat) : Nat :=
  i64.eqz (i64.or (i64.or x1 x2) (i64.or x3 x4))

def iszero320 (x1 x2 x3 x4 x5 : Nat) : Nat :=
  i64.eqz (i64.or (i64.or (i64.or x1 x2) (i64.or x3 x4)) x5)

def iszero512 (x1 x2 x3 x4 x5 x6 x7 x8 : Nat) : Nat :=
  i32.and (iszero256 x1 x2 x3 x4) (iszero256 x5 x6 x7 x8)

/-- Returns 0 if `a = b`, `0xffffffff` (-1) if `a < b` and 1 if `a > b`. -/
def cmp (a b : Nat) : Nat :=
  if i64.lt_u a b = 1 then 0xffffffff else i64.ne a b

def lt_320x320_64 (x1 x2 x3 x4 x5 y1 y2 y3 y4 y5 : Nat) : Nat :=
  if cmp x1 y1 = 0 then
    if cmp x2 y2 = 0 then
      if cmp x3 y3 = 0 then
        if cmp x4 y4 = 0 then i64.lt_u x5 y5
        else if cmp x4 y4 = 1 then 0 else 1
      else if cmp x3 y3 = 1 then 0 else 1
    else if cmp x2 y2 = 1 then 0 else 1
  else if cmp x1 y1 = 1 then 0 else 1

def lt_512x512_64 (x1 x2 x3 x4 x5 x6 x7 x8 y1 y2 y3 y4 y5 y6 y7 y8 : Nat) : Nat :=
  if cmp x1 y1 = 0 then
    if cmp x2 y2 = 0 then
      if cmp x3 y3 = 0 then
        if cmp x4 y4 = 0 then
          if cmp x5 y5 = 0 then
            if cmp x6 y6 = 0 then
              if cmp x7 y7 = 0 then i64.lt_u x8 y8
              else if cmp x7 y7 = 1 then 0 else 1
            else if cmp x6 y6 = 1 then 0 else 1
          else if cmp x5 y5 = 1 then 0 else 1
        else if cmp x4 y4 = 1 then 0 else 1
      else if cmp x3 y3 = 1 then 0 else 1
    else if cmp x2 y2 = 1 then 0 else 1
  else if cmp x1 y1 = 1 then 0 else 1

def lt_256x256_64 (x1 x2 x3 x4 y1 y2 y3 y4 : Nat) : Nat :=
  if cmp x1 y1 = 0 then
    if cmp x2 y2 = 0 then
      if cmp x3 y3 = 0 then i64.lt_u x4 y4
      else if cmp x3 y3 = 1 then 0 else 1
    else if cmp x2 y2 = 1 then 0 else 1
  else if cmp x1 y1 = 1 then 0 else 1

def gte_256x256_64 (x1 x2 x3 x4 y1 y2 y3 y4 : Nat) : Nat :=
  i32.eqz (lt_256x256_64 x1 x2 x3 x4 y1 y2 y3 y4)

def gte_320x320_64 (x1 x2 x3 x4 x5 y1 y2 y3 y4 y5 : Nat) : Nat :=
  i32.eqz (lt_320x320_64 x1 x2 x3 x4 x5 y1 y2 y3 y4 y5)

def gte_512x512_64 (x1 x2 x3 x4 x5 x6 x7 x8 y1 y2 y3 y4 y5 y6 y7 y8 : Nat) : Nat :=
  i32.eqz (lt_512x512_64 x1 x2 x3 x4 x5 x6 x7 x8 y1 y2 y3 y4 y5 y6 y7 y8)

/-- First loop of `div`: shift `y` and `m` left until `y` has its top bit set or `y >= x`. -/
def div_loop1 (x1 x2 x3 x4 : Nat) : Nat → W256 → W256 → Option (W256 × W256)
  | 0, _, _ => none
  | fuel + 1, (y1, y2, y3, y4), (m1, m2, m3, m4) =>
    if i32.or (i64.eqz (i64.clz y1)) (gte_256x256_64 y1 y2 y3 y4 x1 x2 x3 x4) ≠ 0 then
      some ((y1, y2, y3, y4), (m1, m2, m3, m4))
    else
      div_loop1 x1 x2 x3 x4 fuel (shl_internal 1 y1 y2 y3 y4) (shl_internal 1 m1 m2 m3 m4)

/-- Second loop of `div`: while `m` is nonzero, subtract and accumulate, then shift right. -/
def div_loop2 : Nat → W256 → W256 → W256 → W256 → Option W256
  | 0, _, _, _, _ => none
  | fuel + 1, (x1, x2, x3, x4), (y1, y2, y3, y4), (m1, m2, m3, m4), (r1, r2, r3, r4) =>
    if or_bool m1 m2 m3 m4 ≠ 0 then
      if gte_256x256_64 x1 x2 x3 x4 y1 y2 y3 y4 ≠ 0 then
        div_loop2 fuel (sub x1 x2 x3 x4 y1 y2 y3 y4) (shr_internal 1 y1 y2 y3 y4)
          (shr_internal 1 m1 m2 m3 m4) (add r1 r2 r3 r4 m1 m2 m3 m4)
      else
        div_loop2 fuel (x1, x2, x3, x4) (shr_internal 1 y1 y2 y3 y4)
          (shr_internal 1 m1 m2 m3 m4) (r1, r2, r3, r4)
    else
      some (r1, r2, r3, r4)

/-- The return variables `r1..r4` start at zero; `leave` returns them as they are. Both
loops draw on the same fuel bound. -/
def div (fuel : Nat) (x1 x2 x3 x4 y1 y2 y3 y4 : Nat) : Option W256 :=
  if iszero256 y1 y2 y3 y4 ≠ 0 then some (0, 0, 0, 0)
  else
    match div_loop1 x1 x2 x3 x4 fuel (y1, y2, y3, y4) (0, 0, 0, 1) with
    | none => none
    | some (y, m) => div_loop2 fuel (x1, x2, x3, x4) y m (0, 0, 0, 0)

def sdiv (fuel : Nat) (x1 x2 x3 x4 y1 y2 y3 y4 : Nat) : Option W256 :=
  let sign := i32.wrap_i64 (i64.shr_u (i64.xor x1 y1) 63)
  let (x1, x2, x3, x4) :=
    if i64.eqz (i64.clz x1) ≠ 0 then
      let (x1, x2, x3, x4) := xor x1 x2 x3 x4
        0xffffffffffffffff 0xffffffffffffffff 0xffffffffffffffff 0xffffffffffffffff
      add x1 x2 x3 x4 0 0 0 1
    else (x1, x2, x3, x4)
  let (y1, y2, y3, y4) :=
    if i64.eqz (i64.clz y1) ≠ 0 then
      let (y1, y2, y3, y4) := xor y1 y2 y3 y4
        0xffffffffffffffff 0xffffffffffffffff 0xffffffffffffffff 0xffffffffffffffff
      add y1 y2 y3 y4 0 0 0 1
    else (y1, y2, y3, y4)
  match div fuel x1 x2 x3 x4 y1 y2 y3 y4 with
  | none => none
  | some (r1, r2, r3, r4) =>
    if sign ≠ 0 then
      let (r1, r2, r3, r4) := xor r1 r2 r3 r4
        0xffffffffffffffff 0xffffffffffffffff 0xffffffffffffffff 0xffffffffffffffff
      some (add r1 r2 r3 r4 0 0 0 1)
    else some (r1, r2, r3, r4)

/-- First loop of `mod`. -/
def mod_loop1 (r1 r2 r3 r4 : Nat) : Nat → W256 → W256 → Option (W256 × W256)
  | 0, _, _ => none
  | fuel + 1, (y1, y2, y3, y4), (m1, m2, m3, m4) =>
    if i32.or (i64.eqz (i64.clz y1)) (gte_256x256_64 y1 y2 y3 y4 r1 r2 r3 r4) ≠ 0 then
      some ((y1, y2, y3, y4), (m1, m2, m3, m4))
    else
      mod_loop1 r1 r2 r3 r4 fuel (shl_internal 1 y1 y2 y3 y4) (shl_internal 1 m1 m2 m3 m4)

/-- Second loop of `mod`. -/
def mod_loop2 : Nat → W256 → W256 → W256 → Option W256
  | 0, _, _, _ => none
  | fuel + 1, (r1, r2, r3, r4), (y1, y2, y3, y4), (m1, m2, m3, m4) =>
    if or_bool m1 m2 m3 m4 ≠ 0 then
      if gte_256x256_64 r1 r2 r3 r4 y1 y2 y3 y4 ≠ 0 then
        mod_loop2 fuel (sub r1 r2 r3 r4 y1 y2 y3 y4) (shr_internal 1 y1 y2 y3 y4)
          (shr_internal 1 m1 m2 m3 m4)
      else
        mod_loop2 fuel (r1, r2, r3, r4) (shr_internal 1 y1 y2 y3 y4)
          (shr_internal 1 m1 m2 m3 m4)
    else
      some (r1, r2, r3, r4)

def mod (fuel : Nat) (x1 x2 x3 x4 y1 y2 y3 y4 : Nat) : Option W256 :=
  if iszero256 y1 y2 y3 y4 ≠ 0 then some (0, 0, 0, 0)
  else
    match mod_loop1 x1 x2 x3 x4 fuel (y1, y2, y3, y4) (0, 0, 0, 1) with
    | none => none
    | some (y, m) => mod_loop2 fuel (x1, x2, x3, x4) y m

/-- First loop of `mod320`. -/
def mod320_loop1 (r1 r2 r3 r4 r5 : Nat) : Nat → W320 → W320 → Option (W320 × W320)
  | 0, _, _ => none
  | fuel + 1, (y1, y2, y3, y4, y5), (m1, m2, m3, m4, m5) =>
    if i32.or (i64.eqz (i64.clz y1)) (gte_320x320_64 y1 y2 y3 y4 y5 r1 r2 r3 r4 r5) ≠ 0 then
      some ((y1, y2, y3, y4, y5), (m1, m2, m3, m4, m5))
    else
      mod320_loop1 r1 r2 r3 r4 r5 fuel (shl320_internal 1 y1 y2 y3 y4 y5)
        (shl320_internal 1 m1 m2 m3 m4 m5)

/-- Second loop of `mod320`. -/
def mod320_loop2 : Nat → W320 → W320 → W320 → Option W320
  | 0, _, _, _ => none
  | fuel + 1, (r1, r2, r3, r4, r5), (y1, y2, y3, y4, y5), (m1, m2, m3, m4, m5) =>
    if or_bool_320 m1 m2 m3 m4 m5 ≠ 0 then
      if gte_320x320_64 r1 r2 r3 r4 r5 y1 y2 y3 y4 y5 ≠ 0 then
        mod320_loop2 fuel (sub320 r1 r2 r3 r4 r5 y1 y2 y3 y4 y5)
          (shr320_internal 1 y1 y2 y3 y4 y5) (shr320_internal 1 m1 m2 m3 m4 m5)
      else
        mod320_loop2 fuel (r1, r2, r3, r4, r5)
          (shr320_internal 1 y1 y2 y3 y4 y5) (shr320_internal 1 m1 m2 m3 m4 m5)
    else
      some (r1, r2, r3, r4, r5)

def mod320 (fuel : Nat) (x1 x2 x3 x4 x5 y1 y2 y3 y4 y5 : Nat) : Option W320 :=
  if iszero320 y1 y2 y3 y4 y5 ≠ 0 then some (0, 0, 0, 0, 0)
  else
    match mod320_loop1 x1 x2 x3 x4 x5 fuel (y1, y2, y3, y4, y5) (0, 0, 0, 0, 1) with
    | none => none
    | some (y, m) => mod320_loop2 fuel (x1, x2, x3, x4, x5) y m

/-- First loop of `mod512`. -/
def mod512_loop1 (r1 r2 r3 r4 r5 r6 r7 r8 : Nat) : Nat → W512 → W512 → Option (W512 × W512)
  | 0, _, _ => none
  | fuel + 1, (y1, y2, y3, y4, y5, y6, y7, y8), (m1, m2, m3, m4, m5, m6, m7, m8) =>
    if i32.or (i64.eqz (i64.clz y1))
        (gte_512x512_64 y1 y2 y3 y4 y5 y6 y7 y8 r1 r2 r3 r4 r5 r6 r7 r8) ≠ 0 then
      some ((y1, y2, y3, y4, y5, y6, y7, y8), (m1, m2, m3, m4, m5, m6, m7, m8))
    else
      mod512_loop1 r1 r2 r3 r4 r5 r6 r7 r8 fuel (shl512_internal 1 y1 y2 y3 y4 y5 y6 y7 y8)
        (shl512_internal 1 m1 m2 m3 m4 m5 m6 m7 m8)

/-- Second loop of `mod512`. -/
def mod512_loop2 : Nat → W512 → W512 → W512 → Option W512
  | 0, _, _, _ => none
  | fuel + 1, (r1, r2, r3, r4, r5, r6, r7, r8), (y1, y2, y3, y4, y5, y6, y7, y8),
      (m1, m2, m3, m4, m5, m6, m7, m8) =>
    if or_bool_512 m1 m2 m3 m4 m5 m6 m7 m8 ≠ 0 then
      if gte_512x512_64 r1 r2 r3 r4 r5 r6 r7 r8 y1 y2 y3 y4 y5 y6 y7 y8 ≠ 0 then
        mod512_loop2 fuel (sub512 r1 r2 r3 r4 r5 r6 r7 r8 y1 y2 y3 y4 y5 y6 y7 y8)
          (shr512_internal 1 y1 y2 y3 y4 y5 y6 y7 y8)
          (shr512_internal 1 m1 m2 m3 m4 m5 m6 m7 m8)
      else
        mod512_loop2 fuel (r1, r2, r3, r4, r5, r6, r7, r8)
          (shr512_internal 1 y1 y2 y3 y4 y5 y6 y7 y8)
          (shr512_internal 1 m1 m2 m3 m4 m5 m6 m7 m8)
    else
      some (r1, r2, r3, r4, r5, r6, r7, r8)

def mod512 (fuel : Nat) (x1 x2 x3 x4 x5 x6 x7 x8 y1 y2 y3 y4 y5 y6 y7 y8 : Nat) :
    Option W512 :=
  if iszero512 y1 y2 y3 y4 y5 y6 y7 y8 ≠ 0 then some (0, 0, 0, 0, 0, 0, 0, 0)
  else
    match mod512_loop1 x1 x2 x3 x4 x5 x6 x7 x8 fuel (y1, y2, y3, y4, y5, y6, y7, y8)
        (0, 0, 0, 0, 0, 0, 0, 1) with
    | none => none
    | some (y, m) => mod512_loop2 fuel (x1, x2, x3, x4, x5, x6, x7, x8) y m

/-- The source also declares `m1..m4 := 0, 0, 0, 1`, which it never reads. -/
def smod (fuel : Nat) (x1 x2 x3 x4 y1 y2 y3 y4 : Nat) : Option W256 :=
  let sign := i32.wrap_i64 (i64.shr_u x1 63)
  let (x1, x2, x3, x4) :=
    if i64.eqz (i64.clz x1) ≠ 0 then
      let (x1, x2, x3, x4) := xor x1 x2 x3 x4
        0xffffffffffffffff 0xffffffffffffffff 0xffffffffffffffff 0xffffffffffffffff
      add x1 x2 x3 x4 0 0 0 1
    else (x1, x2, x3, x4)
  let (y1, y2, y3, y4) :=
    if i64.eqz (i64.clz y1) ≠ 0 then
      let (y1, y2, y3, y4) := xor y1 y2 y3 y4
        0xffffffffffffffff 0xffffffffffffffff 0xffffffffffffffff 0xffffffffffffffff
      add y1 y2 y3 y4 0 0 0 1
    else (y1, y2, y3, y4)
  match mod fuel x1 x2 x3 x4 y1 y2 y3 y4 with
  | none => none
  | some (r1, r2, r3, r4) =>
    if sign ≠ 0 then
      let (r1, r2, r3, r4) := xor r1 r2 r3 r4
        0xffffffffffffffff 0xffffffffffffffff 0xffffffffffffffff 0xffffffffffffffff
      some (add r1 r2 r3 r4 0 0 0 1)
    else some (r1, r2, r3, r4)

/-- The loop of `exp`, on the state `(r, x, y)`. -/
def exp_loop : Nat → W256 → W256 → W256 → Option W256
  | 0, _, _, _ => none
  | fuel + 1, (r1, r2, r3, r4), (x1, x2, x3, x4), (y1, y2, y3, y4) =>
    if or_bool y1 y2 y3 y4 ≠ 0 then
      exp_loop fuel
        (if i32.wrap_i64 (i64.and y4 1) ≠ 0 then mul r1 r2 r3 r4 x1 x2 x3 x4
          else (r1, r2, r3, r4))
        (mul x1 x2 x3 x4 x1 x2 x3 x4)
        (shr_internal 1 y1 y2 y3 y4)
    else
      some (r1, r2, r3, r4)

def exp (fuel : Nat) (x1 x2 x3 x4 y1 y2 y3 y4 : Nat) : Option W256 :=
  exp_loop fuel (0, 0, 0, 1) (x1, x2, x3, x4) (y1, y2, y3, y4)

def addmod (fuel : Nat) (x1 x2 x3 x4 y1 y2 y3 y4 m1 m2 m3 m4 : Nat) : Option W256 :=
  let (z4, carry) := add_carry x4 y4 0
  let (z3, carry) := add_carry x3 y3 carry
  let (z2, carry) := add_carry x2 y2 carry
  let (z1, carry) := add_carry x1 y1 carry
  match mod320 fuel carry z1 z2 z3 z4 0 m1 m2 m3 m4 with
  | none => none
  | some (_, z1, z2, z3, z4) => some (z1, z2, z3, z4)

def mulmod (fuel : Nat) (x1 x2 x3 x4 y1 y2 y3 y4 m1 m2 m3 m4 : Nat) : Option W256 :=
  let (r1, r2, r3, r4, r5, r6, r7, r8) := mul_256x256_512 x1 x2 x3 x4 y1 y2 y3 y4
  match mod512 fuel r1 r2 r3 r4 r5 r6 r7 r8 0 0 0 0 m1 m2 m3 m4 with
  | none => none
  | some (_, _, _, _, z1, z2, z3, z4) => some (z1, z2, z3, z4)

def byte (x1 x2 x3 x4 y1 y2 y3 y4 : Nat) : W256 :=
  if i64.eqz (i64.or (i64.or x1 x2) x3) ≠ 0 then
    let component :=
      if i64.div_u x4 8 = 0 then y1
      else if i64.div_u x4 8 = 1 then y2
      else if i64.div_u x4 8 = 2 then y3
      else if i64.div_u x4 8 = 3 then y4
      else 0
    let x4 := i64.mul (i64.rem_u x4 8) 8
    let r4 := i64.shr_u component (i64.sub 56 x4)
    let r4 := i64.and 0xff r4
    (0, 0, 0, r4)
  else (0, 0, 0, 0)

def or (x1 x2 x3 x4 y1 y2 y3 y4 : Nat) : W256 :=
  (i64.or x1 y1, i64.or x2 y2, i64.or x3 y3, i64.or x4 y4)

def iszero (x1 x2 x3 x4 : Nat) : W256 :=
  (0, 0, 0, i64.extend_i32_u (iszero256 x1 x2 x3 x4))

def eq (x1 x2 x3 x4 y1 y2 y3 y4 : Nat) : W256 :=
  if i64.eq x1 y1 ≠ 0 then
    if i64.eq x2 y2 ≠ 0 then
      if i64.eq x3 y3 ≠ 0 then
        if i64.eq x4 y4 ≠ 0 then (0, 0, 0, 1)
        else (0, 0, 0, 0)
      else (0, 0, 0, 0)
    else (0, 0, 0, 0)
  else (0, 0, 0, 0)

def lt (x1 x2 x3 x4 y1 y2 y3 y4 : Nat) : W256 :=
  (0, 0, 0, i64.extend_i32_u (lt_256x256_64 x1 x2 x3 x4 y1 y2 y3 y4))

def gt (x1 x2 x3 x4 y1 y2 y3 y4 : Nat) : W256 :=
  lt y1 y2 y3 y4 x1 x2 x3 x4

def slt (x1 x2 x3 x4 y1 y2 y3 y4 : Nat) : W256 :=
  let x1 := i64.add x1 0x8000000000000000
  let y1 := i64.add y1 0x8000000000000000
  lt x1 x2 x3 x4 y1 y2 y3 y4

def sgt (x1 x2 x3 x4 y1 y2 y3 y4 : Nat) : W256 :=
  slt y1 y2 y3 y4 x1 x2 x3 x4

def shl_single (a amount : Nat) : Nat × Nat :=
  let x := i64.shr_u a (i64.sub 64 amount)
  let y := i64.shl a amount
  (x, y)

def shl (x1 x2 x3 x4 y1 y2 y3 y4 : Nat) : W256 :=
  if i32.and (i64.eqz x1) (i64.eqz x2) ≠ 0 then
    if i64.eqz x3 ≠ 0 then
      if i64.lt_u x4 256 ≠ 0 then
        let (y1, y2, y3, y4, x4) :=
          if i64.ge_u x4 128 ≠ 0 then (y3, y4, 0, 0, i64.sub x4 128)
          else (y1, y2, y3, y4, x4)
        let (y1, y2, y3, y4, x4) :=
          if i64.ge_u x4 64 ≠ 0 then (y2, y3, y4, 0, i64.sub x4 64)
          else (y1, y2, y3, y4, x4)
        let (t, z4) := shl_single y4 x4
        let (r, z3) := shl_single y3 x4
        let z3 := i64.or z3 t
        let (t, z2) := shl_single y2 x4
        let z2 := i64.or z2 r
        let (_, z1) := shl_single y1 x4
        let z1 := i64.or z1 t
        (z1, z2, z3, z4)
      else (0, 0, 0, 0)
    else (0, 0, 0, 0)
  else (0, 0, 0, 0)

def shr_single (a amount : Nat) : Nat × Nat :=
  let y := i64.shl a (i64.sub 64 amount)
  let x := i64.shr_u a amount
  (x, y)

def shr (x1 x2 x3 x4 y1 y2 y3 y4 : Nat) : W256 :=
  if i32.and (i64.eqz x1) (i64.eqz x2) ≠ 0 then
    if i64.eqz x3 ≠ 0 then
      if i64.lt_u x4 256 ≠ 0 then
        let (y1, y2, y3, y4, x4) :=
          if i64.ge_u x4 128 ≠ 0 then (0, 0, y1, y2, i64.sub x4 128)
          else (y1, y2, y3, y4, x4)
        let (y1, y2, y3, y4, x4) :=
          if i64.ge_u x4 64 ≠ 0 then (0, y1, y2, y3, i64.sub x4 64)
          else (y1, y2, y3, y4, x4)
        let (z4, _) := shr_single y4 x4
        let (z3, t) := shr_single y3 x4
        let z4 := i64.or z4 t
        let (z2, t) := shr_single y2 x4
        let z3 := i64.or z3 t
        let (z1, t) := shr_single y1 x4
        let z2 := i64.or z2 t
        (z1, z2, z3, z4)
      else (0, 0, 0, 0)
    else (0, 0, 0, 0)
  else (0, 0, 0, 0)

def sar (x1 x2 x3 x4 y1 y2 y3 y4 : Nat) : W256 :=
  if i64.gt_u (i64.clz y1) 0 ≠ 0 then shr x1 x2 x3 x4 y1 y2 y3 y4
  else
    let z :=
      if gte_256x256_64 x1 x2 x3 x4 0 0 0 256 ≠ 0 then
        (0xffffffffffffffff, 0xffffffffffffffff, 0xffffffffffffffff, 0xffffffffffffffff)
      else (0, 0, 0, 0)
    if lt_256x256_64 x1 x2 x3 x4 0 0 0 256 ≠ 0 then
      let (y1, y2, y3, y4) := shr 0 0 0 x4 y1 y2 y3 y4
      let (z1, z2, z3, z4) := shl 0 0 0 (i64.sub 256 x4)
        0xffffffffffffffff 0xffffffffffffffff 0xffffffffffffffff 0xffffffffffffffff
      or y1 y2 y3 y4 z1 z2 z3 z4
    else z

def signextend (x1 x2 x3 x4 y1 y2 y3 y4 : Nat) : W256 :=
  if lt_256x256_64 x1 x2 x3 x4 0 0 0 32 ≠ 0 then
    let d := i64.mul (i64.sub 31 x4) 8
    let (z1, z2, z3, z4) := shl 0 0 0 d y1 y2 y3 y4
    sar 0 0 0 d z1 z2 z3 z4
  else (y1, y2, y3, y4)

/-- Traps (`none`) when the value does not fit in 32 bits. -/
def u256_to_i32 (x1 x2 x3 x4 : Nat) : Option Nat :=
  if i64.ne 0 (i64.or (i64.or x1 x2) x3) ≠ 0 then none
  else if i64.ne 0 (i64.shr_u x4 32) ≠ 0 then none
  else some (i32.wrap_i64 x4)

/-- Traps (`none`) when the value exceeds 255. -/
def u256_to_byte (x1 x2 x3 x4 : Nat) : Option Nat :=
  if i64.ne 0 (i64.or (i64.or x1 x2) x3) ≠ 0 then none
  else if i64.gt_u x4 255 ≠ 0 then none
  else some x4

def u256_to_i32ptr (x1 x2 x3 x4 : Nat) : Option Nat :=
  u256_to_i32 x1 x2 x3 x4

/-- The internal address of a user pointer: 64 bytes further on; traps on 32-bit
overflow. -/
def to_internal_i32ptr (x1 x2 x3 x4 : Nat) : Option Nat :=
  match u256_to_i32ptr x1 x2 x3 x4 with
  | none => none
  | some p =>
    let r := i32.add p 64
    if i32.lt_u r p ≠ 0 then none else some r

def bswap16 (x : Nat) : Nat :=
  let hi := i32.and (i32.shl x 8) 0xff00
  let lo := i32.and (i32.shr_u x 8) 0xff
  i32.or hi lo

def bswap32 (x : Nat) : Nat :=
  let hi := i32.shl (bswap16 x) 16
  let lo := bswap16 (i32.shr_u x 16)
  i32.or hi lo

def bswap64 (x : Nat) : Nat :=
  let hi := i64.shl (i64.extend_i32_u (bswap32 (i32.wrap_i64 x))) 32
  let lo := i64.extend_i32_u (bswap32 (i32.wrap_i64 (i64.shr_u x 32)))
  i64.or hi lo

def mload_internal (m : Memory) (pos : Nat) : Option W256 :=
  match i64.load m pos with
  | none => none
  | some w1 =>
    match i64.load m (i32.add pos 8) with
    | none => none
    | some w2 =>
      match i64.load m (i32.add pos 16) with
      | none => none
      | some w3 =>
        match i64.load m (i32.add pos 24) with
        | none => none
        | some w4 => some (bswap64 w1, bswap64 w2, bswap64 w3, bswap64 w4)

def mload (m : Memory) (x1 x2 x3 x4 : Nat) : Option W256 :=
  match to_internal_i32ptr x1 x2 x3 x4 with
  | none => none
  | some pos => mload_internal m pos

def mstore_internal (m : Memory) (pos y1 y2 y3 y4 : Nat) : Option Memory :=
  match i64.store m pos (bswap64 y1) with
  | none => none
  | some m1 =>
    match i64.store m1 (i32.add pos 8) (bswap64 y2) with
    | none => none
    | some m2 =>
      match i64.store m2 (i32.add pos 16) (bswap64 y3) with
      | none => none
      | some m3 => i64.store m3 (i32.add pos 24) (bswap64 y4)

def mstore (m : Memory) (x1 x2 x3 x4 y1 y2 y3 y4 : Nat) : Option Memory :=
  match to_internal_i32ptr x1 x2 x3 x4 with
  | none => none
  | some pos => mstore_internal m pos y1 y2 y3 y4

/-- The value is converted first, so a value above 255 traps before anything is
stored. -/
def mstore8 (m : Memory) (x1 x2 x3 x4 y1 y2 y3 y4 : Nat) : Option Memory :=
  match u256_to_byte y1 y2 y3 y4 with
  | none => none
  | some v =>
    match to_internal_i32ptr x1 x2 x3 x4 with
    | none => none
    | some pos => i64.store8 m pos v

/-! ## Reference loops on natural numbers -/

/-- Reference for the first loop of `div`/`mod` on numbers of `W` bits: double `y` and `m`
until `y` has bit `W - 1` set or `y >= x`. -/
def normLoop (W x : Nat) : Nat → Nat → Nat → Option (Nat × Nat)
  | 0, _, _ => none
  | fuel + 1, y, m =>
    if 2 ^ (W - 1) ≤ y ∨ x ≤ y then some (y, m)
    else normLoop W x fuel (2 * y % 2 ^ W) (2 * m % 2 ^ W)

/-- Reference for the second loop of `div`/`mod` on numbers of `W` bits: while `m` is
nonzero, subtract `y` from `x` and add `m` to `r` when `y <= x`, then halve `y` and `m`. -/
def subLoop (W : Nat) : Nat → Nat → Nat → Nat → Nat → Option (Nat × Nat)
  | 0, _, _, _, _ => none
  | fuel + 1, x, y, m, r =>
    if m ≠ 0 then
      if y ≤ x then subLoop W fuel ((x + 2 ^ W - y) % 2 ^ W) (y / 2) (m / 2) ((r + m) % 2 ^ W)
      else subLoop W fuel x (y / 2) (m / 2) r
    else some (x, r)

/-! ## Narrowing conversions -/

/-- Traps (`none`) when the value does not fit in 128 bits; returns the two low limbs. -/
def u256_to_u128 (x1 x2 x3 x4 : Nat) : Option (Nat × Nat) :=
  if i64.ne 0 (i64.or x1 x2) ≠ 0 then none
  else
    let v2 := x4
    let v1 := x3
    some (v1, v2)

/-- Traps (`none`) when the value does not fit in 64 bits. -/
def u256_to_i64 (x1 x2 x3 x4 : Nat) : Option Nat :=
  if i64.ne 0 (i64.or (i64.or x1 x2) x3) ≠ 0 then none
  else some x4

/-- Traps (`none`) when the value does not fit in 160 bits; returns the three low limbs. -/
def u256_to_address (x1 x2 x3 x4 : Nat) : Option (Nat × Nat × Nat) :=
  if i64.ne 0 x1 ≠ 0 then none
  else if i64.ne 0 (i64.shr_u x2 32) ≠ 0 then none
  else some (x2, x3, x4)

/-! ## The translator entry point

`EVMToEwasmTranslator::run` and `parsePolyfill`. The AST types, the optimiser steps, the name
dispenser, the analyzer and the printers are declared outside the translated file; they are
taken as parameters (`Collaborators`). A failed `yulAssert` is `Except.error` with its
message. -/

/-- An opaque data sub-node: a name and its bytes. -/
structure Data where
  name : String
  data : List Nat

mutual
/-- A compilation unit: name, the statements of its top-level block, analysis info, the ordered
sub-nodes, and the map from sub-node names to positions. -/
inductive Object (Stmt Info : Type)
  | mk (name : String) (code : List Stmt) (analysisInfo : Info)
      (subObjects : List (ObjectNode Stmt Info)) (subIndexByName : List (String × Nat)) :
      Object Stmt Info
/-- A sub-node of an object: opaque data or another object. -/
inductive ObjectNode (Stmt Info : Type)
  | data (d : Data) : ObjectNode Stmt Info
  | object (o : Object Stmt Info) : ObjectNode Stmt Info
end

namespace Object

variable {Stmt Info : Type}

def name : Object Stmt Info → String
  | .mk n _ _ _ _ => n

def code : Object Stmt Info → List Stmt
  | .mk _ c _ _ _ => c

def analysisInfo : Object Stmt Info → Info
  | .mk _ _ i _ _ => i

def subObjects : Object Stmt Info → List (ObjectNode Stmt Info)
  | .mk _ _ _ s _ => s

def subIndexByName : Object Stmt Info → List (String × Nat)
  | .mk _ _ _ _ m => m

end Object

/-- The code that `run` and `parsePolyfill` call and that lives outside the translated file.
`Disp` is the state of a name dispenser, `Err` an error reported by the parser or the
analyzer. An optimiser step receives the dispenser and the reserved identifiers of its context
and the block, and returns the dispenser and the block it leaves behind. -/
structure Collaborators (Stmt Info Disp Err : Type) where
  /-- Result of parsing the polyfill text in the Wasm dialect: the top-level statements and
  the errors reported. -/
  parsePolyfillText : List Stmt × List Err
  /-- Printer of one reported error. -/
  formatErrorInformation : Err → String
  /-- Name of a top-level polyfill statement read as a function definition. -/
  functionDefinitionName : Stmt → String
  /-- Disambiguator applied to the code of the input object under its analysis info. -/
  disambiguator : Info → List Stmt → List Stmt
  /-- Constructor of the name dispenser from the block and the reserved identifiers. -/
  nameDispenser : List Stmt → List String → Disp
  functionHoister : Disp → List String → List Stmt → Disp × List Stmt
  functionGrouper : Disp → List String → List Stmt → Disp × List Stmt
  mainFunction : Disp → List String → List Stmt → Disp × List Stmt
  forLoopConditionIntoBody : Disp → List String → List Stmt → Disp × List Stmt
  expressionSplitter : Disp → List String → List Stmt → Disp × List Stmt
  wordSizeTransform : Disp → List Stmt → Disp × List Stmt
  /-- Name displacer built from the dispenser and the names to displace, applied to the
  block. -/
  nameDisplacer : Disp → List String → List Stmt → Disp × List Stmt
  /-- Deep copy of one statement. -/
  astCopier : Stmt → Stmt
  /-- Analyzer for the Wasm dialect, given the block and the qualified data names: the
  analysis info it fills, the errors it reports, and whether it accepts. -/
  analyze : List Stmt → List String → Info × List Err × Bool
  qualifiedDataNames : Object Stmt Info → List String
  /-- Printer of an object in the Wasm dialect. -/
  toString : Object Stmt Info → String

/-- The mutable members of the translator: the cached polyfill block and the set of its
function names. -/
structure Translator (Stmt : Type) where
  m_polyfill : Option (List Stmt)
  m_polyfillFunctions : List String

section

variable {Stmt Info Disp Err : Type}

def parsePolyfill (c : Collaborators Stmt Info Disp Err) (_t : Translator Stmt) :
    Except String (Translator Stmt) :=
  let (statements, errors) := c.parsePolyfillText
  if errors.isEmpty then
    Except.ok ⟨some statements, statements.map c.functionDefinitionName⟩
  else
    Except.error (errors.foldl (fun message err => message ++ c.formatErrorInformation err) "")

mutual
/-- The entry point. The cached polyfill is parsed on first use; after that check it is
present, and its statements are read with default `[]`. -/
def run (c : Collaborators Stmt Info Disp Err) (t : Translator Stmt) :
    Object Stmt Info → Except String (Translator Stmt × Object Stmt Info)
  | .mk name code analysisInfo subObjects subIndexByName =>
    match (if t.m_polyfill.isNone then parsePolyfill c t else Except.ok t) with
    | Except.error e => Except.error e
    | Except.ok t =>
      let ast := c.disambiguator analysisInfo code
      let reservedIdentifiers : List String := []
      let nameDispenser := c.nameDispenser ast reservedIdentifiers
      let (nameDispenser, ast) := c.functionHoister nameDispenser reservedIdentifiers ast
      let (nameDispenser, ast) := c.functionGrouper nameDispenser reservedIdentifiers ast
      let (nameDispenser, ast) := c.mainFunction nameDispenser reservedIdentifiers ast
      let (nameDispenser, ast) := c.forLoopConditionIntoBody nameDispenser reservedIdentifiers ast
      let (nameDispenser, ast) := c.expressionSplitter nameDispenser reservedIdentifiers ast
      let (nameDispenser, ast) := c.wordSizeTransform nameDispenser ast
      let (_, ast) := c.nameDisplacer nameDispenser t.m_polyfillFunctions ast
      let ast := ast ++ (t.m_polyfill.getD []).map c.astCopier
      let (retInfo, errors, accepted) := c.analyze ast
        (c.qualifiedDataNames (Object.mk name code analysisInfo subObjects subIndexByName))
      if accepted then
        match runSubObjects c t subObjects with
        | Except.error e => Except.error e
        | Except.ok (t, subs) => Except.ok (t, Object.mk name ast retInfo subs subIndexByName)
      else
        Except.error
          (errors.foldl (fun message err => message ++ c.formatErrorInformation err)
            ("Invalid code generated after EVM to wasm translation.\n" ++
              "Note that the source locations in the errors below will reference the original, not the translated code.\n" ++
              "Translated code:\n" ++
              "----------------------------------\n" ++
              c.toString (Object.mk name ast retInfo [] []) ++
              "----------------------------------\n"))
/-- The loop of `run` over the sub-nodes: objects are translated, data nodes are copied. -/
def runSubObjects (c : Collaborators Stmt Info Disp Err) (t : Translator Stmt) :
    List (ObjectNode Stmt Info) →
      Except String (Translator Stmt × List (ObjectNode Stmt Info))
  | [] => Except.ok (t, [])
  | ObjectNode.object subObject :: rest =>
    match run c t subObject with
    | Except.error e => Except.error e
    | Except.ok (t, r) =>
      match runSubObjects c t rest with
      | Except.error e => Except.error e
      | Except.ok (t, rs) => Except.ok (t, ObjectNode.object r :: rs)
  | ObjectNode.data d :: rest =>
    match runSubObjects c t rest with
    | Except.error e => Except.error e
    | Except.ok (t, rs) => Except.ok (t, ObjectNode.data d :: rs)
end

/-- The translator after the polyfill check at the start of `run`, when the parser reports
no error: a cached polyfill is kept, a missing one is parsed. -/
def prepared (c : Collaborators Stmt Info Disp Err) (t : Translator Stmt) : Translator Stmt :=
  if t.m_polyfill.isNone then
    ⟨some c.parsePolyfillText.1, c.parsePolyfillText.1.map c.functionDefinitionName⟩
  else t

/-- The user statements after the passes and the name displacer, for a dispenser and a step
context created with the reserved identifiers `reserved` and a displacer given `names`. -/
def translatedUserBlock (c : Collaborators Stmt Info Disp Err) (reserved names : List String)
    (analysisInfo : Info) (code : List Stmt) : List Stmt :=
  let ast := c.disambiguator analysisInfo code
  let d := c.nameDispenser ast reserved
  let (d, ast) := c.functionHoister d reserved ast
  let (d, ast) := c.functionGrouper d reserved ast
  let (d, ast) := c.mainFunction d reserved ast
  let (d, ast) := c.forLoopConditionIntoBody d reserved ast
  let (d, ast) := c.expressionSplitter d reserved ast
  let (d, ast) := c.wordSizeTransform d ast
  (c.nameDisplacer d names ast).2

/-- The block handed to the analyzer for an object: the translated user block (empty
reserved set, the polyfill function names displaced) followed by the copied polyfill
statements. -/
def splicedBlock (c : Collaborators Stmt Info Disp Err) (t : Translator Stmt)
    (o : Object Stmt Info) : List Stmt :=
  translatedUserBlock c [] t.m_polyfillFunctions o.analysisInfo o.code ++
    (t.m_polyfill.getD []).map c.astCopier

/-- The message of the assertion that fails when the analyzer rejects the spliced block. -/
def rejectionMessage (c : Collaborators Stmt Info Disp Err) (t : Translator Stmt)
    (o : Object Stmt Info) : String :=
  (c.analyze (splicedBlock c t o) (c.qualifiedDataNames o)).2.1.foldl
    (fun message err => message ++ c.formatErrorInformation err)
    ("Invalid code generated after EVM to wasm translation.\n" ++
      "Note that the source locations in the errors below will reference the original, not the translated code.\n" ++
      "Translated code:\n" ++
      "----------------------------------\n" ++
      c.toString (Object.mk o.name (splicedBlock c t o)
        (c.analyze (splicedBlock c t o) (c.qualifiedDataNames o)).1 [] []) ++
      "----------------------------------\n")

/-- How a sub-node of the result relates to the sub-node of the input at the same position. -/
def SubNodeTranslated (c : Collaborators Stmt Info Disp Err) (t : Translator Stmt)
    (a b : ObjectNode Stmt Info) : Prop :=
  match a with
  | ObjectNode.data d => b = ObjectNode.data d
  | ObjectNode.object o => ∃ r, run c t o = Except.ok (t, r) ∧ b = ObjectNode.object r

mutual
/-- The analyzer accepts the spliced block of the object and of every sub-object, at every
depth. -/
def Accepted (c : Collaborators Stmt Info Disp Err) (t : Translator Stmt) :
    Object Stmt Info → Prop
  | .mk name code analysisInfo subObjects subIndexByName =>
    (c.analyze (splicedBlock c t (Object.mk name code analysisInfo subObjects subIndexByName))
      (c.qualifiedDataNames
        (Object.mk name code analysisInfo subObjects subIndexByName))).2.2 = true ∧
      AcceptedSubObjects c t subObjects
/-- Every object among the sub-nodes is accepted. -/
def AcceptedSubObjects (c : Collaborators Stmt Info Disp Err) (t : Translator Stmt) :
    List (ObjectNode Stmt Info) → Prop
  | [] => True
  | ObjectNode.object subObject :: rest => Accepted c t subObject ∧ AcceptedSubObjects c t rest
  | ObjectNode.data _ :: rest => AcceptedSubObjects c t rest
end

end

/-- A small instance of the collaborators on which `run` can be evaluated. Statements are
strings; the dispenser state is the list of reserved identifiers it was created with; the
polyfill has the two functions `add` and `sub`; every step leaves the block alone; the
displacer puts one statement naming each reserved identifier of the dispenser in front of the
block; the analyzer rejects exactly the blocks that contain the statement `bad`. -/
def probe : Collaborators String Unit (List String) String where
  parsePolyfillText := (["add", "sub"], [])
  formatErrorInformation := fun err => err ++ ";"
  functionDefinitionName := fun st => st
  disambiguator := fun _ code => code
  nameDispenser := fun _ reserved => reserved
  functionHoister := fun d _ ast => (d, ast)
  functionGrouper := fun d _ ast => (d, ast)
  mainFunction := fun d _ ast => (d, ast)
  forLoopConditionIntoBody := fun d _ ast => (d, ast)
  expressionSplitter := fun d _ ast => (d, ast)
  wordSizeTransform := fun d ast => (d, ast)
  nameDisplacer := fun d _ ast => (d, d.map (fun n => "reserved " ++ n) ++ ast)
  astCopier := fun st => st
  analyze := fun ast _ => ((), if ast.contains "bad" then ["bad statement"] else [],
    !ast.contains "bad")
  qualifiedDataNames := fun _ => []
  toString := fun o => String.join o.code

/-! ## Functions without a host analogue -/

/-- The Wasm instruction `unreachable`: an unconditional trap. -/
def unreachable : Option Memory := none

/-- The zero-initialised return limbs are only reached when the body does not trap. -/
def selfbalance (_m : Memory) : Option (Memory × W256) :=
  match unreachable with
  | none => none
  | some m => some (m, (0, 0, 0, 0))

def chainid (_m : Memory) : Option (Memory × W256) :=
  match unreachable with
  | none => none
  | some m => some (m, (0, 0, 0, 0))

def extcodehash (_m : Memory) (_x1 _x2 _x3 _x4 : Nat) : Option (Memory × W256) :=
  match unreachable with
  | none => none
  | some m => some (m, (0, 0, 0, 0))

def msize (_m : Memory) : Option (Memory × W256) :=
  match unreachable with
  | none => none
  | some m => some (m, (0, 0, 0, 0))

def create2 (_m : Memory) (_a1 _a2 _a3 _a4 _b1 _b2 _b3 _b4 _c1 _c2 _c3 _c4 _d1 _d2 _d3 _d4 : Nat) :
    Option (Memory × W256) :=
  match unreachable with
  | none => none
  | some m => some (m, (0, 0, 0, 0))

def invalid (_m : Memory) : Option Memory :=
  unreachable

/-- Every function definition of the polyfill, in source order, with whether its body is a
single call of `unreachable` and nothing else (comments aside). -/
def polyfillFunctionBodies : List (String × Bool) :=
  [("or_bool", false), ("or_bool_320", false), ("or_bool_512", false), ("add_carry", false),
    ("add", false), ("bit_negate", false), ("sub", false), ("sub320", false),
    ("sub512", false), ("split", false), ("mul_64x64_128", false), ("mul_128x128_256", false),
    ("mul_256x256_512", false), ("mul", false), ("shl_internal", false),
    ("shr_internal", false), ("shl320_internal", false), ("shr320_internal", false),
    ("shl512_internal", false), ("shr512_internal", false), ("div", false), ("sdiv", false),
    ("mod", false), ("mod320", false), ("mod512", false), ("smod", false), ("exp", false),
    ("byte", false), ("xor", false), ("or", false), ("and", false), ("not", false),
    ("iszero", false), ("iszero256", false), ("iszero320", false), ("iszero512", false),
    ("eq", false), ("cmp", false), ("lt_320x320_64", false), ("lt_512x512_64", false),
    ("lt_256x256_64", false), ("lt", false), ("gte_256x256_64", false),
    ("gte_320x320_64", false), ("gte_512x512_64", false), ("gt", false), ("slt", false),
    ("sgt", false), ("shl_single", false), ("shl", false), ("shr_single", false),
    ("shr", false), ("sar", false), ("addmod", false), ("mulmod", false),
    ("signextend", false), ("u256_to_u128", false), ("u256_to_i64", false),
    ("u256_to_i32", false), ("u256_to_byte", false), ("u256_to_i32ptr", false),
    ("to_internal_i32ptr", false), ("u256_to_address", false), ("i8_load32", false),
    ("i8_load", false), ("memcpy", false), ("memset", false), ("keccak_reset", false),
    ("keccak_init", false), ("keccak_update", false), ("keccak_block", false),
    ("keccak_permute", false), ("C", false), ("D", false), ("A", false),
    ("keccak_theta", false), ("keccak_rho", false), ("keccak_pi", false),
    ("keccak_chi", false), ("keccak_finish", false), ("rotl64", false), ("keccak256", false),
    ("address", false), ("balance", false), ("selfbalance", true), ("chainid", true),
    ("origin", false), ("caller", false), ("callvalue", false), ("calldataload", false),
    ("calldatasize", false), ("calldatacopy", false), ("codesize", false), ("codecopy", false),
    ("datacopy", false), ("gasprice", false), ("extcodesize_internal", false),
    ("extcodesize", false), ("extcodehash", true), ("extcodecopy", false),
    ("returndatasize", false), ("returndatacopy", false), ("blockhash", false),
    ("coinbase", false), ("timestamp", false), ("number", false), ("difficulty", false),
    ("gaslimit", false), ("pop", false), ("bswap16", false), ("bswap32", false),
    ("bswap64", false), ("save_temp_mem_32", false), ("restore_temp_mem_32", false),
    ("save_temp_mem_64", false), ("restore_temp_mem_64", false), ("mload", false),
    ("mload_internal", false), ("mload_address", false), ("mstore", false),
    ("mstore_internal_raw", false), ("mstore_internal", false), ("mstore_address", false),
    ("mstore8", false), ("msize", true), ("sload", false), ("sstore", false), ("gas", false),
    ("log0", false), ("log1", false), ("log2", false), ("log3", false), ("log4", false),
    ("create", false), ("call", false), ("callcode", false), ("delegatecall", false),
    ("staticcall", false), ("create2", true), ("selfdestruct", false), ("return", false),
    ("revert", false), ("invalid", true), ("stop", false), ("memoryguard", false)]

/-! ## More Wasm builtins -/

namespace i32

def sub (a b : Nat) : Nat := (a + (2 ^ 32 - b % 2 ^ 32)) % 2 ^ 32

def mul (a b : Nat) : Nat := (a * b) % 2 ^ 32

def eq (a b : Nat) : Nat := if a = b then 1 else 0

def ne (a b : Nat) : Nat := if a = b then 0 else 1

def gt_u (a b : Nat) : Nat := if b < a then 1 else 0

/-- Little-endian load of four bytes; traps (`none`) outside the memory. -/
def load (m : Memory) (a : Nat) : Option Nat :=
  if a + 4 ≤ m.size then
    some (m.bytes a + m.bytes (a + 1) * 2 ^ 8 + m.bytes (a + 2) * 2 ^ 16 +
      m.bytes (a + 3) * 2 ^ 24)
  else none

/-- Little-endian store of the four low bytes; traps (`none`) outside the memory. -/
def store (m : Memory) (a v : Nat) : Option Memory :=
  if a + 4 ≤ m.size then
    some ⟨m.size, fun k => if a ≤ k ∧ k < a + 4 then v / 2 ^ (8 * (k - a)) % 256 else m.bytes k⟩
  else none

/-- Store of the low byte; traps (`none`) outside the memory. -/
def store8 (m : Memory) (a v : Nat) : Option Memory :=
  if a + 1 ≤ m.size then some ⟨m.size, fun k => if k = a then v % 256 else m.bytes k⟩ else none

end i32

/-! ## Keccak-256

The hashing functions of the polyfill. A function that writes memory returns the new memory,
`none` when an access traps. A `for` loop is a function on a fuel counter that returns `none`
when the fuel runs out; the fuel of the entry point is handed down to every loop. -/

def i8_load32 (m : Memory) (ptr : Nat) : Option Nat :=
  match i32.load m ptr with
  | none => none
  | some v => some (i32.and v 0xff)

def i8_load (m : Memory) (ptr : Nat) : Option Nat :=
  match i64.load m ptr with
  | none => none
  | some v => some (i64.and v 0xff)

/-- The loop of `memcpy`, from index `i`. -/
def memcpy_loop (dst src length : Nat) : Nat → Memory → Nat → Option Memory
  | 0, _, _ => none
  | fuel + 1, m, i =>
    if i32.lt_u i length ≠ 0 then
      match i8_load32 m (i32.add src i) with
      | none => none
      | some v =>
      match i32.store8 m (i32.add dst i) v with
      | none => none
      | some m => memcpy_loop dst src length fuel m (i32.add i 1)
    else some m

def memcpy (fuel : Nat) (m : Memory) (dst src length : Nat) : Option Memory :=
  memcpy_loop dst src length fuel m 0

/-- The loop of `memset`, from index `i`. -/
def memset_loop (ptr value length : Nat) : Nat → Memory → Nat → Option Memory
  | 0, _, _ => none
  | fuel + 1, m, i =>
    if i32.lt_u i length ≠ 0 then
      match i32.store8 m (i32.add ptr i) value with
      | none => none
      | some m => memset_loop ptr value length fuel m (i32.add i 1)
    else some m

def memset (fuel : Nat) (m : Memory) (ptr value length : Nat) : Option Memory :=
  memset_loop ptr value length fuel m 0

def keccak_reset (fuel : Nat) (m : Memory) (context_offset : Nat) : Option Memory :=
  memset fuel m context_offset 0x00 400

/-- The context is laid out as: 200 bytes of hashing state at offset 0, 8 bytes of residue
position at 200, 192 bytes of residue buffer at 208, 192 bytes of round constants at 400,
24 bytes of rotation constants at 592. -/
def keccak_init (fuel : Nat) (m : Memory) (context_offset : Nat) : Option Memory :=
  match keccak_reset fuel m context_offset with
  | none => none
  | some m =>
  let round_consts := i32.add context_offset 400
  match i64.store m (i32.add round_consts 0) 0x0000000000000001 with
  | none => none
  | some m =>
  match i64.store m (i32.add round_consts 8) 0x0000000000008082 with
  | none => none
  | some m =>
  match i64.store m (i32.add round_consts 16) 0x800000000000808A with
  | none => none
  | some m =>
  match i64.store m (i32.add round_consts 24) 0x8000000080008000 with
  | none => none
  | some m =>
  match i64.store m (i32.add round_consts 32) 0x000000000000808B with
  | none => none
  | some m =>
  match i64.store m (i32.add round_consts 40) 0x0000000080000001 with
  | none => none
  | some m =>
  match i64.store m (i32.add round_consts 48) 0x8000000080008081 with
  | none => none
  | some m =>
  match i64.store m (i32.add round_consts 56) 0x8000000000008009 with
  | none => none
  | some m =>
  match i64.store m (i32.add round_consts 64) 0x000000000000008A with
  | none => none
  | some m =>
  match i64.store m (i32.add round_consts 72) 0x0000000000000088 with
  | none => none
  | some m =>
  match i64.store m (i32.add round_consts 80) 0x0000000080008009 with
  | none => none
  | some m =>
  match i64.store m (i32.add round_consts 88) 0x000000008000000A with
  | none => none
  | some m =>
  match i64.store m (i32.add round_consts 96) 0x000000008000808B with
  | none => none
  | some m =>
  match i64.store m (i32.add round_consts 104) 0x800000000000008B with
  | none => none
  | some m =>
  match i64.store m (i32.add round_consts 112) 0x8000000000008089 with
  | none => none
  | some m =>
  match i64.store m (i32.add round_consts 120) 0x8000000000008003 with
  | none => none
  | some m =>
  match i64.store m (i32.add round_consts 128) 0x8000000000008002 with
  | none => none
  | some m =>
  match i64.store m (i32.add round_consts 136) 0x8000000000000080 with
  | none => none
  | some m =>
  match i64.store m (i32.add round_consts 144) 0x000000000000800A with
  | none => none
  | some m =>
  match i64.store m (i32.add round_consts 152) 0x800000008000000A with
  | none => none
  | some m =>
  match i64.store m (i32.add round_consts 160) 0x8000000080008081 with
  | none => none
  | some m =>
  match i64.store m (i32.add round_consts 168) 0x8000000000008080 with
  | none => none
  | some m =>
  match i64.store m (i32.add round_consts 176) 0x0000000080000001 with
  | none => none
  | some m =>
  match i64.store m (i32.add round_consts 184) 0x8000000080008008 with
  | none => none
  | some m =>
  let rotation_consts := i32.add context_offset 592
  match i32.store8 m (i32.add rotation_consts 0) 1 with
  | none => none
  | some m =>
  match i32.store8 m (i32.add rotation_consts 1) 62 with
  | none => none
  | some m =>
  match i32.store8 m (i32.add rotation_consts 2) 28 with
  | none => none
  | some m =>
  match i32.store8 m (i32.add rotation_consts 3) 27 with
  | none => none
  | some m =>
  match i32.store8 m (i32.add rotation_consts 4) 36 with
  | none => none
  | some m =>
  match i32.store8 m (i32.add rotation_consts 5) 44 with
  | none => none
  | some m =>
  match i32.store8 m (i32.add rotation_consts 6) 6 with
  | none => none
  | some m =>
  match i32.store8 m (i32.add rotation_consts 7) 55 with
  | none => none
  | some m =>
  match i32.store8 m (i32.add rotation_consts 8) 20 with
  | none => none
  | some m =>
  match i32.store8 m (i32.add rotation_consts 9) 3 with
  | none => none
  | some m =>
  match i32.store8 m (i32.add rotation_consts 10) 10 with
  | none => none
  | some m =>
  match i32.store8 m (i32.add rotation_consts 11) 43 with
  | none => none
  | some m =>
  match i32.store8 m (i32.add rotation_consts 12) 25 with
  | none => none
  | some m =>
  match i32.store8 m (i32.add rotation_consts 13) 39 with
  | none => none
  | some m =>
  match i32.store8 m (i32.add rotation_consts 14) 41 with
  | none => none
  | some m =>
  match i32.store8 m (i32.add rotation_consts 15) 45 with
  | none => none
  | some m =>
  match i32.store8 m (i32.add rotation_consts 16) 15 with
  | none => none
  | some m =>
  match i32.store8 m (i32.add rotation_consts 17) 21 with
  | none => none
  | some m =>
  match i32.store8 m (i32.add rotation_consts 18) 8 with
  | none => none
  | some m =>
  match i32.store8 m (i32.add rotation_consts 19) 18 with
  | none => none
  | some m =>
  match i32.store8 m (i32.add rotation_consts 20) 2 with
  | none => none
  | some m =>
  match i32.store8 m (i32.add rotation_consts 21) 61 with
  | none => none
  | some m =>
  match i32.store8 m (i32.add rotation_consts 22) 56 with
  | none => none
  | some m =>
  i32.store8 m (i32.add rotation_consts 23) 14

def rotl64 (x y : Nat) : Nat :=
  i64.or (i64.shl x y) (i64.shr_u x (i64.sub 64 y))

/-- Column parity: `A[x] ^ A[x + 5] ^ A[x + 10] ^ A[x + 15] ^ A[x + 20]`. -/
def C (m : Memory) (context_offset x : Nat) : Option Nat :=
  match i64.load m (i32.add context_offset (i32.mul x 8)) with
  | none => none
  | some a0 =>
  match i64.load m (i32.add context_offset (i32.mul (i32.add x 5) 8)) with
  | none => none
  | some a1 =>
  match i64.load m (i32.add context_offset (i32.mul (i32.add x 10) 8)) with
  | none => none
  | some a2 =>
  match i64.load m (i32.add context_offset (i32.mul (i32.add x 15) 8)) with
  | none => none
  | some a3 =>
  match i64.load m (i32.add context_offset (i32.mul (i32.add x 20) 8)) with
  | none => none
  | some a4 =>
  some (i64.xor a0 (i64.xor a1 (i64.xor a2 (i64.xor a3 a4))))

def D (x y : Nat) : Nat :=
  i64.xor x (rotl64 y 1)

/-- The first access is at `context_offset + x`, the other four at
`context_offset + (x + 5 k) * 8`. -/
def A (m : Memory) (context_offset x dx : Nat) : Option Memory :=
  match i64.load m (i32.add context_offset x) with
  | none => none
  | some a =>
  match i64.store m (i32.add context_offset x) (i64.xor a dx) with
  | none => none
  | some m =>
  match i64.load m (i32.add context_offset (i32.mul (i32.add x 5) 8)) with
  | none => none
  | some a =>
  match i64.store m (i32.add context_offset (i32.mul (i32.add x 5) 8)) (i64.xor a dx) with
  | none => none
  | some m =>
  match i64.load m (i32.add context_offset (i32.mul (i32.add x 10) 8)) with
  | none => none
  | some a =>
  match i64.store m (i32.add context_offset (i32.mul (i32.add x 10) 8)) (i64.xor a dx) with
  | none => none
  | some m =>
  match i64.load m (i32.add context_offset (i32.mul (i32.add x 15) 8)) with
  | none => none
  | some a =>
  match i64.store m (i32.add context_offset (i32.mul (i32.add x 15) 8)) (i64.xor a dx) with
  | none => none
  | some m =>
  match i64.load m (i32.add context_offset (i32.mul (i32.add x 20) 8)) with
  | none => none
  | some a =>
  i64.store m (i32.add context_offset (i32.mul (i32.add x 20) 8)) (i64.xor a dx)

def keccak_theta (m : Memory) (context_offset : Nat) : Option Memory :=
  match C m context_offset 0 with
  | none => none
  | some c0 =>
  match C m context_offset 1 with
  | none => none
  | some c1 =>
  match C m context_offset 2 with
  | none => none
  | some c2 =>
  match C m context_offset 3 with
  | none => none
  | some c3 =>
  match C m context_offset 4 with
  | none => none
  | some c4 =>
  let d0 := D c1 c4
  let d1 := D c2 c0
  let d2 := D c3 c1
  let d3 := D c4 c2
  let d4 := D c0 c3
  match A m context_offset 0 d0 with
  | none => none
  | some m =>
  match A m context_offset 1 d1 with
  | none => none
  | some m =>
  match A m context_offset 2 d2 with
  | none => none
  | some m =>
  match A m context_offset 3 d3 with
  | none => none
  | some m =>
  A m context_offset 4 d4

/-- The loop of `keccak_rho`, from lane `round + 1`. -/
def keccak_rho_loop (context_offset rotation_consts : Nat) : Nat → Memory → Nat → Option Memory
  | 0, _, _ => none
  | fuel + 1, m, round =>
    if i32.lt_u round 24 ≠ 0 then
      let tmp := i32.add context_offset (i32.mul 8 (i32.add 1 round))
      match i64.load m tmp with
      | none => none
      | some a =>
      match i8_load m (i32.add rotation_consts round) with
      | none => none
      | some r =>
      match i64.store m tmp (rotl64 a r) with
      | none => none
      | some m => keccak_rho_loop context_offset rotation_consts fuel m (i32.add round 1)
    else some m

def keccak_rho (fuel : Nat) (m : Memory) (context_offset rotation_consts : Nat) :
    Option Memory :=
  keccak_rho_loop context_offset rotation_consts fuel m 0

def keccak_pi (m : Memory) (context_offset : Nat) : Option Memory :=
  match i64.load m (i32.add context_offset 8) with
  | none => none
  | some a1 =>
  match i64.load m (i32.add context_offset 48) with
  | none => none
  | some v =>
  match i64.store m (i32.add context_offset 8) v with
  | none => none
  | some m =>
  match i64.load m (i32.add context_offset 72) with
  | none => none
  | some v =>
  match i64.store m (i32.add context_offset 48) v with
  | none => none
  | some m =>
  match i64.load m (i32.add context_offset 176) with
  | none => none
  | some v =>
  match i64.store m (i32.add context_offset 72) v with
  | none => none
  | some m =>
  match i64.load m (i32.add context_offset 112) with
  | none => none
  | some v =>
  match i64.store m (i32.add context_offset 176) v with
  | none => none
  | some m =>
  match i64.load m (i32.add context_offset 160) with
  | none => none
  | some v =>
  match i64.store m (i32.add context_offset 112) v with
  | none => none
  | some m =>
  match i64.load m (i32.add context_offset 16) with
  | none => none
  | some v =>
  match i64.store m (i32.add context_offset 160) v with
  | none => none
  | some m =>
  match i64.load m (i32.add context_offset 96) with
  | none => none
  | some v =>
  match i64.store m (i32.add context_offset 16) v with
  | none => none
  | some m =>
  match i64.load m (i32.add context_offset 104) with
  | none => none
  | some v =>
  match i64.store m (i32.add context_offset 96) v with
  | none => none
  | some m =>
  match i64.load m (i32.add context_offset 152) with
  | none => none
  | some v =>
  match i64.store m (i32.add context_offset 104) v with
  | none => none
  | some m =>
  match i64.load m (i32.add context_offset 184) with
  | none => none
  | some v =>
  match i64.store m (i32.add context_offset 152) v with
  | none => none
  | some m =>
  match i64.load m (i32.add context_offset 120) with
  | none => none
  | some v =>
  match i64.store m (i32.add context_offset 184) v with
  | none => none
  | some m =>
  match i64.load m (i32.add context_offset 32) with
  | none => none
  | some v =>
  match i64.store m (i32.add context_offset 120) v with
  | none => none
  | some m =>
  match i64.load m (i32.add context_offset 192) with
  | none => none
  | some v =>
  match i64.store m (i32.add context_offset 32) v with
  | none => none
  | some m =>
  match i64.load m (i32.add context_offset 168) with
  | none => none
  | some v =>
  match i64.store m (i32.add context_offset 192) v with
  | none => none
  | some m =>
  match i64.load m (i32.add context_offset 64) with
  | none => none
  | some v =>
  match i64.store m (i32.add context_offset 168) v with
  | none => none
  | some m =>
  match i64.load m (i32.add context_offset 128) with
  | none => none
  | some v =>
  match i64.store m (i32.add context_offset 64) v with
  | none => none
  | some m =>
  match i64.load m (i32.add context_offset 40) with
  | none => none
  | some v =>
  match i64.store m (i32.add context_offset 128) v with
  | none => none
  | some m =>
  match i64.load m (i32.add context_offset 24) with
  | none => none
  | some v =>
  match i64.store m (i32.add context_offset 40) v with
  | none => none
  | some m =>
  match i64.load m (i32.add context_offset 144) with
  | none => none
  | some v =>
  match i64.store m (i32.add context_offset 24) v with
  | none => none
  | some m =>
  match i64.load m (i32.add context_offset 136) with
  | none => none
  | some v =>
  match i64.store m (i32.add context_offset 144) v with
  | none => none
  | some m =>
  match i64.load m (i32.add context_offset 88) with
  | none => none
  | some v =>
  match i64.store m (i32.add context_offset 136) v with
  | none => none
  | some m =>
  match i64.load m (i32.add context_offset 56) with
  | none => none
  | some v =>
  match i64.store m (i32.add context_offset 88) v with
  | none => none
  | some m =>
  match i64.load m (i32.add context_offset 80) with
  | none => none
  | some v =>
  match i64.store m (i32.add context_offset 56) v with
  | none => none
  | some m =>
  i64.store m (i32.add context_offset 80) a1

/-- The loop of `keccak_chi`, from row start `i`. -/
def keccak_chi_loop (context_offset : Nat) : Nat → Memory → Nat → Option Memory
  | 0, _, _ => none
  | fuel + 1, m, i =>
    if i32.lt_u i 25 ≠ 0 then
      match i64.load m (i32.add context_offset (i32.mul 8 i)) with
      | none => none
      | some a0 =>
      match i64.load m (i32.add context_offset (i32.mul 8 (i32.add i 1))) with
      | none => none
      | some a1 =>
      match i64.load m (i32.add context_offset (i32.mul 8 i)) with
      | none => none
      | some x =>
      match i64.load m (i32.add context_offset (i32.mul 8 (i32.add i 2))) with
      | none => none
      | some y =>
      match i64.store m (i32.add context_offset (i32.mul 8 i)) (i64.xor x (i64.and (i64.xor a1 0xFFFFFFFFFFFFFFFF) y)) with
      | none => none
      | some m =>
      match i64.load m (i32.add context_offset (i32.mul 8 (i32.add i 1))) with
      | none => none
      | some x =>
      match i64.load m (i32.add context_offset (i32.mul 8 (i32.add i 2))) with
      | none => none
      | some n =>
      match i64.load m (i32.add context_offset (i32.mul 8 (i32.add i 3))) with
      | none => none
      | some y =>
      match i64.store m (i32.add context_offset (i32.mul 8 (i32.add i 1))) (i64.xor x (i64.and (i64.xor n 0xFFFFFFFFFFFFFFFF) y)) with
      | none => none
      | some m =>
      match i64.load m (i32.add context_offset (i32.mul 8 (i32.add i 2))) with
      | none => none
      | some x =>
      match i64.load m (i32.add context_offset (i32.mul 8 (i32.add i 3))) with
      | none => none
      | some n =>
      match i64.load m (i32.add context_offset (i32.mul 8 (i32.add i 4))) with
      | none => none
      | some y =>
      match i64.store m (i32.add context_offset (i32.mul 8 (i32.add i 2))) (i64.xor x (i64.and (i64.xor n 0xFFFFFFFFFFFFFFFF) y)) with
      | none => none
      | some m =>
      match i64.load m (i32.add context_offset (i32.mul 8 (i32.add i 3))) with
      | none => none
      | some x =>
      match i64.load m (i32.add context_offset (i32.mul 8 (i32.add i 4))) with
      | none => none
      | some n =>
      match i64.store m (i32.add context_offset (i32.mul 8 (i32.add i 3))) (i64.xor x (i64.and (i64.xor n 0xFFFFFFFFFFFFFFFF) a0)) with
      | none => none
      | some m =>
      match i64.load m (i32.add context_offset (i32.mul 8 (i32.add i 4))) with
      | none => none
      | some x =>
      match i64.store m (i32.add context_offset (i32.mul 8 (i32.add i 4))) (i64.xor x (i64.and (i64.xor a0 0xFFFFFFFFFFFFFFFF) a1)) with
      | none => none
      | some m =>
      keccak_chi_loop context_offset fuel m (i32.add i 5)
    else some m

def keccak_chi (fuel : Nat) (m : Memory) (context_offset : Nat) : Option Memory :=
  keccak_chi_loop context_offset fuel m 0

/-- The loop of `keccak_permute`, from round `round`; `fuel` is handed to the inner loops. -/
def keccak_permute_loop (context_offset round_consts rotation_consts : Nat) (fuel : Nat) :
    Nat → Memory → Nat → Option Memory
  | 0, _, _ => none
  | k + 1, m, round =>
    if i32.lt_u round 24 ≠ 0 then
      match keccak_theta m context_offset with
      | none => none
      | some m =>
      match keccak_rho fuel m context_offset rotation_consts with
      | none => none
      | some m =>
      match keccak_pi m context_offset with
      | none => none
      | some m =>
      match keccak_chi fuel m context_offset with
      | none => none
      | some m =>
      match i64.load m context_offset with
      | none => none
      | some a =>
      match i64.load m (i32.add round_consts (i32.mul 8 round)) with
      | none => none
      | some rc =>
      match i64.store m context_offset (i64.xor a rc) with
      | none => none
      | some m =>
      keccak_permute_loop context_offset round_consts rotation_consts fuel k m (i32.add round 1)
    else some m

def keccak_permute (fuel : Nat) (m : Memory) (context_offset : Nat) : Option Memory :=
  let round_consts := i32.add context_offset 400
  let rotation_consts := i32.add context_offset 592
  keccak_permute_loop context_offset round_consts rotation_consts fuel fuel m 0

def keccak_block (fuel : Nat) (m : Memory) (context_offset input_offset _input_length : Nat) :
    Option Memory :=
  match i64.load m (i32.add context_offset 0) with
  | none => none
  | some a =>
  match i64.load m (i32.add input_offset 0) with
  | none => none
  | some b =>
  match i64.store m (i32.add context_offset 0) (i64.xor a b) with
  | none => none
  | some m =>
  match i64.load m (i32.add context_offset 8) with
  | none => none
  | some a =>
  match i64.load m (i32.add input_offset 8) with
  | none => none
  | some b =>
  match i64.store m (i32.add context_offset 8) (i64.xor a b) with
  | none => none
  | some m =>
  match i64.load m (i32.add context_offset 16) with
  | none => none
  | some a =>
  match i64.load m (i32.add input_offset 16) with
  | none => none
  | some b =>
  match i64.store m (i32.add context_offset 16) (i64.xor a b) with
  | none => none
  | some m =>
  match i64.load m (i32.add context_offset 24) with
  | none => none
  | some a =>
  match i64.load m (i32.add input_offset 24) with
  | none => none
  | some b =>
  match i64.store m (i32.add context_offset 24) (i64.xor a b) with
  | none => none
  | some m =>
  match i64.load m (i32.add context_offset 32) with
  | none => none
  | some a =>
  match i64.load m (i32.add input_offset 32) with
  | none => none
  | some b =>
  match i64.store m (i32.add context_offset 32) (i64.xor a b) with
  | none => none
  | some m =>
  match i64.load m (i32.add context_offset 40) with
  | none => none
  | some a =>
  match i64.load m (i32.add input_offset 40) with
  | none => none
  | some b =>
  match i64.store m (i32.add context_offset 40) (i64.xor a b) with
  | none => none
  | some m =>
  match i64.load m (i32.add context_offset 48) with
  | none => none
  | some a =>
  match i64.load m (i32.add input_offset 48) with
  | none => none
  | some b =>
  match i64.store m (i32.add context_offset 48) (i64.xor a b) with
  | none => none
  | some m =>
  match i64.load m (i32.add context_offset 56) with
  | none => none
  | some a =>
  match i64.load m (i32.add input_offset 56) with
  | none => none
  | some b =>
  match i64.store m (i32.add context_offset 56) (i64.xor a b) with
  | none => none
  | some m =>
  match i64.load m (i32.add context_offset 64) with
  | none => none
  | some a =>
  match i64.load m (i32.add input_offset 64) with
  | none => none
  | some b =>
  match i64.store m (i32.add context_offset 64) (i64.xor a b) with
  | none => none
  | some m =>
  match i64.load m (i32.add context_offset 72) with
  | none => none
  | some a =>
  match i64.load m (i32.add input_offset 72) with
  | none => none
  | some b =>
  match i64.store m (i32.add context_offset 72) (i64.xor a b) with
  | none => none
  | some m =>
  match i64.load m (i32.add context_offset 80) with
  | none => none
  | some a =>
  match i64.load m (i32.add input_offset 80) with
  | none => none
  | some b =>
  match i64.store m (i32.add context_offset 80) (i64.xor a b) with
  | none => none
  | some m =>
  match i64.load m (i32.add context_offset 88) with
  | none => none
  | some a =>
  match i64.load m (i32.add input_offset 88) with
  | none => none
  | some b =>
  match i64.store m (i32.add context_offset 88) (i64.xor a b) with
  | none => none
  | some m =>
  match i64.load m (i32.add context_offset 96) with
  | none => none
  | some a =>
  match i64.load m (i32.add input_offset 96) with
  | none => none
  | some b =>
  match i64.store m (i32.add context_offset 96) (i64.xor a b) with
  | none => none
  | some m =>
  match i64.load m (i32.add context_offset 104) with
  | none => none
  | some a =>
  match i64.load m (i32.add input_offset 104) with
  | none => none
  | some b =>
  match i64.store m (i32.add context_offset 104) (i64.xor a b) with
  | none => none
  | some m =>
  match i64.load m (i32.add context_offset 112) with
  | none => none
  | some a =>
  match i64.load m (i32.add input_offset 112) with
  | none => none
  | some b =>
  match i64.store m (i32.add context_offset 112) (i64.xor a b) with
  | none => none
  | some m =>
  match i64.load m (i32.add context_offset 120) with
  | none => none
  | some a =>
  match i64.load m (i32.add input_offset 120) with
  | none => none
  | some b =>
  match i64.store m (i32.add context_offset 120) (i64.xor a b) with
  | none => none
  | some m =>
  match i64.load m (i32.add context_offset 128) with
  | none => none
  | some a =>
  match i64.load m (i32.add input_offset 128) with
  | none => none
  | some b =>
  match i64.store m (i32.add context_offset 128) (i64.xor a b) with
  | none => none
  | some m =>
  keccak_permute fuel m context_offset

/-- The loop `while input_length > 136` of `keccak_update`; it returns the memory, the input
offset and the input length it ends with. -/
def keccak_update_loop (context_offset : Nat) (fuel : Nat) :
    Nat → Memory → Nat → Nat → Option (Memory × Nat × Nat)
  | 0, _, _, _ => none
  | k + 1, m, input_offset, input_length =>
    if i32.gt_u input_length 136 ≠ 0 then
      match keccak_block fuel m context_offset input_offset 136 with
      | none => none
      | some m =>
        keccak_update_loop context_offset fuel k m (i32.add input_offset 136)
          (i32.sub input_length 136)
    else some (m, input_offset, input_length)

/-- The block of `keccak_update` that runs when the residue buffer is complete; it returns
the memory and the residue index it ends with. -/
def keccak_update_complete (fuel : Nat) (m : Memory)
    (context_offset input_offset residue_index : Nat) : Option (Memory × Nat) :=
  if i32.eq residue_index 136 ≠ 0 then
    match keccak_block fuel m context_offset input_offset 136 with
    | none => none
    | some m => some (m, 0)
  else some (m, residue_index)

/-- The block of `keccak_update` that processes the residue of the last call; it returns the
memory, the residue index and the input length it ends with. -/
def keccak_update_residue (fuel : Nat) (m : Memory)
    (context_offset input_offset input_length residue_offset residue_buffer residue_index : Nat) :
    Option (Memory × Nat × Nat) :=
  if i32.ne residue_index 0 ≠ 0 then
    let tmp := i32.sub 136 residue_index
    let tmp := if i32.lt_u input_length tmp ≠ 0 then input_length else tmp
    match memcpy fuel m (i32.add residue_buffer residue_index) input_offset tmp with
    | none => none
    | some m =>
    let residue_index := i32.add residue_index tmp
    match keccak_update_complete fuel m context_offset input_offset residue_index with
    | none => none
    | some (m, residue_index) =>
    match i32.store m residue_offset residue_index with
    | none => none
    | some m => some (m, residue_index, i32.sub input_length tmp)
  else some (m, residue_index, input_length)

def keccak_update (fuel : Nat) (m : Memory) (context_offset input_offset input_length : Nat) :
    Option Memory :=
  let residue_offset := i32.add context_offset 200
  let residue_buffer := i32.add context_offset 208
  match i32.load m residue_offset with
  | none => none
  | some residue_index =>
  match keccak_update_residue fuel m context_offset input_offset input_length residue_offset
      residue_buffer residue_index with
  | none => none
  | some (m, residue_index, input_length) =>
  match keccak_update_loop context_offset fuel fuel m input_offset input_length with
  | none => none
  | some (m, input_offset, input_length) =>
  if i32.gt_u input_length 0 ≠ 0 then
    match memcpy fuel m (i32.add residue_buffer residue_index) input_offset input_length with
    | none => none
    | some m =>
    let residue_index := i32.add residue_index input_length
    i32.store m residue_offset residue_index
  else some m

def keccak_finish (fuel : Nat) (m : Memory) (context_offset output_offset : Nat) :
    Option Memory :=
  let residue_offset := i32.add context_offset 200
  let residue_buffer := i32.add context_offset 208
  match i32.load m residue_offset with
  | none => none
  | some residue_index =>
  let tmp := residue_index
  match memset fuel m (i32.add residue_buffer tmp) 0x00 (i32.sub 136 tmp) with
  | none => none
  | some m =>
  let tmp := i32.add residue_buffer residue_index
  match i8_load32 m tmp with
  | none => none
  | some v =>
  match i32.store8 m tmp (i32.or v 0x01) with
  | none => none
  | some m =>
  let tmp := i32.add residue_buffer 135
  match i8_load32 m tmp with
  | none => none
  | some v =>
  match i32.store8 m tmp (i32.or v 0x80) with
  | none => none
  | some m =>
  match keccak_block fuel m context_offset residue_buffer 136 with
  | none => none
  | some m =>
  match i64.load m context_offset with
  | none => none
  | some v =>
  match i64.store m output_offset v with
  | none => none
  | some m =>
  match i64.load m (i32.add context_offset 8) with
  | none => none
  | some v =>
  match i64.store m (i32.add output_offset 8) v with
  | none => none
  | some m =>
  match i64.load m (i32.add context_offset 16) with
  | none => none
  | some v =>
  match i64.store m (i32.add output_offset 16) v with
  | none => none
  | some m =>
  match i64.load m (i32.add context_offset 24) with
  | none => none
  | some v =>
  i64.store m (i32.add output_offset 24) v

/-- The input pointer is converted with `u256_to_i32ptr`. The result limbs are loaded from
the output offset as they are. -/
def keccak256 (fuel : Nat) (m : Memory) (x1 x2 x3 x4 y1 y2 y3 y4 : Nat) :
    Option (Memory × W256) :=
  match u256_to_i32ptr x1 x2 x3 x4 with
  | none => none
  | some input_offset =>
  match u256_to_i32 y1 y2 y3 y4 with
  | none => none
  | some input_length =>
  let context_offset := 0xF000
  let output_offset := 0x0000
  match keccak_init fuel m context_offset with
  | none => none
  | some m =>
  match keccak_update fuel m context_offset input_offset input_length with
  | none => none
  | some m =>
  match keccak_finish fuel m context_offset output_offset with
  | none => none
  | some m =>
  match i64.load m output_offset with
  | none => none
  | some z1 =>
  match i64.load m (i32.add output_offset 8) with
  | none => none
  | some z2 =>
  match i64.load m (i32.add output_offset 16) with
  | none => none
  | some z3 =>
  match i64.load m (i32.add output_offset 24) with
  | none => none
  | some z4 =>
  some (m, (z1, z2, z3, z4))

/-! ## Host bridge

The host functions of the module `eth` are imported, not defined, by the polyfill: a function
that calls one takes it as a parameter. -/

/-- How execution ends other than by returning: a trap, or the host call `eth.revert`. -/
inductive Halt
  | trap
  | revert (dataOffset length : Nat)

/-- Copies `s` bytes of call data at `f` to memory at `t`; `cds` is the result of
`eth.getCallDataSize`, `callDataCopy` the host function. -/
def calldatacopy (callDataCopy : Memory → Nat → Nat → Nat → Except Halt Memory) (cds : Nat)
    (m : Memory) (x1 x2 x3 x4 y1 y2 y3 y4 z1 z2 z3 z4 : Nat) : Except Halt Memory :=
  match u256_to_i32 y1 y2 y3 y4 with
  | none => Except.error Halt.trap
  | some offset =>
  match u256_to_i32 z1 z2 z3 z4 with
  | none => Except.error Halt.trap
  | some size =>
  if i32.gt_u offset (i32.sub 0xffffffff size) ≠ 0 then Except.error (Halt.revert 0 0)
  else
    let size := if i32.gt_u (i32.add size offset) cds ≠ 0 then i32.sub cds offset else size
    if i32.gt_u size 0 ≠ 0 then
      match u256_to_i32 x1 x2 x3 x4 with
      | none => Except.error Halt.trap
      | some t => callDataCopy m t offset size
    else Except.ok m

def codecopy (codeCopy : Memory → Nat → Nat → Nat → Except Halt Memory)
    (m : Memory) (x1 x2 x3 x4 y1 y2 y3 y4 z1 z2 z3 z4 : Nat) : Except Halt Memory :=
  match to_internal_i32ptr x1 x2 x3 x4 with
  | none => Except.error Halt.trap
  | some t =>
  match u256_to_i32 y1 y2 y3 y4 with
  | none => Except.error Halt.trap
  | some offset =>
  match u256_to_i32 z1 z2 z3 z4 with
  | none => Except.error Halt.trap
  | some size => codeCopy m t offset size

/-! ## Packed memory images

A memory whose bytes are the base-256 digits of one natural number. The memory accesses on an
image are shifts and remainders of that number, and the hashing functions are repeated on
images, statement for statement, so that they can be evaluated on a whole memory. -/

/-- A memory image: its size in bytes and the number whose base-256 digit `k` is byte `k`. -/
structure Image where
  size : Nat
  bits : Nat

/-- The memory an image stands for. -/
def Image.toMemory (s : Image) : Memory :=
  ⟨s.size, fun k => s.bits / 256 ^ k % 256⟩

/-- The memory of a result that also carries numbers. -/
def Image.lift {α : Type} (r : Image × α) : Memory × α := (r.1.toMemory, r.2)

namespace Packed

/-- The `n` bytes of `bits` from byte `a` on, as a number. -/
def field (bits a n : Nat) : Nat :=
  (bits >>> (8 * a)) % 2 ^ (8 * n)

/-- The number `bits` with the `n` bytes from byte `a` on replaced by the low bytes of `v`. -/
def replace (bits a n v : Nat) : Nat :=
  bits - (field bits a n <<< (8 * a)) + ((v % 2 ^ (8 * n)) <<< (8 * a))

namespace i64

def load (s : Image) (a : Nat) : Option Nat :=
  if a + 8 ≤ s.size then some (field s.bits a 8) else none

def store (s : Image) (a v : Nat) : Option Image :=
  if a + 8 ≤ s.size then some ⟨s.size, replace s.bits a 8 v⟩ else none

end i64

namespace i32

def load (s : Image) (a : Nat) : Option Nat :=
  if a + 4 ≤ s.size then some (field s.bits a 4) else none

def store (s : Image) (a v : Nat) : Option Image :=
  if a + 4 ≤ s.size then some ⟨s.size, replace s.bits a 4 v⟩ else none

def store8 (s : Image) (a v : Nat) : Option Image :=
  if a + 1 ≤ s.size then some ⟨s.size, replace s.bits a 1 v⟩ else none

end i32

def i8_load32 (m : Image) (ptr : Nat) : Option Nat :=
  match i32.load m ptr with
  | none => none
  | some v => some (i32.and v 0xff)

def i8_load (m : Image) (ptr : Nat) : Option Nat :=
  match i64.load m ptr with
  | none => none
  | some v => some (i64.and v 0xff)

def memcpy_loop (dst src length : Nat) : Nat → Image → Nat → Option Image
  | 0, _, _ => none
  | fuel + 1, m, i =>
    if i32.lt_u i length ≠ 0 then
      match i8_load32 m (i32.add src i) with
      | none => none
      | some v =>
      match i32.store8 m (i32.add dst i) v with
      | none => none
      | some m => memcpy_loop dst src length fuel m (i32.add i 1)
    else some m

def memcpy (fuel : Nat) (m : Image) (dst src length : Nat) : Option Image :=
  memcpy_loop dst src length fuel m 0

def memset_loop (ptr value length : Nat) : Nat → Image → Nat → Option Image
  | 0, _, _ => none
  | fuel + 1, m, i =>
    if i32.lt_u i length ≠ 0 then
      match i32.store8 m (i32.add ptr i) value with
      | none => none
      | some m => memset_loop ptr value length fuel m (i32.add i 1)
    else some m

def memset (fuel : Nat) (m : Image) (ptr value length : Nat) : Option Image :=
  memset_loop ptr value length fuel m 0

def keccak_reset (fuel : Nat) (m : Image) (context_offset : Nat) : Option Image :=
  memset fuel m context_offset 0x00 400

def keccak_init (fuel : Nat) (m : Image) (context_offset : Nat) : Option Image :=
  match keccak_reset fuel m context_offset with
  | none => none
  | some m =>
  let round_consts := i32.add context_offset 400
  match i64.store m (i32.add round_consts 0) 0x0000000000000001 with
  | none => none
  | some m =>
  match i64.store m (i32.add round_consts 8) 0x0000000000008082 with
  | none => none
  | some m =>
  match i64.store m (i32.add round_consts 16) 0x800000000000808A with
  | none => none
  | some m =>
  match i64.store m (i32.add round_consts 24) 0x8000000080008000 with
  | none => none
  | some m =>
  match i64.store m (i32.add round_consts 32) 0x000000000000808B with
  | none => none
  | some m =>
  match i64.store m (i32.add round_consts 40) 0x0000000080000001 with
  | none => none
  | some m =>
  match i64.store m (i32.add round_consts 48) 0x8000000080008081 with
  | none => none
  | some m =>
  match i64.store m (i32.add round_consts 56) 0x8000000000008009 with
  | none => none
  | some m =>
  match i64.store m (i32.add round_consts 64) 0x000000000000008A with
  | none => none
  | some m =>
  match i64.store m (i32.add round_consts 72) 0x0000000000000088 with
  | none => none
  | some m =>
  match i64.store m (i32.add round_consts 80) 0x0000000080008009 with
  | none => none
  | some m =>
  match i64.store m (i32.add round_consts 88) 0x000000008000000A with
  | none => none
  | some m =>
  match i64.store m (i32.add round_consts 96) 0x000000008000808B with
  | none => none
  | some m =>
  match i64.store m (i32.add round_consts 104) 0x800000000000008B with
  | none => none
  | some m =>
  match i64.store m (i32.add round_consts 112) 0x8000000000008089 with
  | none => none
  | some m =>
  match i64.store m (i32.add round_consts 120) 0x8000000000008003 with
  | none => none
  | some m =>
  match i64.store m (i32.add round_consts 128) 0x8000000000008002 with
  | none => none
  | some m =>
  match i64.store m (i32.add round_consts 136) 0x8000000000000080 with
  | none => none
  | some m =>
  match i64.store m (i32.add round_consts 144) 0x000000000000800A with
  | none => none
  | some m =>
  match i64.store m (i32.add round_consts 152) 0x800000008000000A with
  | none => none
  | some m =>
  match i64.store m (i32.add round_consts 160) 0x8000000080008081 with
  | none => none
  | some m =>
  match i64.store m (i32.add round_consts 168) 0x8000000000008080 with
  | none => none
  | some m =>
  match i64.store m (i32.add round_consts 176) 0x0000000080000001 with
  | none => none
  | some m =>
  match i64.store m (i32.add round_consts 184) 0x8000000080008008 with
  | none => none
  | some m =>
  let rotation_consts := i32.add context_offset 592
  match i32.store8 m (i32.add rotation_consts 0) 1 with
  | none => none
  | some m =>
  match i32.store8 m (i32.add rotation_consts 1) 62 with
  | none => none
  | some m =>
  match i32.store8 m (i32.add rotation_consts 2) 28 with
  | none => none
  | some m =>
  match i32.store8 m (i32.add rotation_consts 3) 27 with
  | none => none
  | some m =>
  match i32.store8 m (i32.add rotation_consts 4) 36 with
  | none => none
  | some m =>
  match i32.store8 m (i32.add rotation_consts 5) 44 with
  | none => none
  | some m =>
  match i32.store8 m (i32.add rotation_consts 6) 6 with
  | none => none
  | some m =>
  match i32.store8 m (i32.add rotation_consts 7) 55 with
  | none => none
  | some m =>
  match i32.store8 m (i32.add rotation_consts 8) 20 with
  | none => none
  | some m =>
  match i32.store8 m (i32.add rotation_consts 9) 3 with
  | none => none
  | some m =>
  match i32.store8 m (i32.add rotation_consts 10) 10 with
  | none => none
  | some m =>
  match i32.store8 m (i32.add rotation_consts 11) 43 with
  | none => none
  | some m =>
  match i32.store8 m (i32.add rotation_consts 12) 25 with
  | none => none
  | some m =>
  match i32.store8 m (i32.add rotation_consts 13) 39 with
  | none => none
  | some m =>
  match i32.store8 m (i32.add rotation_consts 14) 41 with
  | none => none
  | some m =>
  match i32.store8 m (i32.add rotation_consts 15) 45 with
  | none => none
  | some m =>
  match i32.store8 m (i32.add rotation_consts 16) 15 with
  | none => none
  | some m =>
  match i32.store8 m (i32.add rotation_consts 17) 21 with
  | none => none
  | some m =>
  match i32.store8 m (i32.add rotation_consts 18) 8 with
  | none => none
  | some m =>
  match i32.store8 m (i32.add rotation_consts 19) 18 with
  | none => none
  | some m =>
  match i32.store8 m (i32.add rotation_consts 20) 2 with
  | none => none
  | some m =>
  match i32.store8 m (i32.add rotation_consts 21) 61 with
  | none => none
  | some m =>
  match i32.store8 m (i32.add rotation_consts 22) 56 with
  | none => none
  | some m =>
  i32.store8 m (i32.add rotation_consts 23) 14

def C (m : Image) (context_offset x : Nat) : Option Nat :=
  match i64.load m (i32.add context_offset (i32.mul x 8)) with
  | none => none
  | some a0 =>
  match i64.load m (i32.add context_offset (i32.mul (i32.add x 5) 8)) with
  | none => none
  | some a1 =>
  match i64.load m (i32.add context_offset (i32.mul (i32.add x 10) 8)) with
  | none => none
  | some a2 =>
  match i64.load m (i32.add context_offset (i32.mul (i32.add x 15) 8)) with
  | none => none
  | some a3 =>
  match i64.load m (i32.add context_offset (i32.mul (i32.add x 20) 8)) with
  | none => none
  | some a4 =>
  some (i64.xor a0 (i64.xor a1 (i64.xor a2 (i64.xor a3 a4))))

def A (m : Image) (context_offset x dx : Nat) : Option Image :=
  match i64.load m (i32.add context_offset x) with
  | none => none
  | some a =>
  match i64.store m (i32.add context_offset x) (i64.xor a dx) with
  | none => none
  | some m =>
  match i64.load m (i32.add context_offset (i32.mul (i32.add x 5) 8)) with
  | none => none
  | some a =>
  match i64.store m (i32.add context_offset (i32.mul (i32.add x 5) 8)) (i64.xor a dx) with
  | none => none
  | some m =>
  match i64.load m (i32.add context_offset (i32.mul (i32.add x 10) 8)) with
  | none => none
  | some a =>
  match i64.store m (i32.add context_offset (i32.mul (i32.add x 10) 8)) (i64.xor a dx) with
  | none => none
  | some m =>
  match i64.load m (i32.add context_offset (i32.mul (i32.add x 15) 8)) with
  | none => none
  | some a =>
  match i64.store m (i32.add context_offset (i32.mul (i32.add x 15) 8)) (i64.xor a dx) with
  | none => none
  | some m =>
  match i64.load m (i32.add context_offset (i32.mul (i32.add x 20) 8)) with
  | none => none
  | some a =>
  i64.store m (i32.add context_offset (i32.mul (i32.add x 20) 8)) (i64.xor a dx)

def keccak_theta (m : Image) (context_offset : Nat) : Option Image :=
  match C m context_offset 0 with
  | none => none
  | some c0 =>
  match C m context_offset 1 with
  | none => none
  | some c1 =>
  match C m context_offset 2 with
  | none => none
  | some c2 =>
  match C m context_offset 3 with
  | none => none
  | some c3 =>
  match C m context_offset 4 with
  | none => none
  | some c4 =>
  let d0 := D c1 c4
  let d1 := D c2 c0
  let d2 := D c3 c1
  let d3 := D c4 c2
  let d4 := D c0 c3
  match A m context_offset 0 d0 with
  | none => none
  | some m =>
  match A m context_offset 1 d1 with
  | none => none
  | some m =>
  match A m context_offset 2 d2 with
  | none => none
  | some m =>
  match A m context_offset 3 d3 with
  | none => none
  | some m =>
  A m context_offset 4 d4

def keccak_rho_loop (context_offset rotation_consts : Nat) : Nat → Image → Nat → Option Image
  | 0, _, _ => none
  | fuel + 1, m, round =>
    if i32.lt_u round 24 ≠ 0 then
      let tmp := i32.add context_offset (i32.mul 8 (i32.add 1 round))
      match i64.load m tmp with
      | none => none
      | some a =>
      match i8_load m (i32.add rotation_consts round) with
      | none => none
      | some r =>
      match i64.store m tmp (rotl64 a r) with
      | none => none
      | some m => keccak_rho_loop context_offset rotation_consts fuel m (i32.add round 1)
    else some m

def keccak_rho (fuel : Nat) (m : Image) (context_offset rotation_consts : Nat) :
    Option Image :=
  keccak_rho_loop context_offset rotation_consts fuel m 0

def keccak_pi (m : Image) (context_offset : Nat) : Option Image :=
  match i64.load m (i32.add context_offset 8) with
  | none => none
  | some a1 =>
  match i64.load m (i32.add context_offset 48) with
  | none => none
  | some v =>
  match i64.store m (i32.add context_offset 8) v with
  | none => none
  | some m =>
  match i64.load m (i32.add context_offset 72) with
  | none => none
  | some v =>
  match i64.store m (i32.add context_offset 48) v with
  | none => none
  | some m =>
  match i64.load m (i32.add context_offset 176) with
  | none => none
  | some v =>
  match i64.store m (i32.add context_offset 72) v with
  | none => none
  | some m =>
  match i64.load m (i32.add context_offset 112) with
  | none => none
  | some v =>
  match i64.store m (i32.add context_offset 176) v with
  | none => none
  | some m =>
  match i64.load m (i32.add context_offset 160) with
  | none => none
  | some v =>
  match i64.store m (i32.add context_offset 112) v with
  | none => none
  | some m =>
  match i64.load m (i32.add context_offset 16) with
  | none => none
  | some v =>
  match i64.store m (i32.add context_offset 160) v with
  | none => none
  | some m =>
  match i64.load m (i32.add context_offset 96) with
  | none => none
  | some v =>
  match i64.store m (i32.add context_offset 16) v with
  | none => none
  | some m =>
  match i64.load m (i32.add context_offset 104) with
  | none => none
  | some v =>
  match i64.store m (i32.add context_offset 96) v with
  | none => none
  | some m =>
  match i64.load m (i32.add context_offset 152) with
  | none => none
  | some v =>
  match i64.store m (i32.add context_offset 104) v with
  | none => none
  | some m =>
  match i64.load m (i32.add context_offset 184) with
  | none => none
  | some v =>
  match i64.store m (i32.add context_offset 152) v with
  | none => none
  | some m =>
  match i64.load m (i32.add context_offset 120) with
  | none => none
  | some v =>
  match i64.store m (i32.add context_offset 184) v with
  | none => none
  | some m =>
  match i64.load m (i32.add context_offset 32) with
  | none => none
  | some v =>
  match i64.store m (i32.add context_offset 120) v with
  | none => none
  | some m =>
  match i64.load m (i32.add context_offset 192) with
  | none => none
  | some v =>
  match i64.store m (i32.add context_offset 32) v with
  | none => none
  | some m =>
  match i64.load m (i32.add context_offset 168) with
  | none => none
  | some v =>
  match i64.store m (i32.add context_offset 192) v with
  | none => none
  | some m =>
  match i64.load m (i32.add context_offset 64) with
  | none => none
  | some v =>
  match i64.store m (i32.add context_offset 168) v with
  | none => none
  | some m =>
  match i64.load m (i32.add context_offset 128) with
  | none => none
  | some v =>
  match i64.store m (i32.add context_offset 64) v with
  | none => none
  | some m =>
  match i64.load m (i32.add context_offset 40) with
  | none => none
  | some v =>
  match i64.store m (i32.add context_offset 128) v with
  | none => none
  | some m =>
  match i64.load m (i32.add context_offset 24) with
  | none => none
  | some v =>
  match i64.store m (i32.add context_offset 40) v with
  | none => none
  | some m =>
  match i64.load m (i32.add context_offset 144) with
  | none => none
  | some v =>
  match i64.store m (i32.add context_offset 24) v with
  | none => none
  | some m =>
  match i64.load m (i32.add context_offset 136) with
  | none => none
  | some v =>
  match i64.store m (i32.add context_offset 144) v with
  | none => none
  | some m =>
  match i64.load m (i32.add context_offset 88) with
  | none => none
  | some v =>
  match i64.store m (i32.add context_offset 136) v with
  | none => none
  | some m =>
  match i64.load m (i32.add context_offset 56) with
  | none => none
  | some v =>
  match i64.store m (i32.add context_offset 88) v with
  | none => none
  | some m =>
  match i64.load m (i32.add context_offset 80) with
  | none => none
  | some v =>
  match i64.store m (i32.add context_offset 56) v with
  | none => none
  | some m =>
  i64.store m (i32.add context_offset 80) a1

def keccak_chi_loop (context_offset : Nat) : Nat → Image → Nat → Option Image
  | 0, _, _ => none
  | fuel + 1, m, i =>
    if i32.lt_u i 25 ≠ 0 then
      match i64.load m (i32.add context_offset (i32.mul 8 i)) with
      | none => none
      | some a0 =>
      match i64.load m (i32.add context_offset (i32.mul 8 (i32.add i 1))) with
      | none => none
      | some a1 =>
      match i64.load m (i32.add context_offset (i32.mul 8 i)) with
      | none => none
      | some x =>
      match i64.load m (i32.add context_offset (i32.mul 8 (i32.add i 2))) with
      | none => none
      | some y =>
      match i64.store m (i32.add context_offset (i32.mul 8 i)) (i64.xor x (i64.and (i64.xor a1 0xFFFFFFFFFFFFFFFF) y)) with
      | none => none
      | some m =>
      match i64.load m (i32.add context_offset (i32.mul 8 (i32.add i 1))) with
      | none => none
      | some x =>
      match i64.load m (i32.add context_offset (i32.mul 8 (i32.add i 2))) with
      | none => none
      | some n =>
      match i64.load m (i32.add context_offset (i32.mul 8 (i32.add i 3))) with
      | none => none
      | some y =>
      match i64.store m (i32.add context_offset (i32.mul 8 (i32.add i 1))) (i64.xor x (i64.and (i64.xor n 0xFFFFFFFFFFFFFFFF) y)) with
      | none => none
      | some m =>
      match i64.load m (i32.add context_offset (i32.mul 8 (i32.add i 2))) with
      | none => none
      | some x =>
      match i64.load m (i32.add context_offset (i32.mul 8 (i32.add i 3))) with
      | none => none
      | some n =>
      match i64.load m (i32.add context_offset (i32.mul 8 (i32.add i 4))) with
      | none => none
      | some y =>
      match i64.store m (i32.add context_offset (i32.mul 8 (i32.add i 2))) (i64.xor x (i64.and (i64.xor n 0xFFFFFFFFFFFFFFFF) y)) with
      | none => none
      | some m =>
      match i64.load m (i32.add context_offset (i32.mul 8 (i32.add i 3))) with
      | none => none
      | some x =>
      match i64.load m (i32.add context_offset (i32.mul 8 (i32.add i 4))) with
      | none => none
      | some n =>
      match i64.store m (i32.add context_offset (i32.mul 8 (i32.add i 3))) (i64.xor x (i64.and (i64.xor n 0xFFFFFFFFFFFFFFFF) a0)) with
      | none => none
      | some m =>
      match i64.load m (i32.add context_offset (i32.mul 8 (i32.add i 4))) with
      | none => none
      | some x =>
      match i64.store m (i32.add context_offset (i32.mul 8 (i32.add i 4))) (i64.xor x (i64.and (i64.xor a0 0xFFFFFFFFFFFFFFFF) a1)) with
      | none => none
      | some m =>
      keccak_chi_loop context_offset fuel m (i32.add i 5)
    else some m

def keccak_chi (fuel : Nat) (m : Image) (context_offset : Nat) : Option Image :=
  keccak_chi_loop context_offset fuel m 0

def keccak_permute_loop (context_offset round_consts rotation_consts : Nat) (fuel : Nat) :
    Nat → Image → Nat → Option Image
  | 0, _, _ => none
  | k + 1, m, round =>
    if i32.lt_u round 24 ≠ 0 then
      match keccak_theta m context_offset with
      | none => none
      | some m =>
      match keccak_rho fuel m context_offset rotation_consts with
      | none => none
      | some m =>
      match keccak_pi m context_offset with
      | none => none
      | some m =>
      match keccak_chi fuel m context_offset with
      | none => none
      | some m =>
      match i64.load m context_offset with
      | none => none
      | some a =>
      match i64.load m (i32.add round_consts (i32.mul 8 round)) with
      | none => none
      | some rc =>
      match i64.store m context_offset (i64.xor a rc) with
      | none => none
      | some m =>
      keccak_permute_loop context_offset round_consts rotation_consts fuel k m (i32.add round 1)
    else some m

def keccak_permute (fuel : Nat) (m : Image) (context_offset : Nat) : Option Image :=
  let round_consts := i32.add context_offset 400
  let rotation_consts := i32.add context_offset 592
  keccak_permute_loop context_offset round_consts rotation_consts fuel fuel m 0

def keccak_block (fuel : Nat) (m : Image) (context_offset input_offset _input_length : Nat) :
    Option Image :=
  match i64.load m (i32.add context_offset 0) with
  | none => none
  | some a =>
  match i64.load m (i32.add input_offset 0) with
  | none => none
  | some b =>
  match i64.store m (i32.add context_offset 0) (i64.xor a b) with
  | none => none
  | some m =>
  match i64.load m (i32.add context_offset 8) with
  | none => none
  | some a =>
  match i64.load m (i32.add input_offset 8) with
  | none => none
  | some b =>
  match i64.store m (i32.add context_offset 8) (i64.xor a b) with
  | none => none
  | some m =>
  match i64.load m (i32.add context_offset 16) with
  | none => none
  | some a =>
  match i64.load m (i32.add input_offset 16) with
  | none => none
  | some b =>
  match i64.store m (i32.add context_offset 16) (i64.xor a b) with
  | none => none
  | some m =>
  match i64.load m (i32.add context_offset 24) with
  | none => none
  | some a =>
  match i64.load m (i32.add input_offset 24) with
  | none => none
  | some b =>
  match i64.store m (i32.add context_offset 24) (i64.xor a b) with
  | none => none
  | some m =>
  match i64.load m (i32.add context_offset 32) with
  | none => none
  | some a =>
  match i64.load m (i32.add input_offset 32) with
  | none => none
  | some b =>
  match i64.store m (i32.add context_offset 32) (i64.xor a b) with
  | none => none
  | some m =>
  match i64.load m (i32.add context_offset 40) with
  | none => none
  | some a =>
  match i64.load m (i32.add input_offset 40) with
  | none => none
  | some b =>
  match i64.store m (i32.add context_offset 40) (i64.xor a b) with
  | none => none
  | some m =>
  match i64.load m (i32.add context_offset 48) with
  | none => none
  | some a =>
  match i64.load m (i32.add input_offset 48) with
  | none => none
  | some b =>
  match i64.store m (i32.add context_offset 48) (i64.xor a b) with
  | none => none
  | some m =>
  match i64.load m (i32.add context_offset 56) with
  | none => none
  | some a =>
  match i64.load m (i32.add input_offset 56) with
  | none => none
  | some b =>
  match i64.store m (i32.add context_offset 56) (i64.xor a b) with
  | none => none
  | some m =>
  match i64.load m (i32.add context_offset 64) with
  | none => none
  | some a =>
  match i64.load m (i32.add input_offset 64) with
  | none => none
  | some b =>
  match i64.store m (i32.add context_offset 64) (i64.xor a b) with
  | none => none
  | some m =>
  match i64.load m (i32.add context_offset 72) with
  | none => none
  | some a =>
  match i64.load m (i32.add input_offset 72) with
  | none => none
  | some b =>
  match i64.store m (i32.add context_offset 72) (i64.xor a b) with
  | none => none
  | some m =>
  match i64.load m (i32.add context_offset 80) with
  | none => none
  | some a =>
  match i64.load m (i32.add input_offset 80) with
  | none => none
  | some b =>
  match i64.store m (i32.add context_offset 80) (i64.xor a b) with
  | none => none
  | some m =>
  match i64.load m (i32.add context_offset 88) with
  | none => none
  | some a =>
  match i64.load m (i32.add input_offset 88) with
  | none => none
  | some b =>
  match i64.store m (i32.add context_offset 88) (i64.xor a b) with
  | none => none
  | some m =>
  match i64.load m (i32.add context_offset 96) with
  | none => none
  | some a =>
  match i64.load m (i32.add input_offset 96) with
  | none => none
  | some b =>
  match i64.store m (i32.add context_offset 96) (i64.xor a b) with
  | none => none
  | some m =>
  match i64.load m (i32.add context_offset 104) with
  | none => none
  | some a =>
  match i64.load m (i32.add input_offset 104) with
  | none => none
  | some b =>
  match i64.store m (i32.add context_offset 104) (i64.xor a b) with
  | none => none
  | some m =>
  match i64.load m (i32.add context_offset 112) with
  | none => none
  | some a =>
  match i64.load m (i32.add input_offset 112) with
  | none => none
  | some b =>
  match i64.store m (i32.add context_offset 112) (i64.xor a b) with
  | none => none
  | some m =>
  match i64.load m (i32.add context_offset 120) with
  | none => none
  | some a =>
  match i64.load m (i32.add input_offset 120) with
  | none => none
  | some b =>
  match i64.store m (i32.add context_offset 120) (i64.xor a b) with
  | none => none
  | some m =>
  match i64.load m (i32.add context_offset 128) with
  | none => none
  | some a =>
  match i64.load m (i32.add input_offset 128) with
  | none => none
  | some b =>
  match i64.store m (i32.add context_offset 128) (i64.xor a b) with
  | none => none
  | some m =>
  keccak_permute fuel m context_offset

def keccak_update_loop (context_offset : Nat) (fuel : Nat) :
    Nat → Image → Nat → Nat → Option (Image × Nat × Nat)
  | 0, _, _, _ => none
  | k + 1, m, input_offset, input_length =>
    if i32.gt_u input_length 136 ≠ 0 then
      match keccak_block fuel m context_offset input_offset 136 with
      | none => none
      | some m =>
        keccak_update_loop context_offset fuel k m (i32.add input_offset 136)
          (i32.sub input_length 136)
    else some (m, input_offset, input_length)

def keccak_update_complete (fuel : Nat) (m : Image)
    (context_offset input_offset residue_index : Nat) : Option (Image × Nat) :=
  if i32.eq residue_index 136 ≠ 0 then
    match keccak_block fuel m context_offset input_offset 136 with
    | none => none
    | some m => some (m, 0)
  else some (m, residue_index)

def keccak_update_residue (fuel : Nat) (m : Image)
    (context_offset input_offset input_length residue_offset residue_buffer residue_index : Nat) :
    Option (Image × Nat × Nat) :=
  if i32.ne residue_index 0 ≠ 0 then
    let tmp := i32.sub 136 residue_index
    let tmp := if i32.lt_u input_length tmp ≠ 0 then input_length else tmp
    match memcpy fuel m (i32.add residue_buffer residue_index) input_offset tmp with
    | none => none
    | some m =>
    let residue_index := i32.add residue_index tmp
    match keccak_update_complete fuel m context_offset input_offset residue_index with
    | none => none
    | some (m, residue_index) =>
    match i32.store m residue_offset residue_index with
    | none => none
    | some m => some (m, residue_index, i32.sub input_length tmp)
  else some (m, residue_index, input_length)

def keccak_update (fuel : Nat) (m : Image) (context_offset input_offset input_length : Nat) :
    Option Image :=
  let residue_offset := i32.add context_offset 200
  let residue_buffer := i32.add context_offset 208
  match i32.load m residue_offset with
  | none => none
  | some residue_index =>
  match keccak_update_residue fuel m context_offset input_offset input_length residue_offset
      residue_buffer residue_index with
  | none => none
  | some (m, residue_index, input_length) =>
  match keccak_update_loop context_offset fuel fuel m input_offset input_length with
  | none => none
  | some (m, input_offset, input_length) =>
  if i32.gt_u input_length 0 ≠ 0 then
    match memcpy fuel m (i32.add residue_buffer residue_index) input_offset input_length with
    | none => none
    | some m =>
    let residue_index := i32.add residue_index input_length
    i32.store m residue_offset residue_index
  else some m

def keccak_finish (fuel : Nat) (m : Image) (context_offset output_offset : Nat) :
    Option Image :=
  let residue_offset := i32.add context_offset 200
  let residue_buffer := i32.add context_offset 208
  match i32.load m residue_offset with
  | none => none
  | some residue_index =>
  let tmp := residue_index
  match memset fuel m (i32.add residue_buffer tmp) 0x00 (i32.sub 136 tmp) with
  | none => none
  | some m =>
  let tmp := i32.add residue_buffer residue_index
  match i8_load32 m tmp with
  | none => none
  | some v =>
  match i32.store8 m tmp (i32.or v 0x01) with
  | none => none
  | some m =>
  let tmp := i32.add residue_buffer 135
  match i8_load32 m tmp with
  | none => none
  | some v =>
  match i32.store8 m tmp (i32.or v 0x80) with
  | none => none
  | some m =>
  match keccak_block fuel m context_offset residue_buffer 136 with
  | none => none
  | some m =>
  match i64.load m context_offset with
  | none => none
  | some v =>
  match i64.store m output_offset v with
  | none => none
  | some m =>
  match i64.load m (i32.add context_offset 8) with
  | none => none
  | some v =>
  match i64.store m (i32.add output_offset 8) v with
  | none => none
  | some m =>
  match i64.load m (i32.add context_offset 16) with
  | none => none
  | some v =>
  match i64.store m (i32.add output_offset 16) v with
  | none => none
  | some m =>
  match i64.load m (i32.add context_offset 24) with
  | none => none
  | some v =>
  i64.store m (i32.add output_offset 24) v

def keccak256 (fuel : Nat) (m : Image) (x1 x2 x3 x4 y1 y2 y3 y4 : Nat) :
    Option (Image × W256) :=
  match u256_to_i32ptr x1 x2 x3 x4 with
  | none => none
  | some input_offset =>
  match u256_to_i32 y1 y2 y3 y4 with
  | none => none
  | some input_length =>
  let context_offset := 0xF000
  let output_offset := 0x0000
  match keccak_init fuel m context_offset with
  | none => none
  | some m =>
  match keccak_update fuel m context_offset input_offset input_length with
  | none => none
  | some m =>
  match keccak_finish fuel m context_offset output_offset with
  | none => none
  | some m =>
  match i64.load m output_offset with
  | none => none
  | some z1 =>
  match i64.load m (i32.add output_offset 8) with
  | none => none
  | some z2 =>
  match i64.load m (i32.add output_offset 16) with
  | none => none
  | some z3 =>
  match i64.load m (i32.add output_offset 24) with
  | none => none
  | some z4 =>
  some (m, (z1, z2, z3, z4))

end Packed

/-! ## Saving and restoring the scratch region -/

/-- Following the specification: lane `i` of the state after the theta step, from the lanes
`a` of the state before it, with `C[x] = A[x] xor A[x+5] xor A[x+10] xor A[x+15] xor A[x+20]`
and `D[x] = C[(x+4) mod 5] xor rotl64(C[(x+1) mod 5], 1)`. -/
def keccak_theta_spec (a : Nat → Nat) (i : Nat) : Nat :=
  let c := fun x => a x ^^^ a (x + 5) ^^^ a (x + 10) ^^^ a (x + 15) ^^^ a (x + 20)
  let d := fun x => c ((x + 4) % 5) ^^^ rotl64 (c ((x + 1) % 5)) 1
  a i ^^^ d (i % 5)

/-- Lane `i` of the state at `context_offset`: the little-endian 64-bit value at byte offset
`8 * i`, and `0` where the memory ends before it. -/
def lane (m : Memory) (context_offset i : Nat) : Nat :=
  (i64.load m (context_offset + 8 * i)).getD 0

/-! ## The text of the polyfill

The constant `polyfill` of the translated file is a string assembled from three adjacent
pieces. It is kept here line by line; the functions below read the function definitions off
the text. -/

/-- The lines of the constant `polyfill` (the text is these lines, separated by line feeds). -/
def polyfill : List String := [
  "",
  "\x7b",
  "function or_bool(a, b, c, d) -> r:i32 \x7b",
  "\tr := i32.eqz(i64.eqz(i64.or(i64.or(a, b), i64.or(c, d))))",
  "\x7d",
  "function or_bool_320(a, b, c, d, e) -> r:i32 \x7b",
  "\tr := i32.or(or_bool(a, b, c, 0), or_bool(d, e, 0, 0))",
  "\x7d",
  "function or_bool_512(a, b, c, d, e, f, g, h) -> r:i32 \x7b",
  "\tr := i32.or(or_bool(a, b, c, d), or_bool(e, f, g, h))",
  "\x7d",
  "// returns a + y + c plus carry value on 64 bit values.",
  "// c should be at most 1",
  "function add_carry(x, y, c) -> r, r_c \x7b",
  "\tlet t := i64.add(x, y)",
  "\tr := i64.add(t, c)",
  "\tr_c := i64.extend_i32_u(i32.or(",
  "\t\ti64.lt_u(t, x),",
  "\t\ti64.lt_u(r, t)",
  "\t))",
  "\x7d",
  "function add(x1, x2, x3, x4, y1, y2, y3, y4) -> r1, r2, r3, r4 \x7b",
  "\tlet carry",
  "\tr4, carry := add_carry(x4, y4, 0)",
  "\tr3, carry := add_carry(x3, y3, carry)",
  "\tr2, carry := add_carry(x2, y2, carry)",
  "\tr1, carry := add_carry(x1, y1, carry)",
  "\x7d",
  "function bit_negate(x) -> y \x7b",
  "\ty := i64.xor(x, 0xffffffffffffffff)",
  "\x7d",
  "function sub(x1, x2, x3, x4, y1, y2, y3, y4) -> r1, r2, r3, r4 \x7b",
  "\t// x - y = x + (~y + 1)",
  "\tlet carry",
  "\tr4, carry := add_carry(x4, bit_negate(y4), 1)",
  "\tr3, carry := add_carry(x3, bit_negate(y3), carry)",
  "\tr2, carry := add_carry(x2, bit_negate(y2), carry)",
  "\tr1, carry := add_carry(x1, bit_negate(y1), carry)",
  "\x7d",
  "function sub320(x1, x2, x3, x4, x5, y1, y2, y3, y4, y5) -> r1, r2, r3, r4, r5 \x7b",
  "\t// x - y = x + (~y + 1)",
  "\tlet carry",
  "\tr5, carry := add_carry(x5, bit_negate(y5), 1)",
  "\tr4, carry := add_carry(x4, bit_negate(y4), carry)",
  "\tr3, carry := add_carry(x3, bit_negate(y3), carry)",
  "\tr2, carry := add_carry(x2, bit_negate(y2), carry)",
  "\tr1, carry := add_carry(x1, bit_negate(y1), carry)",
  "\x7d",
  "function sub512(x1, x2, x3, x4, x5, x6, x7, x8, y1, y2, y3, y4, y5, y6, y7, y8) -> r1, r2, r3, r4, r5, r6, r7, r8 \x7b",
  "\t// x - y = x + (~y + 1)",
  "\tlet carry",
  "\tr8, carry := add_carry(x8, bit_negate(y8), 1)",
  "\tr7, carry := add_carry(x7, bit_negate(y7), carry)",
  "\tr6, carry := add_carry(x6, bit_negate(y6), carry)",
  "\tr5, carry := add_carry(x5, bit_negate(y5), carry)",
  "\tr4, carry := add_carry(x4, bit_negate(y4), carry)",
  "\tr3, carry := add_carry(x3, bit_negate(y3), carry)",
  "\tr2, carry := add_carry(x2, bit_negate(y2), carry)",
  "\tr1, carry := add_carry(x1, bit_negate(y1), carry)",
  "\x7d",
  "function split(x) -> hi, lo \x7b",
  "\thi := i64.shr_u(x, 32)",
  "\tlo := i64.and(x, 0xffffffff)",
  "\x7d",
  "// Multiplies two 64 bit values resulting in a 128 bit",
  "// value split into two 64 bit values.",
  "function mul_64x64_128(x, y) -> hi, lo \x7b",
  "\tlet xh, xl := split(x)",
  "\tlet yh, yl := split(y)",
  "",
  "\tlet t0 := i64.mul(xl, yl)",
  "\tlet t1 := i64.mul(xh, yl)",
  "\tlet t2 := i64.mul(xl, yh)",
  "\tlet t3 := i64.mul(xh, yh)",
  "",
  "\tlet t0h, t0l := split(t0)",
  "\tlet u1 := i64.add(t1, t0h)",
  "\tlet u1h, u1l := split(u1)",
  "\tlet u2 := i64.add(t2, u1l)",
  "",
  "\tlo := i64.or(i64.shl(u2, 32), t0l)",
  "\thi := i64.add(t3, i64.add(i64.shr_u(u2, 32), u1h))",
  "\x7d",
  "// Multiplies two 128 bit values resulting in a 256 bit",
  "// value split into four 64 bit values.",
  "function mul_128x128_256(x1, x2, y1, y2) -> r1, r2, r3, r4 \x7b",
  "\tlet ah, al := mul_64x64_128(x1, y1)",
  "\tlet     bh, bl := mul_64x64_128(x1, y2)",
  "\tlet     ch, cl := mul_64x64_128(x2, y1)",
  "\tlet         dh, dl := mul_64x64_128(x2, y2)",
  "",
  "\tr4 := dl",
  "",
  "\tlet carry1, carry2",
  "\tlet t1, t2",
  "",
  "\tr3, carry1 := add_carry(bl, cl, 0)",
  "\tr3, carry2 := add_carry(r3, dh, 0)",
  "",
  "\tt1, carry1 := add_carry(bh, ch, carry1)",
  "\tr2, carry2 := add_carry(t1, al, carry2)",
  "",
  "\tr1 := i64.add(i64.add(ah, carry1), carry2)",
  "\x7d",
  "// Multiplies two 256 bit values resulting in a 512 bit",
  "// value split into eight 64 bit values.",
  "function mul_256x256_512(x1, x2, x3, x4, y1, y2, y3, y4) -> r1, r2, r3, r4, r5, r6, r7, r8 \x7b",
  "\tlet a1, a2, a3, a4 := mul_128x128_256(x1, x2, y1, y2)",
  "\tlet b1, b2, b3, b4 := mul_128x128_256(x1, x2, y3, y4)",
  "\tlet c1, c2, c3, c4 := mul_128x128_256(x3, x4, y1, y2)",
  "\tlet d1, d2, d3, d4 := mul_128x128_256(x3, x4, y3, y4)",
  "",
  "\tr8 := d4",
  "\tr7 := d3",
  "",
  "\tlet carry1, carry2",
  "\tlet t1, t2",
  "",
  "\tr6, carry1 := add_carry(b4, c4, 0)",
  "\tr6, carry2 := add_carry(r6, d2, 0)",
  "",
  "\tr5, carry1 := add_carry(b3, c3, carry1)",
  "\tr5, carry2 := add_carry(r5, d1, carry2)",
  "",
  "\tr4, carry1 := add_carry(a4, b2, carry1)",
  "\tr4, carry2 := add_carry(r4, c2, carry2)",
  "",
  "\tr3, carry1 := add_carry(a3, b1, carry1)",
  "\tr3, carry2 := add_carry(r3, c1, carry2)",
  "",
  "\tr2, carry1 := add_carry(a2, carry1, carry2)",
  "\tr1 := i64.add(a1, carry1)",
  "\x7d",
  "function mul(x1, x2, x3, x4, y1, y2, y3, y4) -> r1, r2, r3, r4 \x7b",
  "\t// TODO it would actually suffice to have mul_128x128_128 for the first two.",
  "\tlet b1, b2, b3, b4 := mul_128x128_256(x3, x4, y1, y2)",
  "\tlet c1, c2, c3, c4 := mul_128x128_256(x1, x2, y3, y4)",
  "\tlet d1, d2, d3, d4 := mul_128x128_256(x3, x4, y3, y4)",
  "\tr4 := d4",
  "\tr3 := d3",
  "\tlet t1, t2",
  "\tt1, t2, r1, r2 := add(0, 0, b3, b4, 0, 0, c3, c4)",
  "\tt1, t2, r1, r2 := add(0, 0, r1, r2, 0, 0, d1, d2)",
  "\x7d",
  "function shl_internal(amount, x1, x2, x3, x4) -> r1, r2, r3, r4 \x7b",
  "\t// amount < 64",
  "\tr1 := i64.add(i64.shl(x1, amount), i64.shr_u(x2, i64.sub(64, amount)))",
  "\tr2 := i64.add(i64.shl(x2, amount), i64.shr_u(x3, i64.sub(64, amount)))",
  "\tr3 := i64.add(i64.shl(x3, amount), i64.shr_u(x4, i64.sub(64, amount)))",
  "\tr4 := i64.shl(x4, amount)",
  "\x7d",
  "function shr_internal(amount, x1, x2, x3, x4) -> r1, r2, r3, r4 \x7b",
  "\t// amount < 64",
  "\tr4 := i64.add(i64.shr_u(x4, amount), i64.shl(x3, i64.sub(64, amount)))",
  "\tr3 := i64.add(i64.shr_u(x3, amount), i64.shl(x2, i64.sub(64, amount)))",
  "\tr2 := i64.add(i64.shr_u(x2, amount), i64.shl(x1, i64.sub(64, amount)))",
  "\tr1 := i64.shr_u(x1, amount)",
  "\x7d",
  "function shl320_internal(amount, x1, x2, x3, x4, x5) -> r1, r2, r3, r4, r5 \x7b",
  "\t// amount < 64",
  "\tr1 := i64.add(i64.shl(x1, amount), i64.shr_u(x2, i64.sub(64, amount)))",
  "\tr2 := i64.add(i64.shl(x2, amount), i64.shr_u(x3, i64.sub(64, amount)))",
  "\tr3 := i64.add(i64.shl(x3, amount), i64.shr_u(x4, i64.sub(64, amount)))",
  "\tr4 := i64.add(i64.shl(x4, amount), i64.shr_u(x5, i64.sub(64, amount)))",
  "\tr5 := i64.shl(x5, 1)",
  "\x7d",
  "function shr320_internal(amount, x1, x2, x3, x4, x5) -> r1, r2, r3, r4, r5 \x7b",
  "\t// amount < 64",
  "\tr5 := i64.add(i64.shr_u(x5, amount), i64.shl(x4, i64.sub(64, amount)))",
  "\tr4 := i64.add(i64.shr_u(x4, amount), i64.shl(x3, i64.sub(64, amount)))",
  "\tr3 := i64.add(i64.shr_u(x3, amount), i64.shl(x2, i64.sub(64, amount)))",
  "\tr2 := i64.add(i64.shr_u(x2, amount), i64.shl(x1, i64.sub(64, amount)))",
  "\tr1 := i64.shr_u(x1, 1)",
  "\x7d",
  "function shl512_internal(amount, x1, x2, x3, x4, x5, x6, x7, x8) -> r1, r2, r3, r4, r5, r6, r7, r8 \x7b",
  "\t// amount < 64",
  "\tr1 := i64.add(i64.shl(x1, amount), i64.shr_u(x2, i64.sub(64, amount)))",
  "\tr2 := i64.add(i64.shl(x2, amount), i64.shr_u(x3, i64.sub(64, amount)))",
  "\tr3 := i64.add(i64.shl(x3, amount), i64.shr_u(x4, i64.sub(64, amount)))",
  "\tr4 := i64.add(i64.shl(x4, amount), i64.shr_u(x5, i64.sub(64, amount)))",
  "\tr5 := i64.add(i64.shl(x5, amount), i64.shr_u(x6, i64.sub(64, amount)))",
  "\tr6 := i64.add(i64.shl(x6, amount), i64.shr_u(x7, i64.sub(64, amount)))",
  "\tr7 := i64.add(i64.shl(x7, amount), i64.shr_u(x8, i64.sub(64, amount)))",
  "\tr8 := i64.shl(x8, amount)",
  "\x7d",
  "function shr512_internal(amount, x1, x2, x3, x4, x5, x6, x7, x8) -> r1, r2, r3, r4, r5, r6, r7, r8 \x7b",
  "\t// amount < 64",
  "\tr8 := i64.add(i64.shr_u(x8, amount), i64.shl(x7, i64.sub(64, amount)))",
  "\tr7 := i64.add(i64.shr_u(x7, amount), i64.shl(x6, i64.sub(64, amount)))",
  "\tr6 := i64.add(i64.shr_u(x6, amount), i64.shl(x5, i64.sub(64, amount)))",
  "\tr5 := i64.add(i64.shr_u(x5, amount), i64.shl(x4, i64.sub(64, amount)))",
  "\tr4 := i64.add(i64.shr_u(x4, amount), i64.shl(x3, i64.sub(64, amount)))",
  "\tr3 := i64.add(i64.shr_u(x3, amount), i64.shl(x2, i64.sub(64, amount)))",
  "\tr2 := i64.add(i64.shr_u(x2, amount), i64.shl(x1, i64.sub(64, amount)))",
  "\tr1 := i64.shr_u(x1, amount)",
  "\x7d",
  "function div(x1, x2, x3, x4, y1, y2, y3, y4) -> r1, r2, r3, r4 \x7b",
  "\t// Based on https://github.com/ewasm/evm2wasm/blob/master/wasm/DIV.wast",
  "\tif iszero256(y1, y2, y3, y4) \x7b",
  "\t\tleave",
  "\t\x7d",
  "",
  "\tlet m1 := 0",
  "\tlet m2 := 0",
  "\tlet m3 := 0",
  "\tlet m4 := 1",
  "",
  "\tfor \x7b\x7d true \x7b\x7d \x7b",
  "\t\tif i32.or(i64.eqz(i64.clz(y1)), gte_256x256_64(y1, y2, y3, y4, x1, x2, x3, x4)) \x7b",
  "\t\t\tbreak",
  "\t\t\x7d",
  "\t\ty1, y2, y3, y4 := shl_internal(1, y1, y2, y3, y4)",
  "\t\tm1, m2, m3, m4 := shl_internal(1, m1, m2, m3, m4)",
  "\t\x7d",
  "",
  "\tfor \x7b\x7d or_bool(m1, m2, m3, m4) \x7b\x7d \x7b",
  "\t\tif gte_256x256_64(x1, x2, x3, x4, y1, y2, y3, y4) \x7b",
  "\t\t\tx1, x2, x3, x4 := sub(x1, x2, x3, x4, y1, y2, y3, y4)",
  "\t\t\tr1, r2, r3, r4 := add(r1, r2, r3, r4, m1, m2, m3, m4)",
  "\t\t\x7d",
  "",
  "\t\ty1, y2, y3, y4 := shr_internal(1, y1, y2, y3, y4)",
  "\t\tm1, m2, m3, m4 := shr_internal(1, m1, m2, m3, m4)",
  "\t\x7d",
  "",
  "\x7d",
  "function sdiv(x1, x2, x3, x4, y1, y2, y3, y4) -> r1, r2, r3, r4 \x7b",
  "\t// Based on https://github.com/ewasm/evm2wasm/blob/master/wasm/SDIV.wast",
  "",
  "\tlet sign:i32 := i32.wrap_i64(i64.shr_u(i64.xor(x1, y1), 63))",
  "",
  "\tif i64.eqz(i64.clz(x1)) \x7b",
  "\t\tx1, x2, x3, x4 := xor(",
  "\t\t\tx1, x2, x3, x4,",
  "\t\t\t0xffffffffffffffff, 0xffffffffffffffff, 0xffffffffffffffff, 0xffffffffffffffff",
  "\t\t)",
  "\t\tx1, x2, x3, x4 := add(x1, x2, x3, x4, 0, 0, 0, 1)",
  "\t\x7d",
  "",
  "\tif i64.eqz(i64.clz(y1)) \x7b",
  "\t\ty1, y2, y3, y4 := xor(",
  "\t\t\ty1, y2, y3, y4,",
  "\t\t\t0xffffffffffffffff, 0xffffffffffffffff, 0xffffffffffffffff, 0xffffffffffffffff",
  "\t\t)",
  "\t\ty1, y2, y3, y4 := add(y1, y2, y3, y4, 0, 0, 0, 1)",
  "\t\x7d",
  "",
  "\tr1, r2, r3, r4 := div(x1, x2, x3, x4, y1, y2, y3, y4)",
  "",
  "\tif sign \x7b",
  "\t\tr1, r2, r3, r4 := xor(",
  "\t\t\tr1, r2, r3, r4,",
  "\t\t\t0xffffffffffffffff, 0xffffffffffffffff, 0xffffffffffffffff, 0xffffffffffffffff",
  "\t\t)",
  "\t\tr1, r2, r3, r4 := add(r1, r2, r3, r4, 0, 0, 0, 1)",
  "\t\x7d",
  "\x7d",
  "function mod(x1, x2, x3, x4, y1, y2, y3, y4) -> r1, r2, r3, r4 \x7b",
  " \t// Based on https://github.com/ewasm/evm2wasm/blob/master/wasm/MOD.wast",
  "\tif iszero256(y1, y2, y3, y4) \x7b",
  "\t\tleave",
  "\t\x7d",
  "",
  "\tr1 := x1",
  "\tr2 := x2",
  "\tr3 := x3",
  "\tr4 := x4",
  "",
  "\tlet m1 := 0",
  "\tlet m2 := 0",
  "\tlet m3 := 0",
  "\tlet m4 := 1",
  "",
  "\tfor \x7b\x7d true \x7b\x7d \x7b",
  "\t\tif i32.or(i64.eqz(i64.clz(y1)), gte_256x256_64(y1, y2, y3, y4, r1, r2, r3, r4)) \x7b",
  "\t\t\tbreak",
  "\t\t\x7d",
  "",
  "\t\ty1, y2, y3, y4 := shl_internal(1, y1, y2, y3, y4)",
  "\t\tm1, m2, m3, m4 := shl_internal(1, m1, m2, m3, m4)",
  "\t\x7d",
  "",
  "\tfor \x7b\x7d or_bool(m1, m2, m3, m4) \x7b\x7d \x7b",
  "\t\tif gte_256x256_64(r1, r2, r3, r4, y1, y2, y3, y4) \x7b",
  "\t\t\tr1, r2, r3, r4 := sub(r1, r2, r3, r4, y1, y2, y3, y4)",
  "\t\t\x7d",
  "",
  "\t\ty1, y2, y3, y4 := shr_internal(1, y1, y2, y3, y4)",
  "\t\tm1, m2, m3, m4 := shr_internal(1, m1, m2, m3, m4)",
  "\t\x7d",
  "\x7d",
  "function mod320(x1, x2, x3, x4, x5, y1, y2, y3, y4, y5) -> r1, r2, r3, r4, r5 \x7b",
  "\t// Based on https://github.com/ewasm/evm2wasm/blob/master/wasm/mod_320.wast",
  "\tif iszero320(y1, y2, y3, y4, y5) \x7b",
  "\t\tleave",
  "\t\x7d",
  "",
  "\tlet m1 := 0",
  "\tlet m2 := 0",
  "\tlet m3 := 0",
  "\tlet m4 := 0",
  "\tlet m5 := 1",
  "",
  "\tr1 := x1",
  "\tr2 := x2",
  "\tr3 := x3",
  "\tr4 := x4",
  "\tr5 := x5",
  "",
  "\tfor \x7b\x7d true \x7b\x7d \x7b",
  "\t\tif i32.or(i64.eqz(i64.clz(y1)), gte_320x320_64(y1, y2, y3, y4, y5, r1, r2, r3, r4, r5)) \x7b",
  "\t\t\tbreak",
  "\t\t\x7d",
  "\t\ty1, y2, y3, y4, y5 := shl320_internal(1, y1, y2, y3, y4, y5)",
  "\t\tm1, m2, m3, m4, m5 := shl320_internal(1, m1, m2, m3, m4, m5)",
  "\t\x7d",
  "",
  "\tfor \x7b\x7d or_bool_320(m1, m2, m3, m4, m5) \x7b\x7d \x7b",
  "\t\tif gte_320x320_64(r1, r2, r3, r4, r5, y1, y2, y3, y4, y5) \x7b",
  "\t\t\tr1, r2, r3, r4, r5 := sub320(r1, r2, r3, r4, r5, y1, y2, y3, y4, y5)",
  "\t\t\x7d",
  "",
  "\t\ty1, y2, y3, y4, y5 := shr320_internal(1, y1, y2, y3, y4, y5)",
  "\t\tm1, m2, m3, m4, m5 := shr320_internal(1, m1, m2, m3, m4, m5)",
  "\t\x7d",
  "\x7d",
  "function mod512(x1, x2, x3, x4, x5, x6, x7, x8, y1, y2, y3, y4, y5, y6, y7, y8) -> r1, r2, r3, r4, r5, r6, r7, r8 \x7b",
  "\t// Based on https://github.com/ewasm/evm2wasm/blob/master/wasm/mod_512.wast",
  "\tif iszero512(y1, y2, y3, y4, y5, y6, y7, y8) \x7b",
  "\t\tleave",
  "\t\x7d",
  "",
  "\tlet m1 := 0",
  "\tlet m2 := 0",
  "\tlet m3 := 0",
  "\tlet m4 := 0",
  "\tlet m5 := 0",
  "\tlet m6 := 0",
  "\tlet m7 := 0",
  "\tlet m8 := 1",
  "",
  "\tr1 := x1",
  "\tr2 := x2",
  "\tr3 := x3",
  "\tr4 := x4",
  "\tr5 := x5",
  "\tr6 := x6",
  "\tr7 := x7",
  "\tr8 := x8",
  "",
  "\tfor \x7b\x7d true \x7b\x7d \x7b",
  "\t\tif i32.or(",
  "\t\t\t\ti64.eqz(i64.clz(y1)),",
  "\t\t\t\tgte_512x512_64(y1, y2, y3, y4, y5, y6, y7, y8, r1, r2, r3, r4, r5, r6, r7, r8)",
  "\t\t\t)",
  "\t\t\x7b",
  "\t\t\tbreak",
  "\t\t\x7d",
  "\t\ty1, y2, y3, y4, y5, y6, y7, y8 := shl512_internal(1, y1, y2, y3, y4, y5, y6, y7, y8)",
  "\t\tm1, m2, m3, m4, m5, m6, m7, m8 := shl512_internal(1, m1, m2, m3, m4, m5, m6, m7, m8)",
  "\t\x7d",
  "",
  "\tfor \x7b\x7d or_bool_512(m1, m2, m3, m4, m5, m6, m7, m8) \x7b\x7d \x7b",
  "\t\tif gte_512x512_64(r1, r2, r3, r4, r5, r6, r7, r8, y1, y2, y3, y4, y5, y6, y7, y8) \x7b",
  "\t\t\tr1, r2, r3, r4, r5, r6, r7, r8 := sub512(r1, r2, r3, r4, r5, r6, r7, r8, y1, y2, y3, y4, y5, y6, y7, y8)",
  "\t\t\x7d",
  "",
  "\t\ty1, y2, y3, y4, y5, y6, y7, y8 := shr512_internal(1, y1, y2, y3, y4, y5, y6, y7, y8)",
  "\t\tm1, m2, m3, m4, m5, m6, m7, m8 := shr512_internal(1, m1, m2, m3, m4, m5, m6, m7, m8)",
  "\t\x7d",
  "\x7d",
  "function smod(x1, x2, x3, x4, y1, y2, y3, y4) -> r1, r2, r3, r4 \x7b",
  "\t// Based on https://github.com/ewasm/evm2wasm/blob/master/wasm/SMOD.wast",
  "\tlet m1 := 0",
  "\tlet m2 := 0",
  "\tlet m3 := 0",
  "\tlet m4 := 1",
  "",
  "\tlet sign:i32 := i32.wrap_i64(i64.shr_u(x1, 63))",
  "",
  "\tif i64.eqz(i64.clz(x1)) \x7b",
  "\t\tx1, x2, x3, x4 := xor(",
  "\t\t\tx1, x2, x3, x4,",
  "\t\t\t0xffffffffffffffff, 0xffffffffffffffff, 0xffffffffffffffff, 0xffffffffffffffff",
  "\t\t)",
  "\t\tx1, x2, x3, x4 := add(x1, x2, x3, x4, 0, 0, 0, 1)",
  "\t\x7d",
  "",
  "\tif i64.eqz(i64.clz(y1)) \x7b",
  "\t\ty1, y2, y3, y4 := xor(",
  "\t\t\ty1, y2, y3, y4,",
  "\t\t\t0xffffffffffffffff, 0xffffffffffffffff, 0xffffffffffffffff, 0xffffffffffffffff",
  "\t\t)",
  "\t\ty1, y2, y3, y4 := add(y1, y2, y3, y4, 0, 0, 0, 1)",
  "\t\x7d",
  "",
  "\tr1, r2, r3, r4 := mod(x1, x2, x3, x4, y1, y2, y3, y4)",
  "",
  "\tif sign \x7b",
  "\t\tr1, r2, r3, r4 := xor(",
  "\t\t\tr1, r2, r3, r4,",
  "\t\t\t0xffffffffffffffff, 0xffffffffffffffff, 0xffffffffffffffff, 0xffffffffffffffff",
  "\t\t)",
  "\t\tr1, r2, r3, r4 := add(r1, r2, r3, r4, 0, 0, 0, 1)",
  "\t\x7d",
  "\x7d",
  "function exp(x1, x2, x3, x4, y1, y2, y3, y4) -> r1, r2, r3, r4 \x7b",
  "\tr4 := 1",
  "\tfor \x7b\x7d or_bool(y1, y2, y3, y4) \x7b\x7d \x7b",
  "\t\tif i32.wrap_i64(i64.and(y4, 1)) \x7b",
  "\t\t\tr1, r2, r3, r4 := mul(r1, r2, r3, r4, x1, x2, x3, x4)",
  "\t\t\x7d",
  "\t\tx1, x2, x3, x4 := mul(x1, x2, x3, x4, x1, x2, x3, x4)",
  "\t\ty1, y2, y3, y4 := shr_internal(1, y1, y2, y3, y4)",
  "\t\x7d",
  "\x7d",
  "",
  "function byte(x1, x2, x3, x4, y1, y2, y3, y4) -> r1, r2, r3, r4 \x7b",
  "\tif i64.eqz(i64.or(i64.or(x1, x2), x3)) \x7b",
  "\t\tlet component",
  "\t\tswitch i64.div_u(x4, 8)",
  "\t\tcase 0 \x7b component := y1 \x7d",
  "\t\tcase 1 \x7b component := y2 \x7d",
  "\t\tcase 2 \x7b component := y3 \x7d",
  "\t\tcase 3 \x7b component := y4 \x7d",
  "\t\tx4 := i64.mul(i64.rem_u(x4, 8), 8)",
  "\t\tr4 := i64.shr_u(component, i64.sub(56, x4))",
  "\t\tr4 := i64.and(0xff, r4)",
  "\t\x7d",
  "\x7d",
  "function xor(x1, x2, x3, x4, y1, y2, y3, y4) -> r1, r2, r3, r4 \x7b",
  "\tr1 := i64.xor(x1, y1)",
  "\tr2 := i64.xor(x2, y2)",
  "\tr3 := i64.xor(x3, y3)",
  "\tr4 := i64.xor(x4, y4)",
  "\x7d",
  "function or(x1, x2, x3, x4, y1, y2, y3, y4) -> r1, r2, r3, r4 \x7b",
  "\tr1 := i64.or(x1, y1)",
  "\tr2 := i64.or(x2, y2)",
  "\tr3 := i64.or(x3, y3)",
  "\tr4 := i64.or(x4, y4)",
  "\x7d",
  "function and(x1, x2, x3, x4, y1, y2, y3, y4) -> r1, r2, r3, r4 \x7b",
  "\tr1 := i64.and(x1, y1)",
  "\tr2 := i64.and(x2, y2)",
  "\tr3 := i64.and(x3, y3)",
  "\tr4 := i64.and(x4, y4)",
  "\x7d",
  "function not(x1, x2, x3, x4) -> r1, r2, r3, r4 \x7b",
  "\tlet mask := 0xffffffffffffffff",
  "\tr1, r2, r3, r4 := xor(x1, x2, x3, x4, mask, mask, mask, mask)",
  "\x7d",
  "function iszero(x1, x2, x3, x4) -> r1, r2, r3, r4 \x7b",
  "\tr4 := i64.extend_i32_u(iszero256(x1, x2, x3, x4))",
  "\x7d",
  "function iszero256(x1, x2, x3, x4) -> r:i32 \x7b",
  "\tr := i64.eqz(i64.or(i64.or(x1, x2), i64.or(x3, x4)))",
  "\x7d",
  "function iszero320(x1, x2, x3, x4, x5) -> r:i32 \x7b",
  "\tr := i64.eqz(i64.or(i64.or(i64.or(x1, x2), i64.or(x3, x4)), x5))",
  "\x7d",
  "function iszero512(x1, x2, x3, x4, x5, x6, x7, x8) -> r:i32 \x7b",
  "\tr := i32.and(iszero256(x1, x2, x3, x4), iszero256(x5, x6, x7, x8))",
  "\x7d",
  "function eq(x1, x2, x3, x4, y1, y2, y3, y4) -> r1, r2, r3, r4 \x7b",
  "\tif i64.eq(x1, y1) \x7b",
  "\t\tif i64.eq(x2, y2) \x7b",
  "\t\t\tif i64.eq(x3, y3) \x7b",
  "\t\t\t\tif i64.eq(x4, y4) \x7b",
  "\t\t\t\t\tr4 := 1",
  "\t\t\t\t\x7d",
  "\t\t\t\x7d",
  "\t\t\x7d",
  "\t\x7d",
  "\x7d",
  "",
  "// returns 0 if a == b, -1 if a < b and 1 if a > b",
  "function cmp(a, b) -> r:i32 \x7b",
  "\tswitch i64.lt_u(a, b)",
  "\tcase 1:i32 \x7b r := 0xffffffff:i32 \x7d",
  "\tdefault \x7b",
  "\t\tr := i64.ne(a, b)",
  "\t\x7d",
  "\x7d",
  "function lt_320x320_64(x1, x2, x3, x4, x5, y1, y2, y3, y4, y5) -> z:i32 \x7b",
  "\tswitch cmp(x1, y1)",
  "\tcase 0:i32 \x7b",
  "\t\tswitch cmp(x2, y2)",
  "\t\tcase 0:i32 \x7b",
  "\t\t\tswitch cmp(x3, y3)",
  "\t\t\tcase 0:i32 \x7b",
  "\t\t\t\tswitch cmp(x4, y4)",
  "\t\t\t\tcase 0:i32 \x7b",
  "\t\t\t\t\tz := i64.lt_u(x5, y5)",
  "\t\t\t\t\x7d",
  "\t\t\t\tcase 1:i32 \x7b z := 0:i32 \x7d",
  "\t\t\t\tdefault \x7b z := 1:i32 \x7d",
  "\t\t\t\x7d",
  "\t\t\tcase 1:i32 \x7b z := 0:i32 \x7d",
  "\t\t\tdefault \x7b z := 1:i32 \x7d",
  "\t\t\x7d",
  "\t\tcase 1:i32 \x7b z := 0:i32 \x7d",
  "\t\tdefault \x7b z := 1:i32 \x7d",
  "\t\x7d",
  "\tcase 1:i32 \x7b z := 0:i32 \x7d",
  "\tdefault \x7b z := 1:i32 \x7d",
  "\x7d",
  "function lt_512x512_64(x1, x2, x3, x4, x5, x6, x7, x8, y1, y2, y3, y4, y5, y6, y7, y8) -> z:i32 \x7b",
  "\tswitch cmp(x1, y1)",
  "\tcase 0:i32 \x7b",
  "\t\tswitch cmp(x2, y2)",
  "\t\tcase 0:i32 \x7b",
  "\t\t\tswitch cmp(x3, y3)",
  "\t\t\tcase 0:i32 \x7b",
  "\t\t\t\tswitch cmp(x4, y4)",
  "\t\t\t\tcase 0:i32 \x7b",
  "\t\t\t\t\tswitch cmp(x5, y5)",
  "\t\t\t\t\tcase 0:i32 \x7b",
  "\t\t\t\t\t\tswitch cmp(x6, y6)",
  "\t\t\t\t\t\tcase 0:i32 \x7b",
  "\t\t\t\t\t\t\tswitch cmp(x7, y7)",
  "\t\t\t\t\t\t\tcase 0:i32 \x7b",
  "\t\t\t\t\t\t\t\tz := i64.lt_u(x8, y8)",
  "\t\t\t\t\t\t\t\x7d",
  "\t\t\t\t\t\t\tcase 1:i32 \x7b z := 0:i32 \x7d",
  "\t\t\t\t\t\t\tdefault \x7b z := 1:i32 \x7d",
  "\t\t\t\t\t\t\x7d",
  "\t\t\t\t\t\tcase 1:i32 \x7b z := 0:i32 \x7d",
  "\t\t\t\t\t\tdefault \x7b z := 1:i32 \x7d",
  "\t\t\t\t\t\x7d",
  "\t\t\t\t\tcase 1:i32 \x7b z := 0:i32 \x7d",
  "\t\t\t\t\tdefault \x7b z := 1:i32 \x7d",
  "\t\t\t\t\x7d",
  "\t\t\t\tcase 1:i32 \x7b z := 0:i32 \x7d",
  "\t\t\t\tdefault \x7b z := 1:i32 \x7d",
  "\t\t\t\x7d",
  "\t\t\tcase 1:i32 \x7b z := 0:i32 \x7d",
  "\t\t\tdefault \x7b z := 1:i32 \x7d",
  "\t\t\x7d",
  "\t\tcase 1:i32 \x7b z := 0:i32 \x7d",
  "\t\tdefault \x7b z := 1:i32 \x7d",
  "\t\x7d",
  "\tcase 1:i32 \x7b z := 0:i32 \x7d",
  "\tdefault \x7b z := 1:i32 \x7d",
  "\x7d/*",
  "",
  "*/",
  "function lt_256x256_64(x1, x2, x3, x4, y1, y2, y3, y4) -> z:i32 \x7b",
  "\tswitch cmp(x1, y1)",
  "\tcase 0:i32 \x7b",
  "\t\tswitch cmp(x2, y2)",
  "\t\tcase 0:i32 \x7b",
  "\t\t\tswitch cmp(x3, y3)",
  "\t\t\tcase 0:i32 \x7b",
  "\t\t\t\tz := i64.lt_u(x4, y4)",
  "\t\t\t\x7d",
  "\t\t\tcase 1:i32 \x7b z := 0:i32 \x7d",
  "\t\t\tdefault \x7b z := 1:i32 \x7d",
  "\t\t\x7d",
  "\t\tcase 1:i32 \x7b z := 0:i32 \x7d",
  "\t\tdefault \x7b z := 1:i32 \x7d",
  "\t\x7d",
  "\tcase 1:i32 \x7b z := 0:i32 \x7d",
  "\tdefault \x7b z := 1:i32 \x7d",
  "\x7d",
  "function lt(x1, x2, x3, x4, y1, y2, y3, y4) -> z1, z2, z3, z4 \x7b",
  "\tz4 := i64.extend_i32_u(lt_256x256_64(x1, x2, x3, x4, y1, y2, y3, y4))",
  "\x7d",
  "function gte_256x256_64(x1, x2, x3, x4, y1, y2, y3, y4) -> z:i32 \x7b",
  "\tz := i32.eqz(lt_256x256_64(x1, x2, x3, x4, y1, y2, y3, y4))",
  "\x7d",
  "function gte_320x320_64(x1, x2, x3, x4, x5, y1, y2, y3, y4, y5) -> z:i32 \x7b",
  "\tz := i32.eqz(lt_320x320_64(x1, x2, x3, x4, x5, y1, y2, y3, y4, y5))",
  "\x7d",
  "function gte_512x512_64(x1, x2, x3, x4, x5, x6, x7, x8, y1, y2, y3, y4, y5, y6, y7, y8) -> z:i32 \x7b",
  "\tz := i32.eqz(lt_512x512_64(x1, x2, x3, x4, x5, x6, x7, x8, y1, y2, y3, y4, y5, y6, y7, y8))",
  "\x7d",
  "function gt(x1, x2, x3, x4, y1, y2, y3, y4) -> z1, z2, z3, z4 \x7b",
  "\tz1, z2, z3, z4 := lt(y1, y2, y3, y4, x1, x2, x3, x4)",
  "\x7d",
  "function slt(x1, x2, x3, x4, y1, y2, y3, y4) -> z1, z2, z3, z4 \x7b",
  "\t// TODO correct?",
  "\tx1 := i64.add(x1, 0x8000000000000000)",
  "\ty1 := i64.add(y1, 0x8000000000000000)",
  "\tz1, z2, z3, z4 := lt(x1, x2, x3, x4, y1, y2, y3, y4)",
  "\x7d",
  "function sgt(x1, x2, x3, x4, y1, y2, y3, y4) -> z1, z2, z3, z4 \x7b",
  "\tz1, z2, z3, z4 := slt(y1, y2, y3, y4, x1, x2, x3, x4)",
  "\x7d",
  "",
  "function shl_single(a, amount) -> x, y \x7b",
  "\t// amount < 64",
  "\tx := i64.shr_u(a, i64.sub(64, amount))",
  "\ty := i64.shl(a, amount)",
  "\x7d",
  "",
  "function shl(x1, x2, x3, x4, y1, y2, y3, y4) -> z1, z2, z3, z4 \x7b",
  "\tif i32.and(i64.eqz(x1), i64.eqz(x2)) \x7b",
  "\t\tif i64.eqz(x3) \x7b",
  "\t\t\tif i64.lt_u(x4, 256) \x7b",
  "\t\t\t\tif i64.ge_u(x4, 128) \x7b",
  "\t\t\t\t\ty1 := y3",
  "\t\t\t\t\ty2 := y4",
  "\t\t\t\t\ty3 := 0",
  "\t\t\t\t\ty4 := 0",
  "\t\t\t\t\tx4 := i64.sub(x4, 128)",
  "\t\t\t\t\x7d",
  "\t\t\t\tif i64.ge_u(x4, 64) \x7b",
  "\t\t\t\t\ty1 := y2",
  "\t\t\t\t\ty2 := y3",
  "\t\t\t\t\ty3 := y4",
  "\t\t\t\t\ty4 := 0",
  "\t\t\t\t\tx4 := i64.sub(x4, 64)",
  "\t\t\t\t\x7d",
  "\t\t\t\tlet t, r",
  "\t\t\t\tt, z4 := shl_single(y4, x4)",
  "\t\t\t\tr, z3 := shl_single(y3, x4)",
  "\t\t\t\tz3 := i64.or(z3, t)",
  "\t\t\t\tt, z2 := shl_single(y2, x4)",
  "\t\t\t\tz2 := i64.or(z2, r)",
  "\t\t\t\tr, z1 := shl_single(y1, x4)",
  "\t\t\t\tz1 := i64.or(z1, t)",
  "\t\t\t\x7d",
  "\t\t\x7d",
  "\t\x7d",
  "\x7d",
  "",
  "function shr_single(a, amount) -> x, y \x7b",
  "\t// amount < 64",
  "\ty := i64.shl(a, i64.sub(64, amount))",
  "\tx := i64.shr_u(a, amount)",
  "\x7d",
  "",
  "function shr(x1, x2, x3, x4, y1, y2, y3, y4) -> z1, z2, z3, z4 \x7b",
  "\tif i32.and(i64.eqz(x1), i64.eqz(x2)) \x7b",
  "\t\tif i64.eqz(x3) \x7b",
  "\t\t\tif i64.lt_u(x4, 256) \x7b",
  "\t\t\t\tif i64.ge_u(x4, 128) \x7b",
  "\t\t\t\t\ty4 := y2",
  "\t\t\t\t\ty3 := y1",
  "\t\t\t\t\ty2 := 0",
  "\t\t\t\t\ty1 := 0",
  "\t\t\t\t\tx4 := i64.sub(x4, 128)",
  "\t\t\t\t\x7d",
  "\t\t\t\tif i64.ge_u(x4, 64) \x7b",
  "\t\t\t\t\ty4 := y3",
  "\t\t\t\t\ty3 := y2",
  "\t\t\t\t\ty2 := y1",
  "\t\t\t\t\ty1 := 0",
  "\t\t\t\t\tx4 := i64.sub(x4, 64)",
  "\t\t\t\t\x7d",
  "\t\t\t\tlet t",
  "\t\t\t\tz4, t := shr_single(y4, x4)",
  "\t\t\t\tz3, t := shr_single(y3, x4)",
  "\t\t\t\tz4 := i64.or(z4, t)",
  "\t\t\t\tz2, t := shr_single(y2, x4)",
  "\t\t\t\tz3 := i64.or(z3, t)",
  "\t\t\t\tz1, t := shr_single(y1, x4)",
  "\t\t\t\tz2 := i64.or(z2, t)",
  "\t\t\t\x7d",
  "\t\t\x7d",
  "\t\x7d",
  "\x7d",
  "function sar(x1, x2, x3, x4, y1, y2, y3, y4) -> z1, z2, z3, z4 \x7b",
  "\tif i64.gt_u(i64.clz(y1), 0) \x7b",
  "\t\tz1, z2, z3, z4 := shr(x1, x2, x3, x4, y1, y2, y3, y4)",
  "\t\tleave",
  "\t\x7d",
  "",
  "\tif gte_256x256_64(x1, x2, x3, x4, 0, 0, 0, 256) \x7b",
  "\t\tz1 := 0xffffffffffffffff",
  "\t\tz2 := 0xffffffffffffffff",
  "\t\tz3 := 0xffffffffffffffff",
  "\t\tz4 := 0xffffffffffffffff",
  "\t\x7d",
  "\tif lt_256x256_64(x1, x2, x3, x4, 0, 0, 0, 256) \x7b",
  "\t\ty1, y2, y3, y4 := shr(0, 0, 0, x4, y1, y2, y3, y4)",
  "\t\tz1, z2, z3, z4 := shl(",
  "\t\t\t0, 0, 0, i64.sub(256, x4),",
  "\t\t\t0xffffffffffffffff, 0xffffffffffffffff, 0xffffffffffffffff, 0xffffffffffffffff",
  "\t\t)",
  "\t\tz1, z2, z3, z4 := or(y1, y2, y3, y4, z1, z2, z3, z4)",
  "\t\x7d",
  "\x7d",
  "function addmod(x1, x2, x3, x4, y1, y2, y3, y4, m1, m2, m3, m4) -> z1, z2, z3, z4 \x7b",
  "\tlet carry",
  "\tz4, carry := add_carry(x4, y4, 0)",
  "\tz3, carry := add_carry(x3, y3, carry)",
  "\tz2, carry := add_carry(x2, y2, carry)",
  "\tz1, carry := add_carry(x1, y1, carry)",
  "",
  "\tlet z0",
  "\tz0, z1, z2, z3, z4 := mod320(carry, z1, z2, z3, z4, 0, m1, m2, m3, m4)",
  "\x7d",
  "function mulmod(x1, x2, x3, x4, y1, y2, y3, y4, m1, m2, m3, m4) -> z1, z2, z3, z4 \x7b",
  "\tlet r1, r2, r3, r4, r5, r6, r7, r8 := mul_256x256_512(x1, x2, x3, x4, y1, y2, y3, y4)",
  "\tlet t1",
  "\tlet t2",
  "\tlet t3",
  "\tlet t4",
  "\tt1, t2, t3, t4, z1, z2, z3, z4 := mod512(r1, r2, r3, r4, r5, r6, r7, r8, 0, 0, 0, 0, m1, m2, m3, m4)",
  "\x7d",
  "function signextend(x1, x2, x3, x4, y1, y2, y3, y4) -> z1, z2, z3, z4 \x7b",
  "\tz1 := y1",
  "\tz2 := y2",
  "\tz3 := y3",
  "\tz4 := y4",
  "\tif lt_256x256_64(x1, x2, x3, x4, 0, 0, 0, 32) \x7b",
  "\t\tlet d := i64.mul(i64.sub(31, x4), 8)",
  "\t\tz1, z2, z3, z4 := shl(0, 0, 0, d, z1, z2, z3, z4)",
  "\t\tz1, z2, z3, z4 := sar(0, 0, 0, d, z1, z2, z3, z4)",
  "\t\x7d",
  "\x7d",
  "function u256_to_u128(x1, x2, x3, x4) -> v1, v2 \x7b",
  "\tif i64.ne(0, i64.or(x1, x2)) \x7b invalid() \x7d",
  "\tv2 := x4",
  "\tv1 := x3",
  "\x7d",
  "",
  "function u256_to_i64(x1, x2, x3, x4) -> v \x7b",
  "\tif i64.ne(0, i64.or(i64.or(x1, x2), x3)) \x7b invalid() \x7d",
  "\tv := x4",
  "\x7d",
  "",
  "function u256_to_i32(x1, x2, x3, x4) -> v:i32 \x7b",
  "\tif i64.ne(0, i64.or(i64.or(x1, x2), x3)) \x7b invalid() \x7d",
  "\tif i64.ne(0, i64.shr_u(x4, 32)) \x7b invalid() \x7d",
  "\tv := i32.wrap_i64(x4)",
  "\x7d",
  "",
  "function u256_to_byte(x1, x2, x3, x4) -> v \x7b",
  "\tif i64.ne(0, i64.or(i64.or(x1, x2), x3)) \x7b invalid() \x7d",
  "\tif i64.gt_u(x4, 255) \x7b invalid() \x7d",
  "\tv := x4",
  "\x7d",
  "",
  "function u256_to_i32ptr(x1, x2, x3, x4) -> v:i32 \x7b",
  "\tv := u256_to_i32(x1, x2, x3, x4)",
  "\x7d",
  "",
  "function to_internal_i32ptr(x1, x2, x3, x4) -> r:i32 \x7b",
  "\tlet p:i32 := u256_to_i32ptr(x1, x2, x3, x4)",
  "\tr := i32.add(p, 64:i32)",
  "\tif i32.lt_u(r, p) \x7b invalid() \x7d",
  "\x7d",
  "",
  "function u256_to_address(x1, x2, x3, x4) -> r1, r2, r3 \x7b",
  "\tif i64.ne(0, x1) \x7b invalid() \x7d",
  "\tif i64.ne(0, i64.shr_u(x2, 32)) \x7b invalid() \x7d",
  "\tr1 := x2",
  "\tr2 := x3",
  "\tr3 := x4",
  "\x7d",
  "",
  "function i8_load32(ptr:i32) -> v:i32",
  "\x7b",
  "\tv := i32.and(i32.load(ptr), 0xff:i32)",
  "\x7d",
  "",
  "function i8_load(ptr:i32) -> v:i64",
  "\x7b",
  "\tv := i64.and(i64.load(ptr), 0xff)",
  "\x7d",
  "",
  "function memcpy(dst:i32, src:i32, length:i32) \x7b",
  "\tfor \x7b let i:i32 := 0:i32 \x7d i32.lt_u(i, length) \x7b i := i32.add(i, 1:i32) \x7d",
  "\t\x7b",
  "\t\ti32.store8(i32.add(dst, i), i8_load32(i32.add(src, i)))",
  "\t\x7d",
  "\x7d",
  "",
  "function memset(ptr:i32, value:i32, length:i32) \x7b",
  "\tfor \x7b let i:i32 := 0:i32 \x7d i32.lt_u(i, length) \x7b i := i32.add(i, 1:i32) \x7d",
  "\t\x7b",
  "\t\ti32.store8(i32.add(ptr, i), value)",
  "\t\x7d",
  "\x7d",
  "",
  "// reset the context",
  "function keccak_reset(context_offset:i32) \x7b",
  "\t// clear out the context memory",
  "\tmemset(context_offset, 0x00:i32, 400:i32)",
  "\x7d",
  "",
  "// initialize the context",
  "// The context is laid out as follows:",
  "//   0: 1600 bits - 200 bytes - hashing state",
  "// 200:   64 bits -   8 bytes - residue position",
  "// 208: 1536 bits - 192 bytes - residue buffer",
  "// 400: 1536 bits - 192 bytes - round constants",
  "// 592:  192 bits -  24 bytes - rotation constants",
  "function keccak_init(context_offset:i32) \x7b",
  "\tkeccak_reset(context_offset)",
  "",
  "\tlet round_consts:i32 := i32.add(context_offset, 400:i32)",
  "\ti64.store(i32.add(round_consts, 0:i32), 0x0000000000000001)",
  "\ti64.store(i32.add(round_consts, 8:i32), 0x0000000000008082)",
  "\ti64.store(i32.add(round_consts, 16:i32), 0x800000000000808A)",
  "\ti64.store(i32.add(round_consts, 24:i32), 0x8000000080008000)",
  "\ti64.store(i32.add(round_consts, 32:i32), 0x000000000000808B)",
  "\ti64.store(i32.add(round_consts, 40:i32), 0x0000000080000001)",
  "\ti64.store(i32.add(round_consts, 48:i32), 0x8000000080008081)",
  "\ti64.store(i32.add(round_consts, 56:i32), 0x8000000000008009)",
  "\ti64.store(i32.add(round_consts, 64:i32), 0x000000000000008A)",
  "\ti64.store(i32.add(round_consts, 72:i32), 0x0000000000000088)",
  "\ti64.store(i32.add(round_consts, 80:i32), 0x0000000080008009)",
  "\ti64.store(i32.add(round_consts, 88:i32), 0x000000008000000A)",
  "\ti64.store(i32.add(round_consts, 96:i32), 0x000000008000808B)",
  "\ti64.store(i32.add(round_consts, 104:i32), 0x800000000000008B)",
  "\ti64.store(i32.add(round_consts, 112:i32), 0x8000000000008089)",
  "\ti64.store(i32.add(round_consts, 120:i32), 0x8000000000008003)",
  "\ti64.store(i32.add(round_consts, 128:i32), 0x8000000000008002)",
  "\ti64.store(i32.add(round_consts, 136:i32), 0x8000000000000080)",
  "\ti64.store(i32.add(round_consts, 144:i32), 0x000000000000800A)",
  "\ti64.store(i32.add(round_consts, 152:i32), 0x800000008000000A)",
  "\ti64.store(i32.add(round_consts, 160:i32), 0x8000000080008081)",
  "\ti64.store(i32.add(round_consts, 168:i32), 0x8000000000008080)",
  "\ti64.store(i32.add(round_consts, 176:i32), 0x0000000080000001)",
  "\ti64.store(i32.add(round_consts, 184:i32), 0x8000000080008008)",
  "",
  "\tlet rotation_consts:i32 := i32.add(context_offset, 592:i32)",
  "\ti32.store8(i32.add(rotation_consts, 0:i32), 1:i32)",
  "\ti32.store8(i32.add(rotation_consts, 1:i32), 62:i32)",
  "\ti32.store8(i32.add(rotation_consts, 2:i32), 28:i32)",
  "\ti32.store8(i32.add(rotation_consts, 3:i32), 27:i32)",
  "\ti32.store8(i32.add(rotation_consts, 4:i32), 36:i32)",
  "\ti32.store8(i32.add(rotation_consts, 5:i32), 44:i32)",
  "\ti32.store8(i32.add(rotation_consts, 6:i32), 6:i32)",
  "\ti32.store8(i32.add(rotation_consts, 7:i32), 55:i32)",
  "\ti32.store8(i32.add(rotation_consts, 8:i32), 20:i32)",
  "\ti32.store8(i32.add(rotation_consts, 9:i32), 3:i32)",
  "\ti32.store8(i32.add(rotation_consts, 10:i32), 10:i32)",
  "\ti32.store8(i32.add(rotation_consts, 11:i32), 43:i32)",
  "\ti32.store8(i32.add(rotation_consts, 12:i32), 25:i32)",
  "\ti32.store8(i32.add(rotation_consts, 13:i32), 39:i32)",
  "\ti32.store8(i32.add(rotation_consts, 14:i32), 41:i32)",
  "\ti32.store8(i32.add(rotation_consts, 15:i32), 45:i32)",
  "\ti32.store8(i32.add(rotation_consts, 16:i32), 15:i32)",
  "\ti32.store8(i32.add(rotation_consts, 17:i32), 21:i32)",
  "\ti32.store8(i32.add(rotation_consts, 18:i32), 8:i32)",
  "\ti32.store8(i32.add(rotation_consts, 19:i32), 18:i32)",
  "\ti32.store8(i32.add(rotation_consts, 20:i32), 2:i32)",
  "\ti32.store8(i32.add(rotation_consts, 21:i32), 61:i32)",
  "\ti32.store8(i32.add(rotation_consts, 22:i32), 56:i32)",
  "\ti32.store8(i32.add(rotation_consts, 23:i32), 14:i32)",
  "\x7d",
  "",
  "function keccak_update(context_offset:i32, input_offset:i32, input_length:i32) \x7b",
  "\t// this is where we store the pointer",
  "\tlet residue_offset:i32 := i32.add(context_offset, 200:i32)",
  "\t// this is where the buffer is",
  "\tlet residue_buffer:i32 := i32.add(context_offset, 208:i32)",
  "\tlet residue_index:i32 := i32.load(residue_offset)",
  "\t// process residue from last block",
  "\tif i32.ne(residue_index, 0:i32) \x7b",
  "\t\t// the space left in the residue buffer",
  "\t\tlet tmp:i32 := i32.sub(136:i32, residue_index)",
  "\t\t// limit to what we have as an input",
  "\t\tif i32.lt_u(input_length, tmp) \x7b",
  "\t\t\ttmp := input_length",
  "\t\t\x7d",
  "\t\t// fill up the residue buffer",
  "\t\tmemcpy(i32.add(residue_buffer, residue_index), input_offset, tmp)",
  "\t\tresidue_index := i32.add(residue_index, tmp)",
  "\t\t// block complete",
  "\t\tif i32.eq(residue_index, 136:i32) \x7b",
  "\t\t\tkeccak_block(context_offset, input_offset, 136:i32)",
  "\t\t\tresidue_index := 0:i32",
  "\t\t\x7d",
  "\t\ti32.store(residue_offset, residue_index)",
  "\t\tinput_length := i32.sub(input_length, tmp)",
  "\t\x7d",
  "\t// while (input_length > block_size)",
  "\tfor \x7b \x7d i32.gt_u(input_length, 136:i32) \x7b \x7d \x7b",
  "\t\tkeccak_block(context_offset, input_offset, 136:i32)",
  "\t\tinput_offset := i32.add(input_offset, 136:i32)",
  "\t\tinput_length := i32.sub(input_length, 136:i32)",
  "\t\x7d",
  "\t// copy to the residue buffer",
  "\tif i32.gt_u(input_length, 0:i32) \x7b",
  "\t\tmemcpy(i32.add(residue_buffer, residue_index), input_offset, input_length)",
  "\t\tresidue_index := i32.add(residue_index, input_length)",
  "\t\ti32.store(residue_offset, residue_index)",
  "\t\x7d",
  "\x7d",
  "",
  "function keccak_block(context_offset:i32, input_offset:i32, input_length:i32) \x7b",
  "\t// read blocks in little-endian order and XOR against context_offset",
  "\ti64.store(i32.add(context_offset, 0:i32), i64.xor(i64.load(i32.add(context_offset, 0:i32)), i64.load(i32.add(input_offset, 0:i32))))",
  "\ti64.store(i32.add(context_offset, 8:i32), i64.xor(i64.load(i32.add(context_offset, 8:i32)), i64.load(i32.add(input_offset, 8:i32))))",
  "\ti64.store(i32.add(context_offset, 16:i32), i64.xor(i64.load(i32.add(context_offset, 16:i32)), i64.load(i32.add(input_offset, 16:i32))))",
  "\ti64.store(i32.add(context_offset, 24:i32), i64.xor(i64.load(i32.add(context_offset, 24:i32)), i64.load(i32.add(input_offset, 24:i32))))",
  "\ti64.store(i32.add(context_offset, 32:i32), i64.xor(i64.load(i32.add(context_offset, 32:i32)), i64.load(i32.add(input_offset, 32:i32))))",
  "\ti64.store(i32.add(context_offset, 40:i32), i64.xor(i64.load(i32.add(context_offset, 40:i32)), i64.load(i32.add(input_offset, 40:i32))))",
  "\ti64.store(i32.add(context_offset, 48:i32), i64.xor(i64.load(i32.add(context_offset, 48:i32)), i64.load(i32.add(input_offset, 48:i32))))",
  "\ti64.store(i32.add(context_offset, 56:i32), i64.xor(i64.load(i32.add(context_offset, 56:i32)), i64.load(i32.add(input_offset, 56:i32))))",
  "\ti64.store(i32.add(context_offset, 64:i32), i64.xor(i64.load(i32.add(context_offset, 64:i32)), i64.load(i32.add(input_offset, 64:i32))))",
  "\ti64.store(i32.add(context_offset, 72:i32), i64.xor(i64.load(i32.add(context_offset, 72:i32)), i64.load(i32.add(input_offset, 72:i32))))",
  "\ti64.store(i32.add(context_offset, 80:i32), i64.xor(i64.load(i32.add(context_offset, 80:i32)), i64.load(i32.add(input_offset, 80:i32))))",
  "\ti64.store(i32.add(context_offset, 88:i32), i64.xor(i64.load(i32.add(context_offset, 88:i32)), i64.load(i32.add(input_offset, 88:i32))))",
  "\ti64.store(i32.add(context_offset, 96:i32), i64.xor(i64.load(i32.add(context_offset, 96:i32)), i64.load(i32.add(input_offset, 96:i32))))",
  "\ti64.store(i32.add(context_offset, 104:i32), i64.xor(i64.load(i32.add(context_offset, 104:i32)), i64.load(i32.add(input_offset, 104:i32))))",
  "\ti64.store(i32.add(context_offset, 112:i32), i64.xor(i64.load(i32.add(context_offset, 112:i32)), i64.load(i32.add(input_offset, 112:i32))))",
  "\ti64.store(i32.add(context_offset, 120:i32), i64.xor(i64.load(i32.add(context_offset, 120:i32)), i64.load(i32.add(input_offset, 120:i32))))",
  "\ti64.store(i32.add(context_offset, 128:i32), i64.xor(i64.load(i32.add(context_offset, 128:i32)), i64.load(i32.add(input_offset, 128:i32))))",
  "\tkeccak_permute(context_offset)",
  "\x7d",
  "",
  "function keccak_permute(context_offset:i32) \x7b",
  "\tlet round_consts:i32 := i32.add(context_offset, 400:i32)",
  "\tlet rotation_consts:i32 := i32.add(context_offset, 592:i32)",
  "\tfor \x7b let round:i32 := 0:i32 \x7d i32.lt_u(round, 24:i32) \x7b round := i32.add(round, 1:i32) \x7d",
  "\t\x7b",
  "\t\t// theta transform",
  "\t\tkeccak_theta(context_offset)",
  "\t\t// rho transform",
  "\t\tkeccak_rho(context_offset, rotation_consts)",
  "\t\t// pi transform",
  "\t\tkeccak_pi(context_offset)",
  "\t\t// chi transform",
  "\t\tkeccak_chi(context_offset)",
  "\t\t// iota transform",
  "\t\t// context_offset[0] ^= KECCAK_ROUND_CONSTANTS[round];",
  "\t\ti64.store(",
  "\t\t\tcontext_offset,",
  "\t\t\ti64.xor(",
  "\t\t\t\ti64.load(context_offset),",
  "\t\t\t\ti64.load(i32.add(round_consts, i32.mul(8:i32, round)))",
  "\t\t\t)",
  "\t\t)",
  "\t\x7d",
  "\x7d",
  "",
  "function C(context_offset:i32, x:i32) -> result \x7b",
  "\t// C[x] = A[x] ^ A[x + 5] ^ A[x + 10] ^ A[x + 15] ^ A[x + 20];",
  "\tresult := i64.xor(",
  "\t\t\t\ti64.load(i32.add(context_offset, i32.mul(x, 8:i32))),",
  "\t\t\t\ti64.xor(",
  "\t\t\t\t\ti64.load(i32.add(context_offset, i32.mul(i32.add(x, 5:i32), 8:i32))),",
  "\t\t\t\t\ti64.xor(",
  "\t\t\t\t\t\ti64.load(i32.add(context_offset, i32.mul(i32.add(x, 10:i32), 8:i32))),",
  "\t\t\t\t\t\ti64.xor(",
  "\t\t\t\t\t\t\ti64.load(i32.add(context_offset, i32.mul(i32.add(x, 15:i32), 8:i32))),",
  "\t\t\t\t\t\t\ti64.load(i32.add(context_offset, i32.mul(i32.add(x, 20:i32), 8:i32)))",
  "\t\t\t\t))))",
  "\x7d",
  "",
  "function D(x:i64, y:i64) -> result \x7b",
  "\t// result = x ^ ROTL64(y, 1);",
  "\tresult := i64.xor(x, rotl64(y, 1))",
  "\x7d",
  "",
  "function A(context_offset:i32, x:i32, dx:i64) \x7b",
  "\t// A[x]      ^= D[x];",
  "\t// A[x + 5]  ^= D[x];",
  "\t// A[x + 10] ^= D[x];",
  "\t// A[x + 15] ^= D[x];",
  "\t// A[x + 20] ^= D[x];",
  "",
  "\t// A[x]      ^= D[x];",
  "\ti64.store(",
  "\t\ti32.add(context_offset, x),",
  "\t\ti64.xor(",
  "\t\t\ti64.load(i32.add(context_offset, x)),",
  "\t\t\tdx",
  "\t\t)",
  "\t)",
  "\t// A[x + 5]  ^= D[x];",
  "\ti64.store(",
  "\t\ti32.add(context_offset, i32.mul(i32.add(x, 5:i32), 8:i32)),",
  "\t\ti64.xor(",
  "\t\t\ti64.load(i32.add(context_offset, i32.mul(i32.add(x, 5:i32), 8:i32))),",
  "\t\t\tdx",
  "\t\t)",
  "\t)",
  "\t// A[x + 10] ^= D[x];",
  "\ti64.store(",
  "\t\ti32.add(context_offset, i32.mul(i32.add(x, 10:i32), 8:i32)),",
  "\t\ti64.xor(",
  "\t\t\ti64.load(i32.add(context_offset, i32.mul(i32.add(x, 10:i32), 8:i32))),",
  "\t\t\tdx",
  "\t\t)",
  "\t)",
  "\t// A[x + 15] ^= D[x];",
  "\ti64.store(",
  "\t\ti32.add(context_offset, i32.mul(i32.add(x, 15:i32), 8:i32)),",
  "\t\ti64.xor(",
  "\t\t\ti64.load(i32.add(context_offset, i32.mul(i32.add(x, 15:i32), 8:i32))),",
  "\t\t\tdx",
  "\t\t)",
  "\t)",
  "\t// A[x + 20] ^= D[x];",
  "\ti64.store(",
  "\t\ti32.add(context_offset, i32.mul(i32.add(x, 20:i32), 8:i32)),",
  "\t\ti64.xor(",
  "\t\t\ti64.load(i32.add(context_offset, i32.mul(i32.add(x, 20:i32), 8:i32))),",
  "\t\t\tdx",
  "\t\t)",
  "\t)",
  "\x7d",
  "",
  "function keccak_theta(context_offset:i32) \x7b",
  "\tlet c0 := C(context_offset, 0:i32)",
  "\tlet c1 := C(context_offset, 1:i32)",
  "\tlet c2 := C(context_offset, 2:i32)",
  "\tlet c3 := C(context_offset, 3:i32)",
  "\tlet c4 := C(context_offset, 4:i32)",
  "",
  "\tlet d0 := D(c1, c4)",
  "\tlet d1 := D(c2, c0)",
  "\tlet d2 := D(c3, c1)",
  "\tlet d3 := D(c4, c2)",
  "\tlet d4 := D(c0, c3)",
  "",
  "\tA(context_offset, 0:i32, d0)",
  "\tA(context_offset, 1:i32, d1)",
  "\tA(context_offset, 2:i32, d2)",
  "\tA(context_offset, 3:i32, d3)",
  "\tA(context_offset, 4:i32, d4)",
  "\x7d",
  "",
  "function keccak_rho(context_offset:i32, rotation_consts:i32) \x7b",
  "\tfor \x7b let round:i32 := 0:i32 \x7d i32.lt_u(round, 24:i32) \x7b round := i32.add(round, 1:i32) \x7d",
  "\t\x7b",
  "\t\tlet tmp:i32 := i32.add(context_offset, i32.mul(8:i32, i32.add(1:i32, round)))",
  "\t\ti64.store(tmp, rotl64(i64.load(tmp), i8_load(i32.add(rotation_consts, round))))",
  "\t\x7d",
  "\x7d",
  "",
  "function keccak_pi(context_offset:i32) \x7b",
  "\tlet a1 := i64.load(i32.add(context_offset, 8:i32))",
  "",
  "\t// Swap non-overlapping fields, i.e. $A1 = $A6, etc.",
  "\t// NOTE: a0 is untouched",
  "\ti64.store(i32.add(context_offset, 8:i32),   i64.load(i32.add(context_offset, 48:i32)))",
  "\ti64.store(i32.add(context_offset, 48:i32),  i64.load(i32.add(context_offset, 72:i32)))",
  "\ti64.store(i32.add(context_offset, 72:i32),  i64.load(i32.add(context_offset, 176:i32)))",
  "\ti64.store(i32.add(context_offset, 176:i32), i64.load(i32.add(context_offset, 112:i32)))",
  "\ti64.store(i32.add(context_offset, 112:i32), i64.load(i32.add(context_offset, 160:i32)))",
  "\ti64.store(i32.add(context_offset, 160:i32), i64.load(i32.add(context_offset, 16:i32)))",
  "\ti64.store(i32.add(context_offset, 16:i32),  i64.load(i32.add(context_offset, 96:i32)))",
  "\ti64.store(i32.add(context_offset, 96:i32),  i64.load(i32.add(context_offset, 104:i32)))",
  "\ti64.store(i32.add(context_offset, 104:i32), i64.load(i32.add(context_offset, 152:i32)))",
  "\ti64.store(i32.add(context_offset, 152:i32), i64.load(i32.add(context_offset, 184:i32)))",
  "\ti64.store(i32.add(context_offset, 184:i32), i64.load(i32.add(context_offset, 120:i32)))",
  "\ti64.store(i32.add(context_offset, 120:i32), i64.load(i32.add(context_offset, 32:i32)))",
  "\ti64.store(i32.add(context_offset, 32:i32),  i64.load(i32.add(context_offset, 192:i32)))",
  "\ti64.store(i32.add(context_offset, 192:i32), i64.load(i32.add(context_offset, 168:i32)))",
  "\ti64.store(i32.add(context_offset, 168:i32), i64.load(i32.add(context_offset, 64:i32)))",
  "\ti64.store(i32.add(context_offset, 64:i32),  i64.load(i32.add(context_offset, 128:i32)))",
  "\ti64.store(i32.add(context_offset, 128:i32), i64.load(i32.add(context_offset, 40:i32)))",
  "\ti64.store(i32.add(context_offset, 40:i32),  i64.load(i32.add(context_offset, 24:i32)))",
  "\ti64.store(i32.add(context_offset, 24:i32),  i64.load(i32.add(context_offset, 144:i32)))",
  "\ti64.store(i32.add(context_offset, 144:i32), i64.load(i32.add(context_offset, 136:i32)))",
  "\ti64.store(i32.add(context_offset, 136:i32), i64.load(i32.add(context_offset, 88:i32)))",
  "\ti64.store(i32.add(context_offset, 88:i32),  i64.load(i32.add(context_offset, 56:i32)))",
  "\ti64.store(i32.add(context_offset, 56:i32),  i64.load(i32.add(context_offset, 80:i32)))",
  "",
  "\t// Place the previously saved overlapping field",
  "\ti64.store(i32.add(context_offset, 80:i32), a1)",
  "\x7d",
  "",
  "function keccak_chi(context_offset:i32) \x7b",
  "\tfor \x7b let i:i32 := 0:i32 \x7d i32.lt_u(i, 25:i32) \x7b i := i32.add(i, 5:i32) \x7d",
  "\t\x7b",
  "\t\tlet a0 := i64.load(i32.add(context_offset, i32.mul(8:i32, i)))",
  "\t\tlet a1 := i64.load(i32.add(context_offset, i32.mul(8:i32, i32.add(i, 1:i32))))",
  "",
  "\t\t// A[0 + i] ^= ~A1 & A[2 + i];",
  "\t\ti64.store(i32.add(context_offset, i32.mul(8:i32, i)),",
  "\t\t\ti64.xor(",
  "\t\t\t\ti64.load(i32.add(context_offset, i32.mul(8:i32, i))),",
  "\t\t\t\ti64.and(",
  "\t\t\t\t\ti64.xor(a1, 0xFFFFFFFFFFFFFFFF:i64),",
  "\t\t\t\t\ti64.load(i32.add(context_offset, i32.mul(8:i32, i32.add(i, 2:i32))))",
  "\t\t\t\t)",
  "\t\t\t)",
  "\t\t)",
  "",
  "\t\t// A[1 + i] ^= ~A[2 + i] & A[3 + i];",
  "\t\ti64.store(i32.add(context_offset, i32.mul(8:i32, i32.add(i, 1:i32))),",
  "\t\t\ti64.xor(",
  "\t\t\t\ti64.load(i32.add(context_offset, i32.mul(8:i32, i32.add(i, 1:i32)))),",
  "\t\t\t\ti64.and(",
  "\t\t\t\t\ti64.xor( // bitwise not",
  "\t\t\t\t\t\ti64.load(i32.add(context_offset, i32.mul(8:i32, i32.add(i, 2:i32)))),",
  "\t\t\t\t\t\t0xFFFFFFFFFFFFFFFF:i64",
  "\t\t\t\t\t),",
  "\t\t\t\t\ti64.load(i32.add(context_offset, i32.mul(8:i32, i32.add(i, 3:i32))))",
  "\t\t\t\t)",
  "\t\t\t)",
  "\t\t)",
  "",
  "\t\t// A[2 + i] ^= ~A[3 + i] & A[4 + i];",
  "\t\ti64.store(i32.add(context_offset, i32.mul(8:i32, i32.add(i, 2:i32))),",
  "\t\t\ti64.xor(",
  "\t\t\t\ti64.load(i32.add(context_offset, i32.mul(8:i32, i32.add(i, 2:i32)))),",
  "\t\t\t\ti64.and(",
  "\t\t\t\t\ti64.xor(",
  "\t\t\t\t\t\ti64.load(i32.add(context_offset, i32.mul(8:i32, i32.add(i, 3:i32)))),",
  "\t\t\t\t\t\t0xFFFFFFFFFFFFFFFF:i64",
  "\t\t\t\t\t),",
  "\t\t\t\t\ti64.load(i32.add(context_offset, i32.mul(8:i32, i32.add(i, 4:i32))))",
  "\t\t\t\t)",
  "\t\t\t)",
  "\t\t)",
  "",
  "\t\t// A[3 + i] ^= ~A[4 + i] & A0;",
  "\t\ti64.store(i32.add(context_offset, i32.mul(8:i32, i32.add(i, 3:i32))),",
  "\t\t\ti64.xor(",
  "\t\t\t\ti64.load(i32.add(context_offset, i32.mul(8:i32, i32.add(i, 3:i32)))),",
  "\t\t\t\ti64.and(",
  "\t\t\t\t\ti64.xor( // bitwise not",
  "\t\t\t\t\t\ti64.load(i32.add(context_offset, i32.mul(8:i32, i32.add(i, 4:i32)))),",
  "\t\t\t\t\t\t0xFFFFFFFFFFFFFFFF:i64",
  "\t\t\t\t\t),",
  "\t\t\t\t\ta0",
  "\t\t\t\t)",
  "\t\t\t)",
  "\t\t)",
  "",
  "\t\t// A[4 + i] ^= ~A0 & A1;",
  "\t\ti64.store(i32.add(context_offset, i32.mul(8:i32, i32.add(i, 4:i32))),",
  "\t\t\ti64.xor(",
  "\t\t\t\ti64.load(i32.add(context_offset, i32.mul(8:i32, i32.add(i, 4:i32)))),",
  "\t\t\t\ti64.and(",
  "\t\t\t\t\ti64.xor(a0, 0xFFFFFFFFFFFFFFFF:i64), // bitwise not",
  "\t\t\t\t\ta1",
  "\t\t\t\t)",
  "\t\t\t)",
  "\t\t)",
  "\t\x7d",
  "\x7d",
  "",
  "// Finalise and return the hash",
  "// The 256 bit hash is returned at the output offset.",
  "function keccak_finish(context_offset:i32, output_offset:i32) \x7b",
  "\t// this is where we store the pointer",
  "\tlet residue_offset:i32 := i32.add(context_offset, 200:i32)",
  "\t// this is where the buffer is",
  "\tlet residue_buffer:i32 := i32.add(context_offset, 208:i32)",
  "\tlet residue_index:i32 := i32.load(residue_offset)",
  "\tlet tmp:i32 := residue_index",
  "",
  "\t// clear the rest of the residue buffer",
  "\tmemset(i32.add(residue_buffer, tmp), 0x00:i32, i32.sub(136:i32, tmp))",
  "",
  "\t// ((char*)ctx->message)[ctx->rest] |= 0x01;",
  "\ttmp := i32.add(residue_buffer, residue_index)",
  "\ti32.store8(tmp, i32.or(i8_load32(tmp), 0x01:i32))",
  "",
  "\t// ((char*)ctx->message)[block_size - 1] |= 0x80;",
  "\ttmp := i32.add(residue_buffer, 135:i32)",
  "\ti32.store8(tmp, i32.or(i8_load32(tmp), 0x80:i32))",
  "",
  "\tkeccak_block(context_offset, residue_buffer, 136:i32)",
  "",
  "\t// the first 32 bytes pointed at by $output_offset is the final hash",
  "\ti64.store(output_offset, i64.load(context_offset))",
  "\ti64.store(i32.add(output_offset, 8:i32), i64.load(i32.add(context_offset, 8:i32)))",
  "\ti64.store(i32.add(output_offset, 16:i32), i64.load(i32.add(context_offset, 16:i32)))",
  "\ti64.store(i32.add(output_offset, 24:i32), i64.load(i32.add(context_offset, 24:i32)))",
  "\x7d",
  "",
  "function rotl64(x, y) -> z \x7b",
  "\t// #define ROTL64(x, y) (((x) << (y)) | ((x) >> (64 - (y))))",
  "\tz := i64.or(i64.shl(x, y), i64.shr_u(x, i64.sub(64:i64, y)))",
  "\x7d",
  "",
  "function keccak256(x1, x2, x3, x4, y1, y2, y3, y4) -> z1, z2, z3, z4 \x7b",
  "\tlet input_offset:i32 := u256_to_i32ptr(x1, x2, x3, x4)",
  "\tlet input_length:i32 := u256_to_i32(y1, y2, y3, y4)",
  "\tlet context_offset:i32 := 0xF000:i32",
  "\tlet output_offset:i32 := 0x0000:i32",
  "",
  "\tkeccak_init(context_offset)",
  "\tkeccak_update(context_offset, input_offset, input_length)",
  "\tkeccak_finish(context_offset, output_offset)",
  "",
  "\tz1 := i64.load(output_offset)",
  "\tz2 := i64.load(i32.add(output_offset, 8:i32))",
  "\tz3 := i64.load(i32.add(output_offset, 16:i32))",
  "\tz4 := i64.load(i32.add(output_offset, 24:i32))",
  "\x7d",
  "",
  "function address() -> z1, z2, z3, z4 \x7b",
  "\teth.getAddress(4:i32)",
  "\tz2, z3, z4 := mload_address(0:i32)",
  "\x7d",
  "function balance(x1, x2, x3, x4) -> z1, z2, z3, z4 \x7b",
  "\tmstore_address(0:i32, x1, x2, x3, x4)",
  "\teth.getExternalBalance(12:i32, 32:i32)",
  "\tz4 := i64.load(32:i32)",
  "\tz3 := i64.load(40:i32)",
  "\x7d",
  "function selfbalance() -> z1, z2, z3, z4 \x7b",
  "\t// TODO: not part of current Ewasm spec",
  "\tunreachable()",
  "\x7d",
  "function chainid() -> z1, z2, z3, z4 \x7b",
  "\t// TODO: not part of current Ewasm spec",
  "\tunreachable()",
  "\x7d",
  "function origin() -> z1, z2, z3, z4 \x7b",
  "\teth.getTxOrigin(4:i32)",
  "\tz2, z3, z4 := mload_address(0:i32)",
  "\x7d",
  "function caller() -> z1, z2, z3, z4 \x7b",
  "\teth.getCaller(4:i32)",
  "\tz2, z3, z4 := mload_address(0:i32)",
  "\x7d",
  "function callvalue() -> z1, z2, z3, z4 \x7b",
  "\teth.getCallValue(0:i32)",
  "\tz1, z2, z3, z4 := mload_internal(0:i32)",
  "\x7d",
  "function calldataload(x1, x2, x3, x4) -> z1, z2, z3, z4 \x7b",
  "\tmstore_internal(0:i32, 0, 0, 0, 0)",
  "\tcalldatacopy(0, 0, 0, 0, x1, x2, x3, x4, 0, 0, 0, 32:i64)",
  "\tz1, z2, z3, z4 := mload_internal(0:i32)",
  "\x7d",
  "function calldatasize() -> z1, z2, z3, z4 \x7b",
  "\tz4 := i64.extend_i32_u(eth.getCallDataSize())",
  "\x7d",
  "// calldatacopy(t, f, s): copy s bytes from calldata at position f to mem at position t",
  "function calldatacopy(x1, x2, x3, x4, y1, y2, y3, y4, z1, z2, z3, z4) \x7b",
  "\tlet cds:i32 := eth.getCallDataSize()",
  "\tlet offset:i32 := u256_to_i32(y1, y2, y3, y4)",
  "\tlet size:i32 := u256_to_i32(z1, z2, z3, z4)",
  "\t// overflowed?",
  "\tif i32.gt_u(offset, i32.sub(0xffffffff:i32, size)) \x7b",
  "\t\teth.revert(0:i32, 0:i32)",
  "\t\x7d",
  "\tif i32.gt_u(i32.add(size, offset), cds) \x7b",
  "\t\tsize := i32.sub(cds, offset)",
  "\t\x7d",
  "\tif i32.gt_u(size, 0:i32) \x7b",
  "\t\teth.callDataCopy(",
  "\t\t\tu256_to_i32(x1, x2, x3, x4),",
  "\t\t\toffset,",
  "\t\t\tsize",
  "\t\t)",
  "\t\x7d",
  "\x7d",
  "",
  "// Needed?",
  "function codesize() -> z1, z2, z3, z4 \x7b",
  "\tz4 := i64.extend_i32_u(eth.getCodeSize())",
  "\x7d",
  "function codecopy(x1, x2, x3, x4, y1, y2, y3, y4, z1, z2, z3, z4) \x7b",
  "\teth.codeCopy(",
  "\t\tto_internal_i32ptr(x1, x2, x3, x4),",
  "\t\tu256_to_i32(y1, y2, y3, y4),",
  "\t\tu256_to_i32(z1, z2, z3, z4)",
  "\t)",
  "\x7d",
  "function datacopy(x1, x2, x3, x4, y1, y2, y3, y4, z1, z2, z3, z4) \x7b",
  "\t// TODO correct?",
  "\tcodecopy(x1, x2, x3, x4, y1, y2, y3, y4, z1, z2, z3, z4)",
  "\x7d",
  "",
  "function gasprice() -> z1, z2, z3, z4 \x7b",
  "\teth.getTxGasPrice(0:i32)",
  "\tz1, z2, z3, z4 := mload_internal(0:i32)",
  "\x7d",
  "function extcodesize_internal(x1, x2, x3, x4) -> r:i32 \x7b",
  "\tmstore_address(0:i32, x1, x2, x3, x4)",
  "\tr := eth.getExternalCodeSize(12:i32)",
  "\x7d",
  "function extcodesize(x1, x2, x3, x4) -> z1, z2, z3, z4 \x7b",
  "\tz4 := i64.extend_i32_u(extcodesize_internal(x1, x2, x3, x4))",
  "\x7d",
  "function extcodehash(x1, x2, x3, x4) -> z1, z2, z3, z4 \x7b",
  "\t// TODO: not part of current Ewasm spec",
  "\tunreachable()",
  "\x7d",
  "function extcodecopy(a1, a2, a3, a4, p1, p2, p3, p4, o1, o2, o3, o4, l1, l2, l3, l4) \x7b",
  "\tmstore_address(0:i32, a1, a2, a3, a4)",
  "\tlet codeOffset:i32 := u256_to_i32(o1, o2, o3, o4)",
  "\tlet codeLength:i32 := u256_to_i32(l1, l2, l3, l4)",
  "\teth.externalCodeCopy(12:i32, to_internal_i32ptr(p1, p2, p3, p4), codeOffset, codeLength)",
  "\x7d",
  "",
  "function returndatasize() -> z1, z2, z3, z4 \x7b",
  "\tz4 := i64.extend_i32_u(eth.getReturnDataSize())",
  "\x7d",
  "function returndatacopy(x1, x2, x3, x4, y1, y2, y3, y4, z1, z2, z3, z4) \x7b",
  "\teth.returnDataCopy(",
  "\t\tto_internal_i32ptr(x1, x2, x3, x4),",
  "\t\tu256_to_i32(y1, y2, y3, y4),",
  "\t\tu256_to_i32(z1, z2, z3, z4)",
  "\t)",
  "\x7d",
  "",
  "function blockhash(x1, x2, x3, x4) -> z1, z2, z3, z4 \x7b",
  "\tlet r:i32 := eth.getBlockHash(u256_to_i64(x1, x2, x3, x4), 0:i32)",
  "\tif i32.eqz(r) \x7b",
  "\t\tz1, z2, z3, z4 := mload_internal(0:i32)",
  "\t\x7d",
  "\x7d",
  "function coinbase() -> z1, z2, z3, z4 \x7b",
  "\teth.getBlockCoinbase(4:i32)",
  "\tz2, z3, z4 := mload_address(0:i32)",
  "\x7d",
  "function timestamp() -> z1, z2, z3, z4 \x7b",
  "\tz4 := eth.getBlockTimestamp()",
  "\x7d",
  "function number() -> z1, z2, z3, z4 \x7b",
  "\tz4 := eth.getBlockNumber()",
  "\x7d",
  "function difficulty() -> z1, z2, z3, z4 \x7b",
  "\teth.getBlockDifficulty(0:i32)",
  "\tz1, z2, z3, z4 := mload_internal(0:i32)",
  "\x7d",
  "function gaslimit() -> z1, z2, z3, z4 \x7b",
  "\tz4 := eth.getBlockGasLimit()",
  "\x7d",
  "",
  "function pop(x1, x2, x3, x4) \x7b",
  "\x7d",
  "",
  "",
  "function bswap16(x:i32) -> y:i32 \x7b",
  "\tlet hi:i32 := i32.and(i32.shl(x, 8:i32), 0xff00:i32)",
  "\tlet lo:i32 := i32.and(i32.shr_u(x, 8:i32), 0xff:i32)",
  "\ty := i32.or(hi, lo)",
  "\x7d",
  "",
  "function bswap32(x:i32) -> y:i32 \x7b",
  "\tlet hi:i32 := i32.shl(bswap16(x), 16:i32)",
  "\tlet lo:i32 := bswap16(i32.shr_u(x, 16:i32))",
  "\ty := i32.or(hi, lo)",
  "\x7d",
  "",
  "function bswap64(x) -> y \x7b",
  "\tlet hi := i64.shl(i64.extend_i32_u(bswap32(i32.wrap_i64(x))), 32)",
  "\tlet lo := i64.extend_i32_u(bswap32(i32.wrap_i64(i64.shr_u(x, 32))))",
  "\ty := i64.or(hi, lo)",
  "\x7d",
  "function save_temp_mem_32() -> t1, t2, t3, t4 \x7b",
  "\tt1 := i64.load(0:i32)",
  "\tt2 := i64.load(8:i32)",
  "\tt3 := i64.load(16:i32)",
  "\tt4 := i64.load(24:i32)",
  "\x7d",
  "function restore_temp_mem_32(t1, t2, t3, t4) \x7b",
  "\ti64.store(0:i32, t1)",
  "\ti64.store(8:i32, t2)",
  "\ti64.store(16:i32, t3)",
  "\ti64.store(24:i32, t4)",
  "\x7d",
  "function save_temp_mem_64() -> t1, t2, t3, t4, t5, t6, t7, t8 \x7b",
  "\tt1 := i64.load(0:i32)",
  "\tt2 := i64.load(8:i32)",
  "\tt3 := i64.load(16:i32)",
  "\tt4 := i64.load(24:i32)",
  "\tt5 := i64.load(32:i32)",
  "\tt6 := i64.load(40:i32)",
  "\tt7 := i64.load(48:i32)",
  "\tt8 := i64.load(54:i32)",
  "\x7d",
  "function restore_temp_mem_64(t1, t2, t3, t4, t5, t6, t7, t8) \x7b",
  "\ti64.store(0:i32, t1)",
  "\ti64.store(8:i32, t2)",
  "\ti64.store(16:i32, t3)",
  "\ti64.store(24:i32, t4)",
  "\ti64.store(32:i32, t5)",
  "\ti64.store(40:i32, t6)",
  "\ti64.store(48:i32, t7)",
  "\ti64.store(54:i32, t8)",
  "\x7d",
  "function mload(x1, x2, x3, x4) -> z1, z2, z3, z4 \x7b",
  "\tz1, z2, z3, z4 := mload_internal(to_internal_i32ptr(x1, x2, x3, x4))",
  "\x7d",
  "function mload_internal(pos:i32) -> z1, z2, z3, z4 \x7b",
  "\tz1 := bswap64(i64.load(pos))",
  "\tz2 := bswap64(i64.load(i32.add(pos, 8:i32)))",
  "\tz3 := bswap64(i64.load(i32.add(pos, 16:i32)))",
  "\tz4 := bswap64(i64.load(i32.add(pos, 24:i32)))",
  "\x7d",
  "function mload_address(pos:i32) -> z2, z3, z4 \x7b",
  "\tz2 := i64.extend_i32_u(bswap32(i32.load(i32.add(pos, 4:i32))))",
  "\tz3 := bswap64(i64.load(i32.add(pos, 8:i32)))",
  "\tz4 := bswap64(i64.load(i32.add(pos, 16:i32)))",
  "\x7d",
  "function mstore(x1, x2, x3, x4, y1, y2, y3, y4) \x7b",
  "\tmstore_internal(to_internal_i32ptr(x1, x2, x3, x4), y1, y2, y3, y4)",
  "\x7d",
  "function mstore_internal_raw(pos:i32, y1, y2, y3, y4) \x7b",
  "\ti64.store(pos, y1)",
  "\ti64.store(i32.add(pos, 8:i32), y2)",
  "\ti64.store(i32.add(pos, 16:i32), y3)",
  "\ti64.store(i32.add(pos, 24:i32), y4)",
  "\x7d",
  "function mstore_internal(pos:i32, y1, y2, y3, y4) \x7b",
  "\ti64.store(pos, bswap64(y1))",
  "\ti64.store(i32.add(pos, 8:i32), bswap64(y2))",
  "\ti64.store(i32.add(pos, 16:i32), bswap64(y3))",
  "\ti64.store(i32.add(pos, 24:i32), bswap64(y4))",
  "\x7d",
  "function mstore_address(pos:i32, a1, a2, a3, a4) \x7b",
  "\ta1, a2, a3 := u256_to_address(a1, a2, a3, a4)",
  "\tmstore_internal(pos, 0, a1, a2, a3)",
  "\x7d",
  "function mstore8(x1, x2, x3, x4, y1, y2, y3, y4) \x7b",
  "\tlet v := u256_to_byte(y1, y2, y3, y4)",
  "\ti64.store8(to_internal_i32ptr(x1, x2, x3, x4), v)",
  "\x7d",
  "// Needed?",
  "function msize() -> z1, z2, z3, z4 \x7b",
  "\t// TODO implement",
  "\tunreachable()",
  "\x7d",
  "function sload(x1, x2, x3, x4) -> z1, z2, z3, z4 \x7b",
  "\tmstore_internal(0:i32, x1, x2, x3, x4)",
  "\teth.storageLoad(0:i32, 32:i32)",
  "\tz1, z2, z3, z4 := mload_internal(32:i32)",
  "\x7d",
  "",
  "function sstore(x1, x2, x3, x4, y1, y2, y3, y4) \x7b",
  "\tmstore_internal(0:i32, x1, x2, x3, x4)",
  "\tmstore_internal(32:i32, y1, y2, y3, y4)",
  "\teth.storageStore(0:i32, 32:i32)",
  "\x7d",
  "",
  "function gas() -> z1, z2, z3, z4 \x7b",
  "\tz4 := eth.getGasLeft()",
  "\x7d",
  "",
  "function log0(p1, p2, p3, p4, s1, s2, s3, s4) \x7b",
  "\teth.log(",
  "\t\tto_internal_i32ptr(p1, p2, p3, p4),",
  "\t\tu256_to_i32(s1, s2, s3, s4),",
  "\t\t0:i32, 0:i32, 0:i32, 0:i32, 0:i32",
  "\t)",
  "\x7d",
  "function log1(",
  "\tp1, p2, p3, p4, s1, s2, s3, s4,",
  "\tt1_1, t1_2, t1_3, t1_4",
  ") \x7b",
  "\teth.log(",
  "\t\tto_internal_i32ptr(p1, p2, p3, p4),",
  "\t\tu256_to_i32(s1, s2, s3, s4),",
  "\t\t1:i32,",
  "\t\tto_internal_i32ptr(t1_1, t1_2, t1_3, t1_4),",
  "\t\t0:i32, 0:i32, 0:i32",
  "\t)",
  "\x7d",
  "function log2(",
  "\tp1, p2, p3, p4, s1, s2, s3, s4,",
  "\tt1_1, t1_2, t1_3, t1_4,",
  "\tt2_1, t2_2, t2_3, t2_4",
  ") \x7b",
  "\teth.log(",
  "\t\tto_internal_i32ptr(p1, p2, p3, p4),",
  "\t\tu256_to_i32(s1, s2, s3, s4),",
  "\t\t2:i32,",
  "\t\tto_internal_i32ptr(t1_1, t1_2, t1_3, t1_4),",
  "\t\tto_internal_i32ptr(t2_1, t2_2, t2_3, t2_4),",
  "\t\t0:i32, 0:i32",
  "\t)",
  "\x7d",
  "function log3(",
  "\tp1, p2, p3, p4, s1, s2, s3, s4,",
  "\tt1_1, t1_2, t1_3, t1_4,",
  "\tt2_1, t2_2, t2_3, t2_4,",
  "\tt3_1, t3_2, t3_3, t3_4",
  ") \x7b",
  "\teth.log(",
  "\t\tto_internal_i32ptr(p1, p2, p3, p4),",
  "\t\tu256_to_i32(s1, s2, s3, s4),",
  "\t\t3:i32,",
  "\t\tto_internal_i32ptr(t1_1, t1_2, t1_3, t1_4),",
  "\t\tto_internal_i32ptr(t2_1, t2_2, t2_3, t2_4),",
  "\t\tto_internal_i32ptr(t3_1, t3_2, t3_3, t3_4),",
  "\t\t0:i32",
  "\t)",
  "\x7d",
  "function log4(",
  "\tp1, p2, p3, p4, s1, s2, s3, s4,",
  "\tt1_1, t1_2, t1_3, t1_4,",
  "\tt2_1, t2_2, t2_3, t2_4,",
  "\tt3_1, t3_2, t3_3, t3_4,",
  "\tt4_1, t4_2, t4_3, t4_4,",
  ") \x7b",
  "\teth.log(",
  "\t\tto_internal_i32ptr(p1, p2, p3, p4),",
  "\t\tu256_to_i32(s1, s2, s3, s4),",
  "\t\t4:i32,",
  "\t\tto_internal_i32ptr(t1_1, t1_2, t1_3, t1_4),",
  "\t\tto_internal_i32ptr(t2_1, t2_2, t2_3, t2_4),",
  "\t\tto_internal_i32ptr(t3_1, t3_2, t3_3, t3_4),",
  "\t\tto_internal_i32ptr(t4_1, t4_2, t4_3, t4_4)",
  "\t)",
  "\x7d",
  "",
  "function create(",
  "\tx1, x2, x3, x4,",
  "\ty1, y2, y3, y4,",
  "\tz1, z2, z3, z4",
  ") -> a1, a2, a3, a4 \x7b",
  "\tlet v1, v2 := u256_to_u128(x1, x2, x3, x4)",
  "\tmstore_internal(0:i32, 0, 0, v1, v2)",
  "",
  "\tlet r:i32 := eth.create(0:i32, to_internal_i32ptr(y1, y2, y3, y4), u256_to_i32(z1, z2, z3, z4), 32:i32)",
  "\tif i32.eqz(r) \x7b",
  "\t\ta1, a2, a3, a4 := mload_internal(32:i32)",
  "\t\x7d",
  "\x7d",
  "function call(",
  "\ta1, a2, a3, a4,",
  "\tb1, b2, b3, b4,",
  "\tc1, c2, c3, c4,",
  "\td1, d2, d3, d4,",
  "\te1, e2, e3, e4,",
  "\tf1, f2, f3, f4,",
  "\tg1, g2, g3, g4",
  ") -> x1, x2, x3, x4 \x7b",
  "\tlet g := u256_to_i64(a1, a2, a3, a4)",
  "\tmstore_address(0:i32, b1, b2, b3, b4)",
  "",
  "\tlet v1, v2 := u256_to_u128(c1, c2, c3, c4)",
  "\tmstore_internal(32:i32, 0, 0, v1, v2)",
  "",
  "\tx4 := i64.extend_i32_u(eth.call(g, 12:i32, 32:i32, to_internal_i32ptr(d1, d2, d3, d4), u256_to_i32(e1, e2, e3, e4)))",
  "\x7d",
  "function callcode(",
  "\ta1, a2, a3, a4,",
  "\tb1, b2, b3, b4,",
  "\tc1, c2, c3, c4,",
  "\td1, d2, d3, d4,",
  "\te1, e2, e3, e4,",
  "\tf1, f2, f3, f4,",
  "\tg1, g2, g3, g4",
  ") -> x1, x2, x3, x4 \x7b",
  "\tmstore_address(0:i32, b1, b2, b3, b4)",
  "",
  "\tlet v1, v2 := u256_to_u128(c1, c2, c3, c4)",
  "\tmstore_internal(32:i32, 0, 0, v1, v2)",
  "",
  "\tx4 := i64.extend_i32_u(eth.callCode(",
  "\t\tu256_to_i64(a1, a2, a3, a4),",
  "\t\t12:i32,",
  "\t\t32:i32,",
  "\t\tto_internal_i32ptr(d1, d2, d3, d4),",
  "\t\tu256_to_i32(e1, e2, e3, e4)",
  "\t))",
  "\x7d",
  "function delegatecall(",
  "\ta1, a2, a3, a4,",
  "\tb1, b2, b3, b4,",
  "\tc1, c2, c3, c4,",
  "\td1, d2, d3, d4,",
  "\te1, e2, e3, e4,",
  "\tf1, f2, f3, f4",
  ") -> x1, x2, x3, x4 \x7b",
  "\tmstore_address(0:i32, b1, b2, b3, b4)",
  "",
  "\tx4 := i64.extend_i32_u(eth.callDelegate(",
  "\t\tu256_to_i64(a1, a2, a3, a4),",
  "\t\t12:i32,",
  "\t\tto_internal_i32ptr(c1, c2, c3, c4),",
  "\t\tu256_to_i32(d1, d2, d3, d4)",
  "\t))",
  "\x7d",
  "function staticcall(",
  "\ta1, a2, a3, a4,",
  "\tb1, b2, b3, b4,",
  "\tc1, c2, c3, c4,",
  "\td1, d2, d3, d4,",
  "\te1, e2, e3, e4,",
  "\tf1, f2, f3, f4",
  ") -> x1, x2, x3, x4 \x7b",
  "\tmstore_address(0:i32, b1, b2, b3, b4)",
  "",
  "\tx4 := i64.extend_i32_u(eth.callStatic(",
  "\t\tu256_to_i64(a1, a2, a3, a4),",
  "\t\t12:i32,",
  "\t\tto_internal_i32ptr(c1, c2, c3, c4),",
  "\t\tu256_to_i32(d1, d2, d3, d4)",
  "\t))",
  "\x7d",
  "function create2(",
  "\ta1, a2, a3, a4,",
  "\tb1, b2, b3, b4,",
  "\tc1, c2, c3, c4,",
  "\td1, d2, d3, d4",
  ") -> x1, x2, x3, x4 \x7b",
  "\t// TODO: not part of current Ewasm spec",
  "\tunreachable()",
  "\x7d",
  "function selfdestruct(a1, a2, a3, a4) \x7b",
  "\tmstore_address(0:i32, a1, a2, a3, a4)",
  "\t// In EVM, addresses are padded to 32 bytes, so discard the first 12.",
  "\teth.selfDestruct(12:i32)",
  "\x7d",
  "/*",
  "",
  "*/",
  "function return(x1, x2, x3, x4, y1, y2, y3, y4) \x7b",
  "\teth.finish(",
  "\t\tto_internal_i32ptr(x1, x2, x3, x4),",
  "\t\tu256_to_i32(y1, y2, y3, y4)",
  "\t)",
  "\x7d",
  "function revert(x1, x2, x3, x4, y1, y2, y3, y4) \x7b",
  "\teth.revert(",
  "\t\tto_internal_i32ptr(x1, x2, x3, x4),",
  "\t\tu256_to_i32(y1, y2, y3, y4)",
  "\t)",
  "\x7d",
  "function invalid() \x7b",
  "\tunreachable()",
  "\x7d",
  "function stop() \x7b",
  "\teth.finish(0:i32, 0:i32)",
  "\x7d",
  "function memoryguard(x:i64) -> y1, y2, y3, y4 \x7b",
  "\ty4 := x",
  "\x7d",
  "\x7d",
  ""
]

/-- Where a scan of the text stands: between function definitions, in the header of the
function `name` whose opening brace is still to come, or in its body with the lines read so
far (the last one first). -/
inductive Scan
  | outside
  | header (name : String)
  | body (name : String) (lines : List String)

/-- The function definitions of a text, in order, each with its name and the lines of its
body. A definition starts on a line that begins with `function `, its name ends at the
opening parenthesis, its body starts after the line that ends with the opening brace and ends
before the next line that begins with a closing brace. -/
def functionDefinitions : Scan → List String → List (String × List String)
  | _, [] => []
  | Scan.outside, l :: ls =>
    if "function ".data.isPrefixOf l.data then
      if l.data.getLast? = some (Char.ofNat 123) then
        functionDefinitions
          (Scan.body (String.mk ((l.data.drop 9).takeWhile (fun ch => ch != '('))) []) ls
      else
        functionDefinitions
          (Scan.header (String.mk ((l.data.drop 9).takeWhile (fun ch => ch != '(')))) ls
    else functionDefinitions Scan.outside ls
  | Scan.header name, l :: ls =>
    if l.data.getLast? = some (Char.ofNat 123) then functionDefinitions (Scan.body name []) ls
    else functionDefinitions (Scan.header name) ls
  | Scan.body name lines, l :: ls =>
    if l.data.head? = some (Char.ofNat 125) then
      (name, lines.reverse) :: functionDefinitions Scan.outside ls
    else functionDefinitions (Scan.body name (l :: lines)) ls

/-- The statements of a body: its lines without leading blanks and tabs, empty lines and
comment lines left out. -/
def bodyStatements (body : List String) : List (List Char) :=
  (body.map (fun l => l.data.dropWhile (fun ch => ch == ' ' || ch == '\t'))).filter
    (fun l => !l.isEmpty && !"//".data.isPrefixOf l)

/-- The body consists only of an unconditional call of `unreachable`. -/
def onlyUnreachable (body : List String) : Bool :=
  bodyStatements body == ["unreachable()".data]

/-- The names of the functions of the polyfill whose body is only a call of `unreachable`. -/
def unreachableFunctions : List String :=
  ((functionDefinitions Scan.outside polyfill).filter (fun f => onlyUnreachable f.2)).map
    (fun f => f.1)

theorem add_carry_spec {x y c : Nat} (hx : x < 2 ^ 64) (hy : y < 2 ^ 64) (hc : c ≤ 1) :
    (add_carry x y c).1 < 2 ^ 64 ∧ (add_carry x y c).2 ≤ 1 ∧
      (add_carry x y c).1 + 2 ^ 64 * (add_carry x y c).2 = x + y + c := by
  simp only [add_carry, i64.add, i64.lt_u, i64.extend_i32_u, i32.or]
  by_cases h1 : (x + y) % 2 ^ 64 < x <;>
    by_cases h2 : ((x + y) % 2 ^ 64 + c) % 2 ^ 64 < (x + y) % 2 ^ 64 <;>
    simp only [h1, h2, if_true, if_false] <;> norm_num <;> omega

theorem bit_negate_eq {x : Nat} (hx : x < 2 ^ 64) : bit_negate x = 2 ^ 64 - 1 - x := by
  unfold bit_negate i64.xor
  apply Nat.eq_of_testBit_eq
  intro i
  have h := Nat.testBit_two_pow_sub_succ hx i
  have e : 2 ^ 64 - (x + 1) = 2 ^ 64 - 1 - x := by omega
  rw [e] at h
  rw [h, Nat.testBit_xor]
  have e2 : (0xffffffffffffffff : Nat) = 2 ^ 64 - 1 := by norm_num
  rw [e2, Nat.testBit_two_pow_sub_one]
  by_cases hi : i < 64
  · simp [hi]
  · have : x.testBit i = false := by
      apply Nat.testBit_lt_two_pow
      calc x < 2 ^ 64 := hx
        _ ≤ 2 ^ i := Nat.pow_le_pow_right (by norm_num) (by omega)
    simp [hi, this]

theorem bit_negate_lt {x : Nat} (hx : x < 2 ^ 64) : bit_negate x < 2 ^ 64 := by
  rw [bit_negate_eq hx]; omega

theorem sub_step {x y c : Nat} (hx : x < 2 ^ 64) (hy : y < 2 ^ 64) (hc : c ≤ 1) :
    (add_carry x (bit_negate y) c).1 < 2 ^ 64 ∧ (add_carry x (bit_negate y) c).2 ≤ 1 ∧
      (add_carry x (bit_negate y) c).1 + 2 ^ 64 * (add_carry x (bit_negate y) c).2 + y + 1 =
        x + 2 ^ 64 + c := by
  have h := add_carry_spec hx (bit_negate_lt hy) hc
  have e := bit_negate_eq hy
  generalize bit_negate y = z at h e ⊢
  generalize add_carry x z c = p at h ⊢
  omega

/-! ### Pure arithmetic of limb chains -/

theorem bound4 {r1 r2 r3 r4 : Nat}
    (h1 : r1 < 2 ^ 64) (h2 : r2 < 2 ^ 64) (h3 : r3 < 2 ^ 64) (h4 : r4 < 2 ^ 64) :
    r1 * 2 ^ 192 + r2 * 2 ^ 128 + r3 * 2 ^ 64 + r4 < 2 ^ 256 := by
  omega

theorem bound5 {r1 r2 r3 r4 r5 : Nat}
    (h1 : r1 < 2 ^ 64) (h2 : r2 < 2 ^ 64) (h3 : r3 < 2 ^ 64) (h4 : r4 < 2 ^ 64)
    (h5 : r5 < 2 ^ 64) :
    r1 * 2 ^ 256 + r2 * 2 ^ 192 + r3 * 2 ^ 128 + r4 * 2 ^ 64 + r5 < 2 ^ 320 := by
  omega

theorem bound8 {r1 r2 r3 r4 r5 r6 r7 r8 : Nat}
    (h1 : r1 < 2 ^ 64) (h2 : r2 < 2 ^ 64) (h3 : r3 < 2 ^ 64) (h4 : r4 < 2 ^ 64)
    (h5 : r5 < 2 ^ 64) (h6 : r6 < 2 ^ 64) (h7 : r7 < 2 ^ 64) (h8 : r8 < 2 ^ 64) :
    r1 * 2 ^ 448 + r2 * 2 ^ 384 + r3 * 2 ^ 320 + r4 * 2 ^ 256 + r5 * 2 ^ 192 +
      r6 * 2 ^ 128 + r7 * 2 ^ 64 + r8 < 2 ^ 512 := by
  omega

theorem val_lt {a : W256} (h : WF a) : val a < 2 ^ 256 := by
  obtain ⟨a1, a2, a3, a4⟩ := a
  exact bound4 h.1 h.2.1 h.2.2.1 h.2.2.2

theorem val320_lt {a : W320} (h : WF320 a) : val320 a < 2 ^ 320 := by
  obtain ⟨a1, a2, a3, a4, a5⟩ := a
  exact bound5 h.1 h.2.1 h.2.2.1 h.2.2.2.1 h.2.2.2.2

theorem val512_lt {a : W512} (h : WF512 a) : val512 a < 2 ^ 512 := by
  obtain ⟨a1, a2, a3, a4, a5, a6, a7, a8⟩ := a
  exact bound8 h.1 h.2.1 h.2.2.1 h.2.2.2.1 h.2.2.2.2.1 h.2.2.2.2.2.1 h.2.2.2.2.2.2.1
    h.2.2.2.2.2.2.2

theorem add_fin {R X Y k W : Nat} (hR : R < W) (key : R + W * k = X + Y) :
    R = (X + Y) % W := by
  rw [← key, Nat.add_mul_mod_self_left, Nat.mod_eq_of_lt hR]

theorem sub_fin {R Y X k W : Nat} (hR : R < W) (hY : Y < W)
    (key : R + W * k + Y = X + W) (hk : k ≤ 1) : R = (X + W - Y) % W := by
  rcases Nat.le_one_iff_eq_zero_or_eq_one.mp hk with h | h
  · subst h
    have e : X + W - Y = R := by omega
    rw [e, Nat.mod_eq_of_lt hR]
  · subst h
    have e : X + W - Y = R + W := by omega
    rw [e, Nat.add_mod_right, Nat.mod_eq_of_lt hR]

theorem addchain4 {r1 r2 r3 r4 k1 k2 k3 k4 x1 x2 x3 x4 y1 y2 y3 y4 : Nat}
    (c4 : r4 + 2 ^ 64 * k4 = x4 + y4 + 0)
    (c3 : r3 + 2 ^ 64 * k3 = x3 + y3 + k4)
    (c2 : r2 + 2 ^ 64 * k2 = x2 + y2 + k3)
    (c1 : r1 + 2 ^ 64 * k1 = x1 + y1 + k2) :
    r1 * 2 ^ 192 + r2 * 2 ^ 128 + r3 * 2 ^ 64 + r4 + 2 ^ 256 * k1 =
      (x1 * 2 ^ 192 + x2 * 2 ^ 128 + x3 * 2 ^ 64 + x4) +
      (y1 * 2 ^ 192 + y2 * 2 ^ 128 + y3 * 2 ^ 64 + y4) := by
  omega

theorem subchain4 {r1 r2 r3 r4 k1 k2 k3 k4 x1 x2 x3 x4 y1 y2 y3 y4 : Nat}
    (c4 : r4 + 2 ^ 64 * k4 + y4 + 1 = x4 + 2 ^ 64 + 1)
    (c3 : r3 + 2 ^ 64 * k3 + y3 + 1 = x3 + 2 ^ 64 + k4)
    (c2 : r2 + 2 ^ 64 * k2 + y2 + 1 = x2 + 2 ^ 64 + k3)
    (c1 : r1 + 2 ^ 64 * k1 + y1 + 1 = x1 + 2 ^ 64 + k2) :
    r1 * 2 ^ 192 + r2 * 2 ^ 128 + r3 * 2 ^ 64 + r4 + 2 ^ 256 * k1 +
      (y1 * 2 ^ 192 + y2 * 2 ^ 128 + y3 * 2 ^ 64 + y4) =
      x1 * 2 ^ 192 + x2 * 2 ^ 128 + x3 * 2 ^ 64 + x4 + 2 ^ 256 := by
  omega

theorem subchain5 {r1 r2 r3 r4 r5 k1 k2 k3 k4 k5 x1 x2 x3 x4 x5 y1 y2 y3 y4 y5 : Nat}
    (c5 : r5 + 2 ^ 64 * k5 + y5 + 1 = x5 + 2 ^ 64 + 1)
    (c4 : r4 + 2 ^ 64 * k4 + y4 + 1 = x4 + 2 ^ 64 + k5)
    (c3 : r3 + 2 ^ 64 * k3 + y3 + 1 = x3 + 2 ^ 64 + k4)
    (c2 : r2 + 2 ^ 64 * k2 + y2 + 1 = x2 + 2 ^ 64 + k3)
    (c1 : r1 + 2 ^ 64 * k1 + y1 + 1 = x1 + 2 ^ 64 + k2) :
    r1 * 2 ^ 256 + r2 * 2 ^ 192 + r3 * 2 ^ 128 + r4 * 2 ^ 64 + r5 + 2 ^ 320 * k1 +
      (y1 * 2 ^ 256 + y2 * 2 ^ 192 + y3 * 2 ^ 128 + y4 * 2 ^ 64 + y5) =
      x1 * 2 ^ 256 + x2 * 2 ^ 192 + x3 * 2 ^ 128 + x4 * 2 ^ 64 + x5 + 2 ^ 320 := by
  omega

theorem subchain8 {r1 r2 r3 r4 r5 r6 r7 r8 k1 k2 k3 k4 k5 k6 k7 k8
    x1 x2 x3 x4 x5 x6 x7 x8 y1 y2 y3 y4 y5 y6 y7 y8 : Nat}
    (c8 : r8 + 2 ^ 64 * k8 + y8 + 1 = x8 + 2 ^ 64 + 1)
    (c7 : r7 + 2 ^ 64 * k7 + y7 + 1 = x7 + 2 ^ 64 + k8)
    (c6 : r6 + 2 ^ 64 * k6 + y6 + 1 = x6 + 2 ^ 64 + k7)
    (c5 : r5 + 2 ^ 64 * k5 + y5 + 1 = x5 + 2 ^ 64 + k6)
    (c4 : r4 + 2 ^ 64 * k4 + y4 + 1 = x4 + 2 ^ 64 + k5)
    (c3 : r3 + 2 ^ 64 * k3 + y3 + 1 = x3 + 2 ^ 64 + k4)
    (c2 : r2 + 2 ^ 64 * k2 + y2 + 1 = x2 + 2 ^ 64 + k3)
    (c1 : r1 + 2 ^ 64 * k1 + y1 + 1 = x1 + 2 ^ 64 + k2) :
    r1 * 2 ^ 448 + r2 * 2 ^ 384 + r3 * 2 ^ 320 + r4 * 2 ^ 256 + r5 * 2 ^ 192 +
      r6 * 2 ^ 128 + r7 * 2 ^ 64 + r8 + 2 ^ 512 * k1 +
      (y1 * 2 ^ 448 + y2 * 2 ^ 384 + y3 * 2 ^ 320 + y4 * 2 ^ 256 + y5 * 2 ^ 192 +
      y6 * 2 ^ 128 + y7 * 2 ^ 64 + y8) =
      x1 * 2 ^ 448 + x2 * 2 ^ 384 + x3 * 2 ^ 320 + x4 * 2 ^ 256 + x5 * 2 ^ 192 +
      x6 * 2 ^ 128 + x7 * 2 ^ 64 + x8 + 2 ^ 512 := by
  omega

theorem add_spec {x1 x2 x3 x4 y1 y2 y3 y4 : Nat}
    (hx : WF (x1, x2, x3, x4)) (hy : WF (y1, y2, y3, y4)) :
    WF (add x1 x2 x3 x4 y1 y2 y3 y4) ∧
      val (add x1 x2 x3 x4 y1 y2 y3 y4) =
        (val (x1, x2, x3, x4) + val (y1, y2, y3, y4)) % 2 ^ 256 := by
  obtain ⟨hx1, hx2, hx3, hx4⟩ := hx
  obtain ⟨hy1, hy2, hy3, hy4⟩ := hy
  obtain ⟨a4, b4, c4⟩ := add_carry_spec hx4 hy4 (Nat.zero_le 1)
  obtain ⟨a3, b3, c3⟩ := add_carry_spec hx3 hy3 b4
  obtain ⟨a2, b2, c2⟩ := add_carry_spec hx2 hy2 b3
  obtain ⟨a1, b1, c1⟩ := add_carry_spec hx1 hy1 b2
  exact ⟨⟨a1, a2, a3, a4⟩, add_fin (bound4 a1 a2 a3 a4) (addchain4 c4 c3 c2 c1)⟩

theorem sub_spec {x1 x2 x3 x4 y1 y2 y3 y4 : Nat}
    (hx : WF (x1, x2, x3, x4)) (hy : WF (y1, y2, y3, y4)) :
    WF (sub x1 x2 x3 x4 y1 y2 y3 y4) ∧
      val (sub x1 x2 x3 x4 y1 y2 y3 y4) =
        (val (x1, x2, x3, x4) + 2 ^ 256 - val (y1, y2, y3, y4)) % 2 ^ 256 := by
  obtain ⟨hx1, hx2, hx3, hx4⟩ := hx
  obtain ⟨hy1, hy2, hy3, hy4⟩ := hy
  obtain ⟨a4, b4, c4⟩ := sub_step hx4 hy4 (Nat.le_refl 1)
  obtain ⟨a3, b3, c3⟩ := sub_step hx3 hy3 b4
  obtain ⟨a2, b2, c2⟩ := sub_step hx2 hy2 b3
  obtain ⟨a1, b1, c1⟩ := sub_step hx1 hy1 b2
  exact ⟨⟨a1, a2, a3, a4⟩,
    sub_fin (bound4 a1 a2 a3 a4) (bound4 hy1 hy2 hy3 hy4) (subchain4 c4 c3 c2 c1) b1⟩

theorem sub320_spec {x1 x2 x3 x4 x5 y1 y2 y3 y4 y5 : Nat}
    (hx : WF320 (x1, x2, x3, x4, x5)) (hy : WF320 (y1, y2, y3, y4, y5)) :
    WF320 (sub320 x1 x2 x3 x4 x5 y1 y2 y3 y4 y5) ∧
      val320 (sub320 x1 x2 x3 x4 x5 y1 y2 y3 y4 y5) =
        (val320 (x1, x2, x3, x4, x5) + 2 ^ 320 - val320 (y1, y2, y3, y4, y5)) % 2 ^ 320 := by
  obtain ⟨hx1, hx2, hx3, hx4, hx5⟩ := hx
  obtain ⟨hy1, hy2, hy3, hy4, hy5⟩ := hy
  obtain ⟨a5, b5, c5⟩ := sub_step hx5 hy5 (Nat.le_refl 1)
  obtain ⟨a4, b4, c4⟩ := sub_step hx4 hy4 b5
  obtain ⟨a3, b3, c3⟩ := sub_step hx3 hy3 b4
  obtain ⟨a2, b2, c2⟩ := sub_step hx2 hy2 b3
  obtain ⟨a1, b1, c1⟩ := sub_step hx1 hy1 b2
  exact ⟨⟨a1, a2, a3, a4, a5⟩,
    sub_fin (bound5 a1 a2 a3 a4 a5) (bound5 hy1 hy2 hy3 hy4 hy5)
      (subchain5 c5 c4 c3 c2 c1) b1⟩

theorem sub512_spec {x1 x2 x3 x4 x5 x6 x7 x8 y1 y2 y3 y4 y5 y6 y7 y8 : Nat}
    (hx : WF512 (x1, x2, x3, x4, x5, x6, x7, x8))
    (hy : WF512 (y1, y2, y3, y4, y5, y6, y7, y8)) :
    WF512 (sub512 x1 x2 x3 x4 x5 x6 x7 x8 y1 y2 y3 y4 y5 y6 y7 y8) ∧
      val512 (sub512 x1 x2 x3 x4 x5 x6 x7 x8 y1 y2 y3 y4 y5 y6 y7 y8) =
        (val512 (x1, x2, x3, x4, x5, x6, x7, x8) + 2 ^ 512 -
          val512 (y1, y2, y3, y4, y5, y6, y7, y8)) % 2 ^ 512 := by
  obtain ⟨hx1, hx2, hx3, hx4, hx5, hx6, hx7, hx8⟩ := hx
  obtain ⟨hy1, hy2, hy3, hy4, hy5, hy6, hy7, hy8⟩ := hy
  obtain ⟨a8, b8, c8⟩ := sub_step hx8 hy8 (Nat.le_refl 1)
  obtain ⟨a7, b7, c7⟩ := sub_step hx7 hy7 b8
  obtain ⟨a6, b6, c6⟩ := sub_step hx6 hy6 b7
  obtain ⟨a5, b5, c5⟩ := sub_step hx5 hy5 b6
  obtain ⟨a4, b4, c4⟩ := sub_step hx4 hy4 b5
  obtain ⟨a3, b3, c3⟩ := sub_step hx3 hy3 b4
  obtain ⟨a2, b2, c2⟩ := sub_step hx2 hy2 b3
  obtain ⟨a1, b1, c1⟩ := sub_step hx1 hy1 b2
  exact ⟨⟨a1, a2, a3, a4, a5, a6, a7, a8⟩,
    sub_fin (bound8 a1 a2 a3 a4 a5 a6 a7 a8) (bound8 hy1 hy2 hy3 hy4 hy5 hy6 hy7 hy8)
      (subchain8 c8 c7 c6 c5 c4 c3 c2 c1) b1⟩

/-! ### Multiplication -/

theorem and32 (a : Nat) : a &&& 4294967295 = a % 2 ^ 32 :=
  Nat.and_pow_two_sub_one_eq_mod a 32

theorem shl32_or {u l : Nat} (hl : l < 2 ^ 32) :
    u * 2 ^ 32 % 2 ^ 64 ||| l = 2 ^ 32 * (u % 2 ^ 32) + l := by
  have e : u * 2 ^ 32 % 2 ^ 64 = 2 ^ 32 * (u % 2 ^ 32) := by omega
  rw [e, Nat.mul_add_lt_is_or hl]

theorem mul64_core {P0 P1 P2 P3 : Nat} (h0 : P0 ≤ 18446744065119617025)
    (h1 : P1 ≤ 18446744065119617025) (h2 : P2 ≤ 18446744065119617025)
    (h3 : P3 ≤ 18446744065119617025) :
    (P3 + (((P2 + ((P1 + P0 / 2 ^ 32) % 2 ^ 64) % 2 ^ 32) % 2 ^ 64) / 2 ^ 32 +
        ((P1 + P0 / 2 ^ 32) % 2 ^ 64) / 2 ^ 32) % 2 ^ 64) % 2 ^ 64 * 2 ^ 64 +
      (2 ^ 32 * (((P2 + ((P1 + P0 / 2 ^ 32) % 2 ^ 64) % 2 ^ 32) % 2 ^ 64) % 2 ^ 32) +
        P0 % 2 ^ 32) =
      P3 * 2 ^ 64 + (P1 + P2) * 2 ^ 32 + P0 := by
  omega

theorem mul32_le {a b : Nat} (ha : a < 2 ^ 32) (hb : b < 2 ^ 32) :
    a * b ≤ 18446744065119617025 := by
  have h : a * b ≤ (2 ^ 32 - 1) * (2 ^ 32 - 1) := Nat.mul_le_mul (by omega) (by omega)
  norm_num at h
  exact h

theorem mul_64x64_128_eq (x y : Nat) :
    mul_64x64_128 x y =
      ((x / 2 ^ 32 * (y / 2 ^ 32) % 2 ^ 64 +
          ((((x % 2 ^ 32) * (y / 2 ^ 32) % 2 ^ 64 +
              (x / 2 ^ 32 * (y % 2 ^ 32) % 2 ^ 64 +
                (x % 2 ^ 32) * (y % 2 ^ 32) % 2 ^ 64 / 2 ^ 32) % 2 ^ 64 % 2 ^ 32) % 2 ^ 64) /
              2 ^ 32 +
            (x / 2 ^ 32 * (y % 2 ^ 32) % 2 ^ 64 +
              (x % 2 ^ 32) * (y % 2 ^ 32) % 2 ^ 64 / 2 ^ 32) % 2 ^ 64 / 2 ^ 32) % 2 ^ 64) %
          2 ^ 64,
        ((x % 2 ^ 32) * (y / 2 ^ 32) % 2 ^ 64 +
            (x / 2 ^ 32 * (y % 2 ^ 32) % 2 ^ 64 +
              (x % 2 ^ 32) * (y % 2 ^ 32) % 2 ^ 64 / 2 ^ 32) % 2 ^ 64 % 2 ^ 32) % 2 ^ 64 *
            2 ^ 32 % 2 ^ 64 |||
          (x % 2 ^ 32) * (y % 2 ^ 32) % 2 ^ 64 % 2 ^ 32) := by
  simp only [mul_64x64_128, split, i64.mul, i64.add, i64.shr_u, i64.and, i64.or, i64.shl,
    and32, Nat.reduceMod]

theorem mul_64x64_128_spec {x y : Nat} (hx : x < 2 ^ 64) (hy : y < 2 ^ 64) :
    (mul_64x64_128 x y).1 < 2 ^ 64 ∧ (mul_64x64_128 x y).2 < 2 ^ 64 ∧
      (mul_64x64_128 x y).1 * 2 ^ 64 + (mul_64x64_128 x y).2 = x * y := by
  have hxh : x / 2 ^ 32 < 2 ^ 32 := by omega
  have hxl : x % 2 ^ 32 < 2 ^ 32 := by omega
  have hyh : y / 2 ^ 32 < 2 ^ 32 := by omega
  have hyl : y % 2 ^ 32 < 2 ^ 32 := by omega
  have b0 := mul32_le hxl hyl
  have b1 := mul32_le hxh hyl
  have b2 := mul32_le hxl hyh
  have b3 := mul32_le hxh hyh
  have exy : x * y = x / 2 ^ 32 * (y / 2 ^ 32) * 2 ^ 64 +
      (x / 2 ^ 32 * (y % 2 ^ 32) + (x % 2 ^ 32) * (y / 2 ^ 32)) * 2 ^ 32 +
      (x % 2 ^ 32) * (y % 2 ^ 32) := by
    conv_lhs => rw [← Nat.div_add_mod x (2 ^ 32), ← Nat.div_add_mod y (2 ^ 32)]
    ring
  rw [mul_64x64_128_eq, exy]
  rw [Nat.mod_eq_of_lt (show (x % 2 ^ 32) * (y % 2 ^ 32) < 2 ^ 64 by omega),
    Nat.mod_eq_of_lt (show x / 2 ^ 32 * (y % 2 ^ 32) < 2 ^ 64 by omega),
    Nat.mod_eq_of_lt (show (x % 2 ^ 32) * (y / 2 ^ 32) < 2 ^ 64 by omega),
    Nat.mod_eq_of_lt (show x / 2 ^ 32 * (y / 2 ^ 32) < 2 ^ 64 by omega)]
  generalize (x % 2 ^ 32) * (y % 2 ^ 32) = P0 at *
  generalize x / 2 ^ 32 * (y % 2 ^ 32) = P1 at *
  generalize (x % 2 ^ 32) * (y / 2 ^ 32) = P2 at *
  generalize x / 2 ^ 32 * (y / 2 ^ 32) = P3 at *
  rw [shl32_or (show P0 % 2 ^ 32 < 2 ^ 32 by omega)]
  have core := mul64_core b0 b1 b2 b3
  refine ⟨?_, ?_, core⟩
  · exact Nat.mod_lt _ (by norm_num)
  · clear core exy
    omega

theorem mul64_le {a b : Nat} (ha : a < 2 ^ 64) (hb : b < 2 ^ 64) :
    a * b ≤ 340282366920938463426481119284349108225 := by
  have h : a * b ≤ (2 ^ 64 - 1) * (2 ^ 64 - 1) := Nat.mul_le_mul (by omega) (by omega)
  norm_num at h
  exact h

theorem mul128_core {A B C D ah al bh bl ch cl dh dl p1 kp q1 kq s1 ks u1 ku : Nat}
    (hA : A ≤ 340282366920938463426481119284349108225)
    (hB : B ≤ 340282366920938463426481119284349108225)
    (hC : C ≤ 340282366920938463426481119284349108225)
    (hD : D ≤ 340282366920938463426481119284349108225)
    (ea : ah * 2 ^ 64 + al = A) (eb : bh * 2 ^ 64 + bl = B)
    (ec : ch * 2 ^ 64 + cl = C) (ed : dh * 2 ^ 64 + dl = D)
    (cp : p1 + 2 ^ 64 * kp = bl + cl + 0) (cq : q1 + 2 ^ 64 * kq = p1 + dh + 0)
    (cs : s1 + 2 ^ 64 * ks = bh + ch + kp) (cu : u1 + 2 ^ 64 * ku = s1 + al + kq)
    (hu : u1 < 2 ^ 64) (hq : q1 < 2 ^ 64) (hdl : dl < 2 ^ 64) :
    ((ah + ks) % 2 ^ 64 + ku) % 2 ^ 64 * 2 ^ 192 + u1 * 2 ^ 128 + q1 * 2 ^ 64 + dl =
      A * 2 ^ 128 + (B + C) * 2 ^ 64 + D := by
  have tot : (ah + ks + ku) * 2 ^ 192 + u1 * 2 ^ 128 + q1 * 2 ^ 64 + dl =
      A * 2 ^ 128 + (B + C) * 2 ^ 64 + D := by omega
  have hlt : ah + ks + ku < 2 ^ 64 := by omega
  have e : ((ah + ks) % 2 ^ 64 + ku) % 2 ^ 64 = ah + ks + ku := by omega
  rw [e, tot]

theorem mul_128x128_256_spec {x1 x2 y1 y2 : Nat}
    (hx1 : x1 < 2 ^ 64) (hx2 : x2 < 2 ^ 64) (hy1 : y1 < 2 ^ 64) (hy2 : y2 < 2 ^ 64) :
    WF (mul_128x128_256 x1 x2 y1 y2) ∧
      val (mul_128x128_256 x1 x2 y1 y2) = (x1 * 2 ^ 64 + x2) * (y1 * 2 ^ 64 + y2) := by
  obtain ⟨ha1, ha2, ea⟩ := mul_64x64_128_spec hx1 hy1
  obtain ⟨hb1, hb2, eb⟩ := mul_64x64_128_spec hx1 hy2
  obtain ⟨hc1, hc2, ec⟩ := mul_64x64_128_spec hx2 hy1
  obtain ⟨hd1, hd2, ed⟩ := mul_64x64_128_spec hx2 hy2
  obtain ⟨hp, kp, cp⟩ := add_carry_spec hb2 hc2 (Nat.zero_le 1)
  obtain ⟨hq, kq, cq⟩ := add_carry_spec hp hd1 (Nat.zero_le 1)
  obtain ⟨hs, ks, cs⟩ := add_carry_spec hb1 hc1 kp
  obtain ⟨hu, ku, cu⟩ := add_carry_spec hs ha2 kq
  have core := mul128_core (mul64_le hx1 hy1) (mul64_le hx1 hy2) (mul64_le hx2 hy1)
    (mul64_le hx2 hy2) ea eb ec ed cp cq cs cu hu hq hd2
  have exy : (x1 * 2 ^ 64 + x2) * (y1 * 2 ^ 64 + y2) =
      x1 * y1 * 2 ^ 128 + (x1 * y2 + x2 * y1) * 2 ^ 64 + x2 * y2 := by ring
  refine ⟨⟨Nat.mod_lt _ (by norm_num), hu, hq, hd2⟩, ?_⟩
  rw [exy]
  exact core

theorem mul_core {K : Nat} {b c d s t : W256}
    (ht : WF t) (hd : WF d)
    (es : val s = (val (0, 0, b.2.2.1, b.2.2.2) + val (0, 0, c.2.2.1, c.2.2.2)) % 2 ^ 256)
    (et : val t = (val (0, 0, s.2.2.1, s.2.2.2) + val (0, 0, d.1, d.2.1)) % 2 ^ 256) :
    val (t.2.2.1, t.2.2.2, d.2.2.1, d.2.2.2) =
      (K * 2 ^ 256 + (val b + val c) * 2 ^ 128 + val d) % 2 ^ 256 := by
  obtain ⟨b1, b2, b3, b4⟩ := b
  obtain ⟨c1, c2, c3, c4⟩ := c
  obtain ⟨d1, d2, d3, d4⟩ := d
  obtain ⟨s1, s2, s3, s4⟩ := s
  obtain ⟨t1, t2, t3, t4⟩ := t
  simp only [val, WF] at *
  omega

theorem val_mul_val (x1 x2 x3 x4 y1 y2 y3 y4 : Nat) :
    val (x1, x2, x3, x4) * val (y1, y2, y3, y4) =
      (x1 * 2 ^ 64 + x2) * (y1 * 2 ^ 64 + y2) * 2 ^ 256 +
        ((x3 * 2 ^ 64 + x4) * (y1 * 2 ^ 64 + y2) + (x1 * 2 ^ 64 + x2) * (y3 * 2 ^ 64 + y4)) *
          2 ^ 128 +
        (x3 * 2 ^ 64 + x4) * (y3 * 2 ^ 64 + y4) := by
  simp only [val]
  ring

theorem mul_spec {x1 x2 x3 x4 y1 y2 y3 y4 : Nat}
    (hx : WF (x1, x2, x3, x4)) (hy : WF (y1, y2, y3, y4)) :
    WF (mul x1 x2 x3 x4 y1 y2 y3 y4) ∧
      val (mul x1 x2 x3 x4 y1 y2 y3 y4) =
        (val (x1, x2, x3, x4) * val (y1, y2, y3, y4)) % 2 ^ 256 := by
  obtain ⟨hx1, hx2, hx3, hx4⟩ := hx
  obtain ⟨hy1, hy2, hy3, hy4⟩ := hy
  obtain ⟨wb, eb⟩ := mul_128x128_256_spec hx3 hx4 hy1 hy2
  obtain ⟨wc, ec⟩ := mul_128x128_256_spec hx1 hx2 hy3 hy4
  obtain ⟨wd, ed⟩ := mul_128x128_256_spec hx3 hx4 hy3 hy4
  rw [val_mul_val, ← eb, ← ec, ← ed]
  unfold mul
  clear eb ec ed
  generalize mul_128x128_256 x3 x4 y1 y2 = b at *
  generalize mul_128x128_256 x1 x2 y3 y4 = c at *
  generalize mul_128x128_256 x3 x4 y3 y4 = d at *
  obtain ⟨b1, b2, b3, b4⟩ := b
  obtain ⟨c1, c2, c3, c4⟩ := c
  obtain ⟨d1, d2, d3, d4⟩ := d
  dsimp only
  have z : (0 : Nat) < 2 ^ 64 := by norm_num
  obtain ⟨ws, es⟩ := @add_spec 0 0 b3 b4 0 0 c3 c4
    ⟨z, z, wb.2.2.1, wb.2.2.2⟩ ⟨z, z, wc.2.2.1, wc.2.2.2⟩
  generalize add 0 0 b3 b4 0 0 c3 c4 = s at *
  obtain ⟨s1, s2, s3, s4⟩ := s
  dsimp only
  obtain ⟨wt, et⟩ := @add_spec 0 0 s3 s4 0 0 d1 d2
    ⟨z, z, ws.2.2.1, ws.2.2.2⟩ ⟨z, z, wd.1, wd.2.1⟩
  generalize add 0 0 s3 s4 0 0 d1 d2 = t at *
  obtain ⟨t1, t2, t3, t4⟩ := t
  dsimp only
  exact ⟨⟨wt.2.2.1, wt.2.2.2, wd.2.2.1, wd.2.2.2⟩, 
    @mul_core _ (b1, b2, b3, b4) (c1, c2, c3, c4) (d1, d2, d3, d4) (s1, s2, s3, s4)
      (t1, t2, t3, t4) wt wd es et⟩

theorem mul128_le {a b : Nat} (ha : a < 2 ^ 128) (hb : b < 2 ^ 128) :
    a * b ≤ 115792089237316195423570985008687907852589419931798687112530834793049593217025 := by
  have h : a * b ≤ (2 ^ 128 - 1) * (2 ^ 128 - 1) := Nat.mul_le_mul (by omega) (by omega)
  norm_num at h
  exact h

theorem mul512_tot (a1 d3 d4 : Nat) {a2 a3 a4 b1 b2 b3 b4 c1 c2 c3 c4 d1 d2
    r6a r6 r5a r5 r4a r4 r3a r3 r2 k1 k2 k3 k4 k5 k6 k7 k8 k9 : Nat}
    (c6a : r6a + 2 ^ 64 * k1 = b4 + c4 + 0) (c6b : r6 + 2 ^ 64 * k2 = r6a + d2 + 0)
    (c5a : r5a + 2 ^ 64 * k3 = b3 + c3 + k1) (c5b : r5 + 2 ^ 64 * k4 = r5a + d1 + k2)
    (c4a : r4a + 2 ^ 64 * k5 = a4 + b2 + k3) (c4b : r4 + 2 ^ 64 * k6 = r4a + c2 + k4)
    (c3a : r3a + 2 ^ 64 * k7 = a3 + b1 + k5) (c3b : r3 + 2 ^ 64 * k8 = r3a + c1 + k6)
    (c2' : r2 + 2 ^ 64 * k9 = a2 + k7 + k8) :
    (a1 + k9) * 2 ^ 448 + r2 * 2 ^ 384 + r3 * 2 ^ 320 + r4 * 2 ^ 256 + r5 * 2 ^ 192 +
        r6 * 2 ^ 128 + d3 * 2 ^ 64 + d4 =
      (a1 * 2 ^ 192 + a2 * 2 ^ 128 + a3 * 2 ^ 64 + a4) * 2 ^ 256 +
        ((b1 * 2 ^ 192 + b2 * 2 ^ 128 + b3 * 2 ^ 64 + b4) +
          (c1 * 2 ^ 192 + c2 * 2 ^ 128 + c3 * 2 ^ 64 + c4)) * 2 ^ 128 +
        (d1 * 2 ^ 192 + d2 * 2 ^ 128 + d3 * 2 ^ 64 + d4) := by
  omega

theorem mul512_top {a1 k9 r2 r3 r4 r5 r6 d3 d4 A B C D : Nat}
    (tot : (a1 + k9) * 2 ^ 448 + r2 * 2 ^ 384 + r3 * 2 ^ 320 + r4 * 2 ^ 256 + r5 * 2 ^ 192 +
        r6 * 2 ^ 128 + d3 * 2 ^ 64 + d4 = A * 2 ^ 256 + (B + C) * 2 ^ 128 + D)
    (hA : A ≤ 115792089237316195423570985008687907852589419931798687112530834793049593217025)
    (hB : B ≤ 115792089237316195423570985008687907852589419931798687112530834793049593217025)
    (hC : C ≤ 115792089237316195423570985008687907852589419931798687112530834793049593217025)
    (hD : D ≤ 115792089237316195423570985008687907852589419931798687112530834793049593217025) :
    (a1 + k9) % 2 ^ 64 = a1 + k9 := by
  omega

theorem val_mul_val' (x1 x2 x3 x4 y1 y2 y3 y4 : Nat) :
    val (x1, x2, x3, x4) * val (y1, y2, y3, y4) =
      (x1 * 2 ^ 64 + x2) * (y1 * 2 ^ 64 + y2) * 2 ^ 256 +
        ((x1 * 2 ^ 64 + x2) * (y3 * 2 ^ 64 + y4) + (x3 * 2 ^ 64 + x4) * (y1 * 2 ^ 64 + y2)) *
          2 ^ 128 +
        (x3 * 2 ^ 64 + x4) * (y3 * 2 ^ 64 + y4) := by
  simp only [val]
  ring

theorem mul_256x256_512_spec {x1 x2 x3 x4 y1 y2 y3 y4 : Nat}
    (hx : WF (x1, x2, x3, x4)) (hy : WF (y1, y2, y3, y4)) :
    WF512 (mul_256x256_512 x1 x2 x3 x4 y1 y2 y3 y4) ∧
      val512 (mul_256x256_512 x1 x2 x3 x4 y1 y2 y3 y4) =
        val (x1, x2, x3, x4) * val (y1, y2, y3, y4) := by
  obtain ⟨hx1, hx2, hx3, hx4⟩ := hx
  obtain ⟨hy1, hy2, hy3, hy4⟩ := hy
  dsimp only at hx1 hx2 hx3 hx4 hy1 hy2 hy3 hy4
  obtain ⟨wa, ea⟩ := mul_128x128_256_spec hx1 hx2 hy1 hy2
  obtain ⟨wb, eb⟩ := mul_128x128_256_spec hx1 hx2 hy3 hy4
  obtain ⟨wc, ec⟩ := mul_128x128_256_spec hx3 hx4 hy1 hy2
  obtain ⟨wd, ed⟩ := mul_128x128_256_spec hx3 hx4 hy3 hy4
  have hX1 : x1 * 2 ^ 64 + x2 < 2 ^ 128 := by omega
  have hX0 : x3 * 2 ^ 64 + x4 < 2 ^ 128 := by omega
  have hY1 : y1 * 2 ^ 64 + y2 < 2 ^ 128 := by omega
  have hY0 : y3 * 2 ^ 64 + y4 < 2 ^ 128 := by omega
  have hA := mul128_le hX1 hY1
  have hB := mul128_le hX1 hY0
  have hC := mul128_le hX0 hY1
  have hD := mul128_le hX0 hY0
  rw [val_mul_val']
  rw [← ea] at hA
  rw [← eb] at hB
  rw [← ec] at hC
  rw [← ed] at hD
  rw [← ea, ← eb, ← ec, ← ed]
  clear ea eb ec ed hX1 hX0 hY1 hY0
  unfold mul_256x256_512
  generalize mul_128x128_256 x1 x2 y1 y2 = a at *
  generalize mul_128x128_256 x1 x2 y3 y4 = b at *
  generalize mul_128x128_256 x3 x4 y1 y2 = c at *
  generalize mul_128x128_256 x3 x4 y3 y4 = d at *
  obtain ⟨a1, a2, a3, a4⟩ := a
  obtain ⟨b1, b2, b3, b4⟩ := b
  obtain ⟨c1, c2, c3, c4⟩ := c
  obtain ⟨d1, d2, d3, d4⟩ := d
  obtain ⟨wa1, wa2, wa3, wa4⟩ := wa
  obtain ⟨wb1, wb2, wb3, wb4⟩ := wb
  obtain ⟨wc1, wc2, wc3, wc4⟩ := wc
  obtain ⟨wd1, wd2, wd3, wd4⟩ := wd
  dsimp only at *
  obtain ⟨h6a, l1, c6a⟩ := add_carry_spec wb4 wc4 (Nat.zero_le 1)
  generalize add_carry b4 c4 0 = p at *
  obtain ⟨r6a, k1⟩ := p
  dsimp only at *
  obtain ⟨h6, l2, c6b⟩ := add_carry_spec h6a wd2 (Nat.zero_le 1)
  generalize add_carry r6a d2 0 = p at *
  obtain ⟨r6, k2⟩ := p
  dsimp only at *
  obtain ⟨h5a, l3, c5a⟩ := add_carry_spec wb3 wc3 l1
  generalize add_carry b3 c3 k1 = p at *
  obtain ⟨r5a, k3⟩ := p
  dsimp only at *
  obtain ⟨h5, l4, c5b⟩ := add_carry_spec h5a wd1 l2
  generalize add_carry r5a d1 k2 = p at *
  obtain ⟨r5, k4⟩ := p
  dsimp only at *
  obtain ⟨h4a, l5, c4a⟩ := add_carry_spec wa4 wb2 l3
  generalize add_carry a4 b2 k3 = p at *
  obtain ⟨r4a, k5⟩ := p
  dsimp only at *
  obtain ⟨h4, l6, c4b⟩ := add_carry_spec h4a wc2 l4
  generalize add_carry r4a c2 k4 = p at *
  obtain ⟨r4, k6⟩ := p
  dsimp only at *
  obtain ⟨h3a, l7, c3a⟩ := add_carry_spec wa3 wb1 l5
  generalize add_carry a3 b1 k5 = p at *
  obtain ⟨r3a, k7⟩ := p
  dsimp only at *
  obtain ⟨h3, l8, c3b⟩ := add_carry_spec h3a wc1 l6
  generalize add_carry r3a c1 k6 = p at *
  obtain ⟨r3, k8⟩ := p
  dsimp only at *
  have l7' : k7 < 2 ^ 64 := by omega
  obtain ⟨h2, l9, c2'⟩ := add_carry_spec wa2 l7' l8
  generalize add_carry a2 k7 k8 = p at *
  obtain ⟨r2, k9⟩ := p
  dsimp only at *
  have tot := mul512_tot a1 d3 d4 c6a c6b c5a c5b c4a c4b c3a c3b c2'
  have top := mul512_top tot hA hB hC hD
  refine ⟨⟨Nat.mod_lt _ (by norm_num), h2, h3, h4, h5, h6, wd3, wd4⟩, ?_⟩
  simp only [val512, val, i64.add]
  rw [top]
  exact tot

/-! ### Zero tests, comparisons and single-bit shifts -/

theorem or_eq_zero {a b : Nat} : a ||| b = 0 ↔ a = 0 ∧ b = 0 := by
  constructor
  · intro h
    have hb : ∀ i, (a ||| b).testBit i = false := by
      intro i; rw [h]; exact Nat.zero_testBit i
    constructor
    · apply Nat.eq_of_testBit_eq
      intro i
      have := hb i
      rw [Nat.testBit_or] at this
      rw [Nat.zero_testBit]
      cases h1 : a.testBit i <;> simp_all
    · apply Nat.eq_of_testBit_eq
      intro i
      have := hb i
      rw [Nat.testBit_or] at this
      rw [Nat.zero_testBit]
      cases h1 : b.testBit i <;> simp_all
  · rintro ⟨rfl, rfl⟩
    rfl

theorem or_bool_eq (a b c d : Nat) :
    or_bool a b c d = if a = 0 ∧ b = 0 ∧ c = 0 ∧ d = 0 then 0 else 1 := by
  simp only [or_bool, i32.eqz, i64.eqz, i64.or, or_eq_zero]
  by_cases h : (a = 0 ∧ b = 0) ∧ c = 0 ∧ d = 0
  · have h' : a = 0 ∧ b = 0 ∧ c = 0 ∧ d = 0 := ⟨h.1.1, h.1.2, h.2⟩
    simp [h, h']
  · have h' : ¬ (a = 0 ∧ b = 0 ∧ c = 0 ∧ d = 0) := fun k => h ⟨⟨k.1, k.2.1⟩, k.2.2⟩
    simp [h, h']

theorem ite01_ne_zero (p : Prop) [Decidable p] : (if p then 0 else 1 : Nat) ≠ 0 ↔ ¬ p := by
  by_cases h : p <;> simp [h]

theorem ite10_ne_zero (p : Prop) [Decidable p] : (if p then 1 else 0 : Nat) ≠ 0 ↔ p := by
  by_cases h : p <;> simp [h]

theorem i32_or_ne_zero {a b : Nat} : i32.or a b ≠ 0 ↔ a ≠ 0 ∨ b ≠ 0 := by
  unfold i32.or
  rw [Ne, or_eq_zero]
  tauto

theorem i32_and_ite (p q : Prop) [Decidable p] [Decidable q] :
    i32.and (if p then 1 else 0) (if q then 1 else 0) ≠ 0 ↔ p ∧ q := by
  unfold i32.and
  by_cases hp : p <;> by_cases hq : q <;> simp [hp, hq]

theorem val_eq_zero {m1 m2 m3 m4 : Nat} :
    val (m1, m2, m3, m4) = 0 ↔ m1 = 0 ∧ m2 = 0 ∧ m3 = 0 ∧ m4 = 0 := by
  simp only [val]
  omega

theorem val320_eq_zero {m1 m2 m3 m4 m5 : Nat} :
    val320 (m1, m2, m3, m4, m5) = 0 ↔ m1 = 0 ∧ m2 = 0 ∧ m3 = 0 ∧ m4 = 0 ∧ m5 = 0 := by
  simp only [val320]
  omega

theorem val512_eq_zero {m1 m2 m3 m4 m5 m6 m7 m8 : Nat} :
    val512 (m1, m2, m3, m4, m5, m6, m7, m8) = 0 ↔
      m1 = 0 ∧ m2 = 0 ∧ m3 = 0 ∧ m4 = 0 ∧ m5 = 0 ∧ m6 = 0 ∧ m7 = 0 ∧ m8 = 0 := by
  simp only [val512]
  omega

theorem or_bool_ne_zero {m : W256} :
    or_bool m.1 m.2.1 m.2.2.1 m.2.2.2 ≠ 0 ↔ val m ≠ 0 := by
  obtain ⟨m1, m2, m3, m4⟩ := m
  rw [or_bool_eq, ite01_ne_zero, Ne, val_eq_zero]

theorem or_bool_320_ne_zero {m : W320} :
    or_bool_320 m.1 m.2.1 m.2.2.1 m.2.2.2.1 m.2.2.2.2 ≠ 0 ↔ val320 m ≠ 0 := by
  obtain ⟨m1, m2, m3, m4, m5⟩ := m
  unfold or_bool_320
  rw [i32_or_ne_zero, or_bool_eq, or_bool_eq, ite01_ne_zero, ite01_ne_zero, Ne,
    val320_eq_zero]
  tauto

theorem or_bool_512_ne_zero {m : W512} :
    or_bool_512 m.1 m.2.1 m.2.2.1 m.2.2.2.1 m.2.2.2.2.1 m.2.2.2.2.2.1 m.2.2.2.2.2.2.1
      m.2.2.2.2.2.2.2 ≠ 0 ↔ val512 m ≠ 0 := by
  obtain ⟨m1, m2, m3, m4, m5, m6, m7, m8⟩ := m
  unfold or_bool_512
  rw [i32_or_ne_zero, or_bool_eq, or_bool_eq, ite01_ne_zero, ite01_ne_zero, Ne,
    val512_eq_zero]
  tauto

theorem iszero256_eq (a b c d : Nat) :
    iszero256 a b c d = if a = 0 ∧ b = 0 ∧ c = 0 ∧ d = 0 then 1 else 0 := by
  simp only [iszero256, i64.eqz, i64.or, or_eq_zero]
  by_cases h : (a = 0 ∧ b = 0) ∧ c = 0 ∧ d = 0
  · have h' : a = 0 ∧ b = 0 ∧ c = 0 ∧ d = 0 := ⟨h.1.1, h.1.2, h.2⟩
    simp [h, h']
  · have h' : ¬ (a = 0 ∧ b = 0 ∧ c = 0 ∧ d = 0) := fun k => h ⟨⟨k.1, k.2.1⟩, k.2.2⟩
    simp [h, h']

theorem iszero256_ne_zero {m : W256} :
    iszero256 m.1 m.2.1 m.2.2.1 m.2.2.2 ≠ 0 ↔ val m = 0 := by
  obtain ⟨m1, m2, m3, m4⟩ := m
  rw [iszero256_eq, ite10_ne_zero, val_eq_zero]

theorem iszero320_ne_zero {m : W320} :
    iszero320 m.1 m.2.1 m.2.2.1 m.2.2.2.1 m.2.2.2.2 ≠ 0 ↔ val320 m = 0 := by
  obtain ⟨m1, m2, m3, m4, m5⟩ := m
  simp only [iszero320, i64.eqz, i64.or, or_eq_zero]
  rw [ite10_ne_zero, val320_eq_zero]
  tauto

theorem iszero512_ne_zero {m : W512} :
    iszero512 m.1 m.2.1 m.2.2.1 m.2.2.2.1 m.2.2.2.2.1 m.2.2.2.2.2.1 m.2.2.2.2.2.2.1
      m.2.2.2.2.2.2.2 ≠ 0 ↔ val512 m = 0 := by
  obtain ⟨m1, m2, m3, m4, m5, m6, m7, m8⟩ := m
  unfold iszero512
  rw [iszero256_eq, iszero256_eq, i32_and_ite, val512_eq_zero]
  tauto

theorem cmp_eq (a b : Nat) :
    cmp a b = if a < b then 4294967295 else if a = b then 0 else 1 := by
  unfold cmp i64.lt_u i64.ne
  by_cases h : a < b
  · simp [h]
  · simp [h]

theorem lex_lt {a b A B W : Nat} (hA : A < W) (hB : B < W) :
    a * W + A < b * W + B ↔ a < b ∨ (a = b ∧ A < B) := by
  constructor
  · intro h
    by_cases hab : a < b
    · exact Or.inl hab
    · by_cases hba : b < a
      · exfalso
        have : (b + 1) * W ≤ a * W := Nat.mul_le_mul_right W hba
        rw [Nat.add_mul] at this
        omega
      · have e : a = b := by omega
        subst e
        right
        exact ⟨rfl, by omega⟩
  · rintro (h | ⟨rfl, h⟩)
    · have : (a + 1) * W ≤ b * W := Nat.mul_le_mul_right W h
      rw [Nat.add_mul] at this
      omega
    · omega

theorem lt_step {a b A B W : Nat} (hA : A < W) (hB : B < W) :
    (if cmp a b = 0 then (if A < B then 1 else 0 : Nat)
      else if cmp a b = 1 then 0 else 1) =
      if a * W + A < b * W + B then 1 else 0 := by
  rw [cmp_eq]
  have key := @lex_lt a b A B W hA hB
  by_cases h1 : a < b
  · have : a * W + A < b * W + B := key.mpr (Or.inl h1)
    simp [h1, this]
  · by_cases h2 : a = b
    · subst h2
      by_cases h3 : A < B
      · have : a * W + A < a * W + B := by omega
        simp [h3]
      · have : ¬ (a * W + A < a * W + B) := by omega
        simp [h3]
    · have : ¬ (a * W + A < b * W + B) := by
        rw [key]; rintro (h | ⟨h, _⟩)
        · exact h1 h
        · exact h2 h
      simp [h1, h2, this]

theorem lt_256x256_64_spec {x1 x2 x3 x4 y1 y2 y3 y4 : Nat}
    (hx : WF (x1, x2, x3, x4)) (hy : WF (y1, y2, y3, y4)) :
    lt_256x256_64 x1 x2 x3 x4 y1 y2 y3 y4 =
      if val (x1, x2, x3, x4) < val (y1, y2, y3, y4) then 1 else 0 := by
  obtain ⟨hx1, hx2, hx3, hx4⟩ := hx
  obtain ⟨hy1, hy2, hy3, hy4⟩ := hy
  dsimp only at hx1 hx2 hx3 hx4 hy1 hy2 hy3 hy4
  unfold lt_256x256_64 i64.lt_u
  rw [@lt_step x3 y3 x4 y4 (2 ^ 64) hx4 hy4,
    @lt_step x2 y2 _ _ (2 ^ 128) (by omega) (by omega),
    @lt_step x1 y1 _ _ (2 ^ 192) (by omega) (by omega)]
  have e : (x1 * 2 ^ 192 + (x2 * 2 ^ 128 + (x3 * 2 ^ 64 + x4)) <
      y1 * 2 ^ 192 + (y2 * 2 ^ 128 + (y3 * 2 ^ 64 + y4))) ↔
      val (x1, x2, x3, x4) < val (y1, y2, y3, y4) := by
    simp only [val]; omega
  simp only [e]

theorem lt_320x320_64_spec {x1 x2 x3 x4 x5 y1 y2 y3 y4 y5 : Nat}
    (hx : WF320 (x1, x2, x3, x4, x5)) (hy : WF320 (y1, y2, y3, y4, y5)) :
    lt_320x320_64 x1 x2 x3 x4 x5 y1 y2 y3 y4 y5 =
      if val320 (x1, x2, x3, x4, x5) < val320 (y1, y2, y3, y4, y5) then 1 else 0 := by
  obtain ⟨hx1, hx2, hx3, hx4, hx5⟩ := hx
  obtain ⟨hy1, hy2, hy3, hy4, hy5⟩ := hy
  dsimp only at hx1 hx2 hx3 hx4 hx5 hy1 hy2 hy3 hy4 hy5
  unfold lt_320x320_64 i64.lt_u
  rw [@lt_step x4 y4 x5 y5 (2 ^ 64) hx5 hy5,
    @lt_step x3 y3 _ _ (2 ^ 128) (by omega) (by omega),
    @lt_step x2 y2 _ _ (2 ^ 192) (by omega) (by omega),
    @lt_step x1 y1 _ _ (2 ^ 256) (by omega) (by omega)]
  have e : (x1 * 2 ^ 256 + (x2 * 2 ^ 192 + (x3 * 2 ^ 128 + (x4 * 2 ^ 64 + x5))) <
      y1 * 2 ^ 256 + (y2 * 2 ^ 192 + (y3 * 2 ^ 128 + (y4 * 2 ^ 64 + y5)))) ↔
      val320 (x1, x2, x3, x4, x5) < val320 (y1, y2, y3, y4, y5) := by
    simp only [val320]; omega
  simp only [e]

theorem lt_512x512_64_spec {x1 x2 x3 x4 x5 x6 x7 x8 y1 y2 y3 y4 y5 y6 y7 y8 : Nat}
    (hx : WF512 (x1, x2, x3, x4, x5, x6, x7, x8))
    (hy : WF512 (y1, y2, y3, y4, y5, y6, y7, y8)) :
    lt_512x512_64 x1 x2 x3 x4 x5 x6 x7 x8 y1 y2 y3 y4 y5 y6 y7 y8 =
      if val512 (x1, x2, x3, x4, x5, x6, x7, x8) < val512 (y1, y2, y3, y4, y5, y6, y7, y8)
      then 1 else 0 := by
  obtain ⟨hx1, hx2, hx3, hx4, hx5, hx6, hx7, hx8⟩ := hx
  obtain ⟨hy1, hy2, hy3, hy4, hy5, hy6, hy7, hy8⟩ := hy
  dsimp only at hx1 hx2 hx3 hx4 hx5 hx6 hx7 hx8 hy1 hy2 hy3 hy4 hy5 hy6 hy7 hy8
  unfold lt_512x512_64 i64.lt_u
  rw [@lt_step x7 y7 x8 y8 (2 ^ 64) hx8 hy8,
    @lt_step x6 y6 _ _ (2 ^ 128) (by omega) (by omega),
    @lt_step x5 y5 _ _ (2 ^ 192) (by omega) (by omega),
    @lt_step x4 y4 _ _ (2 ^ 256) (by omega) (by omega),
    @lt_step x3 y3 _ _ (2 ^ 320) (by omega) (by omega),
    @lt_step x2 y2 _ _ (2 ^ 384) (by omega) (by omega),
    @lt_step x1 y1 _ _ (2 ^ 448) (by omega) (by omega)]
  have e : (x1 * 2 ^ 448 + (x2 * 2 ^ 384 + (x3 * 2 ^ 320 + (x4 * 2 ^ 256 +
      (x5 * 2 ^ 192 + (x6 * 2 ^ 128 + (x7 * 2 ^ 64 + x8)))))) <
      y1 * 2 ^ 448 + (y2 * 2 ^ 384 + (y3 * 2 ^ 320 + (y4 * 2 ^ 256 +
      (y5 * 2 ^ 192 + (y6 * 2 ^ 128 + (y7 * 2 ^ 64 + y8))))))) ↔
      val512 (x1, x2, x3, x4, x5, x6, x7, x8) < val512 (y1, y2, y3, y4, y5, y6, y7, y8) := by
    simp only [val512]; omega
  simp only [e]

theorem gte_256x256_64_ne_zero {x1 x2 x3 x4 y1 y2 y3 y4 : Nat}
    (hx : WF (x1, x2, x3, x4)) (hy : WF (y1, y2, y3, y4)) :
    gte_256x256_64 x1 x2 x3 x4 y1 y2 y3 y4 ≠ 0 ↔
      val (y1, y2, y3, y4) ≤ val (x1, x2, x3, x4) := by
  unfold gte_256x256_64 i32.eqz
  rw [lt_256x256_64_spec hx hy]
  by_cases h : val (x1, x2, x3, x4) < val (y1, y2, y3, y4)
  · simp [h]
  · simp [h]; omega

theorem gte_320x320_64_ne_zero {x1 x2 x3 x4 x5 y1 y2 y3 y4 y5 : Nat}
    (hx : WF320 (x1, x2, x3, x4, x5)) (hy : WF320 (y1, y2, y3, y4, y5)) :
    gte_320x320_64 x1 x2 x3 x4 x5 y1 y2 y3 y4 y5 ≠ 0 ↔
      val320 (y1, y2, y3, y4, y5) ≤ val320 (x1, x2, x3, x4, x5) := by
  unfold gte_320x320_64 i32.eqz
  rw [lt_320x320_64_spec hx hy]
  by_cases h : val320 (x1, x2, x3, x4, x5) < val320 (y1, y2, y3, y4, y5)
  · simp [h]
  · simp [h]; omega

theorem gte_512x512_64_ne_zero {x1 x2 x3 x4 x5 x6 x7 x8 y1 y2 y3 y4 y5 y6 y7 y8 : Nat}
    (hx : WF512 (x1, x2, x3, x4, x5, x6, x7, x8))
    (hy : WF512 (y1, y2, y3, y4, y5, y6, y7, y8)) :
    gte_512x512_64 x1 x2 x3 x4 x5 x6 x7 x8 y1 y2 y3 y4 y5 y6 y7 y8 ≠ 0 ↔
      val512 (y1, y2, y3, y4, y5, y6, y7, y8) ≤ val512 (x1, x2, x3, x4, x5, x6, x7, x8) := by
  unfold gte_512x512_64 i32.eqz
  rw [lt_512x512_64_spec hx hy]
  by_cases h : val512 (x1, x2, x3, x4, x5, x6, x7, x8) <
      val512 (y1, y2, y3, y4, y5, y6, y7, y8)
  · simp [h]
  · simp [h]; omega

theorem clz_top {a : Nat} (ha : a < 2 ^ 64) :
    i64.eqz (i64.clz a) ≠ 0 ↔ 2 ^ 63 ≤ a := by
  unfold i64.eqz i64.clz
  rw [show (64 : Nat) = 63 + 1 from rfl, i64.clzAux]
  by_cases h : a / 2 ^ 63 % 2 = 1
  · simp only [h, if_true]
    constructor
    · intro _; omega
    · intro _; decide
  · simp only [h, if_false]
    constructor
    · intro k; exact absurd rfl k
    · intro k; omega

theorem i64_sub_64_1 : i64.sub 64 1 = 63 := by
  unfold i64.sub; norm_num

theorem shl_internal_one_spec {x1 x2 x3 x4 : Nat} (hx : WF (x1, x2, x3, x4)) :
    WF (shl_internal 1 x1 x2 x3 x4) ∧
      val (shl_internal 1 x1 x2 x3 x4) = 2 * val (x1, x2, x3, x4) % 2 ^ 256 := by
  obtain ⟨hx1, hx2, hx3, hx4⟩ := hx
  simp only [shl_internal, i64_sub_64_1, i64.add, i64.shl, i64.shr_u, WF, val,
    Nat.reduceMod, Nat.pow_one] at *
  refine ⟨⟨?_, ?_, ?_, ?_⟩, ?_⟩ <;> omega

theorem shr_internal_one_spec {x1 x2 x3 x4 : Nat} (hx : WF (x1, x2, x3, x4)) :
    WF (shr_internal 1 x1 x2 x3 x4) ∧
      val (shr_internal 1 x1 x2 x3 x4) = val (x1, x2, x3, x4) / 2 := by
  obtain ⟨hx1, hx2, hx3, hx4⟩ := hx
  simp only [shr_internal, i64_sub_64_1, i64.add, i64.shl, i64.shr_u, WF, val,
    Nat.reduceMod, Nat.pow_one] at *
  refine ⟨⟨?_, ?_, ?_, ?_⟩, ?_⟩ <;> omega

theorem shl320_internal_one_spec {x1 x2 x3 x4 x5 : Nat} (hx : WF320 (x1, x2, x3, x4, x5)) :
    WF320 (shl320_internal 1 x1 x2 x3 x4 x5) ∧
      val320 (shl320_internal 1 x1 x2 x3 x4 x5) =
        2 * val320 (x1, x2, x3, x4, x5) % 2 ^ 320 := by
  obtain ⟨hx1, hx2, hx3, hx4, hx5⟩ := hx
  simp only [shl320_internal, i64_sub_64_1, i64.add, i64.shl, i64.shr_u, WF320, val320,
    Nat.reduceMod, Nat.pow_one] at *
  refine ⟨⟨?_, ?_, ?_, ?_, ?_⟩, ?_⟩ <;> omega

theorem shr320_internal_one_spec {x1 x2 x3 x4 x5 : Nat} (hx : WF320 (x1, x2, x3, x4, x5)) :
    WF320 (shr320_internal 1 x1 x2 x3 x4 x5) ∧
      val320 (shr320_internal 1 x1 x2 x3 x4 x5) = val320 (x1, x2, x3, x4, x5) / 2 := by
  obtain ⟨hx1, hx2, hx3, hx4, hx5⟩ := hx
  simp only [shr320_internal, i64_sub_64_1, i64.add, i64.shl, i64.shr_u, WF320, val320,
    Nat.reduceMod, Nat.pow_one] at *
  refine ⟨⟨?_, ?_, ?_, ?_, ?_⟩, ?_⟩ <;> omega

theorem shl_limb {a b : Nat} (_ha : a < 2 ^ 64) (hb : b < 2 ^ 64) :
    (a * 2 % 2 ^ 64 + b / 2 ^ 63) % 2 ^ 64 = 2 * (a % 2 ^ 63) + b / 2 ^ 63 := by
  omega

theorem shl_limb_last (a : Nat) : a * 2 % 2 ^ 64 = 2 * (a % 2 ^ 63) := by
  omega

theorem shl512_arith (h1 h2 h3 h4 h5 h6 h7 h8 l1 l2 l3 l4 l5 l6 l7 l8 : Nat) :
    2 * ((2 ^ 63 * h1 + l1) * 2 ^ 448 + (2 ^ 63 * h2 + l2) * 2 ^ 384 +
      (2 ^ 63 * h3 + l3) * 2 ^ 320 + (2 ^ 63 * h4 + l4) * 2 ^ 256 +
      (2 ^ 63 * h5 + l5) * 2 ^ 192 + (2 ^ 63 * h6 + l6) * 2 ^ 128 +
      (2 ^ 63 * h7 + l7) * 2 ^ 64 + (2 ^ 63 * h8 + l8)) =
    ((2 * l1 + h2) * 2 ^ 448 + (2 * l2 + h3) * 2 ^ 384 + (2 * l3 + h4) * 2 ^ 320 +
      (2 * l4 + h5) * 2 ^ 256 + (2 * l5 + h6) * 2 ^ 192 + (2 * l6 + h7) * 2 ^ 128 +
      (2 * l7 + h8) * 2 ^ 64 + 2 * l8) + h1 * 2 ^ 512 := by
  ring

theorem shl512_bound {h2 h3 h4 h5 h6 h7 h8 l1 l2 l3 l4 l5 l6 l7 l8 : Nat}
    (a2 : h2 < 2) (a3 : h3 < 2) (a4 : h4 < 2) (a5 : h5 < 2) (a6 : h6 < 2) (a7 : h7 < 2)
    (a8 : h8 < 2) (b1 : l1 < 2 ^ 63) (b2 : l2 < 2 ^ 63) (b3 : l3 < 2 ^ 63)
    (b4 : l4 < 2 ^ 63) (b5 : l5 < 2 ^ 63) (b6 : l6 < 2 ^ 63) (b7 : l7 < 2 ^ 63)
    (b8 : l8 < 2 ^ 63) :
    (2 * l1 + h2) * 2 ^ 448 + (2 * l2 + h3) * 2 ^ 384 + (2 * l3 + h4) * 2 ^ 320 +
      (2 * l4 + h5) * 2 ^ 256 + (2 * l5 + h6) * 2 ^ 192 + (2 * l6 + h7) * 2 ^ 128 +
      (2 * l7 + h8) * 2 ^ 64 + 2 * l8 < 2 ^ 512 := by
  omega

theorem shl512_internal_one_spec {x1 x2 x3 x4 x5 x6 x7 x8 : Nat}
    (hx : WF512 (x1, x2, x3, x4, x5, x6, x7, x8)) :
    WF512 (shl512_internal 1 x1 x2 x3 x4 x5 x6 x7 x8) ∧
      val512 (shl512_internal 1 x1 x2 x3 x4 x5 x6 x7 x8) =
        2 * val512 (x1, x2, x3, x4, x5, x6, x7, x8) % 2 ^ 512 := by
  obtain ⟨hx1, hx2, hx3, hx4, hx5, hx6, hx7, hx8⟩ := hx
  simp only [shl512_internal, i64_sub_64_1, i64.add, i64.shl, i64.shr_u, WF512, val512,
    Nat.reduceMod, Nat.pow_one] at *
  rw [shl_limb hx1 hx2, shl_limb hx2 hx3, shl_limb hx3 hx4, shl_limb hx4 hx5,
    shl_limb hx5 hx6, shl_limb hx6 hx7, shl_limb hx7 hx8, shl_limb_last x8]
  refine ⟨⟨by omega, by omega, by omega, by omega, by omega, by omega, by omega, by omega⟩, ?_⟩
  have a2 : x2 / 2 ^ 63 < 2 := by omega
  have a3 : x3 / 2 ^ 63 < 2 := by omega
  have a4 : x4 / 2 ^ 63 < 2 := by omega
  have a5 : x5 / 2 ^ 63 < 2 := by omega
  have a6 : x6 / 2 ^ 63 < 2 := by omega
  have a7 : x7 / 2 ^ 63 < 2 := by omega
  have a8 : x8 / 2 ^ 63 < 2 := by omega
  have b1 : x1 % 2 ^ 63 < 2 ^ 63 := Nat.mod_lt _ (by norm_num)
  have b2 : x2 % 2 ^ 63 < 2 ^ 63 := Nat.mod_lt _ (by norm_num)
  have b3 : x3 % 2 ^ 63 < 2 ^ 63 := Nat.mod_lt _ (by norm_num)
  have b4 : x4 % 2 ^ 63 < 2 ^ 63 := Nat.mod_lt _ (by norm_num)
  have b5 : x5 % 2 ^ 63 < 2 ^ 63 := Nat.mod_lt _ (by norm_num)
  have b6 : x6 % 2 ^ 63 < 2 ^ 63 := Nat.mod_lt _ (by norm_num)
  have b7 : x7 % 2 ^ 63 < 2 ^ 63 := Nat.mod_lt _ (by norm_num)
  have b8 : x8 % 2 ^ 63 < 2 ^ 63 := Nat.mod_lt _ (by norm_num)
  have bound := shl512_bound a2 a3 a4 a5 a6 a7 a8 b1 b2 b3 b4 b5 b6 b7 b8
  have ar := shl512_arith (x1 / 2 ^ 63) (x2 / 2 ^ 63) (x3 / 2 ^ 63) (x4 / 2 ^ 63)
    (x5 / 2 ^ 63) (x6 / 2 ^ 63) (x7 / 2 ^ 63) (x8 / 2 ^ 63) (x1 % 2 ^ 63) (x2 % 2 ^ 63)
    (x3 % 2 ^ 63) (x4 % 2 ^ 63) (x5 % 2 ^ 63) (x6 % 2 ^ 63) (x7 % 2 ^ 63) (x8 % 2 ^ 63)
  simp only [Nat.div_add_mod] at ar
  rw [ar, Nat.add_mul_mod_self_right, Nat.mod_eq_of_lt bound]

theorem shr_limb {a b : Nat} (ha : a < 2 ^ 64) :
    (a / 2 + b * 2 ^ 63 % 2 ^ 64) % 2 ^ 64 = a / 2 + 2 ^ 63 * (b % 2) := by
  omega

theorem shr512_arith (q1 q2 q3 q4 q5 q6 q7 q8 c1 c2 c3 c4 c5 c6 c7 c8 : Nat) :
    (2 * q1 + c1) * 2 ^ 448 + (2 * q2 + c2) * 2 ^ 384 + (2 * q3 + c3) * 2 ^ 320 +
      (2 * q4 + c4) * 2 ^ 256 + (2 * q5 + c5) * 2 ^ 192 + (2 * q6 + c6) * 2 ^ 128 +
      (2 * q7 + c7) * 2 ^ 64 + (2 * q8 + c8) =
    2 * (q1 * 2 ^ 448 + (q2 + 2 ^ 63 * c1) * 2 ^ 384 + (q3 + 2 ^ 63 * c2) * 2 ^ 320 +
      (q4 + 2 ^ 63 * c3) * 2 ^ 256 + (q5 + 2 ^ 63 * c4) * 2 ^ 192 +
      (q6 + 2 ^ 63 * c5) * 2 ^ 128 + (q7 + 2 ^ 63 * c6) * 2 ^ 64 + (q8 + 2 ^ 63 * c7)) +
      c8 := by
  ring

theorem half_of_eq {V R c : Nat} (h : V = 2 * R + c) (hc : c < 2) : R = V / 2 := by
  omega

theorem shr512_internal_one_spec {x1 x2 x3 x4 x5 x6 x7 x8 : Nat}
    (hx : WF512 (x1, x2, x3, x4, x5, x6, x7, x8)) :
    WF512 (shr512_internal 1 x1 x2 x3 x4 x5 x6 x7 x8) ∧
      val512 (shr512_internal 1 x1 x2 x3 x4 x5 x6 x7 x8) =
        val512 (x1, x2, x3, x4, x5, x6, x7, x8) / 2 := by
  obtain ⟨hx1, hx2, hx3, hx4, hx5, hx6, hx7, hx8⟩ := hx
  simp only [shr512_internal, i64_sub_64_1, i64.add, i64.shl, i64.shr_u, WF512, val512,
    Nat.reduceMod, Nat.pow_one] at *
  rw [@shr_limb x8 x7 hx8, @shr_limb x7 x6 hx7, @shr_limb x6 x5 hx6, @shr_limb x5 x4 hx5,
    @shr_limb x4 x3 hx4, @shr_limb x3 x2 hx3, @shr_limb x2 x1 hx2]
  refine ⟨⟨by omega, by omega, by omega, by omega, by omega, by omega, by omega, by omega⟩, ?_⟩
  have ar := shr512_arith (x1 / 2) (x2 / 2) (x3 / 2) (x4 / 2) (x5 / 2) (x6 / 2) (x7 / 2)
    (x8 / 2) (x1 % 2) (x2 % 2) (x3 % 2) (x4 % 2) (x5 % 2) (x6 % 2) (x7 % 2) (x8 % 2)
  simp only [Nat.div_add_mod] at ar
  exact half_of_eq ar (Nat.mod_lt _ (by norm_num))

/-! ### Reference loops on natural numbers -/

theorem normLoop_spec {W x y0 : Nat} (hW : 0 < W) (hy0 : 0 < y0) (hx : x < 2 ^ W) :
    ∀ (fuel k : Nat), y0 * 2 ^ k < 2 ^ W → W ≤ fuel + k →
      ∃ k', normLoop W x fuel (y0 * 2 ^ k) (2 ^ k) = some (y0 * 2 ^ k', 2 ^ k') ∧
        y0 * 2 ^ k' < 2 ^ W ∧ x < 2 * (y0 * 2 ^ k') := by
  have hWW : 2 ^ W = 2 * 2 ^ (W - 1) := by
    rw [← Nat.pow_succ']; congr 1; omega
  intro fuel
  induction fuel with
  | zero =>
    intro k hk hf
    exfalso
    have h1 : 2 ^ W ≤ 2 ^ k := Nat.pow_le_pow_right (by norm_num) (by omega)
    have h2 : 2 ^ k ≤ y0 * 2 ^ k := Nat.le_mul_of_pos_left _ hy0
    omega
  | succ fuel ih =>
    intro k hk hf
    have hpos : 0 < 2 ^ k := Nat.pow_pos (by norm_num)
    have h2 : 2 ^ k ≤ y0 * 2 ^ k := Nat.le_mul_of_pos_left _ hy0
    unfold normLoop
    by_cases hc : 2 ^ (W - 1) ≤ y0 * 2 ^ k ∨ x ≤ y0 * 2 ^ k
    · rw [if_pos hc]
      refine ⟨k, rfl, hk, ?_⟩
      rcases hc with h | h <;> omega
    · rw [if_neg hc]
      have hc1 : y0 * 2 ^ k < 2 ^ (W - 1) := by omega
      have e1 : 2 * (y0 * 2 ^ k) % 2 ^ W = y0 * 2 ^ (k + 1) := by
        rw [Nat.mod_eq_of_lt (by omega), Nat.pow_succ]; ring
      have e2 : 2 * 2 ^ k % 2 ^ W = 2 ^ (k + 1) := by
        rw [Nat.mod_eq_of_lt (by omega), Nat.pow_succ]; ring
      rw [e1, e2]
      have hk' : y0 * 2 ^ (k + 1) < 2 ^ W := by
        rw [Nat.pow_succ, ← Nat.mul_assoc]; omega
      exact ih (k + 1) hk' (by omega)

theorem subLoop_spec {W y0 X : Nat} (hy0 : 0 < y0) (hX : X < 2 ^ W) :
    ∀ (k fuel x r : Nat), y0 * 2 ^ k < 2 ^ W → k + 2 ≤ fuel → r * y0 + x = X →
      x < 2 * (y0 * 2 ^ k) →
      subLoop W fuel x (y0 * 2 ^ k) (2 ^ k) r = some (X % y0, X / y0) := by
  intro k
  induction k with
  | zero =>
    intro fuel x r hk hf hinv hlt
    obtain ⟨f, rfl⟩ : ∃ f, fuel = f + 2 := ⟨fuel - 2, by omega⟩
    simp only [Nat.pow_zero, Nat.mul_one] at *
    have fin : ∀ x' r', r' * y0 + x' = X → x' < y0 →
        subLoop W (f + 1) x' (y0 / 2) (1 / 2) r' = some (X % y0, X / y0) := by
      intro x' r' h1 h2
      unfold subLoop
      have hdm : X / y0 = r' ∧ X % y0 = x' := by
        rw [Nat.div_mod_unique hy0]
        exact ⟨by rw [Nat.mul_comm]; omega, h2⟩
      simp [hdm.1, hdm.2]
    unfold subLoop
    rw [if_pos (by norm_num)]
    by_cases hc : y0 ≤ x
    · rw [if_pos hc]
      have hle : r + 1 ≤ X := by
        have : (r + 1) * y0 ≤ X := by rw [Nat.add_mul]; omega
        have : r + 1 ≤ (r + 1) * y0 := Nat.le_mul_of_pos_right _ hy0
        omega
      have e1 : (x + 2 ^ W - y0) % 2 ^ W = x - y0 := by
        have : x + 2 ^ W - y0 = (x - y0) + 2 ^ W := by omega
        rw [this, Nat.add_mod_right, Nat.mod_eq_of_lt (by omega)]
      have e2 : (r + 1) % 2 ^ W = r + 1 := Nat.mod_eq_of_lt (by omega)
      rw [e1, e2]
      exact fin _ _ (by rw [Nat.add_mul]; omega) (by omega)
    · rw [if_neg hc]
      exact fin _ _ hinv (by omega)
  | succ k ih =>
    intro fuel x r hk hf hinv hlt
    obtain ⟨f, rfl⟩ : ∃ f, fuel = f + 1 := ⟨fuel - 1, by omega⟩
    have hpos : 0 < 2 ^ (k + 1) := Nat.pow_pos (by norm_num)
    have ey : y0 * 2 ^ (k + 1) / 2 = y0 * 2 ^ k := by
      rw [Nat.pow_succ, ← Nat.mul_assoc, Nat.mul_div_cancel _ (by norm_num)]
    have em : 2 ^ (k + 1) / 2 = 2 ^ k := by
      rw [Nat.pow_succ, Nat.mul_div_cancel _ (by norm_num)]
    have ey2 : y0 * 2 ^ (k + 1) = 2 * (y0 * 2 ^ k) := by rw [Nat.pow_succ]; ring
    have hk' : y0 * 2 ^ k < 2 ^ W := by omega
    unfold subLoop
    rw [if_pos (by omega), ey, em]
    by_cases hc : y0 * 2 ^ (k + 1) ≤ x
    · rw [if_pos hc]
      have hmul : 2 ^ (k + 1) * y0 = y0 * 2 ^ (k + 1) := Nat.mul_comm _ _
      have hle : r + 2 ^ (k + 1) ≤ X := by
        have h1 : (r + 2 ^ (k + 1)) * y0 ≤ X := by rw [Nat.add_mul, hmul]; omega
        have h2 : r + 2 ^ (k + 1) ≤ (r + 2 ^ (k + 1)) * y0 := Nat.le_mul_of_pos_right _ hy0
        omega
      have e1 : (x + 2 ^ W - y0 * 2 ^ (k + 1)) % 2 ^ W = x - y0 * 2 ^ (k + 1) := by
        have : x + 2 ^ W - y0 * 2 ^ (k + 1) = (x - y0 * 2 ^ (k + 1)) + 2 ^ W := by omega
        rw [this, Nat.add_mod_right, Nat.mod_eq_of_lt (by omega)]
      have e2 : (r + 2 ^ (k + 1)) % 2 ^ W = r + 2 ^ (k + 1) := Nat.mod_eq_of_lt (by omega)
      rw [e1, e2]
      exact ih f _ _ hk' (by omega) (by rw [Nat.add_mul, hmul]; omega) (by omega)
    · rw [if_neg hc]
      exact ih f _ _ hk' (by omega) hinv (by omega)

/-! ### The loops of `div` and `mod` refine the reference loops -/

theorem loop1_cond {x1 x2 x3 x4 y1 y2 y3 y4 : Nat}
    (hx : WF (x1, x2, x3, x4)) (hy : WF (y1, y2, y3, y4)) :
    i32.or (i64.eqz (i64.clz y1)) (gte_256x256_64 y1 y2 y3 y4 x1 x2 x3 x4) ≠ 0 ↔
      (2 ^ (256 - 1) ≤ val (y1, y2, y3, y4) ∨ val (x1, x2, x3, x4) ≤ val (y1, y2, y3, y4)) := by
  rw [i32_or_ne_zero, clz_top hy.1, gte_256x256_64_ne_zero hy hx]
  have e : 2 ^ 63 ≤ y1 ↔ 2 ^ (256 - 1) ≤ val (y1, y2, y3, y4) := by
    obtain ⟨h1, h2, h3, h4⟩ := hy
    simp only [val, Nat.reduceSub] at *
    omega
  rw [e]

theorem div_loop1_sim {x1 x2 x3 x4 : Nat} (hx : WF (x1, x2, x3, x4)) :
    ∀ (fuel : Nat) (y m : W256) (Y M : Nat), WF y → WF m →
      normLoop 256 (val (x1, x2, x3, x4)) fuel (val y) (val m) = some (Y, M) →
      ∃ y' m', div_loop1 x1 x2 x3 x4 fuel y m = some (y', m') ∧ WF y' ∧ WF m' ∧
        val y' = Y ∧ val m' = M := by
  intro fuel
  induction fuel with
  | zero => intro y m Y M _ _ h; simp [normLoop] at h
  | succ fuel ih =>
    intro y m Y M hy hm h
    obtain ⟨y1, y2, y3, y4⟩ := y
    obtain ⟨m1, m2, m3, m4⟩ := m
    unfold normLoop at h
    unfold div_loop1
    by_cases hc : 2 ^ (256 - 1) ≤ val (y1, y2, y3, y4) ∨
        val (x1, x2, x3, x4) ≤ val (y1, y2, y3, y4)
    · rw [if_pos hc] at h
      rw [if_pos ((loop1_cond hx hy).mpr hc)]
      simp only [Option.some.injEq, Prod.mk.injEq] at h
      exact ⟨_, _, rfl, hy, hm, h.1, h.2⟩
    · rw [if_neg hc] at h
      rw [if_neg (fun k => hc ((loop1_cond hx hy).mp k))]
      obtain ⟨wy, ey⟩ := shl_internal_one_spec hy
      obtain ⟨wm, em⟩ := shl_internal_one_spec hm
      rw [← ey, ← em] at h
      exact ih _ _ Y M wy wm h

theorem mod_loop1_eq (r1 r2 r3 r4 : Nat) :
    ∀ (fuel : Nat) (y m : W256),
      mod_loop1 r1 r2 r3 r4 fuel y m = div_loop1 r1 r2 r3 r4 fuel y m := by
  intro fuel
  induction fuel with
  | zero => intro y m; rfl
  | succ fuel ih =>
    intro y m
    obtain ⟨y1, y2, y3, y4⟩ := y
    obtain ⟨m1, m2, m3, m4⟩ := m
    unfold mod_loop1 div_loop1
    rw [ih]

theorem div_loop2_sim :
    ∀ (fuel : Nat) (x y m r : W256) (X' R' : Nat), WF x → WF y → WF m → WF r →
      subLoop 256 fuel (val x) (val y) (val m) (val r) = some (X', R') →
      ∃ r', div_loop2 fuel x y m r = some r' ∧ WF r' ∧ val r' = R' := by
  intro fuel
  induction fuel with
  | zero => intro x y m r X' R' _ _ _ _ h; simp [subLoop] at h
  | succ fuel ih =>
    intro x y m r X' R' hx hy hm hr h
    obtain ⟨x1, x2, x3, x4⟩ := x
    obtain ⟨y1, y2, y3, y4⟩ := y
    obtain ⟨m1, m2, m3, m4⟩ := m
    obtain ⟨r1, r2, r3, r4⟩ := r
    unfold subLoop at h
    unfold div_loop2
    have hmc := @or_bool_ne_zero (m1, m2, m3, m4)
    dsimp only at hmc
    obtain ⟨wy, ey⟩ := shr_internal_one_spec hy
    obtain ⟨wm, em⟩ := shr_internal_one_spec hm
    by_cases hc : val (m1, m2, m3, m4) ≠ 0
    · rw [if_pos hc] at h
      rw [if_pos (hmc.mpr hc)]
      by_cases hg : val (y1, y2, y3, y4) ≤ val (x1, x2, x3, x4)
      · rw [if_pos hg] at h
        rw [if_pos ((gte_256x256_64_ne_zero hx hy).mpr hg)]
        obtain ⟨ws, es⟩ := sub_spec hx hy
        obtain ⟨wa, ea⟩ := add_spec hr hm
        rw [← es, ← ea, ← ey, ← em] at h
        exact ih _ _ _ _ X' R' ws wy wm wa h
      · rw [if_neg hg] at h
        rw [if_neg (fun k => hg ((gte_256x256_64_ne_zero hx hy).mp k))]
        rw [← ey, ← em] at h
        exact ih _ _ _ _ X' R' hx wy wm hr h
    · rw [if_neg hc] at h
      rw [if_neg (fun k => hc (hmc.mp k))]
      simp only [Option.some.injEq, Prod.mk.injEq] at h
      exact ⟨_, rfl, hr, h.2⟩

theorem mod_loop2_sim :
    ∀ (fuel : Nat) (r y m : W256) (R X' R' : Nat), WF r → WF y → WF m →
      subLoop 256 fuel (val r) (val y) (val m) R = some (X', R') →
      ∃ r', mod_loop2 fuel r y m = some r' ∧ WF r' ∧ val r' = X' := by
  intro fuel
  induction fuel with
  | zero => intro r y m R X' R' _ _ _ h; simp [subLoop] at h
  | succ fuel ih =>
    intro r y m R X' R' hr hy hm h
    obtain ⟨r1, r2, r3, r4⟩ := r
    obtain ⟨y1, y2, y3, y4⟩ := y
    obtain ⟨m1, m2, m3, m4⟩ := m
    unfold subLoop at h
    unfold mod_loop2
    have hmc := @or_bool_ne_zero (m1, m2, m3, m4)
    dsimp only at hmc
    obtain ⟨wy, ey⟩ := shr_internal_one_spec hy
    obtain ⟨wm, em⟩ := shr_internal_one_spec hm
    by_cases hc : val (m1, m2, m3, m4) ≠ 0
    · rw [if_pos hc] at h
      rw [if_pos (hmc.mpr hc)]
      by_cases hg : val (y1, y2, y3, y4) ≤ val (r1, r2, r3, r4)
      · rw [if_pos hg] at h
        rw [if_pos ((gte_256x256_64_ne_zero hr hy).mpr hg)]
        obtain ⟨ws, es⟩ := sub_spec hr hy
        rw [← es, ← ey, ← em] at h
        exact ih _ _ _ _ X' R' ws wy wm h
      · rw [if_neg hg] at h
        rw [if_neg (fun k => hg ((gte_256x256_64_ne_zero hr hy).mp k))]
        rw [← ey, ← em] at h
        exact ih _ _ _ _ X' R' hr wy wm h
    · rw [if_neg hc] at h
      rw [if_neg (fun k => hc (hmc.mp k))]
      simp only [Option.some.injEq, Prod.mk.injEq] at h
      exact ⟨_, rfl, hr, h.1⟩

theorem exp_lt_of_mul_lt {W y0 k : Nat} (hy0 : 0 < y0) (h : y0 * 2 ^ k < 2 ^ W) : k < W := by
  by_contra hk
  have h1 : 2 ^ W ≤ 2 ^ k := Nat.pow_le_pow_right (by norm_num) (by omega)
  have h2 : 2 ^ k ≤ y0 * 2 ^ k := Nat.le_mul_of_pos_left _ hy0
  omega

theorem val_one : val (0, 0, 0, 1) = 1 := by
  simp [val]

theorem val_zero : val (0, 0, 0, 0) = 0 := by
  simp [val]

theorem wf_one : WF (0, 0, 0, 1) := by
  simp [WF]

theorem wf_zero : WF (0, 0, 0, 0) := by
  simp [WF]

theorem div_spec {fuel x1 x2 x3 x4 y1 y2 y3 y4 : Nat} (hf : 257 ≤ fuel)
    (hx : WF (x1, x2, x3, x4)) (hy : WF (y1, y2, y3, y4)) :
    ∃ r, div fuel x1 x2 x3 x4 y1 y2 y3 y4 = some r ∧ WF r ∧
      val r = val (x1, x2, x3, x4) / val (y1, y2, y3, y4) := by
  unfold div
  have hz := @iszero256_ne_zero (y1, y2, y3, y4)
  dsimp only at hz
  by_cases h0 : val (y1, y2, y3, y4) = 0
  · rw [if_pos (hz.mpr h0), h0, Nat.div_zero]
    exact ⟨_, rfl, wf_zero, val_zero⟩
  · rw [if_neg (fun k => h0 (hz.mp k))]
    have hy0 : 0 < val (y1, y2, y3, y4) := Nat.pos_of_ne_zero h0
    have hX := val_lt hx
    have hY := val_lt hy
    obtain ⟨k', hn, hk', hlt⟩ := @normLoop_spec 256 _ _ (by norm_num) hy0 hX fuel 0
      (by rw [Nat.pow_zero, Nat.mul_one]; exact hY) (by omega)
    rw [Nat.pow_zero, Nat.mul_one] at hn
    rw [show (1 : Nat) = val (0, 0, 0, 1) from val_one.symm] at hn
    obtain ⟨y', m', h1, wy', wm', ey', em'⟩ := div_loop1_sim hx fuel _ _ _ _ hy wf_one hn
    rw [h1]
    dsimp only
    have hkW := exp_lt_of_mul_lt hy0 hk'
    have hs := @subLoop_spec 256 _ _ hy0 hX k' fuel (val (x1, x2, x3, x4)) 0 hk' (by omega)
      (by simp) hlt
    rw [← ey', ← em', ← val_zero] at hs
    obtain ⟨r', h2, wr', er'⟩ := div_loop2_sim fuel _ _ _ _ _ _ hx wy' wm' wf_zero hs
    exact ⟨r', h2, wr', er'⟩

theorem mod_spec {fuel x1 x2 x3 x4 y1 y2 y3 y4 : Nat} (hf : 257 ≤ fuel)
    (hx : WF (x1, x2, x3, x4)) (hy : WF (y1, y2, y3, y4)) :
    ∃ r, mod fuel x1 x2 x3 x4 y1 y2 y3 y4 = some r ∧ WF r ∧
      val r = if val (y1, y2, y3, y4) = 0 then 0
        else val (x1, x2, x3, x4) % val (y1, y2, y3, y4) := by
  unfold mod
  have hz := @iszero256_ne_zero (y1, y2, y3, y4)
  dsimp only at hz
  by_cases h0 : val (y1, y2, y3, y4) = 0
  · rw [if_pos (hz.mpr h0), if_pos h0]
    exact ⟨_, rfl, wf_zero, val_zero⟩
  · rw [if_neg (fun k => h0 (hz.mp k)), if_neg h0]
    have hy0 : 0 < val (y1, y2, y3, y4) := Nat.pos_of_ne_zero h0
    have hX := val_lt hx
    have hY := val_lt hy
    obtain ⟨k', hn, hk', hlt⟩ := @normLoop_spec 256 _ _ (by norm_num) hy0 hX fuel 0
      (by rw [Nat.pow_zero, Nat.mul_one]; exact hY) (by omega)
    rw [Nat.pow_zero, Nat.mul_one] at hn
    rw [show (1 : Nat) = val (0, 0, 0, 1) from val_one.symm] at hn
    obtain ⟨y', m', h1, wy', wm', ey', em'⟩ := div_loop1_sim hx fuel _ _ _ _ hy wf_one hn
    rw [mod_loop1_eq, h1]
    dsimp only
    have hkW := exp_lt_of_mul_lt hy0 hk'
    have hs := @subLoop_spec 256 _ _ hy0 hX k' fuel (val (x1, x2, x3, x4)) 0 hk' (by omega)
      (by simp) hlt
    rw [← ey', ← em'] at hs
    obtain ⟨r', h2, wr', er'⟩ := mod_loop2_sim fuel _ _ _ _ _ _ hx wy' wm' hs
    exact ⟨r', h2, wr', er'⟩

/-! ### `mod320` -/

theorem loop1_cond_320 {x1 x2 x3 x4 x5 y1 y2 y3 y4 y5 : Nat}
    (hx : WF320 (x1, x2, x3, x4, x5)) (hy : WF320 (y1, y2, y3, y4, y5)) :
    i32.or (i64.eqz (i64.clz y1)) (gte_320x320_64 y1 y2 y3 y4 y5 x1 x2 x3 x4 x5) ≠ 0 ↔
      (2 ^ (320 - 1) ≤ val320 (y1, y2, y3, y4, y5) ∨
        val320 (x1, x2, x3, x4, x5) ≤ val320 (y1, y2, y3, y4, y5)) := by
  rw [i32_or_ne_zero, clz_top hy.1, gte_320x320_64_ne_zero hy hx]
  have e : 2 ^ 63 ≤ y1 ↔ 2 ^ (320 - 1) ≤ val320 (y1, y2, y3, y4, y5) := by
    obtain ⟨h1, h2, h3, h4, h5⟩ := hy
    simp only [val320, Nat.reduceSub] at *
    omega
  rw [e]

theorem mod320_loop1_sim {x1 x2 x3 x4 x5 : Nat} (hx : WF320 (x1, x2, x3, x4, x5)) :
    ∀ (fuel : Nat) (y m : W320) (Y M : Nat), WF320 y → WF320 m →
      normLoop 320 (val320 (x1, x2, x3, x4, x5)) fuel (val320 y) (val320 m) = some (Y, M) →
      ∃ y' m', mod320_loop1 x1 x2 x3 x4 x5 fuel y m = some (y', m') ∧ WF320 y' ∧ WF320 m' ∧
        val320 y' = Y ∧ val320 m' = M := by
  intro fuel
  induction fuel with
  | zero => intro y m Y M _ _ h; simp [normLoop] at h
  | succ fuel ih =>
    intro y m Y M hy hm h
    obtain ⟨y1, y2, y3, y4, y5⟩ := y
    obtain ⟨m1, m2, m3, m4, m5⟩ := m
    unfold normLoop at h
    unfold mod320_loop1
    by_cases hc : 2 ^ (320 - 1) ≤ val320 (y1, y2, y3, y4, y5) ∨
        val320 (x1, x2, x3, x4, x5) ≤ val320 (y1, y2, y3, y4, y5)
    · rw [if_pos hc] at h
      rw [if_pos ((loop1_cond_320 hx hy).mpr hc)]
      simp only [Option.some.injEq, Prod.mk.injEq] at h
      exact ⟨_, _, rfl, hy, hm, h.1, h.2⟩
    · rw [if_neg hc] at h
      rw [if_neg (fun k => hc ((loop1_cond_320 hx hy).mp k))]
      obtain ⟨wy, ey⟩ := shl320_internal_one_spec hy
      obtain ⟨wm, em⟩ := shl320_internal_one_spec hm
      rw [← ey, ← em] at h
      exact ih _ _ Y M wy wm h

theorem mod320_loop2_sim :
    ∀ (fuel : Nat) (r y m : W320) (R X' R' : Nat), WF320 r → WF320 y → WF320 m →
      subLoop 320 fuel (val320 r) (val320 y) (val320 m) R = some (X', R') →
      ∃ r', mod320_loop2 fuel r y m = some r' ∧ WF320 r' ∧ val320 r' = X' := by
  intro fuel
  induction fuel with
  | zero => intro r y m R X' R' _ _ _ h; simp [subLoop] at h
  | succ fuel ih =>
    intro r y m R X' R' hr hy hm h
    obtain ⟨r1, r2, r3, r4, r5⟩ := r
    obtain ⟨y1, y2, y3, y4, y5⟩ := y
    obtain ⟨m1, m2, m3, m4, m5⟩ := m
    unfold subLoop at h
    unfold mod320_loop2
    have hmc := @or_bool_320_ne_zero (m1, m2, m3, m4, m5)
    dsimp only at hmc
    obtain ⟨wy, ey⟩ := shr320_internal_one_spec hy
    obtain ⟨wm, em⟩ := shr320_internal_one_spec hm
    by_cases hc : val320 (m1, m2, m3, m4, m5) ≠ 0
    · rw [if_pos hc] at h
      rw [if_pos (hmc.mpr hc)]
      by_cases hg : val320 (y1, y2, y3, y4, y5) ≤ val320 (r1, r2, r3, r4, r5)
      · rw [if_pos hg] at h
        rw [if_pos ((gte_320x320_64_ne_zero hr hy).mpr hg)]
        obtain ⟨ws, es⟩ := sub320_spec hr hy
        rw [← es, ← ey, ← em] at h
        exact ih _ _ _ _ X' R' ws wy wm h
      · rw [if_neg hg] at h
        rw [if_neg (fun k => hg ((gte_320x320_64_ne_zero hr hy).mp k))]
        rw [← ey, ← em] at h
        exact ih _ _ _ _ X' R' hr wy wm h
    · rw [if_neg hc] at h
      rw [if_neg (fun k => hc (hmc.mp k))]
      simp only [Option.some.injEq, Prod.mk.injEq] at h
      exact ⟨_, rfl, hr, h.1⟩

theorem val320_one : val320 (0, 0, 0, 0, 1) = 1 := by
  simp [val320]

theorem val320_zero : val320 (0, 0, 0, 0, 0) = 0 := by
  simp [val320]

theorem wf320_one : WF320 (0, 0, 0, 0, 1) := by
  simp [WF320]

theorem wf320_zero : WF320 (0, 0, 0, 0, 0) := by
  simp [WF320]

theorem mod320_spec {fuel x1 x2 x3 x4 x5 y1 y2 y3 y4 y5 : Nat} (hf : 321 ≤ fuel)
    (hx : WF320 (x1, x2, x3, x4, x5)) (hy : WF320 (y1, y2, y3, y4, y5)) :
    ∃ r, mod320 fuel x1 x2 x3 x4 x5 y1 y2 y3 y4 y5 = some r ∧ WF320 r ∧
      val320 r = if val320 (y1, y2, y3, y4, y5) = 0 then 0
        else val320 (x1, x2, x3, x4, x5) % val320 (y1, y2, y3, y4, y5) := by
  unfold mod320
  have hz := @iszero320_ne_zero (y1, y2, y3, y4, y5)
  dsimp only at hz
  by_cases h0 : val320 (y1, y2, y3, y4, y5) = 0
  · rw [if_pos (hz.mpr h0), if_pos h0]
    exact ⟨_, rfl, wf320_zero, val320_zero⟩
  · rw [if_neg (fun k => h0 (hz.mp k)), if_neg h0]
    have hy0 : 0 < val320 (y1, y2, y3, y4, y5) := Nat.pos_of_ne_zero h0
    have hX := val320_lt hx
    have hY := val320_lt hy
    obtain ⟨k', hn, hk', hlt⟩ := @normLoop_spec 320 _ _ (by norm_num) hy0 hX fuel 0
      (by rw [Nat.pow_zero, Nat.mul_one]; exact hY) (by omega)
    rw [Nat.pow_zero, Nat.mul_one] at hn
    rw [show (1 : Nat) = val320 (0, 0, 0, 0, 1) from val320_one.symm] at hn
    obtain ⟨y', m', h1, wy', wm', ey', em'⟩ :=
      mod320_loop1_sim hx fuel _ _ _ _ hy wf320_one hn
    rw [h1]
    dsimp only
    have hkW := exp_lt_of_mul_lt hy0 hk'
    have hs := @subLoop_spec 320 _ _ hy0 hX k' fuel (val320 (x1, x2, x3, x4, x5)) 0 hk'
      (by omega) (by simp) hlt
    rw [← ey', ← em'] at hs
    obtain ⟨r', h2, wr', er'⟩ := mod320_loop2_sim fuel _ _ _ _ _ _ hx wy' wm' hs
    exact ⟨r', h2, wr', er'⟩

/-! ### `addmod` -/

theorem val320_cons (k z1 z2 z3 z4 : Nat) :
    val320 (k, z1, z2, z3, z4) = k * 2 ^ 256 + val (z1, z2, z3, z4) := by
  simp only [val320, val]
  omega

theorem low_of_lt {r0 r1 r2 r3 r4 b : Nat} (h : val320 (r0, r1, r2, r3, r4) < b)
    (hb : b ≤ 2 ^ 256) : val (r1, r2, r3, r4) = val320 (r0, r1, r2, r3, r4) := by
  rw [val320_cons] at *
  have : r0 = 0 := by
    by_contra h0
    have : 2 ^ 256 ≤ r0 * 2 ^ 256 := Nat.le_mul_of_pos_left _ (Nat.pos_of_ne_zero h0)
    omega
  subst this
  omega

theorem addmod_spec {fuel x1 x2 x3 x4 y1 y2 y3 y4 m1 m2 m3 m4 : Nat} (hf : 321 ≤ fuel)
    (hx : WF (x1, x2, x3, x4)) (hy : WF (y1, y2, y3, y4)) (hm : WF (m1, m2, m3, m4)) :
    ∃ r, addmod fuel x1 x2 x3 x4 y1 y2 y3 y4 m1 m2 m3 m4 = some r ∧ WF r ∧
      val r = if val (m1, m2, m3, m4) = 0 then 0
        else (val (x1, x2, x3, x4) + val (y1, y2, y3, y4)) % val (m1, m2, m3, m4) := by
  obtain ⟨hx1, hx2, hx3, hx4⟩ := hx
  obtain ⟨hy1, hy2, hy3, hy4⟩ := hy
  have hM := val_lt hm
  obtain ⟨hm1, hm2, hm3, hm4⟩ := hm
  dsimp only at hx1 hx2 hx3 hx4 hy1 hy2 hy3 hy4 hm1 hm2 hm3 hm4
  unfold addmod
  obtain ⟨a4, b4, c4⟩ := add_carry_spec hx4 hy4 (Nat.zero_le 1)
  generalize add_carry x4 y4 0 = p at *
  obtain ⟨z4, k4⟩ := p
  dsimp only at *
  obtain ⟨a3, b3, c3⟩ := add_carry_spec hx3 hy3 b4
  generalize add_carry x3 y3 k4 = p at *
  obtain ⟨z3, k3⟩ := p
  dsimp only at *
  obtain ⟨a2, b2, c2⟩ := add_carry_spec hx2 hy2 b3
  generalize add_carry x2 y2 k3 = p at *
  obtain ⟨z2, k2⟩ := p
  dsimp only at *
  obtain ⟨a1, b1, c1⟩ := add_carry_spec hx1 hy1 b2
  generalize add_carry x1 y1 k2 = p at *
  obtain ⟨z1, k1⟩ := p
  dsimp only at *
  have hsum : val320 (k1, z1, z2, z3, z4) = val (x1, x2, x3, x4) + val (y1, y2, y3, y4) := by
    rw [val320_cons, Nat.add_comm, Nat.mul_comm]
    exact addchain4 c4 c3 c2 c1
  have hmv : val320 (0, m1, m2, m3, m4) = val (m1, m2, m3, m4) := by
    rw [val320_cons]; omega
  have wz : WF320 (k1, z1, z2, z3, z4) := ⟨by omega, a1, a2, a3, a4⟩
  have wm : WF320 (0, m1, m2, m3, m4) := ⟨by norm_num, hm1, hm2, hm3, hm4⟩
  obtain ⟨r, hr, wr, er⟩ := mod320_spec hf wz wm
  rw [hsum, hmv] at er
  rw [hr]
  obtain ⟨r0, r1, r2, r3, r4⟩ := r
  dsimp only
  refine ⟨_, rfl, ⟨wr.2.1, wr.2.2.1, wr.2.2.2.1, wr.2.2.2.2⟩, ?_⟩
  rw [← er]
  apply @low_of_lt r0 r1 r2 r3 r4 (2 ^ 256) _ (Nat.le_refl _)
  rw [er]
  by_cases h0 : val (m1, m2, m3, m4) = 0
  · rw [if_pos h0]; norm_num
  · rw [if_neg h0]
    exact Nat.lt_trans (Nat.mod_lt _ (Nat.pos_of_ne_zero h0)) hM

/-! ### `mod512` -/

theorem loop1_cond_512 {x1 x2 x3 x4 x5 x6 x7 x8 y1 y2 y3 y4 y5 y6 y7 y8 : Nat}
    (hx : WF512 (x1, x2, x3, x4, x5, x6, x7, x8)) (hy : WF512 (y1, y2, y3, y4, y5, y6, y7, y8)) :
    i32.or (i64.eqz (i64.clz y1)) (gte_512x512_64 y1 y2 y3 y4 y5 y6 y7 y8 x1 x2 x3 x4 x5 x6 x7 x8) ≠ 0 ↔
      (2 ^ (512 - 1) ≤ val512 (y1, y2, y3, y4, y5, y6, y7, y8) ∨
        val512 (x1, x2, x3, x4, x5, x6, x7, x8) ≤ val512 (y1, y2, y3, y4, y5, y6, y7, y8)) := by
  rw [i32_or_ne_zero, clz_top hy.1, gte_512x512_64_ne_zero hy hx]
  have e : 2 ^ 63 ≤ y1 ↔ 2 ^ (512 - 1) ≤ val512 (y1, y2, y3, y4, y5, y6, y7, y8) := by
    obtain ⟨h1, h2, h3, h4, h5, h6, h7, h8⟩ := hy
    simp only [val512, Nat.reduceSub] at *
    omega
  rw [e]

theorem mod512_loop1_sim {x1 x2 x3 x4 x5 x6 x7 x8 : Nat} (hx : WF512 (x1, x2, x3, x4, x5, x6, x7, x8)) :
    ∀ (fuel : Nat) (y m : W512) (Y M : Nat), WF512 y → WF512 m →
      normLoop 512 (val512 (x1, x2, x3, x4, x5, x6, x7, x8)) fuel (val512 y) (val512 m) = some (Y, M) →
      ∃ y' m', mod512_loop1 x1 x2 x3 x4 x5 x6 x7 x8 fuel y m = some (y', m') ∧ WF512 y' ∧ WF512 m' ∧
        val512 y' = Y ∧ val512 m' = M := by
  intro fuel
  induction fuel with
  | zero => intro y m Y M _ _ h; simp [normLoop] at h
  | succ fuel ih =>
    intro y m Y M hy hm h
    obtain ⟨y1, y2, y3, y4, y5, y6, y7, y8⟩ := y
    obtain ⟨m1, m2, m3, m4, m5, m6, m7, m8⟩ := m
    unfold normLoop at h
    unfold mod512_loop1
    by_cases hc : 2 ^ (512 - 1) ≤ val512 (y1, y2, y3, y4, y5, y6, y7, y8) ∨
        val512 (x1, x2, x3, x4, x5, x6, x7, x8) ≤ val512 (y1, y2, y3, y4, y5, y6, y7, y8)
    · rw [if_pos hc] at h
      rw [if_pos ((loop1_cond_512 hx hy).mpr hc)]
      simp only [Option.some.injEq, Prod.mk.injEq] at h
      exact ⟨_, _, rfl, hy, hm, h.1, h.2⟩
    · rw [if_neg hc] at h
      rw [if_neg (fun k => hc ((loop1_cond_512 hx hy).mp k))]
      obtain ⟨wy, ey⟩ := shl512_internal_one_spec hy
      obtain ⟨wm, em⟩ := shl512_internal_one_spec hm
      rw [← ey, ← em] at h
      exact ih _ _ Y M wy wm h

theorem mod512_loop2_sim :
    ∀ (fuel : Nat) (r y m : W512) (R X' R' : Nat), WF512 r → WF512 y → WF512 m →
      subLoop 512 fuel (val512 r) (val512 y) (val512 m) R = some (X', R') →
      ∃ r', mod512_loop2 fuel r y m = some r' ∧ WF512 r' ∧ val512 r' = X' := by
  intro fuel
  induction fuel with
  | zero => intro r y m R X' R' _ _ _ h; simp [subLoop] at h
  | succ fuel ih =>
    intro r y m R X' R' hr hy hm h
    obtain ⟨r1, r2, r3, r4, r5, r6, r7, r8⟩ := r
    obtain ⟨y1, y2, y3, y4, y5, y6, y7, y8⟩ := y
    obtain ⟨m1, m2, m3, m4, m5, m6, m7, m8⟩ := m
    unfold subLoop at h
    unfold mod512_loop2
    have hmc := @or_bool_512_ne_zero (m1, m2, m3, m4, m5, m6, m7, m8)
    dsimp only at hmc
    obtain ⟨wy, ey⟩ := shr512_internal_one_spec hy
    obtain ⟨wm, em⟩ := shr512_internal_one_spec hm
    by_cases hc : val512 (m1, m2, m3, m4, m5, m6, m7, m8) ≠ 0
    · rw [if_pos hc] at h
      rw [if_pos (hmc.mpr hc)]
      by_cases hg : val512 (y1, y2, y3, y4, y5, y6, y7, y8) ≤ val512 (r1, r2, r3, r4, r5, r6, r7, r8)
      · rw [if_pos hg] at h
        rw [if_pos ((gte_512x512_64_ne_zero hr hy).mpr hg)]
        obtain ⟨ws, es⟩ := sub512_spec hr hy
        rw [← es, ← ey, ← em] at h
        exact ih _ _ _ _ X' R' ws wy wm h
      · rw [if_neg hg] at h
        rw [if_neg (fun k => hg ((gte_512x512_64_ne_zero hr hy).mp k))]
        rw [← ey, ← em] at h
        exact ih _ _ _ _ X' R' hr wy wm h
    · rw [if_neg hc] at h
      rw [if_neg (fun k => hc (hmc.mp k))]
      simp only [Option.some.injEq, Prod.mk.injEq] at h
      exact ⟨_, rfl, hr, h.1⟩

theorem val512_one : val512 (0, 0, 0, 0, 0, 0, 0, 1) = 1 := by
  simp only [val512]; omega

theorem val512_zero : val512 (0, 0, 0, 0, 0, 0, 0, 0) = 0 := by
  simp only [val512]; omega

theorem wf512_one : WF512 (0, 0, 0, 0, 0, 0, 0, 1) := by
  simp [WF512]

theorem wf512_zero : WF512 (0, 0, 0, 0, 0, 0, 0, 0) := by
  simp [WF512]

theorem mod512_spec {fuel x1 x2 x3 x4 x5 x6 x7 x8 y1 y2 y3 y4 y5 y6 y7 y8 : Nat} (hf : 513 ≤ fuel)
    (hx : WF512 (x1, x2, x3, x4, x5, x6, x7, x8)) (hy : WF512 (y1, y2, y3, y4, y5, y6, y7, y8)) :
    ∃ r, mod512 fuel x1 x2 x3 x4 x5 x6 x7 x8 y1 y2 y3 y4 y5 y6 y7 y8 = some r ∧ WF512 r ∧
      val512 r = if val512 (y1, y2, y3, y4, y5, y6, y7, y8) = 0 then 0
        else val512 (x1, x2, x3, x4, x5, x6, x7, x8) % val512 (y1, y2, y3, y4, y5, y6, y7, y8) := by
  unfold mod512
  have hz := @iszero512_ne_zero (y1, y2, y3, y4, y5, y6, y7, y8)
  dsimp only at hz
  by_cases h0 : val512 (y1, y2, y3, y4, y5, y6, y7, y8) = 0
  · rw [if_pos (hz.mpr h0), if_pos h0]
    exact ⟨_, rfl, wf512_zero, val512_zero⟩
  · rw [if_neg (fun k => h0 (hz.mp k)), if_neg h0]
    have hy0 : 0 < val512 (y1, y2, y3, y4, y5, y6, y7, y8) := Nat.pos_of_ne_zero h0
    have hX := val512_lt hx
    have hY := val512_lt hy
    obtain ⟨k', hn, hk', hlt⟩ := @normLoop_spec 512 _ _ (by norm_num) hy0 hX fuel 0
      (by rw [Nat.pow_zero, Nat.mul_one]; exact hY) (by omega)
    rw [Nat.pow_zero, Nat.mul_one] at hn
    rw [show (1 : Nat) = val512 (0, 0, 0, 0, 0, 0, 0, 1) from val512_one.symm] at hn
    obtain ⟨y', m', h1, wy', wm', ey', em'⟩ :=
      mod512_loop1_sim hx fuel _ _ _ _ hy wf512_one hn
    rw [h1]
    dsimp only
    have hkW := exp_lt_of_mul_lt hy0 hk'
    have hs := @subLoop_spec 512 _ _ hy0 hX k' fuel (val512 (x1, x2, x3, x4, x5, x6, x7, x8)) 0 hk'
      (by omega) (by simp) hlt
    rw [← ey', ← em'] at hs
    obtain ⟨r', h2, wr', er'⟩ := mod512_loop2_sim fuel _ _ _ _ _ _ hx wy' wm' hs
    exact ⟨r', h2, wr', er'⟩

/-! ### `mulmod` -/

theorem val512_split (r1 r2 r3 r4 r5 r6 r7 r8 : Nat) :
    val512 (r1, r2, r3, r4, r5, r6, r7, r8) =
      val (r1, r2, r3, r4) * 2 ^ 256 + val (r5, r6, r7, r8) := by
  simp only [val512, val]
  omega

theorem low512_of_lt {r1 r2 r3 r4 r5 r6 r7 r8 : Nat}
    (h : val512 (r1, r2, r3, r4, r5, r6, r7, r8) < 2 ^ 256) :
    val (r5, r6, r7, r8) = val512 (r1, r2, r3, r4, r5, r6, r7, r8) := by
  rw [val512_split] at *
  have : val (r1, r2, r3, r4) = 0 := by
    by_contra h0
    have : 2 ^ 256 ≤ val (r1, r2, r3, r4) * 2 ^ 256 :=
      Nat.le_mul_of_pos_left _ (Nat.pos_of_ne_zero h0)
    omega
  rw [this]
  omega

theorem mulmod_spec {fuel x1 x2 x3 x4 y1 y2 y3 y4 m1 m2 m3 m4 : Nat} (hf : 513 ≤ fuel)
    (hx : WF (x1, x2, x3, x4)) (hy : WF (y1, y2, y3, y4)) (hm : WF (m1, m2, m3, m4)) :
    ∃ r, mulmod fuel x1 x2 x3 x4 y1 y2 y3 y4 m1 m2 m3 m4 = some r ∧ WF r ∧
      val r = if val (m1, m2, m3, m4) = 0 then 0
        else (val (x1, x2, x3, x4) * val (y1, y2, y3, y4)) % val (m1, m2, m3, m4) := by
  have hM := val_lt hm
  obtain ⟨wp, ep⟩ := mul_256x256_512_spec hx hy
  obtain ⟨hm1, hm2, hm3, hm4⟩ := hm
  dsimp only at hm1 hm2 hm3 hm4
  unfold mulmod
  generalize mul_256x256_512 x1 x2 x3 x4 y1 y2 y3 y4 = p at *
  obtain ⟨p1, p2, p3, p4, p5, p6, p7, p8⟩ := p
  dsimp only
  have hmv : val512 (0, 0, 0, 0, m1, m2, m3, m4) = val (m1, m2, m3, m4) := by
    rw [val512_split]
    simp only [val]
    omega
  have wm : WF512 (0, 0, 0, 0, m1, m2, m3, m4) :=
    ⟨by norm_num, by norm_num, by norm_num, by norm_num, hm1, hm2, hm3, hm4⟩
  obtain ⟨r, hr, wr, er⟩ := mod512_spec hf wp wm
  rw [ep, hmv] at er
  rw [hr]
  obtain ⟨r1, r2, r3, r4, r5, r6, r7, r8⟩ := r
  dsimp only
  refine ⟨_, rfl, ⟨wr.2.2.2.2.1, wr.2.2.2.2.2.1, wr.2.2.2.2.2.2.1, wr.2.2.2.2.2.2.2⟩, ?_⟩
  rw [← er]
  apply low512_of_lt
  rw [er]
  by_cases h0 : val (m1, m2, m3, m4) = 0
  · rw [if_pos h0]; norm_num
  · rw [if_neg h0]
    exact Nat.lt_trans (Nat.mod_lt _ (Nat.pos_of_ne_zero h0)) hM

/-! ### `exp` -/

theorem exp_odd {R X Y M : Nat} (h : Y % 2 = 1) :
    (R * X % M) * (X * X % M) ^ (Y / 2) % M = R * X ^ Y % M := by
  have hY : Y = 2 * (Y / 2) + 1 := by omega
  have e : R * X ^ Y = (R * X) * (X * X) ^ (Y / 2) := by
    conv_lhs => rw [hY]
    rw [Nat.pow_succ, Nat.pow_mul, Nat.pow_two]; ring
  rw [e, Nat.mul_mod, Nat.mod_mod, ← Nat.pow_mod, ← Nat.mul_mod]

theorem exp_even {R X Y M : Nat} (h : Y % 2 = 0) :
    R * (X * X % M) ^ (Y / 2) % M = R * X ^ Y % M := by
  have hY : Y = 2 * (Y / 2) := by omega
  have e : R * X ^ Y = R * (X * X) ^ (Y / 2) := by
    conv_lhs => rw [hY]
    rw [Nat.pow_mul, Nat.pow_two]
  rw [e, Nat.mul_mod, ← Nat.pow_mod, ← Nat.mul_mod]

theorem odd_test {y1 y2 y3 y4 : Nat} :
    i32.wrap_i64 (i64.and y4 1) ≠ 0 ↔ val (y1, y2, y3, y4) % 2 = 1 := by
  unfold i32.wrap_i64 i64.and
  rw [Nat.and_one_is_mod]
  simp only [val]
  omega

theorem exp_loop_spec :
    ∀ (fuel n : Nat) (r x y : W256), WF r → WF x → WF y → n < fuel → val y < 2 ^ n →
      ∃ r', exp_loop fuel r x y = some r' ∧ WF r' ∧
        val r' = val r * val x ^ val y % 2 ^ 256 := by
  intro fuel
  induction fuel with
  | zero => intro n r x y _ _ _ h; omega
  | succ fuel ih =>
    intro n r x y hr hx hy hn hyn
    obtain ⟨r1, r2, r3, r4⟩ := r
    obtain ⟨x1, x2, x3, x4⟩ := x
    obtain ⟨y1, y2, y3, y4⟩ := y
    unfold exp_loop
    have hyc := @or_bool_ne_zero (y1, y2, y3, y4)
    dsimp only at hyc
    by_cases hc : val (y1, y2, y3, y4) ≠ 0
    · rw [if_pos (hyc.mpr hc)]
      obtain ⟨wy, ey⟩ := shr_internal_one_spec hy
      obtain ⟨wx, ex⟩ := mul_spec hx hx
      obtain ⟨m, rfl⟩ : ∃ m, n = m + 1 := by
        cases n with
        | zero => simp at hyn; exact absurd hyn hc
        | succ m => exact ⟨m, rfl⟩
      have hy2 : val (shr_internal 1 y1 y2 y3 y4) < 2 ^ m := by
        rw [ey, Nat.pow_succ] at *; omega
      by_cases ho : val (y1, y2, y3, y4) % 2 = 1
      · rw [if_pos (odd_test.mpr ho)]
        obtain ⟨wm, em⟩ := mul_spec hr hx
        obtain ⟨r', h1, w1, e1⟩ := ih m _ _ _ wm wx wy (by omega) hy2
        refine ⟨r', h1, w1, ?_⟩
        rw [e1, em, ex, ey]
        exact exp_odd ho
      · rw [if_neg (fun k => ho (odd_test.mp k))]
        obtain ⟨r', h1, w1, e1⟩ := ih m _ _ _ hr wx wy (by omega) hy2
        refine ⟨r', h1, w1, ?_⟩
        rw [e1, ex, ey]
        exact exp_even (by omega)
    · rw [if_neg (fun k => hc (hyc.mp k))]
      have h0 : val (y1, y2, y3, y4) = 0 := by omega
      refine ⟨_, rfl, hr, ?_⟩
      rw [h0, Nat.pow_zero, Nat.mul_one, Nat.mod_eq_of_lt (val_lt hr)]

theorem exp_spec {fuel x1 x2 x3 x4 y1 y2 y3 y4 : Nat} (hf : 257 ≤ fuel)
    (hx : WF (x1, x2, x3, x4)) (hy : WF (y1, y2, y3, y4)) :
    ∃ r, exp fuel x1 x2 x3 x4 y1 y2 y3 y4 = some r ∧ WF r ∧
      val r = val (x1, x2, x3, x4) ^ val (y1, y2, y3, y4) % 2 ^ 256 := by
  unfold exp
  obtain ⟨r, h, w, e⟩ := exp_loop_spec fuel 256 (0, 0, 0, 1) _ _ wf_one hx hy (by omega)
    (val_lt hy)
  refine ⟨r, h, w, ?_⟩
  rw [e, val_one, Nat.one_mul]

/-! ### Two's-complement negation and sign tests -/

theorem val_bit_negate {x1 x2 x3 x4 : Nat} (hx : WF (x1, x2, x3, x4)) :
    WF (bit_negate x1, bit_negate x2, bit_negate x3, bit_negate x4) ∧
      val (bit_negate x1, bit_negate x2, bit_negate x3, bit_negate x4) =
        2 ^ 256 - 1 - val (x1, x2, x3, x4) := by
  obtain ⟨h1, h2, h3, h4⟩ := hx
  dsimp only at h1 h2 h3 h4
  refine ⟨⟨bit_negate_lt h1, bit_negate_lt h2, bit_negate_lt h3, bit_negate_lt h4⟩, ?_⟩
  simp only [val]
  rw [bit_negate_eq h1, bit_negate_eq h2, bit_negate_eq h3, bit_negate_eq h4]
  omega

/-- The value of `add(xor(x, 0xff..ff), 1)`, the negation sequence of `sdiv` and `smod`. -/
theorem neg_spec {x1 x2 x3 x4 : Nat} (hx : WF (x1, x2, x3, x4)) :
    WF (add (bit_negate x1) (bit_negate x2) (bit_negate x3) (bit_negate x4) 0 0 0 1) ∧
      val (add (bit_negate x1) (bit_negate x2) (bit_negate x3) (bit_negate x4) 0 0 0 1) =
        (2 ^ 256 - val (x1, x2, x3, x4)) % 2 ^ 256 := by
  obtain ⟨wn, en⟩ := val_bit_negate hx
  obtain ⟨wa, ea⟩ := add_spec wn wf_one
  have hX := val_lt hx
  refine ⟨wa, ?_⟩
  rw [ea, en, val_one]
  congr 1
  omega

theorem top_bit {x1 x2 x3 x4 : Nat} (hx : WF (x1, x2, x3, x4)) :
    i64.eqz (i64.clz x1) ≠ 0 ↔ 2 ^ 255 ≤ val (x1, x2, x3, x4) := by
  rw [clz_top hx.1]
  obtain ⟨h1, h2, h3, h4⟩ := hx
  simp only [val] at *
  omega

theorem shr63_lt {a : Nat} (ha : a < 2 ^ 64) : a / 2 ^ 63 < 2 := by
  omega

theorem xor_top {a b : Nat} (ha : a < 2 ^ 64) (hb : b < 2 ^ 64) :
    (a ^^^ b) / 2 ^ 63 % 2 = 1 ↔ ¬ (2 ^ 63 ≤ a ↔ 2 ^ 63 ≤ b) := by
  have hA : a.testBit 63 = decide (2 ^ 63 ≤ a) := by
    rw [Nat.testBit_to_div_mod]
    congr 1
    apply propext
    omega
  have hB : b.testBit 63 = decide (2 ^ 63 ≤ b) := by
    rw [Nat.testBit_to_div_mod]
    congr 1
    apply propext
    omega
  have hX := Nat.testBit_xor a b 63
  rw [Nat.testBit_to_div_mod, hA, hB] at hX
  have key : ((a ^^^ b) / 2 ^ 63 % 2 = 1) ↔
      (Bool.xor (decide (2 ^ 63 ≤ a)) (decide (2 ^ 63 ≤ b)) = true) := by
    rw [← hX, decide_eq_true_iff]
  rw [key]
  by_cases h1 : 2 ^ 63 ≤ a <;> by_cases h2 : 2 ^ 63 ≤ b <;> simp [h1, h2]

theorem sdiv_sign {x1 y1 : Nat} (hx : x1 < 2 ^ 64) (hy : y1 < 2 ^ 64) :
    i32.wrap_i64 (i64.shr_u (i64.xor x1 y1) 63) ≠ 0 ↔ ¬ (2 ^ 63 ≤ x1 ↔ 2 ^ 63 ≤ y1) := by
  unfold i32.wrap_i64 i64.shr_u i64.xor
  have hlt : x1 ^^^ y1 < 2 ^ 64 := Nat.xor_lt_two_pow hx hy
  rw [← xor_top hx hy]
  simp only [Nat.reduceMod]
  omega

theorem smod_sign {x1 : Nat} (hx : x1 < 2 ^ 64) :
    i32.wrap_i64 (i64.shr_u x1 63) ≠ 0 ↔ 2 ^ 63 ≤ x1 := by
  unfold i32.wrap_i64 i64.shr_u
  simp only [Nat.reduceMod]
  omega

/-! ### `sdiv` and `smod` on magnitudes -/

theorem abs_spec {x1 x2 x3 x4 : Nat} (hx : WF (x1, x2, x3, x4)) :
    WF (if i64.eqz (i64.clz x1) ≠ 0 then
        add (i64.xor x1 18446744073709551615) (i64.xor x2 18446744073709551615)
          (i64.xor x3 18446744073709551615) (i64.xor x4 18446744073709551615) 0 0 0 1
      else (x1, x2, x3, x4)) ∧
    val (if i64.eqz (i64.clz x1) ≠ 0 then
        add (i64.xor x1 18446744073709551615) (i64.xor x2 18446744073709551615)
          (i64.xor x3 18446744073709551615) (i64.xor x4 18446744073709551615) 0 0 0 1
      else (x1, x2, x3, x4)) =
      if 2 ^ 255 ≤ val (x1, x2, x3, x4) then (2 ^ 256 - val (x1, x2, x3, x4)) % 2 ^ 256
      else val (x1, x2, x3, x4) := by
  have tx := top_bit hx
  by_cases sx : 2 ^ 255 ≤ val (x1, x2, x3, x4)
  · rw [if_pos (tx.mpr sx), if_pos sx]
    exact neg_spec hx
  · rw [if_neg (fun k => sx (tx.mp k)), if_neg sx]
    exact ⟨hx, rfl⟩

theorem sdiv_nat {fuel x1 x2 x3 x4 y1 y2 y3 y4 : Nat} (hf : 257 ≤ fuel)
    (hx : WF (x1, x2, x3, x4)) (hy : WF (y1, y2, y3, y4)) :
    ∃ r, sdiv fuel x1 x2 x3 x4 y1 y2 y3 y4 = some r ∧ WF r ∧
      val r =
        if (2 ^ 255 ≤ val (x1, x2, x3, x4) ↔ 2 ^ 255 ≤ val (y1, y2, y3, y4)) then
          (if 2 ^ 255 ≤ val (x1, x2, x3, x4) then (2 ^ 256 - val (x1, x2, x3, x4)) % 2 ^ 256
            else val (x1, x2, x3, x4)) /
          (if 2 ^ 255 ≤ val (y1, y2, y3, y4) then (2 ^ 256 - val (y1, y2, y3, y4)) % 2 ^ 256
            else val (y1, y2, y3, y4))
        else
          (2 ^ 256 -
            (if 2 ^ 255 ≤ val (x1, x2, x3, x4) then (2 ^ 256 - val (x1, x2, x3, x4)) % 2 ^ 256
              else val (x1, x2, x3, x4)) /
            (if 2 ^ 255 ≤ val (y1, y2, y3, y4) then (2 ^ 256 - val (y1, y2, y3, y4)) % 2 ^ 256
              else val (y1, y2, y3, y4))) % 2 ^ 256 := by
  have hsign := sdiv_sign hx.1 hy.1
  rw [← clz_top hx.1, ← clz_top hy.1, top_bit hx, top_bit hy] at hsign
  dsimp only at hsign
  obtain ⟨wa, ea⟩ := abs_spec hx
  obtain ⟨wb, eb⟩ := abs_spec hy
  rw [← ea, ← eb]
  unfold sdiv
  simp only [xor]
  clear ea eb
  generalize (if i64.eqz (i64.clz x1) ≠ 0 then
        add (i64.xor x1 18446744073709551615) (i64.xor x2 18446744073709551615)
          (i64.xor x3 18446744073709551615) (i64.xor x4 18446744073709551615) 0 0 0 1
      else (x1, x2, x3, x4)) = a at *
  generalize (if i64.eqz (i64.clz y1) ≠ 0 then
        add (i64.xor y1 18446744073709551615) (i64.xor y2 18446744073709551615)
          (i64.xor y3 18446744073709551615) (i64.xor y4 18446744073709551615) 0 0 0 1
      else (y1, y2, y3, y4)) = b at *
  obtain ⟨a1, a2, a3, a4⟩ := a
  obtain ⟨b1, b2, b3, b4⟩ := b
  dsimp only
  obtain ⟨q, hq, wq, eq⟩ := div_spec hf wa wb
  rw [hq]
  obtain ⟨q1, q2, q3, q4⟩ := q
  dsimp only
  by_cases hs : (2 ^ 255 ≤ val (x1, x2, x3, x4) ↔ 2 ^ 255 ≤ val (y1, y2, y3, y4))
  · rw [if_neg (fun k => (hsign.mp k) hs), if_pos hs]
    exact ⟨_, rfl, wq, eq⟩
  · rw [if_pos (hsign.mpr hs), if_neg hs]
    obtain ⟨wn, en⟩ := neg_spec wq
    refine ⟨_, rfl, wn, ?_⟩
    rw [← eq]
    exact en

theorem smod_nat {fuel x1 x2 x3 x4 y1 y2 y3 y4 : Nat} (hf : 257 ≤ fuel)
    (hx : WF (x1, x2, x3, x4)) (hy : WF (y1, y2, y3, y4)) :
    ∃ r, smod fuel x1 x2 x3 x4 y1 y2 y3 y4 = some r ∧ WF r ∧
      val r =
        if 2 ^ 255 ≤ val (x1, x2, x3, x4) then
          (2 ^ 256 -
            (if (if 2 ^ 255 ≤ val (y1, y2, y3, y4) then
                  (2 ^ 256 - val (y1, y2, y3, y4)) % 2 ^ 256
                else val (y1, y2, y3, y4)) = 0 then 0
              else
                (if 2 ^ 255 ≤ val (x1, x2, x3, x4) then
                    (2 ^ 256 - val (x1, x2, x3, x4)) % 2 ^ 256
                  else val (x1, x2, x3, x4)) %
                (if 2 ^ 255 ≤ val (y1, y2, y3, y4) then
                    (2 ^ 256 - val (y1, y2, y3, y4)) % 2 ^ 256
                  else val (y1, y2, y3, y4)))) % 2 ^ 256
        else
          (if (if 2 ^ 255 ≤ val (y1, y2, y3, y4) then
                (2 ^ 256 - val (y1, y2, y3, y4)) % 2 ^ 256
              else val (y1, y2, y3, y4)) = 0 then 0
            else
              (if 2 ^ 255 ≤ val (x1, x2, x3, x4) then
                  (2 ^ 256 - val (x1, x2, x3, x4)) % 2 ^ 256
                else val (x1, x2, x3, x4)) %
              (if 2 ^ 255 ≤ val (y1, y2, y3, y4) then
                  (2 ^ 256 - val (y1, y2, y3, y4)) % 2 ^ 256
                else val (y1, y2, y3, y4))) := by
  have hsign := smod_sign hx.1
  rw [← clz_top hx.1, top_bit hx] at hsign
  dsimp only at hsign
  obtain ⟨wa, ea⟩ := abs_spec hx
  obtain ⟨wb, eb⟩ := abs_spec hy
  rw [← ea, ← eb]
  unfold smod
  simp only [xor]
  clear ea eb
  generalize (if i64.eqz (i64.clz x1) ≠ 0 then
        add (i64.xor x1 18446744073709551615) (i64.xor x2 18446744073709551615)
          (i64.xor x3 18446744073709551615) (i64.xor x4 18446744073709551615) 0 0 0 1
      else (x1, x2, x3, x4)) = a at *
  generalize (if i64.eqz (i64.clz y1) ≠ 0 then
        add (i64.xor y1 18446744073709551615) (i64.xor y2 18446744073709551615)
          (i64.xor y3 18446744073709551615) (i64.xor y4 18446744073709551615) 0 0 0 1
      else (y1, y2, y3, y4)) = b at *
  obtain ⟨a1, a2, a3, a4⟩ := a
  obtain ⟨b1, b2, b3, b4⟩ := b
  dsimp only
  obtain ⟨q, hq, wq, eq⟩ := mod_spec hf wa wb
  rw [hq]
  obtain ⟨q1, q2, q3, q4⟩ := q
  dsimp only
  by_cases hs : 2 ^ 255 ≤ val (x1, x2, x3, x4)
  · rw [if_pos (hsign.mpr hs), if_pos hs]
    obtain ⟨wn, en⟩ := neg_spec wq
    refine ⟨_, rfl, wn, ?_⟩
    rw [← eq]
    exact en
  · rw [if_neg (fun k => hs (hsign.mp k)), if_neg hs]
    exact ⟨_, rfl, wq, eq⟩

/-! ### Signed readings -/

theorem wordOfInt_natCast {q : Nat} (hq : q < 2 ^ 256) : wordOfInt (q : Int) = q := by
  unfold wordOfInt
  have h : ((q : Int) % 2 ^ 256) = ((q % 2 ^ 256 : Nat) : Int) := by
    rw [Int.natCast_mod]; push_cast; rfl
  rw [h, Int.toNat_natCast, Nat.mod_eq_of_lt hq]

theorem wordOfInt_neg {q : Nat} (hq : q ≤ 2 ^ 256) :
    wordOfInt (-(q : Int)) = (2 ^ 256 - q) % 2 ^ 256 := by
  unfold wordOfInt
  have h : (-(q : Int)) % 2 ^ 256 = (((2 ^ 256 - q) % 2 ^ 256 : Nat) : Int) := by
    rw [Int.natCast_mod, Nat.cast_sub hq]
    push_cast
    rw [← Int.add_emod_self]
    congr 1
    ring
  rw [h, Int.toNat_natCast]

theorem sval_of_lt {a : W256} (h : val a < 2 ^ 255) : sval a = (val a : Int) := by
  unfold sval; rw [if_pos h]

theorem sval_of_ge {a : W256} (h : 2 ^ 255 ≤ val a) (hlt : val a < 2 ^ 256) :
    sval a = -(((2 ^ 256 - val a) % 2 ^ 256 : Nat) : Int) := by
  unfold sval
  rw [if_neg (by omega), Nat.mod_eq_of_lt (by omega), Nat.cast_sub (Nat.le_of_lt hlt)]
  push_cast
  ring

theorem sdiv_int {x y : W256} (hX : val x < 2 ^ 256) (hY : val y < 2 ^ 256) :
    (if (2 ^ 255 ≤ val x ↔ 2 ^ 255 ≤ val y) then
        (if 2 ^ 255 ≤ val x then (2 ^ 256 - val x) % 2 ^ 256 else val x) /
        (if 2 ^ 255 ≤ val y then (2 ^ 256 - val y) % 2 ^ 256 else val y)
      else
        (2 ^ 256 -
          (if 2 ^ 255 ≤ val x then (2 ^ 256 - val x) % 2 ^ 256 else val x) /
          (if 2 ^ 255 ≤ val y then (2 ^ 256 - val y) % 2 ^ 256 else val y)) % 2 ^ 256) =
      wordOfInt (Int.tdiv (sval x) (sval y)) := by
  by_cases sx : 2 ^ 255 ≤ val x <;> by_cases sy : 2 ^ 255 ≤ val y
  · rw [if_pos ⟨fun _ => sy, fun _ => sx⟩, if_pos sx, if_pos sy, sval_of_ge sx hX, sval_of_ge sy hY,
      Int.neg_tdiv_neg, ← Int.ofNat_tdiv, wordOfInt_natCast]
    exact Nat.lt_of_le_of_lt (Nat.div_le_self _ _) (Nat.mod_lt _ (by norm_num))
  · rw [if_neg (fun h => sy (h.mp sx)), if_pos sx, if_neg sy, sval_of_ge sx hX, sval_of_lt (by omega),
      Int.neg_tdiv, ← Int.ofNat_tdiv, wordOfInt_neg]
    exact Nat.le_trans (Nat.div_le_self _ _) (Nat.le_of_lt (Nat.mod_lt _ (by norm_num)))
  · rw [if_neg (fun h => sx (h.mpr sy)), if_neg sx, if_pos sy, sval_of_lt (by omega), sval_of_ge sy hY,
      Int.tdiv_neg, ← Int.ofNat_tdiv, wordOfInt_neg]
    exact Nat.le_trans (Nat.div_le_self _ _) (Nat.le_of_lt hX)
  · rw [if_pos ⟨fun h => absurd h sx, fun h => absurd h sy⟩, if_neg sx, if_neg sy, sval_of_lt (by omega), sval_of_lt (by omega),
      ← Int.ofNat_tdiv, wordOfInt_natCast]
    exact Nat.lt_of_le_of_lt (Nat.div_le_self _ _) hX

theorem natAbs_sval {a : W256} (hlt : val a < 2 ^ 256) :
    (sval a).natAbs = if 2 ^ 255 ≤ val a then (2 ^ 256 - val a) % 2 ^ 256 else val a := by
  by_cases s : 2 ^ 255 ≤ val a
  · rw [if_pos s, sval_of_ge s hlt, Int.natAbs_neg, Int.natAbs_ofNat]
  · rw [if_neg s, sval_of_lt (by omega), Int.natAbs_ofNat]

theorem abs_eq_zero {Y : Nat} (hY : Y < 2 ^ 256) :
    (if 2 ^ 255 ≤ Y then (2 ^ 256 - Y) % 2 ^ 256 else Y) = 0 ↔ Y = 0 := by
  by_cases s : 2 ^ 255 ≤ Y
  · rw [if_pos s, Nat.mod_eq_of_lt (by omega)]; omega
  · rw [if_neg s]

theorem smod_int {x y : W256} (hX : val x < 2 ^ 256) (hY : val y < 2 ^ 256) :
    (if 2 ^ 255 ≤ val x then
        (2 ^ 256 -
          (if (if 2 ^ 255 ≤ val y then (2 ^ 256 - val y) % 2 ^ 256 else val y) = 0 then 0
            else
              (if 2 ^ 255 ≤ val x then (2 ^ 256 - val x) % 2 ^ 256 else val x) %
              (if 2 ^ 255 ≤ val y then (2 ^ 256 - val y) % 2 ^ 256 else val y))) % 2 ^ 256
      else
        (if (if 2 ^ 255 ≤ val y then (2 ^ 256 - val y) % 2 ^ 256 else val y) = 0 then 0
          else
            (if 2 ^ 255 ≤ val x then (2 ^ 256 - val x) % 2 ^ 256 else val x) %
            (if 2 ^ 255 ≤ val y then (2 ^ 256 - val y) % 2 ^ 256 else val y))) =
      if val y = 0 then 0
      else wordOfInt (Int.sign (sval x) * (((sval x).natAbs % (sval y).natAbs : Nat) : Int)) := by
  rw [natAbs_sval hX, natAbs_sval hY]
  have hay0 := abs_eq_zero hY
  have hax : (if 2 ^ 255 ≤ val x then (2 ^ 256 - val x) % 2 ^ 256 else val x) < 2 ^ 256 := by
    by_cases s : 2 ^ 255 ≤ val x
    · rw [if_pos s]; exact Nat.mod_lt _ (by norm_num)
    · rw [if_neg s]; exact hX
  have hax0 : val x = 0 →
      (if 2 ^ 255 ≤ val x then (2 ^ 256 - val x) % 2 ^ 256 else val x) = 0 := by
    intro h; rw [h]; norm_num
  generalize (if 2 ^ 255 ≤ val x then (2 ^ 256 - val x) % 2 ^ 256 else val x) = ax at *
  generalize (if 2 ^ 255 ≤ val y then (2 ^ 256 - val y) % 2 ^ 256 else val y) = ay at *
  by_cases hy0 : val y = 0
  · rw [if_pos hy0, if_pos (hay0.mpr hy0)]
    by_cases sx : 2 ^ 255 ≤ val x
    · rw [if_pos sx]; norm_num
    · rw [if_neg sx]
  · rw [if_neg hy0, if_neg (fun k => hy0 (hay0.mp k))]
    have hm : ax % ay ≤ ax := Nat.mod_le _ _
    by_cases sx : 2 ^ 255 ≤ val x
    · rw [if_pos sx]
      have hneg : sval x < 0 := by
        rw [sval_of_ge sx hX, Nat.mod_eq_of_lt (by omega)]
        have : 0 < 2 ^ 256 - val x := by omega
        omega
      rw [Int.sign_eq_neg_one_of_neg hneg, Int.neg_mul, Int.one_mul, wordOfInt_neg (by omega)]
    · rw [if_neg sx]
      by_cases hx0 : val x = 0
      · have e0 : sval x = 0 := by rw [sval_of_lt (by omega), hx0]; rfl
        rw [e0, Int.sign_zero, Int.zero_mul, hax0 hx0, Nat.zero_mod]
        exact (wordOfInt_natCast (by norm_num : (0 : Nat) < 2 ^ 256)).symm
      · have hpos : 0 < sval x := by
          rw [sval_of_lt (by omega)]
          have : 0 < val x := Nat.pos_of_ne_zero hx0
          omega
        rw [Int.sign_eq_one_of_pos hpos, Int.one_mul, wordOfInt_natCast (by omega)]

/-! ## Claims -/

theorem int_sub_mod {X Y : Nat} (hY : Y < 2 ^ 256) :
    (((X + 2 ^ 256 - Y) % 2 ^ 256 : Nat) : Int) = ((X : Int) - (Y : Int)) % 2 ^ 256 := by
  have h : ((X + 2 ^ 256 - Y : Nat) : Int) = (X : Int) - (Y : Int) + 2 ^ 256 := by
    rw [Nat.cast_sub (by omega)]; push_cast; ring
  rw [Int.natCast_mod, h]
  push_cast
  rw [Int.add_emod_self]

/-- Claim C1: for all 256-bit operands `x` and `y` given as four 64-bit limbs (most
significant first), `add` returns four 64-bit limbs whose value is
`(val x + val y) mod 2^256`. -/
theorem add_correct (x1 x2 x3 x4 y1 y2 y3 y4 : Nat)
    (hx : WF (x1, x2, x3, x4)) (hy : WF (y1, y2, y3, y4)) :
    WF (add x1 x2 x3 x4 y1 y2 y3 y4) ∧
      val (add x1 x2 x3 x4 y1 y2 y3 y4) =
        (val (x1, x2, x3, x4) + val (y1, y2, y3, y4)) % 2 ^ 256 :=
  add_spec hx hy

/-- Witness for C1 at the scenario `add(0,0,0,1, 0,0,0,2)`, whose result is `(0,0,0,3)`. -/
theorem add_correct_witness :
    add 0 0 0 1 0 0 0 2 = (0, 0, 0, 3) ∧ WF (0, 0, 0, 1) ∧ WF (0, 0, 0, 2) ∧
      (WF (add 0 0 0 1 0 0 0 2) ∧
        val (add 0 0 0 1 0 0 0 2) = (val (0, 0, 0, 1) + val (0, 0, 0, 2)) % 2 ^ 256) :=
  ⟨by decide, by simp [WF], by simp [WF],
    add_correct 0 0 0 1 0 0 0 2 (by simp [WF]) (by simp [WF])⟩

/-- Claim C2: for all 256-bit operands `x` and `y`, `sub` returns four 64-bit limbs whose
value is `(x - y) mod 2^256` (computed on the integers), which is also
`(x + (~y + 1)) mod 2^256` with `~y = 2^256 - 1 - y`. -/
theorem sub_correct (x1 x2 x3 x4 y1 y2 y3 y4 : Nat)
    (hx : WF (x1, x2, x3, x4)) (hy : WF (y1, y2, y3, y4)) :
    WF (sub x1 x2 x3 x4 y1 y2 y3 y4) ∧
      (val (sub x1 x2 x3 x4 y1 y2 y3 y4) : Int) =
        ((val (x1, x2, x3, x4) : Int) - (val (y1, y2, y3, y4) : Int)) % 2 ^ 256 ∧
      val (sub x1 x2 x3 x4 y1 y2 y3 y4) =
        (val (x1, x2, x3, x4) + ((2 ^ 256 - 1 - val (y1, y2, y3, y4)) + 1)) % 2 ^ 256 := by
  obtain ⟨w, e⟩ := sub_spec hx hy
  have hX := val_lt hx
  have hY := val_lt hy
  refine ⟨w, ?_, ?_⟩
  · rw [e]; exact int_sub_mod hY
  · rw [e]; congr 1; omega

/-- Witness for C2 at `1 - 2`, which wraps around to `2^256 - 1`. -/
theorem sub_correct_witness :
    WF (0, 0, 0, 1) ∧ WF (0, 0, 0, 2) ∧
      (WF (sub 0 0 0 1 0 0 0 2) ∧
        (val (sub 0 0 0 1 0 0 0 2) : Int) =
          ((val (0, 0, 0, 1) : Int) - (val (0, 0, 0, 2) : Int)) % 2 ^ 256 ∧
        val (sub 0 0 0 1 0 0 0 2) =
          (val (0, 0, 0, 1) + ((2 ^ 256 - 1 - val (0, 0, 0, 2)) + 1)) % 2 ^ 256) :=
  ⟨by simp [WF], by simp [WF], sub_correct 0 0 0 1 0 0 0 2 (by simp [WF]) (by simp [WF])⟩

/-- Claim C3: for all 256-bit operands `x` and `y`, `mul` returns four 64-bit limbs whose
value is `(val x * val y) mod 2^256`. -/
theorem mul_correct (x1 x2 x3 x4 y1 y2 y3 y4 : Nat)
    (hx : WF (x1, x2, x3, x4)) (hy : WF (y1, y2, y3, y4)) :
    WF (mul x1 x2 x3 x4 y1 y2 y3 y4) ∧
      val (mul x1 x2 x3 x4 y1 y2 y3 y4) =
        (val (x1, x2, x3, x4) * val (y1, y2, y3, y4)) % 2 ^ 256 :=
  mul_spec hx hy

/-- Witness for C3 at `(2^64 + 3) * (2^192 + 5)`. -/
theorem mul_correct_witness :
    WF (0, 0, 1, 3) ∧ WF (1, 0, 0, 5) ∧
      (WF (mul 0 0 1 3 1 0 0 5) ∧
        val (mul 0 0 1 3 1 0 0 5) = (val (0, 0, 1, 3) * val (1, 0, 0, 5)) % 2 ^ 256) :=
  ⟨by simp [WF], by simp [WF], mul_correct 0 0 1 3 1 0 0 5 (by simp [WF]) (by simp [WF])⟩

/-- Claim C4: for all 256-bit operands `x` and `y`, `div` terminates (any fuel of at least
257 loop checks suffices) and returns four 64-bit limbs whose value is `floor(x / y)` when
`y` is nonzero and `0` when `y` is zero. -/
theorem div_correct (fuel x1 x2 x3 x4 y1 y2 y3 y4 : Nat) (hf : 257 ≤ fuel)
    (hx : WF (x1, x2, x3, x4)) (hy : WF (y1, y2, y3, y4)) :
    ∃ r, div fuel x1 x2 x3 x4 y1 y2 y3 y4 = some r ∧ WF r ∧
      val r = if val (y1, y2, y3, y4) = 0 then 0
        else val (x1, x2, x3, x4) / val (y1, y2, y3, y4) := by
  obtain ⟨r, h, w, e⟩ := div_spec hf hx hy
  refine ⟨r, h, w, ?_⟩
  by_cases h0 : val (y1, y2, y3, y4) = 0
  · rw [if_pos h0, e, h0, Nat.div_zero]
  · rw [if_neg h0, e]

/-- Witness for C4 with a divisor whose top bit is set and which exceeds the dividend. -/
theorem div_correct_witness :
    257 ≤ 257 ∧ WF (0, 0, 0, 7) ∧ WF (2 ^ 63, 0, 0, 2) ∧
      (∃ r, div 257 0 0 0 7 (2 ^ 63) 0 0 2 = some r ∧ WF r ∧
        val r = if val (2 ^ 63, 0, 0, 2) = 0 then 0
          else val (0, 0, 0, 7) / val (2 ^ 63, 0, 0, 2)) :=
  ⟨by decide, by simp [WF], by simp [WF],
    div_correct 257 0 0 0 7 (2 ^ 63) 0 0 2 (by decide) (by simp [WF]) (by simp [WF])⟩

/-- Claim C5: for all 256-bit operands `x` and `y`, `mod` terminates (any fuel of at least
257 loop checks suffices) and returns four 64-bit limbs whose value is `x mod y` when `y` is
nonzero and `0` when `y` is zero. -/
theorem mod_correct (fuel x1 x2 x3 x4 y1 y2 y3 y4 : Nat) (hf : 257 ≤ fuel)
    (hx : WF (x1, x2, x3, x4)) (hy : WF (y1, y2, y3, y4)) :
    ∃ r, mod fuel x1 x2 x3 x4 y1 y2 y3 y4 = some r ∧ WF r ∧
      val r = if val (y1, y2, y3, y4) = 0 then 0
        else val (x1, x2, x3, x4) % val (y1, y2, y3, y4) :=
  mod_spec hf hx hy

/-- Witness for C5 at `(2^64 + 7) mod 5`. -/
theorem mod_correct_witness :
    257 ≤ 257 ∧ WF (0, 0, 1, 7) ∧ WF (0, 0, 0, 5) ∧
      (∃ r, mod 257 0 0 1 7 0 0 0 5 = some r ∧ WF r ∧
        val r = if val (0, 0, 0, 5) = 0 then 0 else val (0, 0, 1, 7) % val (0, 0, 0, 5)) :=
  ⟨by decide, by simp [WF], by simp [WF],
    mod_correct 257 0 0 1 7 0 0 0 5 (by decide) (by simp [WF]) (by simp [WF])⟩

theorem sval_min {r : W256} (h : val r = 2 ^ 255) : sval r = -2 ^ 255 := by
  unfold sval
  rw [if_neg (by omega), h]
  norm_num

theorem wordOfInt_min : wordOfInt (Int.tdiv (-2 ^ 255) (-1)) = 2 ^ 255 := by
  rw [Int.neg_tdiv_neg, Int.tdiv_one]
  have h : ((2 : Int) ^ 255) = ((2 ^ 255 : Nat) : Int) := by push_cast
  rw [h, wordOfInt_natCast (by norm_num)]

/-- Claim C6: reading 256-bit words as two's-complement integers, `sdiv` terminates (fuel of
at least 257 loop checks suffices) and returns the word of `x / y` truncated toward zero,
returns `0` when `y = 0`, and returns `-2^255` for `x = -2^255`, `y = -1`. -/
theorem sdiv_correct (fuel x1 x2 x3 x4 y1 y2 y3 y4 : Nat) (hf : 257 ≤ fuel)
    (hx : WF (x1, x2, x3, x4)) (hy : WF (y1, y2, y3, y4)) :
    ∃ r, sdiv fuel x1 x2 x3 x4 y1 y2 y3 y4 = some r ∧ WF r ∧
      (val r = if val (y1, y2, y3, y4) = 0 then 0
        else wordOfInt (Int.tdiv (sval (x1, x2, x3, x4)) (sval (y1, y2, y3, y4)))) ∧
      (sval (x1, x2, x3, x4) = -2 ^ 255 → sval (y1, y2, y3, y4) = -1 →
        sval r = -2 ^ 255) := by
  obtain ⟨r, h, w, e⟩ := sdiv_nat hf hx hy
  rw [sdiv_int (val_lt hx) (val_lt hy)] at e
  refine ⟨r, h, w, ?_, ?_⟩
  · by_cases h0 : val (y1, y2, y3, y4) = 0
    · rw [if_pos h0, e]
      have : sval (y1, y2, y3, y4) = 0 := by
        rw [sval_of_lt (by omega), h0]; rfl
      rw [this, Int.tdiv_zero]
      exact wordOfInt_natCast (by norm_num : (0 : Nat) < 2 ^ 256)
    · rw [if_neg h0, e]
  · intro h1 h2
    rw [h1, h2, wordOfInt_min] at e
    exact sval_min e

/-- Witness for C6 at `x = -2^255`, `y = -1`. -/
theorem sdiv_correct_witness :
    257 ≤ 257 ∧ WF (2 ^ 63, 0, 0, 0) ∧
      WF (2 ^ 64 - 1, 2 ^ 64 - 1, 2 ^ 64 - 1, 2 ^ 64 - 1) ∧
      (∃ r, sdiv 257 (2 ^ 63) 0 0 0 (2 ^ 64 - 1) (2 ^ 64 - 1) (2 ^ 64 - 1) (2 ^ 64 - 1) =
          some r ∧ WF r ∧
        (val r = if val (2 ^ 64 - 1, 2 ^ 64 - 1, 2 ^ 64 - 1, 2 ^ 64 - 1) = 0 then 0
          else wordOfInt (Int.tdiv (sval (2 ^ 63, 0, 0, 0))
            (sval (2 ^ 64 - 1, 2 ^ 64 - 1, 2 ^ 64 - 1, 2 ^ 64 - 1)))) ∧
        (sval (2 ^ 63, 0, 0, 0) = -2 ^ 255 →
          sval (2 ^ 64 - 1, 2 ^ 64 - 1, 2 ^ 64 - 1, 2 ^ 64 - 1) = -1 → sval r = -2 ^ 255)) :=
  ⟨by decide, by simp [WF], by simp [WF],
    sdiv_correct 257 (2 ^ 63) 0 0 0 (2 ^ 64 - 1) (2 ^ 64 - 1) (2 ^ 64 - 1) (2 ^ 64 - 1)
      (by decide) (by simp [WF]) (by simp [WF])⟩

/-- Claim C7: reading 256-bit words as two's-complement integers, `smod` terminates (fuel
of at least 257 loop checks suffices) and returns the word of the signed remainder
`sign(x) * (|x| mod |y|)`, and returns `0` when `y = 0`. -/
theorem smod_correct (fuel x1 x2 x3 x4 y1 y2 y3 y4 : Nat) (hf : 257 ≤ fuel)
    (hx : WF (x1, x2, x3, x4)) (hy : WF (y1, y2, y3, y4)) :
    ∃ r, smod fuel x1 x2 x3 x4 y1 y2 y3 y4 = some r ∧ WF r ∧
      val r = if val (y1, y2, y3, y4) = 0 then 0
        else wordOfInt (Int.sign (sval (x1, x2, x3, x4)) *
          (((sval (x1, x2, x3, x4)).natAbs % (sval (y1, y2, y3, y4)).natAbs : Nat) : Int)) := by
  obtain ⟨r, h, w, e⟩ := smod_nat hf hx hy
  rw [smod_int (val_lt hx) (val_lt hy)] at e
  exact ⟨r, h, w, e⟩

/-- Witness for C7 at `x = -7`, `y = 4`. -/
theorem smod_correct_witness :
    257 ≤ 257 ∧ WF (2 ^ 64 - 1, 2 ^ 64 - 1, 2 ^ 64 - 1, 2 ^ 64 - 7) ∧ WF (0, 0, 0, 4) ∧
      (∃ r, smod 257 (2 ^ 64 - 1) (2 ^ 64 - 1) (2 ^ 64 - 1) (2 ^ 64 - 7) 0 0 0 4 = some r ∧
        WF r ∧
        val r = if val (0, 0, 0, 4) = 0 then 0
          else wordOfInt (Int.sign (sval (2 ^ 64 - 1, 2 ^ 64 - 1, 2 ^ 64 - 1, 2 ^ 64 - 7)) *
            (((sval (2 ^ 64 - 1, 2 ^ 64 - 1, 2 ^ 64 - 1, 2 ^ 64 - 7)).natAbs %
              (sval (0, 0, 0, 4)).natAbs : Nat) : Int))) :=
  ⟨by decide, by simp [WF], by simp [WF],
    smod_correct 257 (2 ^ 64 - 1) (2 ^ 64 - 1) (2 ^ 64 - 1) (2 ^ 64 - 7) 0 0 0 4
      (by decide) (by simp [WF]) (by simp [WF])⟩

/-- Claim C8: for all 256-bit `x`, `y` and `m`, `addmod` terminates (fuel of at least 321
loop checks suffices) and returns `(x + y) mod m` computed on the exact sum, without
reduction modulo `2^256` first, and returns `0` when `m = 0`. -/
theorem addmod_correct (fuel x1 x2 x3 x4 y1 y2 y3 y4 m1 m2 m3 m4 : Nat) (hf : 321 ≤ fuel)
    (hx : WF (x1, x2, x3, x4)) (hy : WF (y1, y2, y3, y4)) (hm : WF (m1, m2, m3, m4)) :
    ∃ r, addmod fuel x1 x2 x3 x4 y1 y2 y3 y4 m1 m2 m3 m4 = some r ∧ WF r ∧
      val r = if val (m1, m2, m3, m4) = 0 then 0
        else (val (x1, x2, x3, x4) + val (y1, y2, y3, y4)) % val (m1, m2, m3, m4) :=
  addmod_spec hf hx hy hm

/-- Witness for C8 at `x = y = 2^256 - 1`, `m = 10`, where the sum needs 257 bits. -/
theorem addmod_correct_witness :
    321 ≤ 321 ∧ WF (2 ^ 64 - 1, 2 ^ 64 - 1, 2 ^ 64 - 1, 2 ^ 64 - 1) ∧ WF (0, 0, 0, 10) ∧
      (∃ r, addmod 321 (2 ^ 64 - 1) (2 ^ 64 - 1) (2 ^ 64 - 1) (2 ^ 64 - 1) (2 ^ 64 - 1)
          (2 ^ 64 - 1) (2 ^ 64 - 1) (2 ^ 64 - 1) 0 0 0 10 = some r ∧ WF r ∧
        val r = if val (0, 0, 0, 10) = 0 then 0
          else (val (2 ^ 64 - 1, 2 ^ 64 - 1, 2 ^ 64 - 1, 2 ^ 64 - 1) +
            val (2 ^ 64 - 1, 2 ^ 64 - 1, 2 ^ 64 - 1, 2 ^ 64 - 1)) % val (0, 0, 0, 10)) :=
  ⟨by decide, by simp [WF], by simp [WF],
    addmod_correct 321 (2 ^ 64 - 1) (2 ^ 64 - 1) (2 ^ 64 - 1) (2 ^ 64 - 1) (2 ^ 64 - 1)
      (2 ^ 64 - 1) (2 ^ 64 - 1) (2 ^ 64 - 1) 0 0 0 10 (by decide) (by simp [WF])
      (by simp [WF]) (by simp [WF])⟩

/-- Claim C9: for all 256-bit `x`, `y` and `m`, `mulmod` terminates (fuel of at least 513
loop checks suffices) and returns `(x * y) mod m` computed on the exact 512-bit product,
without reduction modulo `2^256` first, and returns `0` when `m = 0`. -/
theorem mulmod_correct (fuel x1 x2 x3 x4 y1 y2 y3 y4 m1 m2 m3 m4 : Nat) (hf : 513 ≤ fuel)
    (hx : WF (x1, x2, x3, x4)) (hy : WF (y1, y2, y3, y4)) (hm : WF (m1, m2, m3, m4)) :
    ∃ r, mulmod fuel x1 x2 x3 x4 y1 y2 y3 y4 m1 m2 m3 m4 = some r ∧ WF r ∧
      val r = if val (m1, m2, m3, m4) = 0 then 0
        else (val (x1, x2, x3, x4) * val (y1, y2, y3, y4)) % val (m1, m2, m3, m4) :=
  mulmod_spec hf hx hy hm

/-- Witness for C9 at `x = y = 2^256 - 1`, `m = 10`, where the product needs 512 bits. -/
theorem mulmod_correct_witness :
    513 ≤ 513 ∧ WF (2 ^ 64 - 1, 2 ^ 64 - 1, 2 ^ 64 - 1, 2 ^ 64 - 1) ∧ WF (0, 0, 0, 10) ∧
      (∃ r, mulmod 513 (2 ^ 64 - 1) (2 ^ 64 - 1) (2 ^ 64 - 1) (2 ^ 64 - 1) (2 ^ 64 - 1)
          (2 ^ 64 - 1) (2 ^ 64 - 1) (2 ^ 64 - 1) 0 0 0 10 = some r ∧ WF r ∧
        val r = if val (0, 0, 0, 10) = 0 then 0
          else (val (2 ^ 64 - 1, 2 ^ 64 - 1, 2 ^ 64 - 1, 2 ^ 64 - 1) *
            val (2 ^ 64 - 1, 2 ^ 64 - 1, 2 ^ 64 - 1, 2 ^ 64 - 1)) % val (0, 0, 0, 10)) :=
  ⟨by decide, by simp [WF], by simp [WF],
    mulmod_correct 513 (2 ^ 64 - 1) (2 ^ 64 - 1) (2 ^ 64 - 1) (2 ^ 64 - 1) (2 ^ 64 - 1)
      (2 ^ 64 - 1) (2 ^ 64 - 1) (2 ^ 64 - 1) 0 0 0 10 (by decide) (by simp [WF])
      (by simp [WF]) (by simp [WF])⟩

theorem eq_one_of_val {r : W256} (w : WF r) (h : val r = 1) : r = (0, 0, 0, 1) := by
  obtain ⟨r1, r2, r3, r4⟩ := r
  obtain ⟨w1, w2, w3, w4⟩ := w
  simp only [val] at *
  have e1 : r1 = 0 := by omega
  have e2 : r2 = 0 := by omega
  have e3 : r3 = 0 := by omega
  have e4 : r4 = 1 := by omega
  rw [e1, e2, e3, e4]

/-- Claim C10: for every 256-bit base `x` and exponent `y`, `exp` terminates (fuel of at
least 257 loop checks suffices) and returns `(x ^ y) mod 2^256`; in particular
`exp(x, 0) = (0,0,0,1)` for every `x`, including `x = 0`. -/
theorem exp_correct (fuel x1 x2 x3 x4 y1 y2 y3 y4 : Nat) (hf : 257 ≤ fuel)
    (hx : WF (x1, x2, x3, x4)) (hy : WF (y1, y2, y3, y4)) :
    ∃ r, exp fuel x1 x2 x3 x4 y1 y2 y3 y4 = some r ∧ WF r ∧
      val r = val (x1, x2, x3, x4) ^ val (y1, y2, y3, y4) % 2 ^ 256 ∧
      (val (y1, y2, y3, y4) = 0 → r = (0, 0, 0, 1)) := by
  obtain ⟨r, h, w, e⟩ := exp_spec hf hx hy
  refine ⟨r, h, w, e, ?_⟩
  intro h0
  rw [h0, Nat.pow_zero, Nat.mod_eq_of_lt (by norm_num)] at e
  exact eq_one_of_val w e

/-- Witness for C10 at `0 ^ 0`. -/
theorem exp_correct_witness :
    257 ≤ 257 ∧ WF (0, 0, 0, 0) ∧
      (∃ r, exp 257 0 0 0 0 0 0 0 0 = some r ∧ WF r ∧
        val r = val (0, 0, 0, 0) ^ val (0, 0, 0, 0) % 2 ^ 256 ∧
        (val (0, 0, 0, 0) = 0 → r = (0, 0, 0, 1))) :=
  ⟨by decide, by simp [WF],
    exp_correct 257 0 0 0 0 0 0 0 0 (by decide) (by simp [WF]) (by simp [WF])⟩

/-! ### Comparisons -/

theorem lt_spec {x1 x2 x3 x4 y1 y2 y3 y4 : Nat}
    (hx : WF (x1, x2, x3, x4)) (hy : WF (y1, y2, y3, y4)) :
    lt x1 x2 x3 x4 y1 y2 y3 y4 =
      if val (x1, x2, x3, x4) < val (y1, y2, y3, y4) then (0, 0, 0, 1) else (0, 0, 0, 0) := by
  unfold lt i64.extend_i32_u
  rw [lt_256x256_64_spec hx hy]
  by_cases h : val (x1, x2, x3, x4) < val (y1, y2, y3, y4)
  · rw [if_pos h, if_pos h]
  · rw [if_neg h, if_neg h]

theorem gte_eq_one_iff (x1 x2 x3 x4 y1 y2 y3 y4 : Nat) :
    gte_256x256_64 x1 x2 x3 x4 y1 y2 y3 y4 = 1 ↔
      lt_256x256_64 x1 x2 x3 x4 y1 y2 y3 y4 = 0 := by
  unfold gte_256x256_64 i32.eqz
  by_cases h : lt_256x256_64 x1 x2 x3 x4 y1 y2 y3 y4 = 0
  · simp [h]
  · simp [h]

theorem eq_spec (x1 x2 x3 x4 y1 y2 y3 y4 : Nat) :
    eq x1 x2 x3 x4 y1 y2 y3 y4 =
      if x1 = y1 ∧ x2 = y2 ∧ x3 = y3 ∧ x4 = y4 then (0, 0, 0, 1) else (0, 0, 0, 0) := by
  unfold eq i64.eq
  by_cases h1 : x1 = y1 <;> by_cases h2 : x2 = y2 <;> by_cases h3 : x3 = y3 <;>
    by_cases h4 : x4 = y4 <;> simp [h1, h2, h3, h4]

theorem iszero_spec (x1 x2 x3 x4 : Nat) :
    iszero x1 x2 x3 x4 =
      if x1 = 0 ∧ x2 = 0 ∧ x3 = 0 ∧ x4 = 0 then (0, 0, 0, 1) else (0, 0, 0, 0) := by
  unfold iszero i64.extend_i32_u
  rw [iszero256_eq]
  by_cases h : x1 = 0 ∧ x2 = 0 ∧ x3 = 0 ∧ x4 = 0
  · rw [if_pos h, if_pos h]
  · rw [if_neg h, if_neg h]

theorem flip_top {a : Nat} (ha : a < 2 ^ 64) :
    i64.add a 0x8000000000000000 < 2 ^ 64 ∧
      i64.add a 0x8000000000000000 = if a < 2 ^ 63 then a + 2 ^ 63 else a - 2 ^ 63 := by
  unfold i64.add
  refine ⟨Nat.mod_lt _ (by norm_num), ?_⟩
  by_cases h : a < 2 ^ 63
  · rw [if_pos h]; omega
  · rw [if_neg h]; omega

theorem val_flip {x1 x2 x3 x4 : Nat} (hx : WF (x1, x2, x3, x4)) :
    WF (i64.add x1 0x8000000000000000, x2, x3, x4) ∧
      val (i64.add x1 0x8000000000000000, x2, x3, x4) =
        if val (x1, x2, x3, x4) < 2 ^ 255 then val (x1, x2, x3, x4) + 2 ^ 255
        else val (x1, x2, x3, x4) - 2 ^ 255 := by
  obtain ⟨h1, h2, h3, h4⟩ := hx
  dsimp only at h1 h2 h3 h4
  obtain ⟨hlt, he⟩ := flip_top h1
  refine ⟨⟨hlt, h2, h3, h4⟩, ?_⟩
  simp only [val]
  rw [he]
  by_cases h : x1 < 2 ^ 63
  · rw [if_pos h, if_pos (by omega)]; omega
  · rw [if_neg h, if_neg (by omega)]; omega

theorem sval_lt_iff {a b : W256} (ha : val a < 2 ^ 256) (hb : val b < 2 ^ 256) :
    sval a < sval b ↔
      (if val a < 2 ^ 255 then val a + 2 ^ 255 else val a - 2 ^ 255) <
        (if val b < 2 ^ 255 then val b + 2 ^ 255 else val b - 2 ^ 255) := by
  unfold sval
  have e : (2 : Int) ^ 256 = ((2 ^ 256 : Nat) : Int) := by push_cast
  rw [e]
  generalize val a = A at *
  generalize val b = B at *
  by_cases h1 : A < 2 ^ 255 <;> by_cases h2 : B < 2 ^ 255 <;>
    simp only [h1, h2, if_true, if_false] <;> omega

theorem slt_spec {x1 x2 x3 x4 y1 y2 y3 y4 : Nat}
    (hx : WF (x1, x2, x3, x4)) (hy : WF (y1, y2, y3, y4)) :
    slt x1 x2 x3 x4 y1 y2 y3 y4 =
      if sval (x1, x2, x3, x4) < sval (y1, y2, y3, y4) then (0, 0, 0, 1)
      else (0, 0, 0, 0) := by
  unfold slt
  dsimp only
  obtain ⟨wx, ex⟩ := val_flip hx
  obtain ⟨wy, ey⟩ := val_flip hy
  rw [lt_spec wx wy, ex, ey]
  have k := @sval_lt_iff (x1, x2, x3, x4) (y1, y2, y3, y4) (val_lt hx) (val_lt hy)
  by_cases h : sval (x1, x2, x3, x4) < sval (y1, y2, y3, y4)
  · rw [if_pos h, if_pos (k.mp h)]
  · rw [if_neg h, if_neg (fun c => h (k.mpr c))]

/-! ### `byte` -/

theorem and_255 (a : Nat) : 255 &&& a = a % 256 := by
  rw [Nat.and_comm]
  exact Nat.and_pow_two_sub_one_eq_mod a 8

theorem eqz_or3 (x1 x2 x3 : Nat) :
    i64.eqz (i64.or (i64.or x1 x2) x3) ≠ 0 ↔ x1 = 0 ∧ x2 = 0 ∧ x3 = 0 := by
  unfold i64.eqz i64.or
  rw [ite10_ne_zero, or_eq_zero, or_eq_zero]
  tauto

theorem byte_low {x4 y1 y2 y3 y4 : Nat} (hx : x4 < 32) (hy : WF (y1, y2, y3, y4)) :
    i64.and 0xff (i64.shr_u
        (if i64.div_u x4 8 = 0 then y1
          else if i64.div_u x4 8 = 1 then y2
          else if i64.div_u x4 8 = 2 then y3
          else if i64.div_u x4 8 = 3 then y4
          else 0)
        (i64.sub 56 (i64.mul (i64.rem_u x4 8) 8))) =
      val (y1, y2, y3, y4) / 2 ^ (8 * (31 - x4)) % 256 := by
  obtain ⟨h1, h2, h3, h4⟩ := hy
  unfold i64.and i64.shr_u i64.div_u i64.sub i64.mul i64.rem_u
  rw [and_255]
  simp only [val] at *
  interval_cases x4 <;> norm_num <;> omega

theorem byte_high {x4 y1 y2 y3 y4 : Nat} (hx : 32 ≤ x4) :
    i64.and 0xff (i64.shr_u
        (if i64.div_u x4 8 = 0 then y1
          else if i64.div_u x4 8 = 1 then y2
          else if i64.div_u x4 8 = 2 then y3
          else if i64.div_u x4 8 = 3 then y4
          else 0)
        (i64.sub 56 (i64.mul (i64.rem_u x4 8) 8))) = 0 := by
  unfold i64.and i64.shr_u i64.div_u
  rw [and_255, if_neg (by omega), if_neg (by omega), if_neg (by omega), if_neg (by omega),
    Nat.zero_div, Nat.zero_mod]

theorem byte_spec {x1 x2 x3 x4 y1 y2 y3 y4 : Nat}
    (hx : WF (x1, x2, x3, x4)) (hy : WF (y1, y2, y3, y4)) :
    byte x1 x2 x3 x4 y1 y2 y3 y4 =
      (0, 0, 0, if val (x1, x2, x3, x4) < 32 then
        val (y1, y2, y3, y4) / 2 ^ (8 * (31 - val (x1, x2, x3, x4))) % 256 else 0) := by
  unfold byte
  obtain ⟨hx1, hx2, hx3, hx4⟩ := hx
  dsimp only at hx1 hx2 hx3 hx4
  by_cases h : x1 = 0 ∧ x2 = 0 ∧ x3 = 0
  · rw [if_pos ((eqz_or3 x1 x2 x3).mpr h)]
    obtain ⟨rfl, rfl, rfl⟩ := h
    have ev : val (0, 0, 0, x4) = x4 := by simp [val]
    rw [ev]
    dsimp only
    by_cases hlt : x4 < 32
    · rw [if_pos hlt, byte_low hlt hy]
    · rw [if_neg hlt, byte_high (by omega)]
  · rw [if_neg (fun k => h ((eqz_or3 x1 x2 x3).mp k))]
    have hv : ¬ val (x1, x2, x3, x4) < 32 := by
      simp only [val]
      omega
    rw [if_neg hv]

/-! ### Byte swaps -/

theorem shiftLeft_and (a b i : Nat) : (a <<< i) &&& (b <<< i) = (a &&& b) <<< i := by
  apply Nat.eq_of_testBit_eq
  intro j
  simp only [Nat.testBit_and, Nat.testBit_shiftLeft]
  cases decide (j ≥ i) <;> simp

theorem and_shl8 (t : Nat) : (t * 256) &&& 65280 = (t % 256) * 256 := by
  have h := shiftLeft_and t 255 8
  rw [Nat.shiftLeft_eq, Nat.shiftLeft_eq, Nat.shiftLeft_eq] at h
  have e := Nat.and_pow_two_sub_one_eq_mod t 8
  norm_num at h e
  rw [h, e]

theorem bswap16_eq (x : Nat) : bswap16 x = (x % 256) * 256 + x / 256 % 256 := by
  unfold bswap16 i32.and i32.shl i32.shr_u i32.or
  have e1 : x * 2 ^ (8 % 32) % 2 ^ 32 = (x % 2 ^ 24) * 256 := by
    norm_num; omega
  have e2 : x / 2 ^ (8 % 32) &&& 255 = x / 256 % 256 := by
    have := Nat.and_pow_two_sub_one_eq_mod (x / 256) 8
    norm_num at this ⊢
    exact this
  have e3 : x % 2 ^ 24 % 256 = x % 256 := by omega
  dsimp only
  rw [e1, e2, and_shl8, e3]
  have hlo : x / 256 % 256 < 2 ^ 8 := by omega
  have := Nat.mul_add_lt_is_or hlo (x % 256)
  rw [Nat.mul_comm] at this
  norm_num at this ⊢
  exact this.symm

theorem bswap16_lt (x : Nat) : bswap16 x < 2 ^ 16 := by
  rw [bswap16_eq]; omega

theorem bswap32_eq (x : Nat) : bswap32 x = bswap16 x * 65536 + bswap16 (x / 65536) := by
  unfold bswap32 i32.shl i32.shr_u i32.or
  have h1 := bswap16_lt x
  have h2 := bswap16_lt (x / 65536)
  dsimp only
  have e1 : bswap16 x * 2 ^ (16 % 32) % 2 ^ 32 = 2 ^ 16 * bswap16 x := by
    norm_num; omega
  have e2 : x / 2 ^ (16 % 32) = x / 65536 := by norm_num
  rw [e1, e2, ← Nat.mul_add_lt_is_or h2]
  omega

theorem bswap32_lt (x : Nat) : bswap32 x < 2 ^ 32 := by
  rw [bswap32_eq]
  have h1 := bswap16_lt x
  have h2 := bswap16_lt (x / 65536)
  omega

theorem bswap64_eq (x : Nat) :
    bswap64 x = bswap32 (x % 2 ^ 32) * 2 ^ 32 + bswap32 (x / 2 ^ 32 % 2 ^ 32) := by
  unfold bswap64 i64.shl i64.shr_u i64.or i64.extend_i32_u i32.wrap_i64
  have h1 := bswap32_lt (x % 2 ^ 32)
  have h2 := bswap32_lt (x / 2 ^ 32 % 2 ^ 32)
  dsimp only
  have e0 : ∀ A, A < 2 ^ 32 → A * 2 ^ (32 % 64) % 2 ^ 64 = 2 ^ 32 * A := by
    intro A hA; norm_num; omega
  have e1 := e0 _ h1
  have e2 : x / 2 ^ (32 % 64) = x / 2 ^ 32 := by norm_num
  rw [e1, e2, ← Nat.mul_add_lt_is_or h2]
  omega

theorem bswap32_formula (a : Nat) :
    bswap32 a = a % 256 * 2 ^ 24 + a / 2 ^ 8 % 256 * 2 ^ 16 + a / 2 ^ 16 % 256 * 2 ^ 8 +
      a / 2 ^ 24 % 256 := by
  rw [bswap32_eq, bswap16_eq, bswap16_eq]
  have e1 : a / 256 % 256 = a / 2 ^ 8 % 256 := by norm_num
  have e2 : a / 65536 % 256 = a / 2 ^ 16 % 256 := by norm_num
  have e3 : a / 65536 / 256 % 256 = a / 2 ^ 24 % 256 := by
    rw [Nat.div_div_eq_div_mul]; norm_num
  rw [e1, e2, e3]
  generalize a % 256 = b0
  generalize a / 2 ^ 8 % 256 = b1
  generalize a / 2 ^ 16 % 256 = b2
  generalize a / 2 ^ 24 % 256 = b3
  omega

theorem low_bytes (x : Nat) :
    x % 2 ^ 32 % 256 = x % 256 ∧ x % 2 ^ 32 / 2 ^ 8 % 256 = x / 2 ^ 8 % 256 ∧
      x % 2 ^ 32 / 2 ^ 16 % 256 = x / 2 ^ 16 % 256 ∧
      x % 2 ^ 32 / 2 ^ 24 % 256 = x / 2 ^ 24 % 256 := by
  refine ⟨?_, ?_, ?_, ?_⟩ <;> omega

theorem high_bytes (x : Nat) :
    x / 2 ^ 32 % 2 ^ 32 % 256 = x / 2 ^ 32 % 256 ∧
      x / 2 ^ 32 % 2 ^ 32 / 2 ^ 8 % 256 = x / 2 ^ 40 % 256 ∧
      x / 2 ^ 32 % 2 ^ 32 / 2 ^ 16 % 256 = x / 2 ^ 48 % 256 ∧
      x / 2 ^ 32 % 2 ^ 32 / 2 ^ 24 % 256 = x / 2 ^ 56 % 256 := by
  refine ⟨?_, ?_, ?_, ?_⟩ <;> omega

/-- The byte swap written out: byte `k` of the result is byte `7 - k` of the argument. -/
theorem bswap64_formula (x : Nat) :
    bswap64 x = x % 256 * 2 ^ 56 + x / 2 ^ 8 % 256 * 2 ^ 48 + x / 2 ^ 16 % 256 * 2 ^ 40 +
      x / 2 ^ 24 % 256 * 2 ^ 32 + x / 2 ^ 32 % 256 * 2 ^ 24 + x / 2 ^ 40 % 256 * 2 ^ 16 +
      x / 2 ^ 48 % 256 * 2 ^ 8 + x / 2 ^ 56 % 256 := by
  rw [bswap64_eq, bswap32_formula, bswap32_formula]
  obtain ⟨l0, l1, l2, l3⟩ := low_bytes x
  obtain ⟨h0, h1, h2, h3⟩ := high_bytes x
  rw [l0, l1, l2, l3, h0, h1, h2, h3]
  generalize x % 256 = b0
  generalize x / 2 ^ 8 % 256 = b1
  generalize x / 2 ^ 16 % 256 = b2
  generalize x / 2 ^ 24 % 256 = b3
  generalize x / 2 ^ 32 % 256 = b4
  generalize x / 2 ^ 40 % 256 = b5
  generalize x / 2 ^ 48 % 256 = b6
  generalize x / 2 ^ 56 % 256 = b7
  omega

/-! ### Bytes of a swapped word -/

theorem recompose {w : Nat} (hw : w < 2 ^ 64) :
    w % 256 + w / 2 ^ 8 % 256 * 2 ^ 8 + w / 2 ^ 16 % 256 * 2 ^ 16 + w / 2 ^ 24 % 256 * 2 ^ 24 +
      w / 2 ^ 32 % 256 * 2 ^ 32 + w / 2 ^ 40 % 256 * 2 ^ 40 + w / 2 ^ 48 % 256 * 2 ^ 48 +
      w / 2 ^ 56 % 256 * 2 ^ 56 = w := by
  omega

theorem bytes_of_sum {b0 b1 b2 b3 b4 b5 b6 b7 : Nat} (h0 : b0 < 256) (h1 : b1 < 256)
    (h2 : b2 < 256) (h3 : b3 < 256) (h4 : b4 < 256) (h5 : b5 < 256) (h6 : b6 < 256)
    (h7 : b7 < 256) :
    b0 + b1 * 2 ^ 8 + b2 * 2 ^ 16 + b3 * 2 ^ 24 + b4 * 2 ^ 32 + b5 * 2 ^ 40 + b6 * 2 ^ 48 +
        b7 * 2 ^ 56 < 2 ^ 64 ∧
      ∀ k, k < 8 →
        (b0 + b1 * 2 ^ 8 + b2 * 2 ^ 16 + b3 * 2 ^ 24 + b4 * 2 ^ 32 + b5 * 2 ^ 40 + b6 * 2 ^ 48 +
          b7 * 2 ^ 56) / 2 ^ (8 * k) % 256 =
        if k = 0 then b0 else if k = 1 then b1 else if k = 2 then b2 else if k = 3 then b3
        else if k = 4 then b4 else if k = 5 then b5 else if k = 6 then b6 else b7 := by
  refine ⟨by omega, ?_⟩
  intro k hk
  interval_cases k <;> norm_num <;> omega

theorem bswap64_lt (x : Nat) : bswap64 x < 2 ^ 64 := by
  rw [bswap64_formula]
  omega

theorem bswap_byte (y : Nat) :
    ∀ k, k < 8 → bswap64 y / 2 ^ (8 * k) % 256 = y / 2 ^ (8 * (7 - k)) % 256 := by
  intro k hk
  rw [bswap64_formula]
  have h0 : y % 256 < 256 := Nat.mod_lt _ (by norm_num)
  have h1 : y / 2 ^ 8 % 256 < 256 := Nat.mod_lt _ (by norm_num)
  have h2 : y / 2 ^ 16 % 256 < 256 := Nat.mod_lt _ (by norm_num)
  have h3 : y / 2 ^ 24 % 256 < 256 := Nat.mod_lt _ (by norm_num)
  have h4 : y / 2 ^ 32 % 256 < 256 := Nat.mod_lt _ (by norm_num)
  have h5 : y / 2 ^ 40 % 256 < 256 := Nat.mod_lt _ (by norm_num)
  have h6 : y / 2 ^ 48 % 256 < 256 := Nat.mod_lt _ (by norm_num)
  have h7 : y / 2 ^ 56 % 256 < 256 := Nat.mod_lt _ (by norm_num)
  have key := (bytes_of_sum h7 h6 h5 h4 h3 h2 h1 h0).2 k hk
  have e : y % 256 * 2 ^ 56 + y / 2 ^ 8 % 256 * 2 ^ 48 + y / 2 ^ 16 % 256 * 2 ^ 40 +
      y / 2 ^ 24 % 256 * 2 ^ 32 + y / 2 ^ 32 % 256 * 2 ^ 24 + y / 2 ^ 40 % 256 * 2 ^ 16 +
      y / 2 ^ 48 % 256 * 2 ^ 8 + y / 2 ^ 56 % 256 =
      y / 2 ^ 56 % 256 + y / 2 ^ 48 % 256 * 2 ^ 8 + y / 2 ^ 40 % 256 * 2 ^ 16 +
      y / 2 ^ 32 % 256 * 2 ^ 24 + y / 2 ^ 24 % 256 * 2 ^ 32 + y / 2 ^ 16 % 256 * 2 ^ 40 +
      y / 2 ^ 8 % 256 * 2 ^ 48 + y % 256 * 2 ^ 56 := by ring
  rw [e, key]
  interval_cases k <;> norm_num

theorem bswap64_bswap64 {y : Nat} (hy : y < 2 ^ 64) : bswap64 (bswap64 y) = y := by
  have hb := bswap_byte y
  have e0 := hb 0 (by norm_num)
  have e1 := hb 1 (by norm_num)
  have e2 := hb 2 (by norm_num)
  have e3 := hb 3 (by norm_num)
  have e4 := hb 4 (by norm_num)
  have e5 := hb 5 (by norm_num)
  have e6 := hb 6 (by norm_num)
  have e7 := hb 7 (by norm_num)
  norm_num at e0 e1 e2 e3 e4 e5 e6 e7
  rw [bswap64_formula (bswap64 y)]
  norm_num
  rw [e0, e1, e2, e3, e4, e5, e6, e7]
  have r := recompose hy
  norm_num at r
  omega

/-- Byte `8 l + k` of the big-endian encoding of a 256-bit value is byte `7 - k` of its
limb `l`. -/
theorem limb_byte {y1 y2 y3 y4 : Nat} (hy : WF (y1, y2, y3, y4)) :
    ∀ k, k < 8 →
      y1 / 2 ^ (8 * (7 - k)) % 256 = val (y1, y2, y3, y4) / 2 ^ (8 * (31 - k)) % 256 ∧
      y2 / 2 ^ (8 * (7 - k)) % 256 = val (y1, y2, y3, y4) / 2 ^ (8 * (31 - (8 + k))) % 256 ∧
      y3 / 2 ^ (8 * (7 - k)) % 256 = val (y1, y2, y3, y4) / 2 ^ (8 * (31 - (16 + k))) % 256 ∧
      y4 / 2 ^ (8 * (7 - k)) % 256 = val (y1, y2, y3, y4) / 2 ^ (8 * (31 - (24 + k))) % 256 := by
  obtain ⟨h1, h2, h3, h4⟩ := hy
  simp only [val] at *
  intro k hk
  interval_cases k <;> norm_num <;> refine ⟨?_, ?_, ?_, ?_⟩ <;> omega

/-! ### Pointers and memory accesses -/

theorem ne_zero_iff (a : Nat) : i64.ne 0 a ≠ 0 ↔ a ≠ 0 := by
  unfold i64.ne
  by_cases h : 0 = a
  · simp [h]
  · simp [h]
    omega

theorem u256_to_i32_eq {x1 x2 x3 x4 : Nat} :
    u256_to_i32 x1 x2 x3 x4 =
      if x1 = 0 ∧ x2 = 0 ∧ x3 = 0 ∧ x4 < 2 ^ 32 then some x4 else none := by
  unfold u256_to_i32
  have h1 : i64.ne 0 (i64.or (i64.or x1 x2) x3) ≠ 0 ↔ ¬ (x1 = 0 ∧ x2 = 0 ∧ x3 = 0) := by
    rw [ne_zero_iff]
    unfold i64.or
    rw [Ne, or_eq_zero, or_eq_zero]
    tauto
  have h2 : i64.ne 0 (i64.shr_u x4 32) ≠ 0 ↔ ¬ x4 < 2 ^ 32 := by
    rw [ne_zero_iff]
    unfold i64.shr_u
    norm_num
    omega
  by_cases c1 : x1 = 0 ∧ x2 = 0 ∧ x3 = 0
  · rw [if_neg (fun k => (h1.mp k) c1)]
    by_cases c2 : x4 < 2 ^ 32
    · rw [if_neg (fun k => (h2.mp k) c2), if_pos ⟨c1.1, c1.2.1, c1.2.2, c2⟩]
      unfold i32.wrap_i64
      rw [Nat.mod_eq_of_lt c2]
    · rw [if_pos (h2.mpr c2), if_neg (fun k => c2 k.2.2.2)]
  · rw [if_pos (h1.mpr c1), if_neg (fun k => c1 ⟨k.1, k.2.1, k.2.2.1⟩)]

/-- A pointer is accepted exactly when it and its internal address fit in 32 bits; the
internal address is 64 bytes further on. -/
theorem to_internal_i32ptr_eq {x1 x2 x3 x4 : Nat} :
    to_internal_i32ptr x1 x2 x3 x4 =
      if x1 = 0 ∧ x2 = 0 ∧ x3 = 0 ∧ x4 + 64 < 2 ^ 32 then some (x4 + 64) else none := by
  unfold to_internal_i32ptr u256_to_i32ptr
  rw [u256_to_i32_eq]
  by_cases c : x1 = 0 ∧ x2 = 0 ∧ x3 = 0 ∧ x4 < 2 ^ 32
  · rw [if_pos c]
    dsimp only
    unfold i32.add i32.lt_u
    by_cases d : x4 + 64 < 2 ^ 32
    · have e : (if (x4 + 64) % 2 ^ 32 < x4 then 1 else 0) = 0 := by
        rw [Nat.mod_eq_of_lt d]
        exact if_neg (by omega)
      rw [e, if_neg (by simp), if_pos ⟨c.1, c.2.1, c.2.2.1, d⟩, Nat.mod_eq_of_lt d]
    · have e : (if (x4 + 64) % 2 ^ 32 < x4 then 1 else 0) = 1 := by
        have := c.2.2.2
        exact if_pos (by omega)
      rw [e, if_pos (by simp), if_neg (fun k => d k.2.2.2)]
  · rw [if_neg c, if_neg (fun k => c ⟨k.1, k.2.1, k.2.2.1, by omega⟩)]

theorem to_internal_some {x1 x2 x3 x4 q : Nat}
    (h : to_internal_i32ptr x1 x2 x3 x4 = some q) :
    q = val (x1, x2, x3, x4) + 64 ∧ q < 2 ^ 32 := by
  rw [to_internal_i32ptr_eq] at h
  by_cases c : x1 = 0 ∧ x2 = 0 ∧ x3 = 0 ∧ x4 + 64 < 2 ^ 32
  · rw [if_pos c] at h
    obtain ⟨rfl, rfl, rfl, c4⟩ := c
    simp only [Option.some.injEq] at h
    subst h
    simp only [val]
    omega
  · rw [if_neg c] at h
    exact absurd h (by simp)

theorem store_spec {m : Memory} {a w : Nat} (h : a + 8 ≤ m.size) :
    ∃ m', i64.store m a w = some m' ∧ m'.size = m.size ∧
      (∀ k, k < 8 → m'.bytes (a + k) = w / 2 ^ (8 * k) % 256) ∧
      (∀ b, b < a ∨ a + 8 ≤ b → m'.bytes b = m.bytes b) := by
  unfold i64.store
  rw [if_pos h]
  refine ⟨_, rfl, rfl, ?_, ?_⟩
  · intro k hk
    dsimp only
    rw [if_pos ⟨by omega, by omega⟩, Nat.add_sub_cancel_left]
  · intro b hb
    dsimp only
    rw [if_neg (by omega)]

theorem load_spec {m : Memory} {a : Nat} (h : a + 8 ≤ m.size)
    (hb : ∀ k, k < 8 → m.bytes (a + k) < 256) :
    ∃ w, i64.load m a = some w ∧ w < 2 ^ 64 ∧
      ∀ k, k < 8 → w / 2 ^ (8 * k) % 256 = m.bytes (a + k) := by
  unfold i64.load
  rw [if_pos h]
  have h0 := hb 0 (by norm_num)
  have h1 := hb 1 (by norm_num)
  have h2 := hb 2 (by norm_num)
  have h3 := hb 3 (by norm_num)
  have h4 := hb 4 (by norm_num)
  have h5 := hb 5 (by norm_num)
  have h6 := hb 6 (by norm_num)
  have h7 := hb 7 (by norm_num)
  rw [Nat.add_zero] at h0
  obtain ⟨lt, by_k⟩ := bytes_of_sum h0 h1 h2 h3 h4 h5 h6 h7
  refine ⟨_, rfl, lt, ?_⟩
  intro k hk
  rw [by_k k hk]
  interval_cases k <;> simp

/-! ### Storing and loading a 256-bit word -/

theorem eq_of_bytes {w v : Nat} (hw : w < 2 ^ 64) (hv : v < 2 ^ 64)
    (h : ∀ k, k < 8 → w / 2 ^ (8 * k) % 256 = v / 2 ^ (8 * k) % 256) : w = v := by
  have h0 : w % 256 = v % 256 := by
    have := h 0 (by norm_num)
    simpa using this
  have h1 : w / 2 ^ 8 % 256 = v / 2 ^ 8 % 256 := h 1 (by norm_num)
  have h2 : w / 2 ^ 16 % 256 = v / 2 ^ 16 % 256 := h 2 (by norm_num)
  have h3 : w / 2 ^ 24 % 256 = v / 2 ^ 24 % 256 := h 3 (by norm_num)
  have h4 : w / 2 ^ 32 % 256 = v / 2 ^ 32 % 256 := h 4 (by norm_num)
  have h5 : w / 2 ^ 40 % 256 = v / 2 ^ 40 % 256 := h 5 (by norm_num)
  have h6 : w / 2 ^ 48 % 256 = v / 2 ^ 48 % 256 := h 6 (by norm_num)
  have h7 : w / 2 ^ 56 % 256 = v / 2 ^ 56 % 256 := h 7 (by norm_num)
  have a := recompose hw
  rw [h0, h1, h2, h3, h4, h5, h6, h7, recompose hv] at a
  exact a.symm

theorem i32_add_small {q c : Nat} (h : q + c < 2 ^ 32) : i32.add q c = q + c := by
  unfold i32.add
  exact Nat.mod_eq_of_lt h

/-- Storing a word writes the byte-swapped limbs at `q`, `q + 8`, `q + 16` and `q + 24`
and nothing else. -/
theorem mstore_internal_limbs {m : Memory} {q : Nat} (y1 y2 y3 y4 : Nat)
    (hq : q + 32 ≤ m.size) (hm : m.size ≤ 2 ^ 32) :
    ∃ m', mstore_internal m q y1 y2 y3 y4 = some m' ∧ m'.size = m.size ∧
      (∀ k, k < 8 →
        m'.bytes (q + k) = bswap64 y1 / 2 ^ (8 * k) % 256 ∧
        m'.bytes (q + 8 + k) = bswap64 y2 / 2 ^ (8 * k) % 256 ∧
        m'.bytes (q + 16 + k) = bswap64 y3 / 2 ^ (8 * k) % 256 ∧
        m'.bytes (q + 24 + k) = bswap64 y4 / 2 ^ (8 * k) % 256) ∧
      (∀ b, b < q ∨ q + 32 ≤ b → m'.bytes b = m.bytes b) := by
  unfold mstore_internal
  rw [i32_add_small (show q + 8 < 2 ^ 32 by omega),
    i32_add_small (show q + 16 < 2 ^ 32 by omega),
    i32_add_small (show q + 24 < 2 ^ 32 by omega)]
  obtain ⟨m1, e1, s1, r1, f1⟩ := @store_spec m q (bswap64 y1) (by omega)
  obtain ⟨m2, e2, s2, r2, f2⟩ := @store_spec m1 (q + 8) (bswap64 y2) (by omega)
  obtain ⟨m3, e3, s3, r3, f3⟩ := @store_spec m2 (q + 16) (bswap64 y3) (by omega)
  obtain ⟨m4, e4, s4, r4, f4⟩ := @store_spec m3 (q + 24) (bswap64 y4) (by omega)
  rw [e1]
  dsimp only
  rw [e2]
  dsimp only
  rw [e3]
  dsimp only
  refine ⟨m4, e4, by omega, ?_, ?_⟩
  · intro k hk
    refine ⟨?_, ?_, ?_, ?_⟩
    · rw [f4 _ (by omega), f3 _ (by omega), f2 _ (by omega)]
      exact r1 k hk
    · rw [f4 _ (by omega), f3 _ (by omega)]
      exact r2 k hk
    · rw [f4 _ (by omega)]
      exact r3 k hk
    · exact r4 k hk
  · intro b hb
    rw [f4 _ (by omega), f3 _ (by omega), f2 _ (by omega), f1 _ (by omega)]

/-- Loading a word reads four little-endian limbs at `q`, `q + 8`, `q + 16` and `q + 24`
and byte-swaps each. -/
theorem mload_internal_limbs {m : Memory} {q : Nat}
    (hq : q + 32 ≤ m.size) (hm : m.size ≤ 2 ^ 32)
    (hb : ∀ j, j < 32 → m.bytes (q + j) < 256) :
    ∃ w1 w2 w3 w4, mload_internal m q = some (bswap64 w1, bswap64 w2, bswap64 w3, bswap64 w4) ∧
      w1 < 2 ^ 64 ∧ w2 < 2 ^ 64 ∧ w3 < 2 ^ 64 ∧ w4 < 2 ^ 64 ∧
      ∀ k, k < 8 →
        w1 / 2 ^ (8 * k) % 256 = m.bytes (q + k) ∧
        w2 / 2 ^ (8 * k) % 256 = m.bytes (q + 8 + k) ∧
        w3 / 2 ^ (8 * k) % 256 = m.bytes (q + 16 + k) ∧
        w4 / 2 ^ (8 * k) % 256 = m.bytes (q + 24 + k) := by
  unfold mload_internal
  rw [i32_add_small (show q + 8 < 2 ^ 32 by omega),
    i32_add_small (show q + 16 < 2 ^ 32 by omega),
    i32_add_small (show q + 24 < 2 ^ 32 by omega)]
  obtain ⟨w1, e1, l1, r1⟩ := @load_spec m q (by omega) (fun k hk => hb k (by omega))
  obtain ⟨w2, e2, l2, r2⟩ := @load_spec m (q + 8) (by omega)
    (fun k hk => by rw [Nat.add_assoc]; exact hb (8 + k) (by omega))
  obtain ⟨w3, e3, l3, r3⟩ := @load_spec m (q + 16) (by omega)
    (fun k hk => by rw [Nat.add_assoc]; exact hb (16 + k) (by omega))
  obtain ⟨w4, e4, l4, r4⟩ := @load_spec m (q + 24) (by omega)
    (fun k hk => by rw [Nat.add_assoc]; exact hb (24 + k) (by omega))
  rw [e1]
  dsimp only
  rw [e2]
  dsimp only
  rw [e3]
  dsimp only
  rw [e4]
  exact ⟨w1, w2, w3, w4, rfl, l1, l2, l3, l4, fun k hk => ⟨r1 k hk, r2 k hk, r3 k hk, r4 k hk⟩⟩

/-- Splitting an offset below 32 into a limb index and a byte index. -/
theorem offset_cases {P : Nat → Prop} (h : ∀ k, k < 8 → P k ∧ P (8 + k) ∧ P (16 + k) ∧ P (24 + k))
    (j : Nat) (hj : j < 32) : P j := by
  by_cases c1 : j < 8
  · exact (h j c1).1
  · by_cases c2 : j < 16
    · have := (h (j - 8) (by omega)).2.1
      rwa [show 8 + (j - 8) = j by omega] at this
    · by_cases c3 : j < 24
      · have := (h (j - 16) (by omega)).2.2.1
        rwa [show 16 + (j - 16) = j by omega] at this
      · have := (h (j - 24) (by omega)).2.2.2
        rwa [show 24 + (j - 24) = j by omega] at this

/-- After `mstore_internal` the 32 bytes at `q` are the big-endian bytes of the word; the
size and every other byte are unchanged. -/
theorem mstore_internal_spec {m : Memory} {q y1 y2 y3 y4 : Nat}
    (hq : q + 32 ≤ m.size) (hm : m.size ≤ 2 ^ 32) (hy : WF (y1, y2, y3, y4)) :
    ∃ m', mstore_internal m q y1 y2 y3 y4 = some m' ∧ m'.size = m.size ∧
      bigEndian32 m'.bytes q (val (y1, y2, y3, y4)) ∧
      (∀ b, b < q ∨ q + 32 ≤ b → m'.bytes b = m.bytes b) := by
  obtain ⟨m', e, s, r, f⟩ := mstore_internal_limbs y1 y2 y3 y4 hq hm
  refine ⟨m', e, s, ?_, f⟩
  unfold bigEndian32
  apply offset_cases
  intro k hk
  obtain ⟨a1, a2, a3, a4⟩ := r k hk
  obtain ⟨b1, b2, b3, b4⟩ := limb_byte hy k hk
  rw [bswap_byte _ k hk] at a1 a2 a3 a4
  refine ⟨?_, ?_, ?_, ?_⟩
  · rw [a1, b1]
  · rw [← Nat.add_assoc, a2, b2]
  · rw [← Nat.add_assoc, a3, b3]
  · rw [← Nat.add_assoc, a4, b4]

/-- Loading from an in-bounds address returns a well-formed word whose big-endian bytes are
the 32 bytes at `q`. -/
theorem mload_internal_spec {m : Memory} {q : Nat}
    (hq : q + 32 ≤ m.size) (hm : m.size ≤ 2 ^ 32)
    (hb : ∀ j, j < 32 → m.bytes (q + j) < 256) :
    ∃ z, mload_internal m q = some z ∧ WF z ∧ bigEndian32 m.bytes q (val z) := by
  obtain ⟨w1, w2, w3, w4, e, l1, l2, l3, l4, r⟩ := mload_internal_limbs hq hm hb
  have hz : WF (bswap64 w1, bswap64 w2, bswap64 w3, bswap64 w4) :=
    ⟨bswap64_lt w1, bswap64_lt w2, bswap64_lt w3, bswap64_lt w4⟩
  refine ⟨_, e, hz, ?_⟩
  unfold bigEndian32
  apply offset_cases
  intro k hk
  obtain ⟨a1, a2, a3, a4⟩ := r k hk
  obtain ⟨b1, b2, b3, b4⟩ := limb_byte hz k hk
  have e7 : 7 - (7 - k) = k := by omega
  rw [bswap_byte _ (7 - k) (by omega), e7] at b1 b2 b3 b4
  refine ⟨?_, ?_, ?_, ?_⟩
  · rw [← b1, a1]
  · rw [← b2, a2, Nat.add_assoc]
  · rw [← b3, a3, Nat.add_assoc]
  · rw [← b4, a4, Nat.add_assoc]

theorem to_internal_of_bound {x1 x2 x3 x4 : Nat} (hx : WF (x1, x2, x3, x4))
    (h : val (x1, x2, x3, x4) + 64 < 2 ^ 32) :
    to_internal_i32ptr x1 x2 x3 x4 = some (val (x1, x2, x3, x4) + 64) := by
  have h1 : x1 = 0 ∧ x2 = 0 ∧ x3 = 0 ∧ x4 + 64 < 2 ^ 32 := by
    simp only [val] at h
    omega
  rw [to_internal_i32ptr_eq, if_pos h1]
  obtain ⟨rfl, rfl, rfl, _⟩ := h1
  simp only [val]
  norm_num

/-- A value stored with `mstore_internal` is read back by `mload_internal`. -/
theorem mload_mstore_internal {m m' : Memory} {q y1 y2 y3 y4 : Nat}
    (hq : q + 32 ≤ m.size) (hm : m.size ≤ 2 ^ 32) (hy : WF (y1, y2, y3, y4))
    (h : mstore_internal m q y1 y2 y3 y4 = some m') :
    mload_internal m' q = some (y1, y2, y3, y4) := by
  obtain ⟨m2, e, s, r, _⟩ := mstore_internal_limbs y1 y2 y3 y4 hq hm
  rw [h] at e
  simp only [Option.some.injEq] at e
  subst e
  have hb : ∀ j, j < 32 → m'.bytes (q + j) < 256 := by
    apply offset_cases
    intro k hk
    obtain ⟨a1, a2, a3, a4⟩ := r k hk
    refine ⟨?_, ?_, ?_, ?_⟩
    · rw [a1]
      exact Nat.mod_lt _ (by norm_num)
    · rw [← Nat.add_assoc, a2]
      exact Nat.mod_lt _ (by norm_num)
    · rw [← Nat.add_assoc, a3]
      exact Nat.mod_lt _ (by norm_num)
    · rw [← Nat.add_assoc, a4]
      exact Nat.mod_lt _ (by norm_num)
  obtain ⟨w1, w2, w3, w4, e, l1, l2, l3, l4, t⟩ :=
    @mload_internal_limbs m' q (by omega) (by omega) hb
  have c1 : w1 = bswap64 y1 := eq_of_bytes l1 (bswap64_lt y1)
    (fun k hk => by rw [(t k hk).1, (r k hk).1])
  have c2 : w2 = bswap64 y2 := eq_of_bytes l2 (bswap64_lt y2)
    (fun k hk => by rw [(t k hk).2.1, (r k hk).2.1])
  have c3 : w3 = bswap64 y3 := eq_of_bytes l3 (bswap64_lt y3)
    (fun k hk => by rw [(t k hk).2.2.1, (r k hk).2.2.1])
  have c4 : w4 = bswap64 y4 := eq_of_bytes l4 (bswap64_lt y4)
    (fun k hk => by rw [(t k hk).2.2.2, (r k hk).2.2.2])
  rw [e, c1, c2, c3, c4, bswap64_bswap64 hy.1, bswap64_bswap64 hy.2.1,
    bswap64_bswap64 hy.2.2.1, bswap64_bswap64 hy.2.2.2]

/-! ### Storing a single byte -/

theorem u256_to_byte_eq {y1 y2 y3 y4 : Nat} :
    u256_to_byte y1 y2 y3 y4 =
      if y1 = 0 ∧ y2 = 0 ∧ y3 = 0 ∧ y4 ≤ 255 then some y4 else none := by
  unfold u256_to_byte
  have h1 : i64.ne 0 (i64.or (i64.or y1 y2) y3) ≠ 0 ↔ ¬ (y1 = 0 ∧ y2 = 0 ∧ y3 = 0) := by
    rw [ne_zero_iff]
    unfold i64.or
    rw [Ne, or_eq_zero, or_eq_zero]
    tauto
  have h2 : i64.gt_u y4 255 ≠ 0 ↔ ¬ y4 ≤ 255 := by
    unfold i64.gt_u
    by_cases c : 255 < y4
    · rw [if_pos c]
      simp
      omega
    · rw [if_neg c]
      simp
      omega
  by_cases c1 : y1 = 0 ∧ y2 = 0 ∧ y3 = 0
  · rw [if_neg (fun k => (h1.mp k) c1)]
    by_cases c2 : y4 ≤ 255
    · rw [if_neg (fun k => (h2.mp k) c2), if_pos ⟨c1.1, c1.2.1, c1.2.2, c2⟩]
    · rw [if_pos (h2.mpr c2), if_neg (fun k => c2 k.2.2.2)]
  · rw [if_pos (h1.mpr c1), if_neg (fun k => c1 ⟨k.1, k.2.1, k.2.2.1⟩)]

theorem val_le_255 {y1 y2 y3 y4 : Nat} :
    val (y1, y2, y3, y4) ≤ 255 ↔ y1 = 0 ∧ y2 = 0 ∧ y3 = 0 ∧ y4 ≤ 255 := by
  simp only [val]
  constructor
  · intro h
    omega
  · rintro ⟨rfl, rfl, rfl, h⟩
    omega

theorem store8_spec {m : Memory} {a v : Nat} (h : a + 1 ≤ m.size) :
    ∃ m', i64.store8 m a v = some m' ∧ m'.size = m.size ∧ m'.bytes a = v % 256 ∧
      ∀ b, b ≠ a → m'.bytes b = m.bytes b := by
  unfold i64.store8
  rw [if_pos h]
  refine ⟨_, rfl, rfl, ?_, ?_⟩
  · dsimp only
    rw [if_pos rfl]
  · intro b hb
    dsimp only
    rw [if_neg hb]

/-- A value of at most 255 is stored as one byte at the internal address. -/
theorem mstore8_small {m : Memory} {x1 x2 x3 x4 y1 y2 y3 y4 q : Nat}
    (hp : to_internal_i32ptr x1 x2 x3 x4 = some q) (hq : q + 1 ≤ m.size)
    (hv : val (y1, y2, y3, y4) ≤ 255) :
    ∃ m', mstore8 m x1 x2 x3 x4 y1 y2 y3 y4 = some m' ∧ m'.size = m.size ∧
      m'.bytes q = val (y1, y2, y3, y4) ∧ ∀ b, b ≠ q → m'.bytes b = m.bytes b := by
  have c := val_le_255.mp hv
  unfold mstore8
  rw [u256_to_byte_eq, if_pos c]
  dsimp only
  rw [hp]
  dsimp only
  obtain ⟨m', e, s, r, f⟩ := @store8_spec m q y4 hq
  refine ⟨m', e, s, ?_, f⟩
  obtain ⟨rfl, rfl, rfl, c4⟩ := c
  rw [r]
  simp only [val]
  omega

/-- A value above 255 traps. -/
theorem mstore8_large (m : Memory) {x1 x2 x3 x4 y1 y2 y3 y4 : Nat}
    (hv : 255 < val (y1, y2, y3, y4)) :
    mstore8 m x1 x2 x3 x4 y1 y2 y3 y4 = none := by
  have c : ¬ (y1 = 0 ∧ y2 = 0 ∧ y3 = 0 ∧ y4 ≤ 255) := fun k => by
    have := val_le_255.mpr k
    omega
  unfold mstore8
  rw [u256_to_byte_eq, if_neg c]

/-! ### Shifts at a multiple of 64

`shl_single` and `shr_single` compute the bits that spill into the neighbouring limb with a
shift by `64 - amount`. A 64-bit shift takes its count modulo 64, so for `amount = 0` the
spill is the whole limb instead of nothing. -/

theorem shl_single_zero (a : Nat) : shl_single a 0 = (a, a % 2 ^ 64) := by
  simp [shl_single, i64.shr_u, i64.sub, i64.shl]

theorem shr_single_zero (a : Nat) : shr_single a 0 = (a, a % 2 ^ 64) := by
  simp [shr_single, i64.shr_u, i64.sub, i64.shl]

/-- Claim C11 (shl): evaluated at shift amount `0` and value `1`, `shl` returns the limbs
`(0, 0, 1, 1)`, that is `2^64 + 1`, and not `1 * 2^0 mod 2^256 = 1`. -/
theorem shl_zero_amount :
    shl 0 0 0 0 0 0 0 1 = (0, 0, 1, 1) ∧
      val (shl 0 0 0 0 0 0 0 1) ≠ val (0, 0, 0, 1) * 2 ^ val (0, 0, 0, 0) % 2 ^ 256 := by
  decide

/-- Claim C12 (shr): evaluated at shift amount `0` and value `2^64`, `shr` returns the limbs
`(0, 0, 1, 1)`, that is `2^64 + 1`, and not `2^64 / 2^0 = 2^64`. -/
theorem shr_zero_amount :
    shr 0 0 0 0 0 0 1 0 = (0, 0, 1, 1) ∧
      val (shr 0 0 0 0 0 0 1 0) ≠ val (0, 0, 1, 0) / 2 ^ val (0, 0, 0, 0) := by
  decide

/-- Claim C13 (sar): evaluated at shift amount `0` and the non-negative value `2^64`, `sar`
returns the limbs `(0, 0, 1, 1)` and not the value `(0, 0, 1, 0)` itself. -/
theorem sar_zero_amount :
    sar 0 0 0 0 0 0 1 0 = (0, 0, 1, 1) ∧ sar 0 0 0 0 0 0 1 0 ≠ (0, 0, 1, 0) := by
  decide

/-- Claim C14 (signextend): evaluated at `b = 31` and `v = 1`, `signextend` returns the
limbs `(0, 0, 1, 1)` and not `v` unchanged; the same happens at `b = 15` and `b = 23`, where
the extension of `v = 1` from a clear sign bit should also be `1`. -/
theorem signextend_full_width :
    signextend 0 0 0 31 0 0 0 1 = (0, 0, 1, 1) ∧ signextend 0 0 0 31 0 0 0 1 ≠ (0, 0, 0, 1) ∧
      signextend 0 0 0 15 0 0 0 1 = (0, 0, 1, 1) ∧ signextend 0 0 0 23 0 0 0 1 = (0, 0, 1, 1) := by
  decide

/-! ### Byte extraction and comparisons -/

/-- Claim C15: for every 256-bit index `i` and value `v`, `byte i v` is `(0, 0, 0, b)` where
`b = v / 2^(8*(31-i)) mod 256` when `i < 32` and `b = 0` when `i >= 32`. -/
theorem byte_correct (x1 x2 x3 x4 y1 y2 y3 y4 : Nat)
    (hx : WF (x1, x2, x3, x4)) (hy : WF (y1, y2, y3, y4)) :
    byte x1 x2 x3 x4 y1 y2 y3 y4 =
      (0, 0, 0, if val (x1, x2, x3, x4) < 32 then
        val (y1, y2, y3, y4) / 2 ^ (8 * (31 - val (x1, x2, x3, x4))) % 256 else 0) :=
  byte_spec hx hy

/-- Witness for C15 at index `9`, the second byte of the second limb. -/
theorem byte_correct_witness :
    WF (0, 0, 0, 9) ∧ WF (1, 0x1122334455667788, 3, 4) ∧
      byte 0 0 0 9 1 0x1122334455667788 3 4 =
        (0, 0, 0, if val (0, 0, 0, 9) < 32 then
          val (1, 0x1122334455667788, 3, 4) / 2 ^ (8 * (31 - val (0, 0, 0, 9))) % 256 else 0) :=
  ⟨by simp [WF], by simp [WF],
    byte_correct 0 0 0 9 1 0x1122334455667788 3 4 (by simp [WF]) (by simp [WF])⟩

/-- Claim C16: for all 256-bit `x` and `y`, `lt x y` is `(0, 0, 0, 1)` if `x < y` as unsigned
integers and `(0, 0, 0, 0)` otherwise, `gt x y` equals `lt y x`, and `gte_256x256_64 x y` is
`1` exactly when `lt_256x256_64 x y` is `0`. -/
theorem lt_gt_gte_correct (x1 x2 x3 x4 y1 y2 y3 y4 : Nat)
    (hx : WF (x1, x2, x3, x4)) (hy : WF (y1, y2, y3, y4)) :
    lt x1 x2 x3 x4 y1 y2 y3 y4 =
        (if val (x1, x2, x3, x4) < val (y1, y2, y3, y4) then (0, 0, 0, 1) else (0, 0, 0, 0)) ∧
      gt x1 x2 x3 x4 y1 y2 y3 y4 = lt y1 y2 y3 y4 x1 x2 x3 x4 ∧
      (gte_256x256_64 x1 x2 x3 x4 y1 y2 y3 y4 = 1 ↔
        lt_256x256_64 x1 x2 x3 x4 y1 y2 y3 y4 = 0) :=
  ⟨lt_spec hx hy, rfl, gte_eq_one_iff x1 x2 x3 x4 y1 y2 y3 y4⟩

/-- Witness for C16 at `x = 2^64 - 1`, `y = 2^64`, which differ in two limbs. -/
theorem lt_gt_gte_correct_witness :
    WF (0, 0, 0, 2 ^ 64 - 1) ∧ WF (0, 0, 1, 0) ∧
      lt 0 0 0 (2 ^ 64 - 1) 0 0 1 0 =
        (if val (0, 0, 0, 2 ^ 64 - 1) < val (0, 0, 1, 0) then (0, 0, 0, 1) else (0, 0, 0, 0)) ∧
      gt 0 0 0 (2 ^ 64 - 1) 0 0 1 0 = lt 0 0 1 0 0 0 0 (2 ^ 64 - 1) ∧
      (gte_256x256_64 0 0 0 (2 ^ 64 - 1) 0 0 1 0 = 1 ↔
        lt_256x256_64 0 0 0 (2 ^ 64 - 1) 0 0 1 0 = 0) :=
  ⟨by simp [WF], by simp [WF],
    lt_gt_gte_correct 0 0 0 (2 ^ 64 - 1) 0 0 1 0 (by simp [WF]) (by simp [WF])⟩

/-- Claim C17: reading 256-bit words as two's-complement integers, `slt x y` is
`(0, 0, 0, 1)` if `x < y` and `(0, 0, 0, 0)` otherwise, and `sgt x y` equals `slt y x`. -/
theorem slt_sgt_correct (x1 x2 x3 x4 y1 y2 y3 y4 : Nat)
    (hx : WF (x1, x2, x3, x4)) (hy : WF (y1, y2, y3, y4)) :
    slt x1 x2 x3 x4 y1 y2 y3 y4 =
        (if sval (x1, x2, x3, x4) < sval (y1, y2, y3, y4) then (0, 0, 0, 1)
          else (0, 0, 0, 0)) ∧
      sgt x1 x2 x3 x4 y1 y2 y3 y4 = slt y1 y2 y3 y4 x1 x2 x3 x4 :=
  ⟨slt_spec hx hy, rfl⟩

/-- Witness for C17 at `x = -1`, `y = 1`. -/
theorem slt_sgt_correct_witness :
    WF (2 ^ 64 - 1, 2 ^ 64 - 1, 2 ^ 64 - 1, 2 ^ 64 - 1) ∧ WF (0, 0, 0, 1) ∧
      slt (2 ^ 64 - 1) (2 ^ 64 - 1) (2 ^ 64 - 1) (2 ^ 64 - 1) 0 0 0 1 =
        (if sval (2 ^ 64 - 1, 2 ^ 64 - 1, 2 ^ 64 - 1, 2 ^ 64 - 1) < sval (0, 0, 0, 1)
          then (0, 0, 0, 1) else (0, 0, 0, 0)) ∧
      sgt (2 ^ 64 - 1) (2 ^ 64 - 1) (2 ^ 64 - 1) (2 ^ 64 - 1) 0 0 0 1 =
        slt 0 0 0 1 (2 ^ 64 - 1) (2 ^ 64 - 1) (2 ^ 64 - 1) (2 ^ 64 - 1) :=
  ⟨by simp [WF], by simp [WF],
    slt_sgt_correct (2 ^ 64 - 1) (2 ^ 64 - 1) (2 ^ 64 - 1) (2 ^ 64 - 1) 0 0 0 1
      (by simp [WF]) (by simp [WF])⟩

/-- Claim C18: for all limbs, `eq x y` is `(0, 0, 0, 1)` if all four limbs of `x` equal those
of `y` and `(0, 0, 0, 0)` otherwise; `iszero x` is the same as `eq x 0`, it is `(0, 0, 0, 1)`
exactly when all limbs of `x` are zero, and `iszero 0` is `(0, 0, 0, 1)`. -/
theorem eq_iszero_correct (x1 x2 x3 x4 y1 y2 y3 y4 : Nat) :
    eq x1 x2 x3 x4 y1 y2 y3 y4 =
        (if x1 = y1 ∧ x2 = y2 ∧ x3 = y3 ∧ x4 = y4 then (0, 0, 0, 1) else (0, 0, 0, 0)) ∧
      iszero x1 x2 x3 x4 = eq x1 x2 x3 x4 0 0 0 0 ∧
      (iszero x1 x2 x3 x4 = (0, 0, 0, 1) ↔ x1 = 0 ∧ x2 = 0 ∧ x3 = 0 ∧ x4 = 0) ∧
      iszero 0 0 0 0 = (0, 0, 0, 1) := by
  refine ⟨eq_spec x1 x2 x3 x4 y1 y2 y3 y4, ?_, ?_, ?_⟩
  · rw [iszero_spec, eq_spec]
  · rw [iszero_spec]
    by_cases h : x1 = 0 ∧ x2 = 0 ∧ x3 = 0 ∧ x4 = 0
    · rw [if_pos h]
      exact ⟨fun _ => h, fun _ => rfl⟩
    · rw [if_neg h]
      exact ⟨fun k => absurd k (by decide), fun k => absurd k h⟩
  · rw [iszero_spec, if_pos ⟨rfl, rfl, rfl, rfl⟩]

/-! ### Memory -/

/-- Claim C19: for a pointer `p` accepted by `to_internal_i32ptr` (internal address `q`) with
`p + 96` inside linear memory and a 256-bit value `v`, the internal address is `p + 64`;
`mstore p v` succeeds, keeps the memory size, makes the 32 bytes at `[p+64, p+96)` the
big-endian encoding of `v`, changes no other byte, and `mload p` on the result returns `v`;
`mload p` on any well-formed memory returns the word whose big-endian encoding is the 32 bytes
at `[p+64, p+96)`. -/
theorem mstore_mload_correct (m : Memory) (x1 x2 x3 x4 v1 v2 v3 v4 q : Nat)
    (hm : WFMem m) (hp : to_internal_i32ptr x1 x2 x3 x4 = some q)
    (hq : val (x1, x2, x3, x4) + 96 ≤ m.size) (hv : WF (v1, v2, v3, v4)) :
    q = val (x1, x2, x3, x4) + 64 ∧
      (∃ m', mstore m x1 x2 x3 x4 v1 v2 v3 v4 = some m' ∧ m'.size = m.size ∧
        bigEndian32 m'.bytes q (val (v1, v2, v3, v4)) ∧
        (∀ a, a < q ∨ q + 32 ≤ a → m'.bytes a = m.bytes a) ∧
        mload m' x1 x2 x3 x4 = some (v1, v2, v3, v4)) ∧
      (∃ z, mload m x1 x2 x3 x4 = some z ∧ WF z ∧ bigEndian32 m.bytes q (val z)) := by
  obtain ⟨hq0, _⟩ := to_internal_some hp
  have hq2 : q + 32 ≤ m.size := by omega
  refine ⟨hq0, ?_, ?_⟩
  · obtain ⟨m', e, s, r, f⟩ := @mstore_internal_spec m q v1 v2 v3 v4 hq2 hm.1 hv
    refine ⟨m', ?_, s, r, f, ?_⟩
    · unfold mstore
      rw [hp]
      exact e
    · unfold mload
      rw [hp]
      exact mload_mstore_internal hq2 hm.1 hv e
  · obtain ⟨z, e, w, r⟩ := @mload_internal_spec m q hq2 hm.1 (fun j _ => hm.2 (q + j))
    refine ⟨z, ?_, w, r⟩
    unfold mload
    rw [hp]
    exact e

/-- Witness for C19 at pointer `3` in a zeroed memory of 200 bytes. -/
theorem mstore_mload_correct_witness :
    WFMem (Memory.mk 200 (fun _ => 0)) ∧ to_internal_i32ptr 0 0 0 3 = some 67 ∧
      val (0, 0, 0, 3) + 96 ≤ (Memory.mk 200 (fun _ => 0)).size ∧ WF (1, 2, 3, 4) ∧
      67 = val (0, 0, 0, 3) + 64 ∧
      (∃ m', mstore (Memory.mk 200 (fun _ => 0)) 0 0 0 3 1 2 3 4 = some m' ∧
        m'.size = (Memory.mk 200 (fun _ => 0)).size ∧
        bigEndian32 m'.bytes 67 (val (1, 2, 3, 4)) ∧
        (∀ a, a < 67 ∨ 67 + 32 ≤ a → m'.bytes a = (Memory.mk 200 (fun _ => 0)).bytes a) ∧
        mload m' 0 0 0 3 = some (1, 2, 3, 4)) ∧
      (∃ z, mload (Memory.mk 200 (fun _ => 0)) 0 0 0 3 = some z ∧ WF z ∧
        bigEndian32 (Memory.mk 200 (fun _ => 0)).bytes 67 (val z)) :=
  ⟨⟨by norm_num, fun _ => by norm_num⟩, by decide, by decide, by simp [WF],
    mstore_mload_correct (Memory.mk 200 (fun _ => 0)) 0 0 0 3 1 2 3 4 67
      ⟨by norm_num, fun _ => by norm_num⟩ (by decide) (by decide) (by simp [WF])⟩

/-- Counterexample to C20 as stated: pointer `3` is accepted and inside a memory of 200
bytes, yet `mstore8` of the value `256` traps instead of storing the byte `0`. -/
theorem mstore8_traps_on_256 :
    to_internal_i32ptr 0 0 0 3 = some 67 ∧ 67 < (Memory.mk 200 (fun _ => 0)).size ∧
      mstore8 (Memory.mk 200 (fun _ => 0)) 0 0 0 3 0 0 0 256 = none :=
  ⟨by decide, by decide, rfl⟩

/-- Claim C20, amended: for a pointer `p` accepted by `to_internal_i32ptr` whose internal
address `p + 64` lies inside linear memory, `mstore8 p v` with `v <= 255` does not trap,
keeps the memory size, stores the byte `v` at `p + 64` and changes no other byte; with
`v > 255` it traps. -/
theorem mstore8_correct (m : Memory) (x1 x2 x3 x4 v1 v2 v3 v4 q : Nat)
    (hp : to_internal_i32ptr x1 x2 x3 x4 = some q)
    (hq : val (x1, x2, x3, x4) + 64 < m.size) :
    q = val (x1, x2, x3, x4) + 64 ∧
      (val (v1, v2, v3, v4) ≤ 255 →
        ∃ m', mstore8 m x1 x2 x3 x4 v1 v2 v3 v4 = some m' ∧ m'.size = m.size ∧
          m'.bytes q = val (v1, v2, v3, v4) ∧ ∀ a, a ≠ q → m'.bytes a = m.bytes a) ∧
      (255 < val (v1, v2, v3, v4) → mstore8 m x1 x2 x3 x4 v1 v2 v3 v4 = none) := by
  obtain ⟨hq0, _⟩ := to_internal_some hp
  exact ⟨hq0, fun h => mstore8_small hp (by omega) h, fun h => mstore8_large m h⟩

/-- Witness for the amended C20 at pointer `3` in a zeroed memory of 200 bytes. -/
theorem mstore8_correct_witness :
    to_internal_i32ptr 0 0 0 3 = some 67 ∧
      val (0, 0, 0, 3) + 64 < (Memory.mk 200 (fun _ => 0)).size ∧
      67 = val (0, 0, 0, 3) + 64 ∧
      (val (0, 0, 0, 255) ≤ 255 →
        ∃ m', mstore8 (Memory.mk 200 (fun _ => 0)) 0 0 0 3 0 0 0 255 = some m' ∧
          m'.size = (Memory.mk 200 (fun _ => 0)).size ∧
          m'.bytes 67 = val (0, 0, 0, 255) ∧
          ∀ a, a ≠ 67 → m'.bytes a = (Memory.mk 200 (fun _ => 0)).bytes a) ∧
      (255 < val (0, 0, 0, 255) →
        mstore8 (Memory.mk 200 (fun _ => 0)) 0 0 0 3 0 0 0 255 = none) :=
  ⟨by decide, by decide,
    mstore8_correct (Memory.mk 200 (fun _ => 0)) 0 0 0 3 0 0 0 255 67 (by decide) (by decide)⟩

/-! ### Narrowing conversions -/

theorem or3_ne_zero (x1 x2 x3 : Nat) :
    i64.ne 0 (i64.or (i64.or x1 x2) x3) ≠ 0 ↔ ¬ (x1 = 0 ∧ x2 = 0 ∧ x3 = 0) := by
  rw [ne_zero_iff]
  unfold i64.or
  rw [Ne, or_eq_zero, or_eq_zero]
  tauto

theorem or2_ne_zero (x1 x2 : Nat) :
    i64.ne 0 (i64.or x1 x2) ≠ 0 ↔ ¬ (x1 = 0 ∧ x2 = 0) := by
  rw [ne_zero_iff]
  unfold i64.or
  rw [Ne, or_eq_zero]

theorem shr32_ne_zero (a : Nat) : i64.ne 0 (i64.shr_u a 32) ≠ 0 ↔ ¬ a < 2 ^ 32 := by
  rw [ne_zero_iff]
  unfold i64.shr_u
  norm_num
  omega

theorem val_lt_32 {x1 x2 x3 x4 : Nat} :
    val (x1, x2, x3, x4) < 2 ^ 32 ↔ x1 = 0 ∧ x2 = 0 ∧ x3 = 0 ∧ x4 < 2 ^ 32 := by
  simp only [val]
  constructor
  · intro h
    omega
  · rintro ⟨rfl, rfl, rfl, h⟩
    omega

theorem val_lt_64 {x1 x2 x3 x4 : Nat} :
    val (x1, x2, x3, x4) < 2 ^ 64 ↔ x1 = 0 ∧ x2 = 0 ∧ x3 = 0 ∧ x4 < 2 ^ 64 := by
  simp only [val]
  constructor
  · intro h
    omega
  · rintro ⟨rfl, rfl, rfl, h⟩
    omega

theorem val_lt_128 {x1 x2 x3 x4 : Nat} (hx : WF (x1, x2, x3, x4)) :
    val (x1, x2, x3, x4) < 2 ^ 128 ↔ x1 = 0 ∧ x2 = 0 := by
  obtain ⟨_, _, h3, h4⟩ := hx
  simp only [val]
  dsimp only at h3 h4
  constructor
  · intro h
    omega
  · rintro ⟨rfl, rfl⟩
    omega

theorem val_lt_160 {x1 x2 x3 x4 : Nat} (hx : WF (x1, x2, x3, x4)) :
    val (x1, x2, x3, x4) < 2 ^ 160 ↔ x1 = 0 ∧ x2 < 2 ^ 32 := by
  obtain ⟨_, _, h3, h4⟩ := hx
  simp only [val]
  dsimp only at h3 h4
  constructor
  · intro h
    omega
  · rintro ⟨rfl, h⟩
    omega

theorem u256_to_i32_val (x1 x2 x3 x4 : Nat) :
    u256_to_i32 x1 x2 x3 x4 =
      if 2 ^ 32 ≤ val (x1, x2, x3, x4) then none else some (val (x1, x2, x3, x4)) := by
  rw [u256_to_i32_eq]
  by_cases c : x1 = 0 ∧ x2 = 0 ∧ x3 = 0 ∧ x4 < 2 ^ 32
  · rw [if_pos c, if_neg (Nat.not_le.mpr (val_lt_32.mpr c))]
    obtain ⟨rfl, rfl, rfl, _⟩ := c
    simp [val]
  · rw [if_neg c, if_pos (Nat.not_lt.mp (fun k => c (val_lt_32.mp k)))]

theorem u256_to_byte_val (x1 x2 x3 x4 : Nat) :
    u256_to_byte x1 x2 x3 x4 =
      if 2 ^ 8 ≤ val (x1, x2, x3, x4) then none else some (val (x1, x2, x3, x4)) := by
  rw [u256_to_byte_eq]
  by_cases c : x1 = 0 ∧ x2 = 0 ∧ x3 = 0 ∧ x4 ≤ 255
  · have h := val_le_255.mpr c
    rw [if_pos c, if_neg (by omega)]
    obtain ⟨rfl, rfl, rfl, _⟩ := c
    simp [val]
  · have h : ¬ val (x1, x2, x3, x4) ≤ 255 := fun k => c (val_le_255.mp k)
    rw [if_neg c, if_pos (by omega)]

theorem u256_to_i64_val (x1 x2 x3 x4 : Nat) (hx : WF (x1, x2, x3, x4)) :
    u256_to_i64 x1 x2 x3 x4 =
      if 2 ^ 64 ≤ val (x1, x2, x3, x4) then none else some (val (x1, x2, x3, x4)) := by
  unfold u256_to_i64
  by_cases c : x1 = 0 ∧ x2 = 0 ∧ x3 = 0
  · rw [if_neg (fun k => ((or3_ne_zero x1 x2 x3).mp k) c),
      if_neg (Nat.not_le.mpr (val_lt_64.mpr ⟨c.1, c.2.1, c.2.2, hx.2.2.2⟩))]
    obtain ⟨rfl, rfl, rfl⟩ := c
    simp [val]
  · rw [if_pos ((or3_ne_zero x1 x2 x3).mpr c),
      if_pos (Nat.not_lt.mp (fun k => c ⟨(val_lt_64.mp k).1, (val_lt_64.mp k).2.1,
        (val_lt_64.mp k).2.2.1⟩))]

theorem u256_to_u128_val (x1 x2 x3 x4 : Nat) (hx : WF (x1, x2, x3, x4)) :
    u256_to_u128 x1 x2 x3 x4 =
      if 2 ^ 128 ≤ val (x1, x2, x3, x4) then none else some (x3, x4) := by
  unfold u256_to_u128
  by_cases c : x1 = 0 ∧ x2 = 0
  · rw [if_neg (fun k => ((or2_ne_zero x1 x2).mp k) c),
      if_neg (Nat.not_le.mpr ((val_lt_128 hx).mpr c))]
  · rw [if_pos ((or2_ne_zero x1 x2).mpr c),
      if_pos (Nat.not_lt.mp (fun k => c ((val_lt_128 hx).mp k)))]

theorem u256_to_address_val (x1 x2 x3 x4 : Nat) (hx : WF (x1, x2, x3, x4)) :
    u256_to_address x1 x2 x3 x4 =
      if 2 ^ 160 ≤ val (x1, x2, x3, x4) then none else some (x2, x3, x4) := by
  unfold u256_to_address
  by_cases c1 : x1 = 0
  · rw [if_neg (fun k => ((ne_zero_iff x1).mp k) c1)]
    by_cases c2 : x2 < 2 ^ 32
    · rw [if_neg (fun k => ((shr32_ne_zero x2).mp k) c2),
        if_neg (Nat.not_le.mpr ((val_lt_160 hx).mpr ⟨c1, c2⟩))]
    · rw [if_pos ((shr32_ne_zero x2).mpr c2),
        if_pos (Nat.not_lt.mp (fun k => c2 ((val_lt_160 hx).mp k).2))]
  · rw [if_pos ((ne_zero_iff x1).mpr c1),
      if_pos (Nat.not_lt.mp (fun k => c1 ((val_lt_160 hx).mp k).1))]

theorem to_internal_i32ptr_val (x1 x2 x3 x4 : Nat) :
    to_internal_i32ptr x1 x2 x3 x4 =
      if 2 ^ 32 ≤ val (x1, x2, x3, x4) ∨ 2 ^ 32 ≤ val (x1, x2, x3, x4) + 64 then none
      else some (val (x1, x2, x3, x4) + 64) := by
  rw [to_internal_i32ptr_eq]
  by_cases c : x1 = 0 ∧ x2 = 0 ∧ x3 = 0 ∧ x4 + 64 < 2 ^ 32
  · have h : val (x1, x2, x3, x4) = x4 := by
      obtain ⟨rfl, rfl, rfl, _⟩ := c
      simp [val]
    rw [if_pos c, h, if_neg (by omega)]
  · have h : ¬ val (x1, x2, x3, x4) + 64 < 2 ^ 32 := fun k =>
      c (by
        have k2 := val_lt_32.mp (show val (x1, x2, x3, x4) < 2 ^ 32 by omega)
        obtain ⟨rfl, rfl, rfl, _⟩ := k2
        simp only [val] at k
        exact ⟨rfl, rfl, rfl, by omega⟩)
    rw [if_neg c, if_pos (by omega)]

/-! ### Byte swaps -/

theorem bytes_of_sum4 {b0 b1 b2 b3 : Nat} (h0 : b0 < 256) (h1 : b1 < 256) (h2 : b2 < 256)
    (h3 : b3 < 256) :
    ∀ k, k < 4 → (b0 + b1 * 2 ^ 8 + b2 * 2 ^ 16 + b3 * 2 ^ 24) / 2 ^ (8 * k) % 256 =
      if k = 0 then b0 else if k = 1 then b1 else if k = 2 then b2 else b3 := by
  intro k hk
  interval_cases k <;> norm_num <;> omega

theorem bswap32_byte (y : Nat) :
    ∀ k, k < 4 → bswap32 y / 2 ^ (8 * k) % 256 = y / 2 ^ (8 * (3 - k)) % 256 := by
  intro k hk
  rw [bswap32_formula]
  have h0 : y % 256 < 256 := Nat.mod_lt _ (by norm_num)
  have h1 : y / 2 ^ 8 % 256 < 256 := Nat.mod_lt _ (by norm_num)
  have h2 : y / 2 ^ 16 % 256 < 256 := Nat.mod_lt _ (by norm_num)
  have h3 : y / 2 ^ 24 % 256 < 256 := Nat.mod_lt _ (by norm_num)
  have key := bytes_of_sum4 h3 h2 h1 h0 k hk
  have e : y % 256 * 2 ^ 24 + y / 2 ^ 8 % 256 * 2 ^ 16 + y / 2 ^ 16 % 256 * 2 ^ 8 +
      y / 2 ^ 24 % 256 =
      y / 2 ^ 24 % 256 + y / 2 ^ 16 % 256 * 2 ^ 8 + y / 2 ^ 8 % 256 * 2 ^ 16 +
      y % 256 * 2 ^ 24 := by ring
  rw [e, key]
  interval_cases k <;> norm_num

theorem bswap32_bswap32 {y : Nat} (hy : y < 2 ^ 32) : bswap32 (bswap32 y) = y := by
  have hb := bswap32_byte y
  have e0 := hb 0 (by norm_num)
  have e1 := hb 1 (by norm_num)
  have e2 := hb 2 (by norm_num)
  have e3 := hb 3 (by norm_num)
  norm_num at e0 e1 e2 e3
  rw [bswap32_formula (bswap32 y)]
  norm_num
  rw [e0, e1, e2, e3]
  omega

/-- Claim C30: for every 64-bit `x`, byte `k` of `bswap64 x` is byte `7 - k` of `x` and the
result is a 64-bit value; for every 32-bit `y`, byte `k` of `bswap32 y` is byte `3 - k` of `y`
and the result is a 32-bit value; both are involutions; for every argument `z`, `bswap16 z` has
the two low bytes of `z` exchanged and nothing above bit 15. -/
theorem bswap_correct (x y z : Nat) (hx : x < 2 ^ 64) (hy : y < 2 ^ 32) :
    (∀ k, k < 8 → bswap64 x / 2 ^ (8 * k) % 256 = x / 2 ^ (8 * (7 - k)) % 256) ∧
      bswap64 x < 2 ^ 64 ∧
      (∀ k, k < 4 → bswap32 y / 2 ^ (8 * k) % 256 = y / 2 ^ (8 * (3 - k)) % 256) ∧
      bswap32 y < 2 ^ 32 ∧
      bswap64 (bswap64 x) = x ∧ bswap32 (bswap32 y) = y ∧
      bswap16 z = z % 256 * 256 + z / 256 % 256 ∧ bswap16 z < 2 ^ 16 :=
  ⟨bswap_byte x, bswap64_lt x, bswap32_byte y, bswap32_lt y, bswap64_bswap64 hx,
    bswap32_bswap32 hy, bswap16_eq z, bswap16_lt z⟩

/-- Witness for C30 at `x = 0x0102030405060708`, `y = 0x01020304`, `z = 0xaabbccdd`. -/
theorem bswap_correct_witness :
    0x0102030405060708 < 2 ^ 64 ∧ 0x01020304 < 2 ^ 32 ∧
      (∀ k, k < 8 → bswap64 0x0102030405060708 / 2 ^ (8 * k) % 256 =
        0x0102030405060708 / 2 ^ (8 * (7 - k)) % 256) ∧
      bswap64 0x0102030405060708 < 2 ^ 64 ∧
      (∀ k, k < 4 → bswap32 0x01020304 / 2 ^ (8 * k) % 256 =
        0x01020304 / 2 ^ (8 * (3 - k)) % 256) ∧
      bswap32 0x01020304 < 2 ^ 32 ∧
      bswap64 (bswap64 0x0102030405060708) = 0x0102030405060708 ∧
      bswap32 (bswap32 0x01020304) = 0x01020304 ∧
      bswap16 0xaabbccdd = 0xaabbccdd % 256 * 256 + 0xaabbccdd / 256 % 256 ∧
      bswap16 0xaabbccdd < 2 ^ 16 :=
  ⟨by norm_num, by norm_num,
    bswap_correct 0x0102030405060708 0x01020304 0xaabbccdd (by norm_num) (by norm_num)⟩

/-- Claim C21: for every 256-bit `p`, `to_internal_i32ptr p` traps exactly when `p >= 2^32`
or `p + 64 >= 2^32`, and otherwise returns `p + 64`. -/
theorem to_internal_i32ptr_correct (x1 x2 x3 x4 : Nat) :
    (to_internal_i32ptr x1 x2 x3 x4 = none ↔
        2 ^ 32 ≤ val (x1, x2, x3, x4) ∨ 2 ^ 32 ≤ val (x1, x2, x3, x4) + 64) ∧
      (¬ (2 ^ 32 ≤ val (x1, x2, x3, x4) ∨ 2 ^ 32 ≤ val (x1, x2, x3, x4) + 64) →
        to_internal_i32ptr x1 x2 x3 x4 = some (val (x1, x2, x3, x4) + 64) ∧
          val (x1, x2, x3, x4) + 64 < 2 ^ 32) := by
  rw [to_internal_i32ptr_val]
  by_cases c : 2 ^ 32 ≤ val (x1, x2, x3, x4) ∨ 2 ^ 32 ≤ val (x1, x2, x3, x4) + 64
  · rw [if_pos c]
    exact ⟨⟨fun _ => c, fun _ => rfl⟩, fun k => absurd c k⟩
  · rw [if_neg c]
    exact ⟨⟨fun k => absurd k (by simp), fun k => absurd k c⟩, fun _ => ⟨rfl, by omega⟩⟩

/-- Claim C23: for every 256-bit `x`, each narrowing conversion traps exactly when `x` does
not fit the target width (`2^128` for `u256_to_u128`, `2^64` for `u256_to_i64`, `2^32` for
`u256_to_i32` and `u256_to_i32ptr`, `2^8` for `u256_to_byte`, `2^160` for `u256_to_address`)
and otherwise returns the value of `x` in the limbs of the target. -/
theorem conversions_correct (x1 x2 x3 x4 : Nat) (hx : WF (x1, x2, x3, x4)) :
    (u256_to_u128 x1 x2 x3 x4 =
        if 2 ^ 128 ≤ val (x1, x2, x3, x4) then none else some (x3, x4)) ∧
      (val (x1, x2, x3, x4) < 2 ^ 128 → x3 * 2 ^ 64 + x4 = val (x1, x2, x3, x4)) ∧
      (u256_to_i64 x1 x2 x3 x4 =
        if 2 ^ 64 ≤ val (x1, x2, x3, x4) then none else some (val (x1, x2, x3, x4))) ∧
      (u256_to_i32 x1 x2 x3 x4 =
        if 2 ^ 32 ≤ val (x1, x2, x3, x4) then none else some (val (x1, x2, x3, x4))) ∧
      (u256_to_i32ptr x1 x2 x3 x4 =
        if 2 ^ 32 ≤ val (x1, x2, x3, x4) then none else some (val (x1, x2, x3, x4))) ∧
      (u256_to_byte x1 x2 x3 x4 =
        if 2 ^ 8 ≤ val (x1, x2, x3, x4) then none else some (val (x1, x2, x3, x4))) ∧
      (u256_to_address x1 x2 x3 x4 =
        if 2 ^ 160 ≤ val (x1, x2, x3, x4) then none else some (x2, x3, x4)) ∧
      (val (x1, x2, x3, x4) < 2 ^ 160 →
        x2 * 2 ^ 128 + x3 * 2 ^ 64 + x4 = val (x1, x2, x3, x4)) := by
  refine ⟨u256_to_u128_val x1 x2 x3 x4 hx, ?_, u256_to_i64_val x1 x2 x3 x4 hx,
    u256_to_i32_val x1 x2 x3 x4, u256_to_i32_val x1 x2 x3 x4, u256_to_byte_val x1 x2 x3 x4,
    u256_to_address_val x1 x2 x3 x4 hx, ?_⟩
  · intro h
    obtain ⟨rfl, rfl⟩ := (val_lt_128 hx).mp h
    simp [val]
  · intro h
    obtain ⟨rfl, _⟩ := (val_lt_160 hx).mp h
    simp [val]

/-- Witness for C23 at `x = 2^128 + 5`, which fits an address but not 128 bits. -/
theorem conversions_correct_witness :
    WF (0, 1, 0, 5) ∧
      (u256_to_u128 0 1 0 5 = if 2 ^ 128 ≤ val (0, 1, 0, 5) then none else some (0, 5)) ∧
      (val (0, 1, 0, 5) < 2 ^ 128 → 0 * 2 ^ 64 + 5 = val (0, 1, 0, 5)) ∧
      (u256_to_i64 0 1 0 5 =
        if 2 ^ 64 ≤ val (0, 1, 0, 5) then none else some (val (0, 1, 0, 5))) ∧
      (u256_to_i32 0 1 0 5 =
        if 2 ^ 32 ≤ val (0, 1, 0, 5) then none else some (val (0, 1, 0, 5))) ∧
      (u256_to_i32ptr 0 1 0 5 =
        if 2 ^ 32 ≤ val (0, 1, 0, 5) then none else some (val (0, 1, 0, 5))) ∧
      (u256_to_byte 0 1 0 5 =
        if 2 ^ 8 ≤ val (0, 1, 0, 5) then none else some (val (0, 1, 0, 5))) ∧
      (u256_to_address 0 1 0 5 =
        if 2 ^ 160 ≤ val (0, 1, 0, 5) then none else some (1, 0, 5)) ∧
      (val (0, 1, 0, 5) < 2 ^ 160 → 1 * 2 ^ 128 + 0 * 2 ^ 64 + 5 = val (0, 1, 0, 5)) :=
  ⟨by simp [WF], conversions_correct 0 1 0 5 (by simp [WF])⟩

/-! ### The translator entry point -/

section

variable {Stmt Info Disp Err : Type}

theorem prepared_some (c : Collaborators Stmt Info Disp Err) (t : Translator Stmt) :
    ∃ p, (prepared c t).m_polyfill = some p := by
  unfold prepared
  cases h : t.m_polyfill with
  | none => exact ⟨c.parsePolyfillText.1, by simp⟩
  | some p => exact ⟨p, by simp [h]⟩

theorem prepared_of_some (c : Collaborators Stmt Info Disp Err) {t : Translator Stmt}
    {p : List Stmt} (h : t.m_polyfill = some p) : prepared c t = t := by
  unfold prepared
  simp [h]

theorem prepared_prepared (c : Collaborators Stmt Info Disp Err) (t : Translator Stmt) :
    prepared c (prepared c t) = prepared c t := by
  obtain ⟨p, h⟩ := prepared_some c t
  exact prepared_of_some c h

/-- The polyfill check at the start of `run`: it fails exactly when the polyfill is missing
and the parser reports an error. -/
theorem check_eq (c : Collaborators Stmt Info Disp Err) (t : Translator Stmt) :
    (if t.m_polyfill.isNone then parsePolyfill c t else Except.ok t) =
      if t.m_polyfill.isNone = true ∧ c.parsePolyfillText.2.isEmpty = false then
        Except.error (c.parsePolyfillText.2.foldl
          (fun message err => message ++ c.formatErrorInformation err) "")
      else Except.ok (prepared c t) := by
  unfold prepared parsePolyfill
  cases h : t.m_polyfill with
  | none =>
    cases h2 : c.parsePolyfillText.2 with
    | nil => simp [h2]
    | cons a l => simp [h2]
  | some p => simp

/-- Unfolding of `run` on a translator whose polyfill is present. -/
theorem run_of_some (c : Collaborators Stmt Info Disp Err) {t : Translator Stmt}
    {p : List Stmt} (h : t.m_polyfill = some p) (o : Object Stmt Info) :
    run c t o =
      if (c.analyze (splicedBlock c t o) (c.qualifiedDataNames o)).2.2 = true then
        match runSubObjects c t o.subObjects with
        | Except.error e => Except.error e
        | Except.ok (t', subs) =>
          Except.ok (t', Object.mk o.name (splicedBlock c t o)
            (c.analyze (splicedBlock c t o) (c.qualifiedDataNames o)).1 subs o.subIndexByName)
      else Except.error (rejectionMessage c t o) := by
  cases o with
  | mk name code info subs idx =>
    have e : (if t.m_polyfill.isNone then parsePolyfill c t else Except.ok t) = Except.ok t := by
      simp [h]
    unfold run
    rw [e]
    rfl

theorem run_prepared (c : Collaborators Stmt Info Disp Err) (t : Translator Stmt)
    (h : ¬ (t.m_polyfill.isNone = true ∧ c.parsePolyfillText.2.isEmpty = false))
    (o : Object Stmt Info) : run c t o = run c (prepared c t) o := by
  have e1 := check_eq c t
  rw [if_neg h] at e1
  have e2 : (if (prepared c t).m_polyfill.isNone then parsePolyfill c (prepared c t)
      else Except.ok (prepared c t)) = Except.ok (prepared c t) := by
    obtain ⟨p, hp⟩ := prepared_some c t
    simp [hp]
  cases o with
  | mk name code info subs idx =>
    unfold run
    rw [e1, e2]

theorem run_parse_error (c : Collaborators Stmt Info Disp Err) (t : Translator Stmt)
    (h : t.m_polyfill.isNone = true ∧ c.parsePolyfillText.2.isEmpty = false)
    (o : Object Stmt Info) :
    run c t o = Except.error (c.parsePolyfillText.2.foldl
      (fun message err => message ++ c.formatErrorInformation err) "") := by
  have e1 := check_eq c t
  rw [if_pos h] at e1
  cases o with
  | mk name code info subs idx =>
    unfold run
    rw [e1]

mutual
/-- With the polyfill present, `run` returns the translator it was given. -/
theorem run_state (c : Collaborators Stmt Info Disp Err) (t : Translator Stmt) (p : List Stmt)
    (h : t.m_polyfill = some p) :
    (o : Object Stmt Info) → ∀ t' r, run c t o = Except.ok (t', r) → t' = t
  | .mk name code info subs idx => by
    intro t' r hr
    rw [run_of_some c h] at hr
    split at hr
    · have ih := runSubObjects_state c t p h subs
      simp only [Object.subObjects] at hr
      cases hs : runSubObjects c t subs with
      | error e => rw [hs] at hr; simp at hr
      | ok v =>
        obtain ⟨t2, subs2⟩ := v
        rw [hs] at hr
        simp only [Except.ok.injEq, Prod.mk.injEq] at hr
        rw [← hr.1]
        exact ih t2 subs2 hs
    · simp at hr
/-- With the polyfill present, the loop over the sub-nodes returns the translator it was
given. -/
theorem runSubObjects_state (c : Collaborators Stmt Info Disp Err) (t : Translator Stmt)
    (p : List Stmt) (h : t.m_polyfill = some p) :
    (l : List (ObjectNode Stmt Info)) → ∀ t' rs, runSubObjects c t l = Except.ok (t', rs) → t' = t
  | [] => by
    intro t' rs hr
    simp only [runSubObjects, Except.ok.injEq, Prod.mk.injEq] at hr
    exact hr.1.symm
  | ObjectNode.object o :: rest => by
    intro t' rs hr
    unfold runSubObjects at hr
    cases h1 : run c t o with
    | error e => rw [h1] at hr; simp at hr
    | ok v =>
      obtain ⟨t1, r1⟩ := v
      have e1 := run_state c t p h o t1 r1 h1
      subst e1
      rw [h1] at hr
      dsimp only at hr
      cases h2 : runSubObjects c t1 rest with
      | error e => rw [h2] at hr; simp at hr
      | ok w =>
        obtain ⟨t2, r2⟩ := w
        rw [h2] at hr
        simp only [Except.ok.injEq, Prod.mk.injEq] at hr
        rw [← hr.1]
        exact runSubObjects_state c t1 p h rest t2 r2 h2
  | ObjectNode.data d :: rest => by
    intro t' rs hr
    unfold runSubObjects at hr
    cases h2 : runSubObjects c t rest with
    | error e => rw [h2] at hr; simp at hr
    | ok w =>
      obtain ⟨t2, r2⟩ := w
      rw [h2] at hr
      simp only [Except.ok.injEq, Prod.mk.injEq] at hr
      rw [← hr.1]
      exact runSubObjects_state c t p h rest t2 r2 h2
end

theorem runSubObjects_spec (c : Collaborators Stmt Info Disp Err) (t : Translator Stmt)
    (p : List Stmt) (h : t.m_polyfill = some p) (l : List (ObjectNode Stmt Info)) :
    ∀ t' rs, runSubObjects c t l = Except.ok (t', rs) →
      t' = t ∧ List.Forall₂ (SubNodeTranslated c t) l rs := by
  induction l with
  | nil =>
    intro t' rs hr
    simp only [runSubObjects, Except.ok.injEq, Prod.mk.injEq] at hr
    rw [← hr.1, ← hr.2]
    exact ⟨rfl, List.Forall₂.nil⟩
  | cons a rest ih =>
    intro t' rs hr
    have hs := runSubObjects_state c t p h (a :: rest) t' rs hr
    refine ⟨hs, ?_⟩
    cases a with
    | data d =>
      unfold runSubObjects at hr
      cases h2 : runSubObjects c t rest with
      | error e => rw [h2] at hr; simp at hr
      | ok w =>
        obtain ⟨t2, r2⟩ := w
        rw [h2] at hr
        simp only [Except.ok.injEq, Prod.mk.injEq] at hr
        rw [← hr.2]
        exact List.Forall₂.cons rfl (ih t2 r2 h2).2
    | object o =>
      unfold runSubObjects at hr
      cases h1 : run c t o with
      | error e => rw [h1] at hr; simp at hr
      | ok v =>
        obtain ⟨t1, r1⟩ := v
        have e1 := run_state c t p h o t1 r1 h1
        subst e1
        rw [h1] at hr
        dsimp only at hr
        cases h2 : runSubObjects c t1 rest with
        | error e => rw [h2] at hr; simp at hr
        | ok w =>
          obtain ⟨t2, r2⟩ := w
          rw [h2] at hr
          simp only [Except.ok.injEq, Prod.mk.injEq] at hr
          rw [← hr.2]
          exact List.Forall₂.cons ⟨r1, h1, rfl⟩ (ih t2 r2 h2).2

end

section

variable {Stmt Info Disp Err : Type}

mutual
/-- With the polyfill present, `run` returns an object whenever the analyzer accepts the
spliced block of the object and of every sub-object. -/
theorem run_of_accepted (c : Collaborators Stmt Info Disp Err) (t : Translator Stmt)
    (p : List Stmt) (h : t.m_polyfill = some p) :
    (o : Object Stmt Info) → Accepted c t o → ∃ r, run c t o = Except.ok (t, r)
  | .mk name code info subs idx => by
    intro ha
    unfold Accepted at ha
    obtain ⟨rs, hrs⟩ := runSubObjects_of_accepted c t p h subs ha.2
    rw [run_of_some c h, if_pos ha.1]
    simp only [Object.subObjects]
    rw [hrs]
    exact ⟨_, rfl⟩
theorem runSubObjects_of_accepted (c : Collaborators Stmt Info Disp Err) (t : Translator Stmt)
    (p : List Stmt) (h : t.m_polyfill = some p) :
    (l : List (ObjectNode Stmt Info)) → AcceptedSubObjects c t l →
      ∃ rs, runSubObjects c t l = Except.ok (t, rs)
  | [] => by
    intro _
    exact ⟨[], rfl⟩
  | ObjectNode.object o :: rest => by
    intro ha
    unfold AcceptedSubObjects at ha
    obtain ⟨r, hr⟩ := run_of_accepted c t p h o ha.1
    obtain ⟨rs, hrs⟩ := runSubObjects_of_accepted c t p h rest ha.2
    unfold runSubObjects
    rw [hr]
    dsimp only
    rw [hrs]
    exact ⟨_, rfl⟩
  | ObjectNode.data d :: rest => by
    intro ha
    unfold AcceptedSubObjects at ha
    obtain ⟨rs, hrs⟩ := runSubObjects_of_accepted c t p h rest ha
    unfold runSubObjects
    rw [hrs]
    exact ⟨_, rfl⟩
end

/-- A successful `run` went through the polyfill check, and its result is the one of `run` on
the prepared translator, which it returns. -/
theorem run_ok (c : Collaborators Stmt Info Disp Err) (t : Translator Stmt)
    (o : Object Stmt Info) (t' : Translator Stmt) (r : Object Stmt Info)
    (h : run c t o = Except.ok (t', r)) :
    t' = prepared c t ∧ run c (prepared c t) o = Except.ok (prepared c t, r) := by
  by_cases hc : t.m_polyfill.isNone = true ∧ c.parsePolyfillText.2.isEmpty = false
  · rw [run_parse_error c t hc] at h
    simp at h
  · rw [run_prepared c t hc] at h
    obtain ⟨p, hp⟩ := prepared_some c t
    have e := run_state c (prepared c t) p hp o t' r h
    subst e
    exact ⟨rfl, h⟩

/-- The shape of a successful result. -/
theorem run_result (c : Collaborators Stmt Info Disp Err) (t : Translator Stmt)
    (o : Object Stmt Info) (t' : Translator Stmt) (r : Object Stmt Info)
    (h : run c t o = Except.ok (t', r)) :
    t' = prepared c t ∧
      ∃ subs, runSubObjects c t' o.subObjects = Except.ok (t', subs) ∧
        r = Object.mk o.name (splicedBlock c t' o)
          (c.analyze (splicedBlock c t' o) (c.qualifiedDataNames o)).1 subs o.subIndexByName := by
  obtain ⟨e, h2⟩ := run_ok c t o t' r h
  subst e
  obtain ⟨p, hp⟩ := prepared_some c t
  refine ⟨rfl, ?_⟩
  rw [run_of_some c hp] at h2
  split at h2
  · cases hs : runSubObjects c (prepared c t) o.subObjects with
    | error e => rw [hs] at h2; simp at h2
    | ok v =>
      obtain ⟨t2, subs2⟩ := v
      have e2 := runSubObjects_state c (prepared c t) p hp o.subObjects t2 subs2 hs
      subst e2
      rw [hs] at h2
      simp only [Except.ok.injEq, Prod.mk.injEq, true_and] at h2
      exact ⟨subs2, rfl, h2.symm⟩
  · simp at h2

end

section

variable {Stmt Info Disp Err : Type}

theorem foldl_append_init (f : Err → String) (l : List Err) (init : String) :
    l.foldl (fun message err => message ++ f err) init =
      init ++ l.foldl (fun message err => message ++ f err) "" := by
  induction l generalizing init with
  | nil => simp
  | cons a rest ih =>
    simp only [List.foldl_cons]
    rw [ih (init ++ f a), ih ("" ++ f a)]
    simp [String.append_assoc]

/-- Every formatted element occurs in the folded message. -/
theorem foldl_contains (f : Err → String) (l : List Err) (init : String) (e : Err)
    (he : e ∈ l) :
    ∃ pre post, l.foldl (fun message err => message ++ f err) init = pre ++ f e ++ post := by
  induction l generalizing init with
  | nil => simp at he
  | cons a rest ih =>
    simp only [List.foldl_cons]
    rcases List.mem_cons.mp he with h | h
    · subst h
      rw [foldl_append_init]
      exact ⟨init, _, rfl⟩
    · exact ih (init ++ f a) h

/-- The rejection message contains the printed object. -/
theorem rejectionMessage_code (c : Collaborators Stmt Info Disp Err) (t : Translator Stmt)
    (o : Object Stmt Info) :
    ∃ pre post, rejectionMessage c t o =
      pre ++ c.toString (Object.mk o.name (splicedBlock c t o)
        (c.analyze (splicedBlock c t o) (c.qualifiedDataNames o)).1 [] []) ++ post := by
  unfold rejectionMessage
  rw [foldl_append_init]
  refine ⟨"Invalid code generated after EVM to wasm translation.\n" ++
      "Note that the source locations in the errors below will reference the original, not the translated code.\n" ++
      "Translated code:\n" ++
      "----------------------------------\n",
    "----------------------------------\n" ++
      List.foldl (fun message err => message ++ c.formatErrorInformation err) ""
        (c.analyze (splicedBlock c t o) (c.qualifiedDataNames o)).2.1, ?_⟩
  rw [String.append_assoc _ "----------------------------------\n"]

end

section

variable {Stmt Info Disp Err : Type}

/-- The spliced block does not depend on what the dispenser constructor and the optimiser
steps do with a non-empty set of reserved identifiers. -/
theorem splicedBlock_congr (c c' : Collaborators Stmt Info Disp Err) (t : Translator Stmt)
    (o : Object Stmt Info)
    (h0 : c'.disambiguator = c.disambiguator)
    (h1 : ∀ ast, c'.nameDispenser ast [] = c.nameDispenser ast [])
    (h2 : ∀ d ast, c'.functionHoister d [] ast = c.functionHoister d [] ast)
    (h3 : ∀ d ast, c'.functionGrouper d [] ast = c.functionGrouper d [] ast)
    (h4 : ∀ d ast, c'.mainFunction d [] ast = c.mainFunction d [] ast)
    (h5 : ∀ d ast, c'.forLoopConditionIntoBody d [] ast = c.forLoopConditionIntoBody d [] ast)
    (h6 : ∀ d ast, c'.expressionSplitter d [] ast = c.expressionSplitter d [] ast)
    (h7 : c'.wordSizeTransform = c.wordSizeTransform)
    (h8 : c'.nameDisplacer = c.nameDisplacer)
    (h9 : c'.astCopier = c.astCopier) :
    splicedBlock c' t o = splicedBlock c t o := by
  unfold splicedBlock translatedUserBlock
  simp only [h0, h1, h2, h3, h4, h5, h6, h7, h8, h9]

end

/-- Claim C26: for every input object `A` on which `run` returns `R`, `R` has the name of `A`,
as many sub-nodes as `A`, position by position a data node equal to the one of `A` or the
object `run` returns on the sub-object of `A` (with the translator `run` returns), and the
`subIndexByName` of `A`. -/
theorem run_structure {Stmt Info Disp Err : Type} (c : Collaborators Stmt Info Disp Err)
    (t : Translator Stmt) (A : Object Stmt Info) (t' : Translator Stmt) (R : Object Stmt Info)
    (h : run c t A = Except.ok (t', R)) :
    R.name = A.name ∧ R.subObjects.length = A.subObjects.length ∧
      List.Forall₂ (SubNodeTranslated c t') A.subObjects R.subObjects ∧
      R.subIndexByName = A.subIndexByName := by
  obtain ⟨e, subs, hs, hr⟩ := run_result c t A t' R h
  obtain ⟨p, hp⟩ := prepared_some c t
  rw [← e] at hp
  have key := (runSubObjects_spec c t' p hp A.subObjects t' subs hs).2
  subst hr
  exact ⟨rfl, key.length_eq.symm, key, rfl⟩

/-- Witness for C26 on the probe collaborators: an object with a data node and a sub-object. -/
theorem run_structure_witness :
    run probe ⟨none, []⟩
        (Object.mk "A" ["x"] () [ObjectNode.data ⟨"d", [1]⟩,
          ObjectNode.object (Object.mk "B" ["y"] () [] [])] [("d", 0), ("B", 1)]) =
      Except.ok (⟨some ["add", "sub"], ["add", "sub"]⟩,
        Object.mk "A" ["x", "add", "sub"] () [ObjectNode.data ⟨"d", [1]⟩,
          ObjectNode.object (Object.mk "B" ["y", "add", "sub"] () [] [])]
          [("d", 0), ("B", 1)]) ∧
      (Object.mk "A" ["x", "add", "sub"] () [ObjectNode.data ⟨"d", [1]⟩,
          ObjectNode.object (Object.mk "B" ["y", "add", "sub"] () [] [])]
          [("d", 0), ("B", 1)] : Object String Unit).name =
        (Object.mk "A" ["x"] () [ObjectNode.data ⟨"d", [1]⟩,
          ObjectNode.object (Object.mk "B" ["y"] () [] [])]
          [("d", 0), ("B", 1)] : Object String Unit).name ∧
      [ObjectNode.data ⟨"d", [1]⟩,
          (ObjectNode.object (Object.mk "B" ["y", "add", "sub"] () [] []) :
            ObjectNode String Unit)].length =
        [ObjectNode.data ⟨"d", [1]⟩,
          (ObjectNode.object (Object.mk "B" ["y"] () [] []) :
            ObjectNode String Unit)].length ∧
      List.Forall₂ (SubNodeTranslated probe ⟨some ["add", "sub"], ["add", "sub"]⟩)
        [ObjectNode.data ⟨"d", [1]⟩, ObjectNode.object (Object.mk "B" ["y"] () [] [])]
        [ObjectNode.data ⟨"d", [1]⟩,
          ObjectNode.object (Object.mk "B" ["y", "add", "sub"] () [] [])] ∧
      [("d", 0), ("B", 1)] = [("d", 0), ("B", 1)] :=
  ⟨rfl, run_structure probe ⟨none, []⟩
    (Object.mk "A" ["x"] () [ObjectNode.data ⟨"d", [1]⟩,
      ObjectNode.object (Object.mk "B" ["y"] () [] [])] [("d", 0), ("B", 1)])
    ⟨some ["add", "sub"], ["add", "sub"]⟩
    (Object.mk "A" ["x", "add", "sub"] () [ObjectNode.data ⟨"d", [1]⟩,
      ObjectNode.object (Object.mk "B" ["y", "add", "sub"] () [] [])] [("d", 0), ("B", 1)])
    rfl⟩

/-- Counterexample to C28 as stated: on the probe collaborators the dispenser state is the
reserved set it was created with, and the displacer emits one statement for each of its
identifiers. The polyfill functions are `add` and `sub`, yet the block of the result has no
such statement in front of the user statement `x`: the reserved set was empty. -/
theorem run_reserved_set_empty :
    run probe ⟨none, []⟩ (Object.mk "A" ["x"] () [] []) =
        Except.ok (⟨some ["add", "sub"], ["add", "sub"]⟩,
          Object.mk "A" ["x", "add", "sub"] () [] []) ∧
      probe.nameDispenser ["x"] ["add", "sub"] = ["add", "sub"] ∧
      (probe.nameDisplacer (probe.nameDispenser ["x"] ["add", "sub"]) ["add", "sub"] ["x"]).2 =
        ["reserved add", "reserved sub", "x"] ∧
      translatedUserBlock probe [] ["add", "sub"] () ["x"] = ["x"] ∧
      translatedUserBlock probe ["add", "sub"] ["add", "sub"] () ["x"] ≠ ["x"] :=
  ⟨rfl, rfl, rfl, rfl, by decide⟩

/-- Claim C28, amended: for every input object `A` on which `run` returns `R`, the block of
`R` is the one built with an empty reserved set for the name dispenser and the step context;
it is the same for all collaborators that agree on the empty reserved set, whatever they do
with a non-empty one; the names handed to the displacer are `m_polyfillFunctions`, which after
a call that parsed the polyfill are the function names of its statements. -/
theorem run_reserved {Stmt Info Disp Err : Type} (c : Collaborators Stmt Info Disp Err)
    (t : Translator Stmt) (A : Object Stmt Info) (t' : Translator Stmt) (R : Object Stmt Info)
    (h : run c t A = Except.ok (t', R)) :
    R.code = translatedUserBlock c [] t'.m_polyfillFunctions A.analysisInfo A.code ++
        (t'.m_polyfill.getD []).map c.astCopier ∧
      (∀ c' : Collaborators Stmt Info Disp Err,
        c'.disambiguator = c.disambiguator →
        (∀ ast, c'.nameDispenser ast [] = c.nameDispenser ast []) →
        (∀ d ast, c'.functionHoister d [] ast = c.functionHoister d [] ast) →
        (∀ d ast, c'.functionGrouper d [] ast = c.functionGrouper d [] ast) →
        (∀ d ast, c'.mainFunction d [] ast = c.mainFunction d [] ast) →
        (∀ d ast, c'.forLoopConditionIntoBody d [] ast = c.forLoopConditionIntoBody d [] ast) →
        (∀ d ast, c'.expressionSplitter d [] ast = c.expressionSplitter d [] ast) →
        c'.wordSizeTransform = c.wordSizeTransform →
        c'.nameDisplacer = c.nameDisplacer →
        c'.astCopier = c.astCopier →
        splicedBlock c' t' A = R.code) ∧
      (t.m_polyfill = none →
        t'.m_polyfillFunctions = c.parsePolyfillText.1.map c.functionDefinitionName) := by
  obtain ⟨e, subs, _, hr⟩ := run_result c t A t' R h
  have hc : R.code = splicedBlock c t' A := by
    subst hr
    rfl
  refine ⟨hc, ?_, ?_⟩
  · intro c' h0 h1 h2 h3 h4 h5 h6 h7 h8 h9
    rw [hc]
    exact splicedBlock_congr c c' t' A h0 h1 h2 h3 h4 h5 h6 h7 h8 h9
  · intro h0
    rw [e]
    unfold prepared
    simp only [h0, Option.isNone_none, if_true]

/-- Witness for the amended C28 on the probe collaborators. -/
theorem run_reserved_witness :
    run probe ⟨none, []⟩ (Object.mk "A" ["x"] () [] []) =
        Except.ok (⟨some ["add", "sub"], ["add", "sub"]⟩,
          Object.mk "A" ["x", "add", "sub"] () [] []) ∧
      (Object.mk "A" ["x", "add", "sub"] () [] [] : Object String Unit).code =
        translatedUserBlock probe [] ["add", "sub"] () ["x"] ++
          (["add", "sub"] : List String).map probe.astCopier :=
  ⟨rfl, (run_reserved probe ⟨none, []⟩ (Object.mk "A" ["x"] () [] [])
    ⟨some ["add", "sub"], ["add", "sub"]⟩ (Object.mk "A" ["x", "add", "sub"] () [] []) rfl).1⟩

/-- Claim C29: when the polyfill is cached or parses without error, then: if the analyzer
rejects the spliced block of the object, `run` fails with the rejection message, which
contains the printed translated object and every formatted error, and it does so whatever the
sub-nodes are; if the analyzer accepts the spliced block of the object and of every sub-object
at every depth, `run` returns an object. -/
theorem run_analysis {Stmt Info Disp Err : Type} (c : Collaborators Stmt Info Disp Err)
    (t : Translator Stmt) (A : Object Stmt Info)
    (hp : ¬ (t.m_polyfill.isNone = true ∧ c.parsePolyfillText.2.isEmpty = false)) :
    ((c.analyze (splicedBlock c (prepared c t) A) (c.qualifiedDataNames A)).2.2 = false →
        run c t A = Except.error (rejectionMessage c (prepared c t) A) ∧
        (∃ pre post, rejectionMessage c (prepared c t) A =
          pre ++ c.toString (Object.mk A.name (splicedBlock c (prepared c t) A)
            (c.analyze (splicedBlock c (prepared c t) A) (c.qualifiedDataNames A)).1 [] []) ++
            post) ∧
        ∀ err ∈ (c.analyze (splicedBlock c (prepared c t) A) (c.qualifiedDataNames A)).2.1,
          ∃ pre post, rejectionMessage c (prepared c t) A =
            pre ++ c.formatErrorInformation err ++ post) ∧
      (Accepted c (prepared c t) A → ∃ R, run c t A = Except.ok (prepared c t, R)) := by
  obtain ⟨p, hs⟩ := prepared_some c t
  rw [run_prepared c t hp]
  refine ⟨fun hrej => ⟨?_, rejectionMessage_code c _ A, ?_⟩, fun ha => ?_⟩
  · rw [run_of_some c hs, if_neg (by rw [hrej]; simp)]
  · intro err he
    exact foldl_contains c.formatErrorInformation _ _ err he
  · exact run_of_accepted c _ p hs A ha

/-- Witness for C29 on the probe collaborators: the block of the object holds the rejected
statement, and so does the block of its sub-object; the message is the one of the object. -/
theorem run_analysis_witness :
    ¬ ((⟨none, []⟩ : Translator String).m_polyfill.isNone = true ∧
        probe.parsePolyfillText.2.isEmpty = false) ∧
      (probe.analyze (splicedBlock probe (prepared probe ⟨none, []⟩)
          (Object.mk "A" ["bad"] () [ObjectNode.object (Object.mk "B" ["y", "bad"] () [] [])] []))
        (probe.qualifiedDataNames
          (Object.mk "A" ["bad"] () [ObjectNode.object (Object.mk "B" ["y", "bad"] () [] [])]
            []))).2.2 = false ∧
      run probe ⟨none, []⟩
          (Object.mk "A" ["bad"] () [ObjectNode.object (Object.mk "B" ["y", "bad"] () [] [])] []) =
        Except.error (rejectionMessage probe (prepared probe ⟨none, []⟩)
          (Object.mk "A" ["bad"] () [ObjectNode.object (Object.mk "B" ["y", "bad"] () [] [])]
            [])) :=
  ⟨by decide, rfl,
    ((run_analysis probe ⟨none, []⟩
      (Object.mk "A" ["bad"] () [ObjectNode.object (Object.mk "B" ["y", "bad"] () [] [])] [])
      (by decide)).1 rfl).1⟩



/-! ### Memory accesses on an image -/

/-- Byte `k` of a number made of a high part above `a` bytes and a low part below. -/
theorem byte_of_concat (x lo a k : Nat) (hlo : lo < 256 ^ a) :
    (x * 256 ^ a + lo) / 256 ^ k % 256 =
      if k < a then lo / 256 ^ k % 256 else x / 256 ^ (k - a) % 256 := by
  by_cases h : k < a
  · rw [if_pos h]
    have e : x * 256 ^ a = x * 256 ^ (a - k - 1) * 256 * 256 ^ k := by
      have : a = (a - k - 1) + 1 + k := by omega
      conv_lhs => rw [this]
      rw [pow_add, pow_add, pow_one]
      ring
    rw [e, Nat.add_comm, Nat.add_mul_div_right _ _ (Nat.pow_pos (by norm_num)),
      Nat.add_mul_mod_self_right]
  · rw [if_neg h]
    have e : (256 : Nat) ^ k = 256 ^ a * 256 ^ (k - a) := by
      rw [← pow_add]
      congr 1
      omega
    rw [e, ← Nat.div_div_eq_div_mul, Nat.add_comm,
      Nat.add_mul_div_right _ _ (Nat.pow_pos (by norm_num)), Nat.div_eq_of_lt hlo, Nat.zero_add]

theorem field_eq (bits a n : Nat) : Packed.field bits a n = bits / 256 ^ a % 256 ^ n := by
  unfold Packed.field
  rw [Nat.shiftRight_eq_div_pow, pow_mul, pow_mul]
  norm_num

theorem replace_eq (bits a n v : Nat) :
    Packed.replace bits a n v =
      (bits / 256 ^ a / 256 ^ n * 256 ^ n + v % 256 ^ n) * 256 ^ a + bits % 256 ^ a := by
  unfold Packed.replace
  rw [field_eq, Nat.shiftLeft_eq, Nat.shiftLeft_eq, pow_mul, pow_mul]
  norm_num
  have h1 := Nat.div_add_mod bits (256 ^ a)
  have h2 := Nat.div_add_mod (bits / 256 ^ a) (256 ^ n)
  generalize bits / 256 ^ a = X at *
  generalize X / 256 ^ n = H at *
  generalize X % 256 ^ n = M at *
  generalize bits % 256 ^ a = L at *
  generalize v % 256 ^ n = V at *
  generalize (256 : Nat) ^ a = B at *
  generalize (256 : Nat) ^ n = N at *
  subst h1
  subst h2
  have e : B * (N * H + M) + L - M * B = B * (N * H) + L := by
    rw [Nat.mul_add, Nat.mul_comm B M]
    omega
  rw [e]
  ring

/-- Byte `k` of a number with a field of `n` bytes at byte `a` replaced. -/
theorem byte_replace (bits a n v k : Nat) :
    Packed.replace bits a n v / 256 ^ k % 256 =
      if a ≤ k ∧ k < a + n then v / 256 ^ (k - a) % 256 else bits / 256 ^ k % 256 := by
  rw [replace_eq]
  have hL : bits % 256 ^ a < 256 ^ a := Nat.mod_lt _ (Nat.pow_pos (by norm_num))
  have hV : v % 256 ^ n < 256 ^ n := Nat.mod_lt _ (Nat.pow_pos (by norm_num))
  have hM : bits / 256 ^ a % 256 ^ n < 256 ^ n := Nat.mod_lt _ (Nat.pow_pos (by norm_num))
  have hb : bits / 256 ^ k % 256 =
      (bits / 256 ^ a * 256 ^ a + bits % 256 ^ a) / 256 ^ k % 256 := by
    rw [Nat.mul_comm, Nat.div_add_mod]
  have hx : bits / 256 ^ a / 256 ^ (k - a) % 256 =
      (bits / 256 ^ a / 256 ^ n * 256 ^ n + bits / 256 ^ a % 256 ^ n) / 256 ^ (k - a) % 256 := by
    rw [Nat.mul_comm, Nat.div_add_mod]
  have hv : v / 256 ^ (k - a) % 256 =
      (v / 256 ^ n * 256 ^ n + v % 256 ^ n) / 256 ^ (k - a) % 256 := by
    rw [Nat.mul_comm, Nat.div_add_mod]
  rw [byte_of_concat _ _ a k hL]
  rw [byte_of_concat _ _ a k hL] at hb
  rw [byte_of_concat _ _ n (k - a) hM] at hx
  rw [byte_of_concat _ _ n (k - a) hV] at hv
  rw [byte_of_concat _ _ n (k - a) hV]
  by_cases c1 : k < a
  · rw [if_pos c1, if_neg (by omega), hb, if_pos c1]
  · rw [if_neg c1]
    rw [if_neg c1] at hb
    by_cases c2 : k - a < n
    · rw [if_pos c2, if_pos (by omega), hv, if_pos c2]
    · rw [if_neg c2, if_neg (by omega), hb, hx, if_neg c2]

theorem toMemory_byte (s : Image) (k : Nat) : s.toMemory.bytes k = s.bits / 256 ^ k % 256 := rfl

theorem toMemory_size (s : Image) : s.toMemory.size = s.size := rfl

theorem byte_shift (bits a j : Nat) :
    bits / 256 ^ (a + j) % 256 = bits / 256 ^ a / 256 ^ j % 256 := by
  rw [pow_add, Nat.div_div_eq_div_mul]

theorem i64_load_image (s : Image) (a : Nat) :
    i64.load s.toMemory a = Packed.i64.load s a := by
  unfold i64.load Packed.i64.load
  rw [toMemory_size]
  by_cases h : a + 8 ≤ s.size
  · rw [if_pos h, if_pos h, field_eq]
    simp only [toMemory_byte]
    have e0 := byte_shift s.bits a 0
    rw [byte_shift s.bits a 1, byte_shift s.bits a 2, byte_shift s.bits a 3,
      byte_shift s.bits a 4, byte_shift s.bits a 5, byte_shift s.bits a 6,
      byte_shift s.bits a 7]
    generalize s.bits / 256 ^ a = X
    norm_num
    omega
  · rw [if_neg h, if_neg h]

theorem i32_load_image (s : Image) (a : Nat) :
    i32.load s.toMemory a = Packed.i32.load s a := by
  unfold i32.load Packed.i32.load
  rw [toMemory_size]
  by_cases h : a + 4 ≤ s.size
  · rw [if_pos h, if_pos h, field_eq]
    simp only [toMemory_byte]
    rw [byte_shift s.bits a 1, byte_shift s.bits a 2, byte_shift s.bits a 3]
    generalize s.bits / 256 ^ a = X
    norm_num
    omega
  · rw [if_neg h, if_neg h]

theorem memory_ext {m1 m2 : Memory} (hs : m1.size = m2.size)
    (hb : ∀ k, m1.bytes k = m2.bytes k) : m1 = m2 := by
  cases m1
  cases m2
  simp only [Memory.mk.injEq]
  exact ⟨hs, funext hb⟩

theorem i64_store_image (s : Image) (a v : Nat) :
    i64.store s.toMemory a v = (Packed.i64.store s a v).map Image.toMemory := by
  unfold i64.store Packed.i64.store
  rw [toMemory_size]
  by_cases h : a + 8 ≤ s.size
  · rw [if_pos h, if_pos h, Option.map_some']
    congr 1
    refine memory_ext rfl ?_
    intro k
    simp only [toMemory_byte]
    rw [byte_replace, pow_mul]
    norm_num
  · rw [if_neg h, if_neg h]
    rfl

theorem i32_store_image (s : Image) (a v : Nat) :
    i32.store s.toMemory a v = (Packed.i32.store s a v).map Image.toMemory := by
  unfold i32.store Packed.i32.store
  rw [toMemory_size]
  by_cases h : a + 4 ≤ s.size
  · rw [if_pos h, if_pos h, Option.map_some']
    congr 1
    refine memory_ext rfl ?_
    intro k
    simp only [toMemory_byte]
    rw [byte_replace, pow_mul]
    norm_num
  · rw [if_neg h, if_neg h]
    rfl

theorem i32_store8_image (s : Image) (a v : Nat) :
    i32.store8 s.toMemory a v = (Packed.i32.store8 s a v).map Image.toMemory := by
  unfold i32.store8 Packed.i32.store8
  rw [toMemory_size]
  by_cases h : a + 1 ≤ s.size
  · rw [if_pos h, if_pos h, Option.map_some']
    congr 1
    refine memory_ext rfl ?_
    intro k
    simp only [toMemory_byte]
    rw [byte_replace]
    by_cases c : k = a
    · subst c
      rw [if_pos rfl, if_pos (by omega)]
      simp
    · rw [if_neg c, if_neg (by omega)]
  · rw [if_neg h, if_neg h]
    rfl

/-! ### The hashing functions on an image -/

theorem i8_load32_image (s : Image) (a : Nat) :
    i8_load32 s.toMemory a = Packed.i8_load32 s a := by
  unfold i8_load32 Packed.i8_load32
  rw [i32_load_image] <;> rfl

theorem i8_load_image (s : Image) (a : Nat) :
    i8_load s.toMemory a = Packed.i8_load s a := by
  unfold i8_load Packed.i8_load
  rw [i64_load_image] <;> rfl

theorem A_image (s : Image) (c x dx : Nat) :
    A s.toMemory c x dx = (Packed.A s c x dx).map Image.toMemory := by
  generalize hr : Packed.A s c x dx = r
  unfold Packed.A at hr
  unfold A
  repeat' split at hr
  all_goals try simp only [i64_load_image, i64_store_image, Option.map_some', Option.map_none', *]
  all_goals first | rfl | (subst hr; rfl)

theorem keccak_pi_image (s : Image) (c : Nat) :
    keccak_pi s.toMemory c = (Packed.keccak_pi s c).map Image.toMemory := by
  generalize hr : Packed.keccak_pi s c = r
  unfold Packed.keccak_pi at hr
  unfold keccak_pi
  repeat' split at hr
  all_goals try simp only [i64_load_image, i64_store_image, Option.map_some', Option.map_none', *]
  all_goals first | rfl | (subst hr; rfl)

theorem memset_loop_image (ptr value length fuel : Nat) :
    ∀ (s : Image) (i : Nat), memset_loop ptr value length fuel s.toMemory i =
      (Packed.memset_loop ptr value length fuel s i).map Image.toMemory := by
  induction fuel with
  | zero =>
    intro s i
    rfl
  | succ n ih =>
    intro s i
    generalize hr : Packed.memset_loop ptr value length (n + 1) s i = r
    unfold Packed.memset_loop at hr
    unfold memset_loop
    try dsimp only at hr
    repeat' split at hr
    all_goals try simp only [i32_store8_image, Option.map_some', Option.map_none', if_true,
      if_false, ih, ne_eq, not_true_eq_false, not_false_eq_true, *]
    all_goals first | rfl | (subst hr; rfl)

theorem memset_image (fuel : Nat) (s : Image) (ptr value length : Nat) :
    memset fuel s.toMemory ptr value length =
      (Packed.memset fuel s ptr value length).map Image.toMemory :=
  memset_loop_image ptr value length fuel s 0

theorem memcpy_loop_image (dst src length fuel : Nat) :
    ∀ (s : Image) (i : Nat), memcpy_loop dst src length fuel s.toMemory i =
      (Packed.memcpy_loop dst src length fuel s i).map Image.toMemory := by
  induction fuel with
  | zero =>
    intro s i
    rfl
  | succ n ih =>
    intro s i
    generalize hr : Packed.memcpy_loop dst src length (n + 1) s i = r
    unfold Packed.memcpy_loop at hr
    unfold memcpy_loop
    try dsimp only at hr
    repeat' split at hr
    all_goals try simp only [i32_store8_image, i8_load32_image, Option.map_some', Option.map_none',
      if_true, if_false, ih, ne_eq, not_true_eq_false, not_false_eq_true, *]
    all_goals first | rfl | (subst hr; rfl)

theorem memcpy_image (fuel : Nat) (s : Image) (dst src length : Nat) :
    memcpy fuel s.toMemory dst src length =
      (Packed.memcpy fuel s dst src length).map Image.toMemory :=
  memcpy_loop_image dst src length fuel s 0

theorem keccak_reset_image (fuel : Nat) (s : Image) (c : Nat) :
    keccak_reset fuel s.toMemory c = (Packed.keccak_reset fuel s c).map Image.toMemory :=
  memset_image fuel s c 0 400

theorem keccak_init_image (fuel : Nat) (s : Image) (c : Nat) :
    keccak_init fuel s.toMemory c = (Packed.keccak_init fuel s c).map Image.toMemory := by
  generalize hr : Packed.keccak_init fuel s c = r
  unfold Packed.keccak_init at hr
  unfold keccak_init
  try dsimp only at hr
  repeat' split at hr
  all_goals try simp only [keccak_reset_image, i64_store_image, i32_store8_image, Option.map_some',
    Option.map_none', *]
  all_goals first | rfl | (subst hr; rfl)

theorem C_image (s : Image) (c x : Nat) : C s.toMemory c x = Packed.C s c x := by
  generalize hr : Packed.C s c x = r
  unfold Packed.C at hr
  unfold C
  try dsimp only at hr
  repeat' split at hr
  all_goals try simp only [i64_load_image, *]
  all_goals first | rfl | (subst hr; rfl)

theorem keccak_theta_image (s : Image) (c : Nat) :
    keccak_theta s.toMemory c = (Packed.keccak_theta s c).map Image.toMemory := by
  generalize hr : Packed.keccak_theta s c = r
  unfold Packed.keccak_theta at hr
  unfold keccak_theta
  try dsimp only at hr
  repeat' split at hr
  all_goals try simp only [C_image, A_image, Option.map_some', Option.map_none', *]
  all_goals first | rfl | (subst hr; rfl)

theorem keccak_rho_loop_image (c rot fuel : Nat) :
    ∀ (s : Image) (i : Nat), keccak_rho_loop c rot fuel s.toMemory i =
      (Packed.keccak_rho_loop c rot fuel s i).map Image.toMemory := by
  induction fuel with
  | zero =>
    intro s i
    rfl
  | succ n ih =>
    intro s i
    generalize hr : Packed.keccak_rho_loop c rot (n + 1) s i = r
    unfold Packed.keccak_rho_loop at hr
    unfold keccak_rho_loop
    try dsimp only at hr
    repeat' split at hr
    all_goals try simp only [i64_load_image, i8_load_image, i64_store_image, Option.map_some',
      Option.map_none', if_true, if_false, ih, ne_eq, not_true_eq_false, not_false_eq_true, *]
    all_goals first | rfl | (subst hr; rfl)

theorem keccak_rho_image (fuel : Nat) (s : Image) (c rot : Nat) :
    keccak_rho fuel s.toMemory c rot = (Packed.keccak_rho fuel s c rot).map Image.toMemory :=
  keccak_rho_loop_image c rot fuel s 0

theorem keccak_chi_loop_image (c fuel : Nat) :
    ∀ (s : Image) (i : Nat), keccak_chi_loop c fuel s.toMemory i =
      (Packed.keccak_chi_loop c fuel s i).map Image.toMemory := by
  induction fuel with
  | zero =>
    intro s i
    rfl
  | succ n ih =>
    intro s i
    generalize hr : Packed.keccak_chi_loop c (n + 1) s i = r
    unfold Packed.keccak_chi_loop at hr
    unfold keccak_chi_loop
    try dsimp only at hr
    repeat' split at hr
    all_goals try simp only [Option.some.injEq] at *
    all_goals try subst_vars
    all_goals try simp only [i64_load_image, i64_store_image, Option.map_some',
      Option.map_none', if_true, if_false, ih, ne_eq, not_true_eq_false, not_false_eq_true, *]
    all_goals first | rfl | (subst hr; rfl)

theorem keccak_chi_image (fuel : Nat) (s : Image) (c : Nat) :
    keccak_chi fuel s.toMemory c = (Packed.keccak_chi fuel s c).map Image.toMemory :=
  keccak_chi_loop_image c fuel s 0

theorem keccak_permute_loop_image (c rc rot fuel k : Nat) :
    ∀ (s : Image) (i : Nat), keccak_permute_loop c rc rot fuel k s.toMemory i =
      (Packed.keccak_permute_loop c rc rot fuel k s i).map Image.toMemory := by
  induction k with
  | zero =>
    intro s i
    rfl
  | succ n ih =>
    intro s i
    generalize hr : Packed.keccak_permute_loop c rc rot fuel (n + 1) s i = r
    unfold Packed.keccak_permute_loop at hr
    unfold keccak_permute_loop
    try dsimp only at hr
    repeat' split at hr
    all_goals try simp only [Option.some.injEq] at *
    all_goals try subst_vars
    all_goals try simp only [keccak_theta_image, keccak_rho_image, keccak_pi_image,
      keccak_chi_image, i64_load_image, i64_store_image, Option.map_some',
      Option.map_none', if_true, if_false, ih, ne_eq, not_true_eq_false, not_false_eq_true, *]
    all_goals first | rfl | (subst hr; rfl)

theorem keccak_permute_image (fuel : Nat) (s : Image) (c : Nat) :
    keccak_permute fuel s.toMemory c = (Packed.keccak_permute fuel s c).map Image.toMemory :=
  keccak_permute_loop_image c (i32.add c 400) (i32.add c 592) fuel fuel s 0

theorem keccak_block_image (fuel : Nat) (s : Image) (c inp len : Nat) :
    keccak_block fuel s.toMemory c inp len =
      (Packed.keccak_block fuel s c inp len).map Image.toMemory := by
  generalize hr : Packed.keccak_block fuel s c inp len = r
  unfold Packed.keccak_block at hr
  unfold keccak_block
  repeat' split at hr
  all_goals try simp only [Option.some.injEq] at *
  all_goals try subst_vars
  all_goals try simp only [keccak_permute_image, i64_load_image, i64_store_image, Option.map_some',
    Option.map_none', *]
  all_goals first | rfl | (subst hr; rfl)

theorem keccak_update_loop_image (c fuel k : Nat) :
    ∀ (s : Image) (inp len : Nat), keccak_update_loop c fuel k s.toMemory inp len =
      (Packed.keccak_update_loop c fuel k s inp len).map Image.lift := by
  induction k with
  | zero =>
    intro s inp len
    rfl
  | succ n ih =>
    intro s inp len
    generalize hr : Packed.keccak_update_loop c fuel (n + 1) s inp len = r
    unfold Packed.keccak_update_loop at hr
    unfold keccak_update_loop
    try dsimp only at hr
    repeat' split at hr
    all_goals try simp only [keccak_block_image, Option.map_some', Option.map_none', if_true,
      if_false, ih, ne_eq, not_true_eq_false, not_false_eq_true, *]
    all_goals first | rfl | (subst hr; rfl)

theorem keccak_update_complete_image (fuel : Nat) (s : Image) (c inp ri : Nat) :
    keccak_update_complete fuel s.toMemory c inp ri =
      (Packed.keccak_update_complete fuel s c inp ri).map Image.lift := by
  generalize hr : Packed.keccak_update_complete fuel s c inp ri = r
  unfold Packed.keccak_update_complete at hr
  unfold keccak_update_complete
  repeat' split at hr
  all_goals try simp only [keccak_block_image, Option.map_some', Option.map_none', if_true,
    if_false, ne_eq, not_true_eq_false, not_false_eq_true, *]
  all_goals first | rfl | (subst hr; rfl)

theorem keccak_update_residue_image (fuel : Nat) (s : Image) (c inp len ro rb ri : Nat) :
    keccak_update_residue fuel s.toMemory c inp len ro rb ri =
      (Packed.keccak_update_residue fuel s c inp len ro rb ri).map Image.lift := by
  generalize hr : Packed.keccak_update_residue fuel s c inp len ro rb ri = r
  unfold Packed.keccak_update_residue at hr
  unfold keccak_update_residue
  dsimp only at hr ⊢
  generalize (if i32.lt_u len (i32.sub 136 ri) ≠ 0 then len else i32.sub 136 ri) = t at hr ⊢
  repeat' split at hr
  all_goals try simp only [memcpy_image, keccak_update_complete_image, i32_store_image,
    Option.map_some', Option.map_none', if_true, if_false, ne_eq, not_true_eq_false,
    not_false_eq_true, Image.lift, *]
  all_goals first | rfl | (subst hr; rfl)

theorem keccak_update_image (fuel : Nat) (s : Image) (c inp len : Nat) :
    keccak_update fuel s.toMemory c inp len =
      (Packed.keccak_update fuel s c inp len).map Image.toMemory := by
  generalize hr : Packed.keccak_update fuel s c inp len = r
  unfold Packed.keccak_update at hr
  unfold keccak_update
  try dsimp only at hr
  repeat' split at hr
  all_goals try simp only [i32_load_image, keccak_update_residue_image, keccak_update_loop_image,
    memcpy_image, i32_store_image, Option.map_some', Option.map_none', if_true, if_false,
    ne_eq, not_true_eq_false, not_false_eq_true, Image.lift, *]
  all_goals first | rfl | (subst hr; rfl)

theorem keccak_finish_image (fuel : Nat) (s : Image) (c out : Nat) :
    keccak_finish fuel s.toMemory c out =
      (Packed.keccak_finish fuel s c out).map Image.toMemory := by
  generalize hr : Packed.keccak_finish fuel s c out = r
  unfold Packed.keccak_finish at hr
  unfold keccak_finish
  try dsimp only at hr
  repeat' split at hr
  all_goals try simp only [i32_load_image, memset_image, i8_load32_image, i32_store8_image,
    keccak_block_image, i64_load_image, i64_store_image, Option.map_some', Option.map_none', *]
  all_goals first | rfl | (subst hr; rfl)

/-- The hash function on the memory of an image is the hash function on the image. -/
theorem keccak256_image (fuel : Nat) (s : Image) (x1 x2 x3 x4 y1 y2 y3 y4 : Nat) :
    keccak256 fuel s.toMemory x1 x2 x3 x4 y1 y2 y3 y4 =
      (Packed.keccak256 fuel s x1 x2 x3 x4 y1 y2 y3 y4).map Image.lift := by
  generalize hr : Packed.keccak256 fuel s x1 x2 x3 x4 y1 y2 y3 y4 = r
  unfold Packed.keccak256 at hr
  unfold keccak256
  try dsimp only at hr
  repeat' split at hr
  all_goals try simp only [keccak_init_image, keccak_update_image, keccak_finish_image,
    i64_load_image, Option.map_some', Option.map_none', *]
  all_goals first | rfl | (subst hr; rfl)

/-! ### The hash of concrete inputs -/

theorem zero_image : (⟨65536, 0⟩ : Image).toMemory = Memory.mk 65536 (fun _ => 0) := by
  refine memory_ext rfl ?_
  intro k
  simp [Image.toMemory]

set_option maxRecDepth 100000 in
theorem packed_keccak256_empty :
    (Packed.keccak256 401 ⟨65536, 0⟩ 0 0 0 0 0 0 0 0).map (fun r => r.2) =
      some (0x7f6ee71212c521bb, 0xf44ba042b147dd2b, 0x31ee43aa9ffd7d46, 0xb07914af8dc16534) := by
  decide!

set_option maxRecDepth 100000 in
theorem packed_keccak256_one_byte :
    (Packed.keccak256 401 ⟨65536, 0⟩ 0 0 0 0 0 0 0 1).map (fun r => r.2) =
        some (0x208ba74af15214e1, 0xa2348fe20823f9b3, 0x9d39d0488091ef46,
          0x137e6120b7bfada0) ∧
      (Packed.keccak256 401 ⟨65536, 256 ^ 64⟩ 0 0 0 0 0 0 0 1).map (fun r => r.2) =
        some (0x208ba74af15214e1, 0xa2348fe20823f9b3, 0x9d39d0488091ef46,
          0x137e6120b7bfada0) ∧
      (Packed.keccak256 401 ⟨65536, 1⟩ 0 0 0 0 0 0 0 1).map (fun r => r.2) =
        some (0x71c826160e9b36a5, 0x27dffc2abe84fcec, 0x17fe9e401430c917,
          0xaa7448cec4084285) := by
  decide!

theorem keccak256_limbs (fuel : Nat) (s : Image) (x1 x2 x3 x4 y1 y2 y3 y4 : Nat) :
    (keccak256 fuel s.toMemory x1 x2 x3 x4 y1 y2 y3 y4).map (fun r => r.2) =
      (Packed.keccak256 fuel s x1 x2 x3 x4 y1 y2 y3 y4).map (fun r => r.2) := by
  rw [keccak256_image, Option.map_map]
  rfl

/-- Claim C25 (keccak256): evaluated on a zeroed memory of one page with offset `0` and
length `0`, `keccak256` returns (enough fuel given) the limbs `0x7f6ee71212c521bb`,
`0xf44ba042b147dd2b`, `0x31ee43aa9ffd7d46`, `0xb07914af8dc16534`; the Keccak-256 digest of the
empty input is `c5d2460186f7233c 927e7db2dcc703c0 e500b653ca82273b 7bfad8045d85a470`, and the
result is neither these limbs nor these limbs with their bytes reversed. -/
theorem keccak256_empty_input :
    (keccak256 401 (Memory.mk 65536 (fun _ => 0)) 0 0 0 0 0 0 0 0).map (fun r => r.2) =
        some (0x7f6ee71212c521bb, 0xf44ba042b147dd2b, 0x31ee43aa9ffd7d46,
          0xb07914af8dc16534) ∧
      (keccak256 401 (Memory.mk 65536 (fun _ => 0)) 0 0 0 0 0 0 0 0).map (fun r => r.2) ≠
        some (0xc5d2460186f7233c, 0x927e7db2dcc703c0, 0xe500b653ca82273b,
          0x7bfad8045d85a470) ∧
      (keccak256 401 (Memory.mk 65536 (fun _ => 0)) 0 0 0 0 0 0 0 0).map (fun r => r.2) ≠
        some (bswap64 0xc5d2460186f7233c, bswap64 0x927e7db2dcc703c0,
          bswap64 0xe500b653ca82273b, bswap64 0x7bfad8045d85a470) := by
  rw [← zero_image, keccak256_limbs, packed_keccak256_empty]
  decide

/-- Claim C22 (user pointers): for every host function `h` and memory `m`, `calldatacopy`
with destination `0`, offset `0` and size `32` on call data of 32 bytes calls the host with
destination `0`, where `codecopy` with the same arguments calls it with destination `64`;
and `keccak256` with offset `0` and length `1` returns the same limbs on the zeroed memory and
on the memory whose only non-zero byte is at address `64`, and other limbs on the memory whose
only non-zero byte is at address `0`. -/
theorem user_pointer_not_translated (h : Memory → Nat → Nat → Nat → Except Halt Memory)
    (m : Memory) :
    calldatacopy h 32 m 0 0 0 0 0 0 0 0 0 0 0 32 = h m 0 0 32 ∧
      codecopy h m 0 0 0 0 0 0 0 0 0 0 0 32 = h m 64 0 32 ∧
      (⟨65536, 256 ^ 64⟩ : Image).toMemory.bytes 64 = 1 ∧
      (∀ k, k ≠ 64 → (⟨65536, 256 ^ 64⟩ : Image).toMemory.bytes k = 0) ∧
      (keccak256 401 (⟨65536, 0⟩ : Image).toMemory 0 0 0 0 0 0 0 1).map (fun r => r.2) =
        (keccak256 401 (⟨65536, 256 ^ 64⟩ : Image).toMemory 0 0 0 0 0 0 0 1).map
          (fun r => r.2) ∧
      (keccak256 401 (⟨65536, 0⟩ : Image).toMemory 0 0 0 0 0 0 0 1).map (fun r => r.2) ≠
        (keccak256 401 (⟨65536, 1⟩ : Image).toMemory 0 0 0 0 0 0 0 1).map (fun r => r.2) := by
  have hb : ∀ k, (⟨65536, 256 ^ 64⟩ : Image).toMemory.bytes k = if k = 64 then 1 else 0 := by
    intro k
    have e : (256 : Nat) ^ 64 = 1 * 256 ^ 64 + 0 := by rw [Nat.one_mul, Nat.add_zero]
    simp only [Image.toMemory]
    rw [e, byte_of_concat 1 0 64 k (Nat.pow_pos (by norm_num))]
    by_cases c : k < 64
    · rw [if_pos c, if_neg (by omega)]
      simp
    · rw [if_neg c]
      by_cases d : k = 64
      · subst d
        simp
      · rw [if_neg d, Nat.div_eq_of_lt (Nat.one_lt_pow (by omega) (by norm_num))]
  refine ⟨rfl, rfl, ?_, ?_, ?_, ?_⟩
  · rw [hb, if_pos rfl]
  · intro k hk
    rw [hb, if_neg hk]
  · rw [keccak256_limbs, keccak256_limbs, packed_keccak256_one_byte.1,
      packed_keccak256_one_byte.2.1]
  · rw [keccak256_limbs, keccak256_limbs, packed_keccak256_one_byte.1,
      packed_keccak256_one_byte.2.2]
    decide

/-! ### Helpers revisited: products, quotients, carries and shifts by a limb fraction -/

theorem val_inj {a b : W256} (ha : WF a) (hb : WF b) (h : val a = val b) : a = b := by
  obtain ⟨a1, a2, a3, a4⟩ := a
  obtain ⟨b1, b2, b3, b4⟩ := b
  simp only [WF] at ha hb
  simp only [val] at h
  obtain ⟨ha1, ha2, ha3, ha4⟩ := ha
  obtain ⟨hb1, hb2, hb3, hb4⟩ := hb
  have e4 : a4 = b4 := by omega
  have e3 : a3 = b3 := by omega
  have e2 : a2 = b2 := by omega
  have e1 : a1 = b1 := by omega
  rw [e1, e2, e3, e4]

theorem low512_mod {r : W512} (h : WF512 r) : val r.2.2.2.2 = val512 r % 2 ^ 256 := by
  obtain ⟨r1, r2, r3, r4, r5, r6, r7, r8⟩ := r
  have hl : val (r5, r6, r7, r8) < 2 ^ 256 := val_lt ⟨h.2.2.2.2.1, h.2.2.2.2.2.1,
    h.2.2.2.2.2.2.1, h.2.2.2.2.2.2.2⟩
  rw [val512_split, Nat.add_comm, Nat.add_mul_mod_self_right, Nat.mod_eq_of_lt hl]

/-- Claim C31: for all 256-bit operands `x` and `y`, `mul_256x256_512` returns eight 64-bit
limbs whose value is the exact product `val x * val y`, and its four low limbs are the four
limbs returned by `mul`. -/
theorem mul_256x256_512_correct (x1 x2 x3 x4 y1 y2 y3 y4 : Nat)
    (hx : WF (x1, x2, x3, x4)) (hy : WF (y1, y2, y3, y4)) :
    WF512 (mul_256x256_512 x1 x2 x3 x4 y1 y2 y3 y4) ∧
      val512 (mul_256x256_512 x1 x2 x3 x4 y1 y2 y3 y4) =
        val (x1, x2, x3, x4) * val (y1, y2, y3, y4) ∧
      (mul_256x256_512 x1 x2 x3 x4 y1 y2 y3 y4).2.2.2.2 = mul x1 x2 x3 x4 y1 y2 y3 y4 := by
  obtain ⟨w, e⟩ := mul_256x256_512_spec hx hy
  obtain ⟨wm, em⟩ := mul_spec hx hy
  refine ⟨w, e, val_inj ?_ wm ?_⟩
  · exact ⟨w.2.2.2.2.1, w.2.2.2.2.2.1, w.2.2.2.2.2.2.1, w.2.2.2.2.2.2.2⟩
  · rw [low512_mod w, e, em]

/-- Witness for C31 at `(2^255 + 3) * (2^192 + 5)`, a product that exceeds `2^256`. -/
theorem mul_256x256_512_correct_witness :
    WF (2 ^ 63, 0, 0, 3) ∧ WF (1, 0, 0, 5) ∧
      (WF512 (mul_256x256_512 (2 ^ 63) 0 0 3 1 0 0 5) ∧
        val512 (mul_256x256_512 (2 ^ 63) 0 0 3 1 0 0 5) =
          val (2 ^ 63, 0, 0, 3) * val (1, 0, 0, 5) ∧
        (mul_256x256_512 (2 ^ 63) 0 0 3 1 0 0 5).2.2.2.2 = mul (2 ^ 63) 0 0 3 1 0 0 5) :=
  ⟨by simp [WF], by simp [WF],
    mul_256x256_512_correct (2 ^ 63) 0 0 3 1 0 0 5 (by simp [WF]) (by simp [WF])⟩

/-- Claim C34: for every 256-bit `x` and every non-zero 256-bit `y`, `div` and `mod`
terminate (any fuel of at least 257 loop checks suffices) and their results `q` and `r` are
four 64-bit limbs each with `val q * val y + val r = val x` and `val r < val y`. -/
theorem div_mod_relation (fuel x1 x2 x3 x4 y1 y2 y3 y4 : Nat) (hf : 257 ≤ fuel)
    (hx : WF (x1, x2, x3, x4)) (hy : WF (y1, y2, y3, y4)) (h0 : val (y1, y2, y3, y4) ≠ 0) :
    ∃ q r, div fuel x1 x2 x3 x4 y1 y2 y3 y4 = some q ∧
      mod fuel x1 x2 x3 x4 y1 y2 y3 y4 = some r ∧ WF q ∧ WF r ∧
      val q * val (y1, y2, y3, y4) + val r = val (x1, x2, x3, x4) ∧
      val r < val (y1, y2, y3, y4) := by
  obtain ⟨q, hq, wq, eq⟩ := div_spec hf hx hy
  obtain ⟨r, hr, wr, er⟩ := mod_spec hf hx hy
  rw [if_neg h0] at er
  refine ⟨q, r, hq, hr, wq, wr, ?_, ?_⟩
  · rw [eq, er, Nat.mul_comm]
    exact Nat.div_add_mod _ _
  · rw [er]
    exact Nat.mod_lt _ (Nat.pos_of_ne_zero h0)

/-- Witness for C34 at `x = 2^255 + 7` and `y = 2^64 + 2`. -/
theorem div_mod_relation_witness :
    257 ≤ 257 ∧ WF (2 ^ 63, 0, 0, 7) ∧ WF (0, 0, 1, 2) ∧ val (0, 0, 1, 2) ≠ 0 ∧
      (∃ q r, div 257 (2 ^ 63) 0 0 7 0 0 1 2 = some q ∧
        mod 257 (2 ^ 63) 0 0 7 0 0 1 2 = some r ∧ WF q ∧ WF r ∧
        val q * val (0, 0, 1, 2) + val r = val (2 ^ 63, 0, 0, 7) ∧
        val r < val (0, 0, 1, 2)) :=
  ⟨by decide, by simp [WF], by simp [WF], by simp [val],
    div_mod_relation 257 (2 ^ 63) 0 0 7 0 0 1 2 (by decide) (by simp [WF]) (by simp [WF])
      (by simp [val])⟩

/-- Claim C36: for all 64-bit `x` and `y` and every carry-in `c ≤ 1`, `add_carry` returns a
64-bit `r` and a carry `r_c` that is `0` or `1`, with `r + 2^64 * r_c = x + y + c`. -/
theorem add_carry_correct (x y c : Nat) (hx : x < 2 ^ 64) (hy : y < 2 ^ 64) (hc : c ≤ 1) :
    (add_carry x y c).1 < 2 ^ 64 ∧
      ((add_carry x y c).2 = 0 ∨ (add_carry x y c).2 = 1) ∧
      (add_carry x y c).1 + 2 ^ 64 * (add_carry x y c).2 = x + y + c := by
  obtain ⟨h1, h2, h3⟩ := add_carry_spec hx hy hc
  refine ⟨h1, ?_, h3⟩
  omega

/-- Witness for C36 at `x = y = 2^64 - 1` with carry-in `1`, where the carry-out is `1`. -/
theorem add_carry_correct_witness :
    2 ^ 64 - 1 < 2 ^ 64 ∧ 1 ≤ 1 ∧
      ((add_carry (2 ^ 64 - 1) (2 ^ 64 - 1) 1).1 < 2 ^ 64 ∧
        ((add_carry (2 ^ 64 - 1) (2 ^ 64 - 1) 1).2 = 0 ∨
          (add_carry (2 ^ 64 - 1) (2 ^ 64 - 1) 1).2 = 1) ∧
        (add_carry (2 ^ 64 - 1) (2 ^ 64 - 1) 1).1 +
            2 ^ 64 * (add_carry (2 ^ 64 - 1) (2 ^ 64 - 1) 1).2 =
          2 ^ 64 - 1 + (2 ^ 64 - 1) + 1) :=
  ⟨by decide, by decide,
    add_carry_correct (2 ^ 64 - 1) (2 ^ 64 - 1) 1 (by decide) (by decide) (by decide)⟩

set_option maxRecDepth 100000 in
theorem packed_keccak_theta_first_round :
    (Packed.keccak_theta ⟨65536, 256 ^ 0xF000 + 0x80 * 256 ^ (0xF000 + 135)⟩ 0xF000).bind
        (fun s => Packed.i64.load s 0xF000) = some 0x8000000100010201 := by
  decide!

set_option maxRecDepth 100000 in
theorem packed_first_round_lanes :
    keccak_theta_spec (fun i => (Packed.i64.load
      ⟨65536, 256 ^ 0xF000 + 0x80 * 256 ^ (0xF000 + 135)⟩ (0xF000 + 8 * i)).getD 0) 0 = 0 ∧
      Packed.i64.load ⟨65536, 256 ^ 0xF000 + 0x80 * 256 ^ (0xF000 + 135)⟩ 0xF000 = some 1 := by
  decide!

set_option maxRecDepth 100000 in
theorem packed_keccak_update_full_block :
    (Packed.keccak_init 401 ⟨65536, 0⟩ 0xF000).bind (fun s =>
      (Packed.keccak_update 401 s 0xF000 64 136).bind (fun s =>
        Packed.i32.load s (0xF000 + 200))) = some 136 := by
  decide!

theorem pow256_pos (n : Nat) : 0 < 256 ^ n :=
  Nat.pow_pos (by norm_num)

theorem first_round_image :
    (⟨65536, 256 ^ 0xF000 + 0x80 * 256 ^ (0xF000 + 135)⟩ : Image).toMemory =
      Memory.mk 65536
        (fun k => if k = 0xF000 then 1 else if k = 0xF000 + 135 then 0x80 else 0) := by
  refine memory_ext rfl ?_
  intro k
  have e : (256 : Nat) ^ 0xF000 + 0x80 * 256 ^ (0xF000 + 135) =
      (0x80 * 256 ^ 135 + 1) * 256 ^ 0xF000 + 0 := by
    rw [Nat.pow_add]
    ring
  simp only [Image.toMemory]
  rw [e, byte_of_concat _ 0 0xF000 k (pow256_pos 0xF000)]
  by_cases c : k < 0xF000
  · rw [if_pos c, if_neg (by omega), if_neg (by omega)]
    simp
  · rw [if_neg c, byte_of_concat 0x80 1 135 (k - 0xF000) (Nat.one_lt_pow (by omega) (by norm_num))]
    by_cases d : k = 0xF000
    · subst d
      simp
    · rw [if_neg d]
      by_cases f : k - 0xF000 < 135
      · rw [if_pos f, if_neg (by omega),
          Nat.div_eq_of_lt (Nat.one_lt_pow (by omega) (by norm_num))]
      · rw [if_neg f]
        by_cases g : k = 0xF000 + 135
        · subst g
          simp
        · rw [if_neg g, Nat.div_eq_of_lt]
          calc 0x80 < 256 ^ 1 := by norm_num
            _ ≤ 256 ^ (k - 0xF000 - 135) := Nat.pow_le_pow_right (by norm_num) (by omega)

/-- Claim C32 (theta step): on the state that has `0x01` in its byte `0` and `0x80` in its
byte `135` and is zero elsewhere (the padded empty block, lanes `A[0] = 1` and
`A[16] = 2^63`), placed at `0xF000` in an otherwise zeroed memory of one page, `keccak_theta`
returns a memory whose lane `0` is `0x8000000100010201`, where the formula of the
specification gives `A[0] xor D[0] = 0`. -/
theorem keccak_theta_first_round :
    ∃ m, keccak_theta (Memory.mk 65536
          (fun k => if k = 0xF000 then 1 else if k = 0xF000 + 135 then 0x80 else 0)) 0xF000 =
        some m ∧
      lane (Memory.mk 65536
        (fun k => if k = 0xF000 then 1 else if k = 0xF000 + 135 then 0x80 else 0)) 0xF000 0 =
          1 ∧
      lane m 0xF000 0 = 0x8000000100010201 ∧
      keccak_theta_spec (lane (Memory.mk 65536
        (fun k => if k = 0xF000 then 1 else if k = 0xF000 + 135 then 0x80 else 0)) 0xF000) 0 =
          0 := by
  rw [← first_round_image]
  have h := packed_keccak_theta_first_round
  have hl : lane (⟨65536, 256 ^ 0xF000 + 0x80 * 256 ^ (0xF000 + 135)⟩ : Image).toMemory 0xF000 =
      fun i => (Packed.i64.load ⟨65536, 256 ^ 0xF000 + 0x80 * 256 ^ (0xF000 + 135)⟩
        (0xF000 + 8 * i)).getD 0 := by
    funext i
    unfold lane
    rw [i64_load_image]
  cases hs : Packed.keccak_theta ⟨65536, 256 ^ 0xF000 + 0x80 * 256 ^ (0xF000 + 135)⟩ 0xF000 with
  | none =>
    rw [hs] at h
    exact absurd h (by simp)
  | some s =>
    rw [hs, Option.some_bind] at h
    refine ⟨s.toMemory, ?_, ?_, ?_, ?_⟩
    · rw [keccak_theta_image, hs]
      rfl
    · rw [hl]
      show (Packed.i64.load ⟨65536, 256 ^ 0xF000 + 0x80 * 256 ^ (0xF000 + 135)⟩ 0xF000).getD 0 = 1
      rw [packed_first_round_lanes.2]
      rfl
    · unfold lane
      rw [Nat.mul_zero, Nat.add_zero, i64_load_image, h]
      rfl
    · rw [hl]
      exact packed_first_round_lanes.1

/-- Claim C33 (residue index): on the zeroed memory of one page, `keccak_init` at `0xF000`
followed by `keccak_update` with input offset `64` and input length `136` returns (enough
fuel given) a memory whose residue index, the 32-bit value at `0xF000 + 200`, is `136`, which
is neither less than the block size `136` nor equal to `136 mod 136`. -/
theorem keccak_update_full_block_residue :
    ∃ m1 m2, keccak_init 401 (Memory.mk 65536 (fun _ => 0)) 0xF000 = some m1 ∧
      keccak_update 401 m1 0xF000 64 136 = some m2 ∧
      i32.load m2 (0xF000 + 200) = some 136 ∧
      i32.load m2 (0xF000 + 200) ≠ some (136 % 136) := by
  rw [← zero_image]
  have h := packed_keccak_update_full_block
  cases h1 : Packed.keccak_init 401 ⟨65536, 0⟩ 0xF000 with
  | none =>
    rw [h1] at h
    exact absurd h (by simp)
  | some s1 =>
    rw [h1, Option.some_bind] at h
    cases h2 : Packed.keccak_update 401 s1 0xF000 64 136 with
    | none =>
      rw [h2] at h
      exact absurd h (by simp)
    | some s2 =>
      rw [h2, Option.some_bind] at h
      refine ⟨s1.toMemory, s2.toMemory, ?_, ?_, ?_, ?_⟩
      · rw [keccak_init_image, h1]
        rfl
      · rw [keccak_update_image, h2]
        rfl
      · rw [i32_load_image, h]
      · rw [i32_load_image, h]
        decide

/-! ### Saving and restoring the scratch region, in general -/

/-- For every amount below 64 other than `1` the two 320-bit helpers miss the shifted value
on the operands `1` and `2^257`. -/
theorem shift320_other_amounts :
    ∀ a, a < 64 → a ≠ 1 →
      val320 (shl320_internal a 0 0 0 0 1) ≠
          val320 (0, 0, 0, 0, 1) * 2 ^ a % (2 ^ 64 * 2 ^ 256) ∧
        val320 (shr320_internal a 2 0 0 0 0) ≠ val320 (2, 0, 0, 0, 0) / 2 ^ a := by
  decide

set_option maxRecDepth 100000 in
theorem polyfill_unreachable :
    unreachableFunctions =
      ["selfbalance", "chainid", "extcodehash", "msize", "create2", "invalid"] := by
  decide!

set_option maxRecDepth 100000 in
theorem polyfill_table :
    (functionDefinitions Scan.outside polyfill).map (fun f => (f.1, onlyUnreachable f.2)) =
      polyfillFunctionBodies := by
  decide!

set_option maxRecDepth 100000 in
theorem polyfill_names_nodup :
    ((functionDefinitions Scan.outside polyfill).map (fun f => f.1)).Nodup := by
  decide!

/-- Claim C24: for every argument tuple and every memory, `selfbalance`, `chainid`,
`extcodehash`, `msize` and `create2` trap without returning a value, and so does `invalid`;
among the 145 function definitions read off the text of the polyfill, the ones whose body is
only a call of `unreachable` are these five and `invalid`, and the table
`polyfillFunctionBodies` is the one computed from the text. -/
theorem unreachable_functions (m : Memory)
    (x1 x2 x3 x4 a1 a2 a3 a4 b1 b2 b3 b4 c1 c2 c3 c4 d1 d2 d3 d4 : Nat) :
    selfbalance m = none ∧ chainid m = none ∧ extcodehash m x1 x2 x3 x4 = none ∧
      msize m = none ∧
      create2 m a1 a2 a3 a4 b1 b2 b3 b4 c1 c2 c3 c4 d1 d2 d3 d4 = none ∧
      invalid m = none ∧
      unreachableFunctions =
        ["selfbalance", "chainid", "extcodehash", "msize", "create2", "invalid"] ∧
      (functionDefinitions Scan.outside polyfill).length = 145 ∧
      (functionDefinitions Scan.outside polyfill).map (fun f => (f.1, onlyUnreachable f.2)) =
        polyfillFunctionBodies ∧
      (polyfillFunctionBodies.filter (fun f => f.2)).map (fun f => f.1) =
        ["selfbalance", "chainid", "extcodehash", "msize", "create2", "invalid"] ∧
      polyfillFunctionBodies.length = 145 := by
  refine ⟨rfl, rfl, rfl, rfl, rfl, rfl, polyfill_unreachable, ?_, polyfill_table, rfl, rfl⟩
  have e := congrArg List.length polyfill_table
  rw [List.length_map] at e
  rw [e]
  rfl

end Polyfill
